import Mathlib

/-! Samsung audio HAL (`audio/audio_hw.c`): routing and output-stream lifecycle

A shallow embedding of the control-plane part of `audio_hw.c`.

* C `int`, `unsigned int`, `audio_devices_t` (a `uint32_t` bit mask) and the
  enumerations are natural numbers or integers; bit operations are the ones
  of `Nat`.
* `struct pcm *` is `Option pcm`: `none` is `NULL`, and a handle that was
  passed to `pcm_close` but is still stored in its slot is a `pcm` whose
  `closed` flag is set.
* Every call into the hardware (mixer, PCM, HDMI driver, RIL) is appended to
  a trace `hw_world.log`; the results the hardware returns are read from
  scripts kept in the same `hw_world`.
* The state-passing functions run one operation at a time and carry no
  mutexes: they give the state an operation leaves when every mutex it asks
  for is granted, with byte counts as natural numbers and divisions that are
  total. The calls of `pthread_mutex_lock` and `pthread_mutex_unlock` of the
  output-stream operations are embedded separately, as the list of lock
  events of one call, and run concurrently by a step relation on threads.
* The functions named `Thread.*` embed the same operations as calls made by
  a thread: with their mutex calls, so that a call which locks a mutex its
  thread holds does not return; with `ssize_t` return values; with divisions
  that fault on a zero divisor; and with the capture period size as it is at
  run time.
-/

namespace AudioHw

/-! ## Constants of the platform headers (`system/audio.h`, `errno.h`) -/

@[simp] abbrev AUDIO_DEVICE_NONE : Nat := 0x0
@[simp] abbrev AUDIO_DEVICE_BIT_IN : Nat := 0x80000000
@[simp] abbrev AUDIO_DEVICE_OUT_EARPIECE : Nat := 0x1
@[simp] abbrev AUDIO_DEVICE_OUT_SPEAKER : Nat := 0x2
@[simp] abbrev AUDIO_DEVICE_OUT_WIRED_HEADSET : Nat := 0x4
@[simp] abbrev AUDIO_DEVICE_OUT_WIRED_HEADPHONE : Nat := 0x8
@[simp] abbrev AUDIO_DEVICE_OUT_BLUETOOTH_SCO : Nat := 0x10
@[simp] abbrev AUDIO_DEVICE_OUT_BLUETOOTH_SCO_HEADSET : Nat := 0x20
@[simp] abbrev AUDIO_DEVICE_OUT_BLUETOOTH_SCO_CARKIT : Nat := 0x40
@[simp] abbrev AUDIO_DEVICE_OUT_AUX_DIGITAL : Nat := 0x400
@[simp] abbrev AUDIO_DEVICE_OUT_DGTL_DOCK_HEADSET : Nat := 0x1000
@[simp] abbrev AUDIO_DEVICE_OUT_ALL_SCO : Nat := 0x70
/-- The input device constants carry `AUDIO_DEVICE_BIT_IN`; the code always
strips it (`& ~AUDIO_DEVICE_BIT_IN`), so the stripped values are given. -/
@[simp] abbrev AUDIO_DEVICE_IN_BLUETOOTH_SCO_HEADSET_bits : Nat := 0x8
@[simp] abbrev AUDIO_DEVICE_IN_WIRED_HEADSET_bits : Nat := 0x10

@[simp] abbrev AUDIO_SOURCE_DEFAULT : Int := 0
@[simp] abbrev AUDIO_SOURCE_MIC : Int := 1
@[simp] abbrev AUDIO_SOURCE_VOICE_UPLINK : Int := 2
@[simp] abbrev AUDIO_SOURCE_VOICE_DOWNLINK : Int := 3
@[simp] abbrev AUDIO_SOURCE_VOICE_CALL : Int := 4
@[simp] abbrev AUDIO_SOURCE_CAMCORDER : Int := 5
@[simp] abbrev AUDIO_SOURCE_VOICE_RECOGNITION : Int := 6
@[simp] abbrev AUDIO_SOURCE_VOICE_COMMUNICATION : Int := 7

@[simp] abbrev AUDIO_MODE_NORMAL : Int := 0
@[simp] abbrev AUDIO_MODE_RINGTONE : Int := 1
@[simp] abbrev AUDIO_MODE_IN_CALL : Int := 2
@[simp] abbrev AUDIO_MODE_IN_COMMUNICATION : Int := 3

@[simp] abbrev AUDIO_OUTPUT_FLAG_DIRECT : Nat := 0x1
@[simp] abbrev AUDIO_OUTPUT_FLAG_DEEP_BUFFER : Nat := 0x8

@[simp] abbrev AUDIO_CHANNEL_OUT_STEREO : Nat := 0x3
@[simp] abbrev AUDIO_CHANNEL_OUT_5POINT1 : Nat := 0x3F
@[simp] abbrev AUDIO_CHANNEL_OUT_7POINT1 : Nat := 0x63F

@[simp] abbrev ENOMEM : Int := 12
@[simp] abbrev EBUSY : Int := 16
@[simp] abbrev EPIPE : Int := 32
@[simp] abbrev ENOSYS : Int := 38

/-! ## Constants of `audio_hw.c` -/

@[simp] abbrev PCM_CARD : Nat := 0
@[simp] abbrev PCM_CARD_SPDIF : Nat := 1
@[simp] abbrev PCM_DEVICE : Nat := 0
@[simp] abbrev PCM_DEVICE_VOICE : Nat := 1
@[simp] abbrev PCM_DEVICE_SCO : Nat := 2
@[simp] abbrev PCM_DEVICE_DEEP : Nat := 3

/-- The fields of `struct pcm_config` the HAL sets (the format is always
`PCM_FORMAT_S16_LE`). -/
structure pcm_config where
  channels : Nat
  rate : Nat
  period_size : Nat
  period_count : Nat
deriving DecidableEq, Repr

def pcm_config_fast : pcm_config := ⟨2, 48000, 240, 2⟩
def pcm_config_deep : pcm_config := ⟨2, 48000, 960, 5⟩
def pcm_config_sco : pcm_config := ⟨1, 8000, 240, 2⟩
def pcm_config_voice : pcm_config := ⟨2, 8000, 320, 2⟩
def pcm_config_voice_wide : pcm_config := ⟨2, 16000, 320, 2⟩
def pcm_config_hdmi_multi : pcm_config := ⟨6, 48000, 336, 8⟩

/-- The `enum output_type` of the source (`OUTPUT_TOTAL` is the number of
constructors). -/
inductive output_type where
  | OUTPUT_DEEP_BUF
  | OUTPUT_LOW_LATENCY
  | OUTPUT_HDMI
deriving DecidableEq, Repr

open output_type

/-! ## `routing.h`

The header `routing.h` (the two ordinal enumerations and the table
`route_configs`) is not among the sources; it is a parameter of the
embedding. -/

/-- One entry of the route table: the two mixer path names, `none` for a
`NULL` name. -/
structure route_config where
  output_route : Option String
  input_route : Option String
deriving DecidableEq, Repr

/-- The declarations of `routing.h` used by `audio_hw.c`: the enumerators of
the output-device and input-source ordinals and the table `route_configs`,
indexed `route_configs[input_source_id][output_device_id]`. -/
structure routing_h where
  OUT_DEVICE_SPEAKER : Nat
  OUT_DEVICE_EARPIECE : Nat
  OUT_DEVICE_HEADSET : Nat
  OUT_DEVICE_HEADPHONES : Nat
  OUT_DEVICE_BT_SCO : Nat
  OUT_DEVICE_BT_SCO_HEADSET_OUT : Nat
  OUT_DEVICE_BT_SCO_CARKIT : Nat
  OUT_DEVICE_SPEAKER_AND_HEADSET : Nat
  OUT_DEVICE_SPEAKER_AND_EARPIECE : Nat
  OUT_DEVICE_NONE : Nat
  OUT_DEVICE_CNT : Nat
  IN_SOURCE_MIC : Nat
  IN_SOURCE_CAMCORDER : Nat
  IN_SOURCE_VOICE_RECOGNITION : Nat
  IN_SOURCE_VOICE_COMMUNICATION : Nat
  IN_SOURCE_VOICE_CALL : Nat
  IN_SOURCE_VOICE_CALL_WB : Nat
  IN_SOURCE_NONE : Nat
  route_configs : Nat → Nat → route_config

/-- The enumerators of the output-device enumeration are pairwise different
values (as consecutive enumerators of one C `enum` are). -/
def routing_h.out_ids_distinct (R : routing_h) : Prop :=
  [R.OUT_DEVICE_SPEAKER, R.OUT_DEVICE_EARPIECE, R.OUT_DEVICE_HEADSET,
   R.OUT_DEVICE_HEADPHONES, R.OUT_DEVICE_BT_SCO, R.OUT_DEVICE_BT_SCO_HEADSET_OUT,
   R.OUT_DEVICE_BT_SCO_CARKIT, R.OUT_DEVICE_SPEAKER_AND_HEADSET,
   R.OUT_DEVICE_SPEAKER_AND_EARPIECE, R.OUT_DEVICE_NONE].Nodup

instance (R : routing_h) : Decidable R.out_ids_distinct := by
  unfold routing_h.out_ids_distinct; infer_instance

/-- Modelled from the spec: an instance of `routing.h`, which is not among
the sources. The ordinals are numbered in the order in which the spec lists
them (single devices, the two combined devices, then NONE; `N`, the number
of output-device ordinals, is `OUT_DEVICE_CNT`), and the path names are opaque
strings. -/
def routing_h_sample : routing_h where
  OUT_DEVICE_SPEAKER := 0
  OUT_DEVICE_EARPIECE := 1
  OUT_DEVICE_HEADSET := 2
  OUT_DEVICE_HEADPHONES := 3
  OUT_DEVICE_BT_SCO := 4
  OUT_DEVICE_BT_SCO_HEADSET_OUT := 5
  OUT_DEVICE_BT_SCO_CARKIT := 6
  OUT_DEVICE_SPEAKER_AND_HEADSET := 7
  OUT_DEVICE_SPEAKER_AND_EARPIECE := 8
  OUT_DEVICE_NONE := 10
  OUT_DEVICE_CNT := 11
  IN_SOURCE_MIC := 0
  IN_SOURCE_CAMCORDER := 1
  IN_SOURCE_VOICE_RECOGNITION := 2
  IN_SOURCE_VOICE_COMMUNICATION := 3
  IN_SOURCE_VOICE_CALL := 4
  IN_SOURCE_VOICE_CALL_WB := 5
  IN_SOURCE_NONE := 7
  route_configs := fun i o =>
    ⟨some (String.mk [Char.ofNat (97 + i), Char.ofNat (48 + o)]),
     some (String.mk [Char.ofNat (65 + i), Char.ofNat (48 + o)])⟩

/-! ## Device classifier -/

/-- The `popcount` of a 32-bit word. -/
def popcount (x : Nat) : Nat :=
  ((List.range 32).filter (fun i => x.testBit i)).length

/-- `get_output_device_id`. -/
def get_output_device_id (R : routing_h) (device : Nat) : Nat :=
  if device = AUDIO_DEVICE_NONE then R.OUT_DEVICE_NONE
  else if popcount device = 2 then
    if device = (AUDIO_DEVICE_OUT_SPEAKER ||| AUDIO_DEVICE_OUT_WIRED_HEADSET) ∨
       device = (AUDIO_DEVICE_OUT_SPEAKER ||| AUDIO_DEVICE_OUT_WIRED_HEADPHONE) then
      R.OUT_DEVICE_SPEAKER_AND_HEADSET
    else if device = (AUDIO_DEVICE_OUT_SPEAKER ||| AUDIO_DEVICE_OUT_EARPIECE) then
      R.OUT_DEVICE_SPEAKER_AND_EARPIECE
    else R.OUT_DEVICE_NONE
  else if popcount device ≠ 1 then R.OUT_DEVICE_NONE
  else if device = AUDIO_DEVICE_OUT_SPEAKER then R.OUT_DEVICE_SPEAKER
  else if device = AUDIO_DEVICE_OUT_EARPIECE then R.OUT_DEVICE_EARPIECE
  else if device = AUDIO_DEVICE_OUT_WIRED_HEADSET then R.OUT_DEVICE_HEADSET
  else if device = AUDIO_DEVICE_OUT_WIRED_HEADPHONE then R.OUT_DEVICE_HEADPHONES
  else if device = AUDIO_DEVICE_OUT_BLUETOOTH_SCO then R.OUT_DEVICE_BT_SCO
  else if device = AUDIO_DEVICE_OUT_BLUETOOTH_SCO_HEADSET then R.OUT_DEVICE_BT_SCO_HEADSET_OUT
  else if device = AUDIO_DEVICE_OUT_BLUETOOTH_SCO_CARKIT then R.OUT_DEVICE_BT_SCO_CARKIT
  else R.OUT_DEVICE_NONE

/-- `get_input_source_id`. -/
def get_input_source_id (R : routing_h) (source : Int) (wb_amr : Bool) : Nat :=
  if source = AUDIO_SOURCE_DEFAULT then R.IN_SOURCE_NONE
  else if source = AUDIO_SOURCE_MIC then R.IN_SOURCE_MIC
  else if source = AUDIO_SOURCE_CAMCORDER then R.IN_SOURCE_CAMCORDER
  else if source = AUDIO_SOURCE_VOICE_RECOGNITION then R.IN_SOURCE_VOICE_RECOGNITION
  else if source = AUDIO_SOURCE_VOICE_COMMUNICATION then R.IN_SOURCE_VOICE_COMMUNICATION
  else if source = AUDIO_SOURCE_VOICE_CALL then
    if wb_amr then R.IN_SOURCE_VOICE_CALL_WB else R.IN_SOURCE_VOICE_CALL
  else R.IN_SOURCE_NONE

/-! ## Hardware collaborators -/

/-- A PCM handle as returned by `pcm_open`: what it was opened with, whether
`pcm_is_ready` holds for it, and whether `pcm_close` has been called on it
(a slot that still stores a closed handle is a dangling pointer). -/
structure pcm where
  card : Nat
  device : Nat
  is_in : Bool
  config : pcm_config
  ready : Bool
  closed : Bool
deriving DecidableEq, Repr

/-- The three things `pcm_open` can return: a ready handle, a handle that is
not ready, or `NULL`. -/
inductive pcm_open_result where
  | ready
  | not_ready
  | null
deriving DecidableEq, Repr

/-- The `enum _AudioPath` values of `ril_interface.h` used by the HAL. -/
inductive AudioPath where
  | SOUND_AUDIO_PATH_HANDSET
  | SOUND_AUDIO_PATH_HEADSET
  | SOUND_AUDIO_PATH_SPEAKER
  | SOUND_AUDIO_PATH_BLUETOOTH
  | SOUND_AUDIO_PATH_HEADPHONE
  | SOUND_AUDIO_PATH_BLUETOOTH_NO_NR
deriving DecidableEq, Repr

/-- The `enum _SoundType` values of `ril_interface.h` used by the HAL. -/
inductive SoundType where
  | SOUND_TYPE_VOICE
  | SOUND_TYPE_SPEAKER
  | SOUND_TYPE_HEADSET
  | SOUND_TYPE_BTVOICE
deriving DecidableEq, Repr

/-- One call into a collaborator (mixer backend, PCM device, HDMI driver,
modem channel, clock). -/
inductive hw_call where
  | audio_route_reset
  | audio_route_update_mixer
  | audio_route_apply_path (name : String)
  | hdmi_driver_open
  | hdmi_enable_audio (enable : Bool)
  | hdmi_get_max_channels
  | hdmi_set_channels (channels : Nat)
  | pcm_open (card device : Nat) (is_in : Bool) (config : pcm_config)
  | pcm_close (p : Option pcm)
  | pcm_start (p : Option pcm)
  | pcm_stop (p : Option pcm)
  | pcm_write (p : pcm) (bytes : Nat) (zeroed : Bool)
  | ril_set_two_mic_control (enable : Bool)
  | ril_set_call_audio_path (path : AudioPath)
  | ril_set_call_volume (sound_type : SoundType)
  | ril_set_call_clock_sync (start : Bool)
  | usleep (usec : Nat)
deriving DecidableEq, Repr

/-- A call to the mixer backend: `audio_route_reset`, `audio_route_apply_path`
or `audio_route_update_mixer` (commit). -/
def hw_call.is_mixer : hw_call → Bool
  | .audio_route_reset => true
  | .audio_route_update_mixer => true
  | .audio_route_apply_path _ => true
  | _ => false

/-- The world outside the HAL: the trace of calls made so far and, for the
calls whose result the HAL looks at, the results still to come (when a
script is exhausted `pcm_open` returns a ready handle, `pcm_write` returns 0,
opening `/dev/video16` fails with -1 and the channel query returns 6). -/
structure hw_world where
  log : List hw_call
  pcm_open_results : List pcm_open_result
  pcm_write_results : List Int
  hdmi_open_results : List Int
  hdmi_max_channels_results : List (Int × Int)
deriving DecidableEq, Repr

def hw_world.call (w : hw_world) (c : hw_call) : hw_world :=
  { w with log := w.log ++ [c] }

/-- `pcm_open(card, device, flags, config)`. -/
def pcm_open (card device : Nat) (is_in : Bool) (config : pcm_config) (w : hw_world) :
    Option pcm × hw_world :=
  let w1 := w.call (.pcm_open card device is_in config)
  match w.pcm_open_results with
  | [] => (some ⟨card, device, is_in, config, true, false⟩, w1)
  | r :: rest =>
    let w2 := { w1 with pcm_open_results := rest }
    match r with
    | .ready => (some ⟨card, device, is_in, config, true, false⟩, w2)
    | .not_ready => (some ⟨card, device, is_in, config, false, false⟩, w2)
    | .null => (none, w2)

/-- `pcm_write(pcm, buffer, bytes)`: 0 on success. -/
def pcm_write (p : pcm) (bytes : Nat) (zeroed : Bool) (w : hw_world) : Int × hw_world :=
  let w1 := w.call (.pcm_write p bytes zeroed)
  match w.pcm_write_results with
  | [] => (0, w1)
  | r :: rest => (r, { w1 with pcm_write_results := rest })

/-- The handle left in a slot after `pcm_close` was called on it without
clearing the slot. -/
def pcm_closed (p : Option pcm) : Option pcm :=
  p.map (fun h => { h with closed := true })

/-! ## Data model -/

/-- The `struct stream_out` of the source (without the function table, the
mutex and the back pointer). The array `pcm[PCM_TOTAL]` is the two fields
`pcm_card` (`pcm[PCM_CARD]`) and `pcm_card_spdif` (`pcm[PCM_CARD_SPDIF]`). -/
structure stream_out where
  pcm_card : Option pcm
  pcm_card_spdif : Option pcm
  config : pcm_config
  pcm_device : Nat
  standby : Bool
  device : Nat
  disabled : Bool
  channel_mask : Nat
  supported_channel_masks : List Nat
  muted : Bool
  written : Nat
deriving DecidableEq, Repr

/-- The array `outputs[OUTPUT_TOTAL]` of `struct audio_device`: one slot
per `output_type`, `none` for a `NULL` slot. -/
structure outputs_t where
  deep_buf : Option stream_out
  low_latency : Option stream_out
  hdmi : Option stream_out
deriving DecidableEq, Repr

/-- The slot `outputs[type]`. -/
def outputs_t.get (o : outputs_t) : output_type → Option stream_out
  | OUTPUT_DEEP_BUF => o.deep_buf
  | OUTPUT_LOW_LATENCY => o.low_latency
  | OUTPUT_HDMI => o.hdmi

/-- The assignment `outputs[type] = v`. -/
def outputs_t.set (o : outputs_t) (t : output_type) (v : Option stream_out) : outputs_t :=
  match t with
  | OUTPUT_DEEP_BUF => { o with deep_buf := v }
  | OUTPUT_LOW_LATENCY => { o with low_latency := v }
  | OUTPUT_HDMI => { o with hdmi := v }

/-- The `struct audio_device` of the source (without the function table, the
mutexes, the float `voice_volume` and the opaque mixer and RIL handles),
together with the outside world `hw`. -/
structure audio_device where
  out_device : Nat
  in_device : Nat
  mic_mute : Bool
  input_source : Int
  cur_route_id : Nat
  mode : Int
  pcm_voice_rx : Option pcm
  pcm_voice_tx : Option pcm
  pcm_sco_rx : Option pcm
  pcm_sco_tx : Option pcm
  in_call : Bool
  tty_mode : Bool
  bluetooth_nrec : Bool
  wb_amr : Bool
  two_mic_control : Bool
  two_mic_disabled : Bool
  hdmi_drv_fd : Int
  in_channel_mask : Nat
  outputs : outputs_t
  hw : hw_world
deriving DecidableEq, Repr

/-- Record one call into a collaborator. -/
def audio_device.call (adev : audio_device) (c : hw_call) : audio_device :=
  { adev with hw := adev.hw.call c }

/-- The stream stored in `outputs[t]` is replaced by `out` (a write through
the pointer `out`). -/
def audio_device.set_out (adev : audio_device) (t : output_type) (out : stream_out) :
    audio_device :=
  { adev with outputs := adev.outputs.set t (some out) }

/-- The stream stored in `outputs[t]` is changed by `f` (an assignment
through the pointer `out`). -/
def audio_device.modify_out (adev : audio_device) (t : output_type)
    (f : stream_out → stream_out) : audio_device :=
  { adev with outputs := adev.outputs.set t ((adev.outputs.get t).map f) }

/-- The stream in slot `t` is open and not in standby: the C test
`adev->outputs[t] && !adev->outputs[t]->standby`. -/
def active (o : outputs_t) (t : output_type) : Bool :=
  match o.get t with
  | some out => !out.standby
  | none => false

/-- The test `p != NULL && !pcm_is_ready(p)` made after every `pcm_open`. -/
def pcm_open_failed (p : Option pcm) : Bool :=
  match p with
  | some h => !h.ready
  | none => false

/-! ## HDMI driver helpers -/

/-- `open_hdmi_driver`; the value it returns is `hdmi_drv_fd` of the result. -/
def open_hdmi_driver (adev : audio_device) : audio_device :=
  if adev.hdmi_drv_fd < 0 then
    let w := adev.hw.call .hdmi_driver_open
    match adev.hw.hdmi_open_results with
    | [] => { adev with hdmi_drv_fd := -1, hw := w }
    | fd :: rest => { adev with hdmi_drv_fd := fd, hw := { w with hdmi_open_results := rest } }
  else adev

/-- `enable_hdmi_audio` (its result is ignored by its only caller). -/
def enable_hdmi_audio (adev : audio_device) (enable : Bool) : audio_device :=
  let adev := open_hdmi_driver adev
  if adev.hdmi_drv_fd < 0 then adev
  else adev.call (.hdmi_enable_audio enable)

/-- `set_hdmi_channels` (its result is ignored by its only caller). -/
def set_hdmi_channels (adev : audio_device) (channels : Nat) : audio_device :=
  let adev := open_hdmi_driver adev
  if adev.hdmi_drv_fd < 0 then adev
  else adev.call (.hdmi_set_channels channels)

/-- `read_hdmi_channel_masks`: the device, the stream being opened and the
returned status. -/
def read_hdmi_channel_masks (adev : audio_device) (out : stream_out) :
    audio_device × stream_out × Int :=
  let adev := open_hdmi_driver adev
  if adev.hdmi_drv_fd < 0 then (adev, out, adev.hdmi_drv_fd)
  else
    let w := adev.hw.call .hdmi_get_max_channels
    let r : Int × Int × hw_world :=
      match adev.hw.hdmi_max_channels_results with
      | [] => (0, 6, w)
      | (ret, value) :: rest => (ret, value, { w with hdmi_max_channels_results := rest })
    let adev := { adev with hw := r.2.2 }
    if r.1 < 0 then (adev, out, r.1)
    else if r.2.1 ≠ 6 ∧ r.2.1 ≠ 8 then (adev, out, -ENOSYS)
    else
      let out := { out with
        supported_channel_masks := out.supported_channel_masks.set 0 AUDIO_CHANNEL_OUT_5POINT1 }
      let out := if r.2.1 = 8 then { out with
        supported_channel_masks := out.supported_channel_masks.set 1 AUDIO_CHANNEL_OUT_7POINT1 }
        else out
      (adev, out, r.1)

/-! ## Route selector

The route identifier is the C expression
`(1 << (input_source_id + OUT_DEVICE_CNT)) + (1 << output_device_id)` on
`int`; the ordinals of `routing.h` are small, so no shift reaches the width of
`int` and the value is the natural number computed here. -/

/-- `route_changed`. -/
def route_changed (R : routing_h) (adev : audio_device) : Bool :=
  let output_device_id := get_output_device_id R adev.out_device
  let input_source_id := get_input_source_id R adev.input_source adev.wb_amr
  let new_route_id := (1 <<< (input_source_id + R.OUT_DEVICE_CNT)) + (1 <<< output_device_id)
  new_route_id != adev.cur_route_id

/-- The pair `(output_route, input_route)` that `select_devices` resolves
once it has found the route identifier changed (the `if`/`switch` block
between the assignment of `cur_route_id` and the mixer reset). -/
def resolve_routes (R : routing_h) (input_source_id output_device_id : Nat)
    (adev : audio_device) : Option String × Option String :=
  if input_source_id ≠ R.IN_SOURCE_NONE then
    if output_device_id ≠ R.OUT_DEVICE_NONE then
      ((R.route_configs input_source_id output_device_id).output_route,
       (R.route_configs input_source_id output_device_id).input_route)
    else
      let output_device_id :=
        if adev.in_device = AUDIO_DEVICE_IN_WIRED_HEADSET_bits then R.OUT_DEVICE_HEADSET
        else if adev.in_device = AUDIO_DEVICE_IN_BLUETOOTH_SCO_HEADSET_bits then
          R.OUT_DEVICE_BT_SCO_HEADSET_OUT
        else if adev.input_source = AUDIO_SOURCE_VOICE_CALL then R.OUT_DEVICE_EARPIECE
        else R.OUT_DEVICE_SPEAKER
      (none, (R.route_configs input_source_id output_device_id).input_route)
  else
    if output_device_id ≠ R.OUT_DEVICE_NONE then
      ((R.route_configs R.IN_SOURCE_MIC output_device_id).output_route, none)
    else (none, none)

/-- `select_devices`. -/
def select_devices (R : routing_h) (adev : audio_device) : audio_device :=
  let output_device_id := get_output_device_id R adev.out_device
  let input_source_id := get_input_source_id R adev.input_source adev.wb_amr
  let adev :=
    if adev.hdmi_drv_fd = 0 then
      enable_hdmi_audio adev (decide (adev.out_device &&& AUDIO_DEVICE_OUT_AUX_DIGITAL ≠ 0))
    else adev
  let new_route_id := (1 <<< (input_source_id + R.OUT_DEVICE_CNT)) + (1 <<< output_device_id)
  if new_route_id = adev.cur_route_id then adev
  else
    let adev := { adev with cur_route_id := new_route_id }
    let routes := resolve_routes R input_source_id output_device_id adev
    let adev := adev.call .audio_route_reset
    let adev := adev.call .audio_route_update_mixer
    let adev :=
      match routes.1 with
      | some output_route => adev.call (.audio_route_apply_path output_route)
      | none => adev
    let adev :=
      match routes.2 with
      | some input_route => adev.call (.audio_route_apply_path input_route)
      | none => adev
    adev.call .audio_route_update_mixer

/-! ## Bluetooth SCO and voice call PCMs -/

/-- `start_bt_sco`. -/
def start_bt_sco (adev : audio_device) : audio_device :=
  if adev.pcm_sco_rx ≠ none ∨ adev.pcm_sco_tx ≠ none then adev
  else
    let rx := pcm_open PCM_CARD PCM_DEVICE_SCO false pcm_config_sco adev.hw
    let adev := { adev with pcm_sco_rx := rx.1, hw := rx.2 }
    if pcm_open_failed adev.pcm_sco_rx then
      { adev.call (.pcm_close adev.pcm_sco_rx) with pcm_sco_rx := none }
    else
      let tx := pcm_open PCM_CARD PCM_DEVICE_SCO true pcm_config_sco adev.hw
      let adev := { adev with pcm_sco_tx := tx.1, hw := tx.2 }
      if pcm_open_failed adev.pcm_sco_tx then
        let adev := { adev.call (.pcm_close adev.pcm_sco_tx) with pcm_sco_tx := none }
        { adev.call (.pcm_close adev.pcm_sco_rx) with pcm_sco_rx := none }
      else
        (adev.call (.pcm_start adev.pcm_sco_rx)).call (.pcm_start adev.pcm_sco_tx)

/-- `stop_bt_sco`. -/
def stop_bt_sco (adev : audio_device) : audio_device :=
  let adev :=
    if adev.pcm_sco_rx ≠ none then
      { (adev.call (.pcm_stop adev.pcm_sco_rx)).call (.pcm_close adev.pcm_sco_rx) with
        pcm_sco_rx := none }
    else adev
  if adev.pcm_sco_tx ≠ none then
    { (adev.call (.pcm_stop adev.pcm_sco_tx)).call (.pcm_close adev.pcm_sco_tx) with
      pcm_sco_tx := none }
  else adev

/-- `start_voice_call`: the device and the returned status. -/
def start_voice_call (adev : audio_device) : audio_device × Int :=
  if adev.pcm_voice_rx ≠ none ∨ adev.pcm_voice_tx ≠ none then (adev, 0)
  else
    let voice_config := if adev.wb_amr then pcm_config_voice_wide else pcm_config_voice
    let rx := pcm_open PCM_CARD PCM_DEVICE_VOICE false voice_config adev.hw
    let adev := { adev with pcm_voice_rx := rx.1, hw := rx.2 }
    if pcm_open_failed adev.pcm_voice_rx then
      ({ adev.call (.pcm_close adev.pcm_voice_rx) with pcm_voice_rx := none }, -ENOMEM)
    else
      let tx := pcm_open PCM_CARD PCM_DEVICE_VOICE true voice_config adev.hw
      let adev := { adev with pcm_voice_tx := tx.1, hw := tx.2 }
      if pcm_open_failed adev.pcm_voice_tx then
        let adev := { adev.call (.pcm_close adev.pcm_voice_tx) with pcm_voice_tx := none }
        ({ adev.call (.pcm_close adev.pcm_voice_rx) with pcm_voice_rx := none }, -ENOMEM)
      else
        let adev := (adev.call (.pcm_start adev.pcm_voice_rx)).call (.pcm_start adev.pcm_voice_tx)
        if adev.out_device &&& AUDIO_DEVICE_OUT_ALL_SCO ≠ 0 then (start_bt_sco adev, 0)
        else (adev, 0)

/-- `stop_voice_call`. -/
def stop_voice_call (adev : audio_device) : audio_device :=
  let adev :=
    if adev.pcm_voice_rx ≠ none then
      { (adev.call (.pcm_stop adev.pcm_voice_rx)).call (.pcm_close adev.pcm_voice_rx) with
        pcm_voice_rx := none }
    else adev
  let adev :=
    if adev.pcm_voice_tx ≠ none then
      { (adev.call (.pcm_stop adev.pcm_voice_tx)).call (.pcm_close adev.pcm_voice_tx) with
        pcm_voice_tx := none }
    else adev
  if adev.out_device &&& AUDIO_DEVICE_OUT_ALL_SCO ≠ 0 then stop_bt_sco adev else adev

/-! ## Call session manager -/

/-- `adev_set_call_audio_path`. -/
def adev_set_call_audio_path (adev : audio_device) : audio_device :=
  let device_type : AudioPath :=
    if adev.out_device = AUDIO_DEVICE_OUT_SPEAKER then .SOUND_AUDIO_PATH_SPEAKER
    else if adev.out_device = AUDIO_DEVICE_OUT_EARPIECE then .SOUND_AUDIO_PATH_HANDSET
    else if adev.out_device = AUDIO_DEVICE_OUT_WIRED_HEADSET then .SOUND_AUDIO_PATH_HEADSET
    else if adev.out_device = AUDIO_DEVICE_OUT_WIRED_HEADPHONE then .SOUND_AUDIO_PATH_HEADPHONE
    else if adev.out_device = AUDIO_DEVICE_OUT_BLUETOOTH_SCO ∨
            adev.out_device = AUDIO_DEVICE_OUT_BLUETOOTH_SCO_HEADSET ∨
            adev.out_device = AUDIO_DEVICE_OUT_BLUETOOTH_SCO_CARKIT then
      if adev.bluetooth_nrec then .SOUND_AUDIO_PATH_BLUETOOTH
      else .SOUND_AUDIO_PATH_BLUETOOTH_NO_NR
    else .SOUND_AUDIO_PATH_HANDSET
  adev.call (.ril_set_call_audio_path device_type)

/-- `adev_set_voice_volume` (the float volume itself is not part of the
embedding). -/
def adev_set_voice_volume (adev : audio_device) : audio_device :=
  if adev.mode = AUDIO_MODE_IN_CALL then
    let sound_type : SoundType :=
      if adev.out_device = AUDIO_DEVICE_OUT_EARPIECE then .SOUND_TYPE_VOICE
      else if adev.out_device = AUDIO_DEVICE_OUT_SPEAKER then .SOUND_TYPE_SPEAKER
      else if adev.out_device = AUDIO_DEVICE_OUT_WIRED_HEADSET ∨
              adev.out_device = AUDIO_DEVICE_OUT_WIRED_HEADPHONE then .SOUND_TYPE_HEADSET
      else if adev.out_device = AUDIO_DEVICE_OUT_BLUETOOTH_SCO ∨
              adev.out_device = AUDIO_DEVICE_OUT_BLUETOOTH_SCO_HEADSET ∨
              adev.out_device = AUDIO_DEVICE_OUT_BLUETOOTH_SCO_CARKIT ∨
              adev.out_device = AUDIO_DEVICE_OUT_ALL_SCO then .SOUND_TYPE_BTVOICE
      else .SOUND_TYPE_VOICE
    adev.call (.ril_set_call_volume sound_type)
  else adev

/-- `start_call`. -/
def start_call (R : routing_h) (adev : audio_device) : audio_device :=
  if adev.in_call then adev
  else
    let adev := { adev with in_call := true }
    let adev :=
      if adev.out_device = AUDIO_DEVICE_NONE ∧ adev.in_device = AUDIO_DEVICE_NONE then
        { adev with out_device := AUDIO_DEVICE_OUT_EARPIECE }
      else adev
    let adev := { adev with input_source := AUDIO_SOURCE_VOICE_CALL }
    let adev := select_devices R adev
    let adev := (start_voice_call adev).1
    let adev :=
      if adev.out_device = AUDIO_DEVICE_OUT_EARPIECE ∨
         adev.out_device = AUDIO_DEVICE_OUT_SPEAKER then
        { adev with two_mic_control := true }
      else { adev with two_mic_control := false }
    let adev := if adev.two_mic_disabled then { adev with two_mic_control := false } else adev
    let adev := adev.call (.ril_set_two_mic_control adev.two_mic_control)
    let adev := adev_set_call_audio_path adev
    let adev := adev_set_voice_volume adev
    adev.call (.ril_set_call_clock_sync true)

/-- `stop_call`. -/
def stop_call (R : routing_h) (adev : audio_device) : audio_device :=
  if !adev.in_call then adev
  else
    let adev := adev.call (.ril_set_call_clock_sync false)
    let adev := stop_voice_call adev
    let adev :=
      if adev.mode ≠ AUDIO_MODE_IN_CALL then
        let adev :=
          if adev.out_device = AUDIO_DEVICE_NONE ∨
             adev.out_device = AUDIO_DEVICE_OUT_EARPIECE then
            { adev with out_device := AUDIO_DEVICE_OUT_SPEAKER }
          else adev
        let adev := { adev with input_source := AUDIO_SOURCE_DEFAULT }
        select_devices R adev
      else adev
    { adev with in_call := false }

/-- `adev_set_wb_amr_callback`: `enable` is the C `int` of the notification;
the comparison `adev->wb_amr != enable` promotes the flag to 0 or 1. -/
def adev_set_wb_amr_callback (R : routing_h) (enable : Int) (adev : audio_device) :
    audio_device :=
  if (if adev.wb_amr then (1 : Int) else 0) ≠ enable then
    let adev := { adev with wb_amr := decide (enable ≠ 0) }
    if adev.in_call ∧ route_changed R adev then start_call R (stop_call R adev)
    else adev
  else adev

/-- `adev_set_mode`. -/
def adev_set_mode (R : routing_h) (mode : Int) (adev : audio_device) : audio_device :=
  if adev.mode = mode then adev
  else
    let adev := { adev with mode := mode }
    if adev.mode = AUDIO_MODE_IN_CALL then start_call R adev
    else stop_call R adev

/-! ## Output stream lifecycle

A stream is addressed by the slot of `outputs` that holds it, so the pointer
test `out == adev->outputs[OUTPUT_HDMI]` is the test `t = OUTPUT_HDMI`, and
`other != out` in `output_devices` is `type ≠ t`. An operation on a slot that
holds no stream does nothing. -/

/-- `output_devices`: the devices of the active streams other than `t`. -/
def output_devices (t : output_type) (adev : audio_device) : Nat :=
  [OUTPUT_DEEP_BUF, OUTPUT_LOW_LATENCY, OUTPUT_HDMI].foldl
    (fun devices type =>
      match adev.outputs.get type with
      | some other =>
        if type ≠ t ∧ other.standby = false then devices ||| other.device else devices
      | none => devices)
    AUDIO_DEVICE_NONE

/-- The body of `do_out_standby`, with the call of
`force_non_hdmi_out_standby` (made only for the HDMI stream) passed as
`force`. -/
def do_out_standby_with (R : routing_h) (force : audio_device → audio_device)
    (t : output_type) (adev : audio_device) : audio_device :=
  match adev.outputs.get t with
  | none => adev
  | some out =>
    if out.standby = false then
      let adev := if out.pcm_card ≠ none then adev.call (.pcm_close out.pcm_card) else adev
      let out := if out.pcm_card ≠ none then { out with pcm_card := none } else out
      let adev :=
        if out.pcm_card_spdif ≠ none then adev.call (.pcm_close out.pcm_card_spdif) else adev
      let out := if out.pcm_card_spdif ≠ none then { out with pcm_card_spdif := none } else out
      let out := { out with standby := true }
      let adev := adev.set_out t out
      let adev := if t = OUTPUT_HDMI then force adev else adev
      let adev := { adev with out_device := output_devices t adev }
      if adev.out_device ≠ 0 then select_devices R adev else adev
    else adev

/-- The body of the loop of `force_non_hdmi_out_standby` for one `type`,
without the `pthread_mutex_lock(&out->lock)` and `pthread_mutex_unlock` around
`do_out_standby` (they are in `Thread.force_step`). The stream it puts into
standby is not the HDMI stream, so its `do_out_standby` does not come back to
`force_non_hdmi_out_standby`. -/
def force_step (R : routing_h) (adev : audio_device) (type : output_type) : audio_device :=
  if type = OUTPUT_HDMI ∨ adev.outputs.get type = none then adev
  else do_out_standby_with R id type adev

/-- `force_non_hdmi_out_standby`: the state it leaves if the lock of every
stream it puts into standby is granted. Its callers hold those locks, so as a
call it returns only when no stream other than the HDMI stream is open; see
`Thread.force_non_hdmi_out_standby`. -/
def force_non_hdmi_out_standby (R : routing_h) (adev : audio_device) : audio_device :=
  [OUTPUT_DEEP_BUF, OUTPUT_LOW_LATENCY, OUTPUT_HDMI].foldl (force_step R) adev

/-- `do_out_standby`. -/
def do_out_standby (R : routing_h) (t : output_type) (adev : audio_device) : audio_device :=
  do_out_standby_with R (force_non_hdmi_out_standby R) t adev

/-- `out_standby` (always returns 0). -/
def out_standby (R : routing_h) (t : output_type) (adev : audio_device) : audio_device :=
  do_out_standby R t adev

/-- The first PCM block of `start_output_stream`: open the PCM of the primary
card for the devices that need it. The flag tells whether the open failed
(the function then returns `-ENOMEM`); the closed handle stays in the slot. -/
def start_output_stream_card (t : output_type) (adev : audio_device) : audio_device × Bool :=
  match adev.outputs.get t with
  | none => (adev, false)
  | some out =>
    if out.device &&& (AUDIO_DEVICE_OUT_SPEAKER ||| AUDIO_DEVICE_OUT_WIRED_HEADSET |||
        AUDIO_DEVICE_OUT_WIRED_HEADPHONE ||| AUDIO_DEVICE_OUT_AUX_DIGITAL |||
        AUDIO_DEVICE_OUT_ALL_SCO) ≠ 0 then
      let p := pcm_open PCM_CARD out.pcm_device false out.config adev.hw
      let adev := { adev with hw := p.2 }.modify_out t (fun out => { out with pcm_card := p.1 })
      if pcm_open_failed p.1 then
        ((adev.call (.pcm_close p.1)).modify_out t
          (fun out => { out with pcm_card := pcm_closed out.pcm_card }), true)
      else (adev, false)
    else (adev, false)

/-- The second PCM block of `start_output_stream`: open the PCM of the SPDIF
card for the digital dock headset. -/
def start_output_stream_spdif (t : output_type) (adev : audio_device) : audio_device × Bool :=
  match adev.outputs.get t with
  | none => (adev, false)
  | some out =>
    if out.device &&& AUDIO_DEVICE_OUT_DGTL_DOCK_HEADSET ≠ 0 then
      let p := pcm_open PCM_CARD_SPDIF out.pcm_device false out.config adev.hw
      let adev :=
        { adev with hw := p.2 }.modify_out t (fun out => { out with pcm_card_spdif := p.1 })
      if pcm_open_failed p.1 then
        ((adev.call (.pcm_close p.1)).modify_out t
          (fun out => { out with pcm_card_spdif := pcm_closed out.pcm_card_spdif }), true)
      else (adev, false)
    else (adev, false)

/-- The end of `start_output_stream`: outside a call the device of the stream
joins the aggregated device and the route is selected; the HDMI channel count
is pushed for an HDMI device. -/
def start_output_stream_route (R : routing_h) (t : output_type) (adev : audio_device) :
    audio_device :=
  match adev.outputs.get t with
  | none => adev
  | some out =>
    let adev :=
      if adev.in_call = false then
        select_devices R { adev with out_device := adev.out_device ||| out.device }
      else adev
    if out.device &&& AUDIO_DEVICE_OUT_AUX_DIGITAL ≠ 0 then
      set_hdmi_channels adev out.config.channels
    else adev

/-- The part of `start_output_stream` from `out->disabled = false` on. -/
def start_output_stream_open (R : routing_h) (t : output_type) (adev : audio_device) :
    audio_device × Int :=
  let adev := adev.modify_out t (fun out => { out with disabled := false })
  let r1 := start_output_stream_card t adev
  if r1.2 then (r1.1, -ENOMEM)
  else
    let r2 := start_output_stream_spdif t r1.1
    if r2.2 then (r2.1, -ENOMEM)
    else (start_output_stream_route R t r2.1, 0)

/-- `start_output_stream`: the device and the returned status. -/
def start_output_stream (R : routing_h) (t : output_type) (adev : audio_device) :
    audio_device × Int :=
  match adev.outputs.get t with
  | none => (adev, 0)
  | some _ =>
    if t = OUTPUT_HDMI then start_output_stream_open R t (force_non_hdmi_out_standby R adev)
    else if active adev.outputs OUTPUT_HDMI then
      (adev.modify_out t (fun out => { out with disabled := true }), 0)
    else start_output_stream_open R t adev

/-- The frame size of an output stream, `audio_stream_out_frame_size`: the
number of channels of the channel mask times two bytes (the format is always
16-bit PCM). -/
def audio_stream_out_frame_size (out : stream_out) : Nat :=
  popcount out.channel_mask * 2

/-- The standby block at the top of `out_write`: a stream in standby is
started and, unless the start failed, leaves standby. -/
def out_write_start (R : routing_h) (t : output_type) (adev : audio_device) :
    audio_device × Int :=
  match adev.outputs.get t with
  | none => (adev, 0)
  | some out =>
    if out.standby then
      let r := start_output_stream R t adev
      if r.2 < 0 then r
      else (r.1.modify_out t (fun out => { out with standby := false }), r.2)
    else (adev, 0)

/-- The write loop of `out_write` over `pcm[0 .. PCM_TOTAL-1]` and the update
of `written`; `ret` is the status on entry. -/
def out_write_pcms (t : output_type) (bytes : Nat) (ret : Int) (adev : audio_device) :
    audio_device × Int :=
  match adev.outputs.get t with
  | none => (adev, ret)
  | some out =>
    let w1 : Int × hw_world :=
      match out.pcm_card with
      | some p => pcm_write p bytes out.muted adev.hw
      | none => (ret, adev.hw)
    let w2 : Int × hw_world :=
      if w1.1 ≠ 0 then w1
      else
        match out.pcm_card_spdif with
        | some p => pcm_write p bytes out.muted w1.2
        | none => w1
    ({ adev with hw := w2.2 }.modify_out t (fun out =>
        if w2.1 = 0 then
          { out with written := (out.written + bytes / (out.config.channels * 2)) % 2 ^ 64 }
        else out),
     w2.1)

/-- The part of `out_write` up to the label `final_exit`: the device and the
status `ret` the function holds there. -/
def out_write_status (R : routing_h) (t : output_type) (bytes : Nat) (adev : audio_device) :
    audio_device × Int :=
  let s := out_write_start R t adev
  if s.2 < 0 then s
  else
    match s.1.outputs.get t with
    | none => s
    | some out =>
      if out.disabled then (s.1, -EPIPE)
      else out_write_pcms t bytes s.2 s.1

/-- `out_write`: the device and the byte count `bytes` of the `return`
statement, with every mutex granted. The value as the `ssize_t` the caller
receives, the argument of `usleep` as computed on `size_t`, and the mutex
calls are in `Thread.out_write`. -/
def out_write (R : routing_h) (t : output_type) (bytes : Nat) (adev : audio_device) :
    audio_device × Nat :=
  let r := out_write_status R t bytes adev
  match r.1.outputs.get t with
  | none => (r.1, bytes)
  | some out =>
    if r.2 ≠ 0 then
      (r.1.call (.usleep (bytes * 1000000 / audio_stream_out_frame_size out / out.config.rate)),
       bytes)
    else (r.1, bytes)

/-- The two "force standby" tests of `out_set_parameters`: the stream goes to
standby when the SPDIF membership of the device changes or is set, and when
the SCO membership of the stream's device changes. -/
def out_set_parameters_force_standby (R : routing_h) (t : output_type) (val : Nat)
    (adev : audio_device) : audio_device :=
  match adev.outputs.get t with
  | none => adev
  | some out =>
    let adev :=
      if ((val &&& AUDIO_DEVICE_OUT_DGTL_DOCK_HEADSET) ^^^
          (adev.out_device &&& AUDIO_DEVICE_OUT_DGTL_DOCK_HEADSET)) ≠ 0 ∨
         (adev.out_device &&& AUDIO_DEVICE_OUT_DGTL_DOCK_HEADSET) ≠ 0 then
        do_out_standby R t adev
      else adev
    if ((val &&& AUDIO_DEVICE_OUT_ALL_SCO) ^^^ (out.device &&& AUDIO_DEVICE_OUT_ALL_SCO)) ≠ 0 then
      do_out_standby R t adev
    else adev

/-- The block of `out_set_parameters` guarded by `adev->hdmi_drv_fd == 0`. -/
def out_set_parameters_preselect (R : routing_h) (t : output_type) (val : Nat)
    (adev : audio_device) : audio_device :=
  if adev.hdmi_drv_fd = 0 then
    match adev.outputs.get t with
    | none => adev
    | some out =>
      if out.standby = false ∧
          (t = OUTPUT_HDMI ∨ adev.outputs.get OUTPUT_HDMI = none ∨
            active adev.outputs OUTPUT_HDMI = false) then
        select_devices R { adev with out_device := output_devices t adev ||| val }
      else adev
  else adev

/-- The end of `out_set_parameters`, from `out->device = val` on: the new
device is stored, the aggregated device recomputed, the route selected (in a
call: the call is torn down and rebuilt if the route changed), and the SCO
PCMs are started for an SCO device. -/
def out_set_parameters_route (R : routing_h) (t : output_type) (val : Nat)
    (adev : audio_device) : audio_device :=
  let adev := adev.modify_out t (fun out => { out with device := val })
  let adev := { adev with out_device := output_devices t adev ||| val }
  let adev :=
    if adev.in_call then
      if route_changed R adev then start_call R (stop_call R adev) else adev
    else select_devices R adev
  if val &&& AUDIO_DEVICE_OUT_ALL_SCO ≠ 0 then start_bt_sco adev else adev

/-- `out_set_parameters`: `routing` is the value of the key `routing` of
the key/value string (`none` when the key is absent), already converted by
`atoi` to `unsigned int`. The returned status of the string lookup is not
part of the embedding. -/
def out_set_parameters (R : routing_h) (t : output_type) (routing : Option Nat)
    (adev : audio_device) : audio_device :=
  match routing, adev.outputs.get t with
  | some val, some out =>
    if out.device ≠ val ∧ val ≠ 0 then
      out_set_parameters_route R t val
        (out_set_parameters_preselect R t val
          (out_set_parameters_force_standby R t val adev))
    else adev
  | _, _ => adev

/-- A `struct stream_out` as `calloc` returns it: every field zero. -/
def stream_out_calloc : stream_out :=
  { pcm_card := none, pcm_card_spdif := none, config := ⟨0, 0, 0, 0⟩, pcm_device := 0,
    standby := false, device := 0, disabled := false, channel_mask := 0,
    supported_channel_masks := [0, 0, 0], muted := false, written := 0 }

/-- The fields of `struct audio_config` that `adev_open_output_stream` reads
and writes (the format it writes back is always 16-bit PCM). -/
structure audio_config where
  sample_rate : Nat
  channel_mask : Nat
deriving DecidableEq, Repr

/-- The result of `adev_open_output_stream`: the device, the returned
status, the stream handed to the caller (the slot that now holds it; `none`
for `*stream_out = NULL`) and the caller's `config` as written back. -/
structure open_output_result where
  adev : audio_device
  ret : Int
  stream_out : Option output_type
  config : audio_config
deriving DecidableEq, Repr

/-- The common end of `adev_open_output_stream`, once the kind of the stream
is decided: the configuration is written back, the stream starts in standby,
and it is registered in its slot unless the slot is taken. -/
def adev_open_output_stream_register (adev : audio_device) (out : stream_out)
    (type : output_type) : open_output_result :=
  let config : audio_config :=
    { sample_rate := out.config.rate, channel_mask := out.channel_mask }
  let out := { out with standby := true }
  if adev.outputs.get type ≠ none then ⟨adev, -EBUSY, none, config⟩
  else ⟨{ adev with outputs := adev.outputs.set type (some out) }, 0, some type, config⟩

/-- `adev_open_output_stream`. `fast` is the current value of the global
`pcm_config_fast` (whose period size `adev_open` may have replaced from a
system property). The allocation of the stream is taken to succeed. -/
def adev_open_output_stream (fast : pcm_config) (devices flags : Nat) (config : audio_config)
    (adev : audio_device) : open_output_result :=
  let out : stream_out := stream_out_calloc
  let out := { out with
    supported_channel_masks := out.supported_channel_masks.set 0 AUDIO_CHANNEL_OUT_STEREO,
    channel_mask := AUDIO_CHANNEL_OUT_STEREO }
  let devices := if devices = AUDIO_DEVICE_NONE then AUDIO_DEVICE_OUT_SPEAKER else devices
  let out := { out with device := devices }
  if flags &&& AUDIO_OUTPUT_FLAG_DIRECT ≠ 0 ∧ devices = AUDIO_DEVICE_OUT_AUX_DIGITAL then
    let r := read_hdmi_channel_masks adev out
    let adev := r.1
    let out := r.2.1
    if r.2.2 ≠ 0 then ⟨adev, r.2.2, none, config⟩
    else
      let config :=
        if config.sample_rate = 0 then { config with sample_rate := 48000 } else config
      let config :=
        if config.channel_mask = 0 then { config with channel_mask := AUDIO_CHANNEL_OUT_5POINT1 }
        else config
      let out := { out with channel_mask := config.channel_mask }
      let out := { out with config := pcm_config_hdmi_multi }
      let out := { out with config := { out.config with rate := config.sample_rate } }
      let out := { out with config := { out.config with channels := popcount config.channel_mask } }
      let out := { out with pcm_device := PCM_DEVICE }
      adev_open_output_stream_register adev out OUTPUT_HDMI
  else if flags &&& AUDIO_OUTPUT_FLAG_DEEP_BUFFER ≠ 0 then
    adev_open_output_stream_register adev
      { out with config := pcm_config_deep, pcm_device := PCM_DEVICE_DEEP } OUTPUT_DEEP_BUF
  else
    adev_open_output_stream_register adev
      { out with config := fast, pcm_device := PCM_DEVICE } OUTPUT_LOW_LATENCY

/-- `adev_close_output_stream`. -/
def adev_close_output_stream (R : routing_h) (t : output_type) (adev : audio_device) :
    audio_device :=
  match adev.outputs.get t with
  | none => adev
  | some _ =>
    let adev := out_standby R t adev
    { adev with outputs := adev.outputs.set t none }

/-- `adev_open`: the device it creates. `force_wideband` and `disable_two_mic`
are the two boolean system properties it reads, `hw` is the outside world
at that moment. -/
def adev_open (force_wideband disable_two_mic : Bool) (hw : hw_world) : audio_device :=
  let adev : audio_device :=
    { out_device := 0, in_device := 0, mic_mute := false, input_source := 0,
      cur_route_id := 0, mode := 0, pcm_voice_rx := none, pcm_voice_tx := none,
      pcm_sco_rx := none, pcm_sco_tx := none, in_call := false, tty_mode := false,
      bluetooth_nrec := false, wb_amr := false, two_mic_control := false,
      two_mic_disabled := false, hdmi_drv_fd := 0, in_channel_mask := 0,
      outputs := ⟨none, none, none⟩, hw := hw }
  let adev := { adev with input_source := AUDIO_SOURCE_DEFAULT }
  let adev := { adev with hdmi_drv_fd := -1 }
  let adev := { adev with mode := AUDIO_MODE_NORMAL }
  let adev := if force_wideband then { adev with wb_amr := true } else adev
  let adev := if disable_two_mic then { adev with two_mic_disabled := true } else adev
  open_hdmi_driver adev

/-! ## Specification helpers -/

/-- The route identifier of the current device state, as `route_changed` and
`select_devices` compute it. -/
def route_id_of (R : routing_h) (adev : audio_device) : Nat :=
  (1 <<< (get_input_source_id R adev.input_source adev.wb_amr + R.OUT_DEVICE_CNT)) +
    (1 <<< get_output_device_id R adev.out_device)

/-- The device state proper: everything but the trace of hardware calls. -/
def audio_device.forget_log (adev : audio_device) : audio_device :=
  { adev with hw := { adev.hw with log := [] } }

/-- The mixer calls `select_devices` makes once it has found the route
identifier changed. -/
def mixer_calls (routes : Option String × Option String) : List hw_call :=
  [hw_call.audio_route_reset, hw_call.audio_route_update_mixer] ++
    (match routes.1 with
     | some r => [hw_call.audio_route_apply_path r]
     | none => []) ++
    (match routes.2 with
     | some r => [hw_call.audio_route_apply_path r]
     | none => []) ++
    [hw_call.audio_route_update_mixer]

/-- The calls `select_devices` makes in the state `adev`. -/
def select_devices_calls (R : routing_h) (adev : audio_device) : List hw_call :=
  (if adev.hdmi_drv_fd = 0 then
     [hw_call.hdmi_enable_audio (decide (adev.out_device &&& AUDIO_DEVICE_OUT_AUX_DIGITAL ≠ 0))]
   else []) ++
  (if route_id_of R adev = adev.cur_route_id then []
   else mixer_calls (resolve_routes R (get_input_source_id R adev.input_source adev.wb_amr)
     (get_output_device_id R adev.out_device) adev))

/-- The device `b` differs from `a` at most in the cached route identifier,
the voice and SCO PCM handles, the HDMI driver descriptor and the outside
world. -/
structure hw_frame (a b : audio_device) : Prop where
  out_device : b.out_device = a.out_device
  in_device : b.in_device = a.in_device
  mic_mute : b.mic_mute = a.mic_mute
  input_source : b.input_source = a.input_source
  mode : b.mode = a.mode
  in_call : b.in_call = a.in_call
  bluetooth_nrec : b.bluetooth_nrec = a.bluetooth_nrec
  wb_amr : b.wb_amr = a.wb_amr
  two_mic_control : b.two_mic_control = a.two_mic_control
  two_mic_disabled : b.two_mic_disabled = a.two_mic_disabled
  in_channel_mask : b.in_channel_mask = a.in_channel_mask
  outputs : b.outputs = a.outputs

/-- The device `b` differs from `a` at most in the fields a call entry or
exit writes: besides those of `hw_frame`, the output device, the input
source, the call flag and the two-mic flag. -/
structure call_frame (a b : audio_device) : Prop where
  in_device : b.in_device = a.in_device
  mic_mute : b.mic_mute = a.mic_mute
  mode : b.mode = a.mode
  bluetooth_nrec : b.bluetooth_nrec = a.bluetooth_nrec
  wb_amr : b.wb_amr = a.wb_amr
  two_mic_disabled : b.two_mic_disabled = a.two_mic_disabled
  in_channel_mask : b.in_channel_mask = a.in_channel_mask
  outputs : b.outputs = a.outputs

/-- The stream as `do_out_standby` leaves it when it was active: both PCM
slots cleared, standby set. -/
def stream_out.to_standby (out : stream_out) : stream_out :=
  { out with pcm_card := none, pcm_card_spdif := none, standby := true }

/-- What `do_out_standby` does to the slot of the stream it is called on. -/
def standby_slot (o : Option stream_out) : Option stream_out :=
  o.map (fun out => if out.standby = false then out.to_standby else out)

/-- The device mask a slot contributes to the aggregated mask: the device
of its stream when that stream is open and not in standby. -/
def active_device (o : Option stream_out) : Nat :=
  match o with
  | some out => if out.standby = false then out.device else 0
  | none => 0

/-- The `pcm_close` calls `do_out_standby` makes for an active stream. -/
def standby_closes (out : stream_out) : List hw_call :=
  (if out.pcm_card ≠ none then [hw_call.pcm_close out.pcm_card] else []) ++
  (if out.pcm_card_spdif ≠ none then [hw_call.pcm_close out.pcm_card_spdif] else [])

/-- Record several calls into collaborators. -/
def audio_device.calls (adev : audio_device) (cs : List hw_call) : audio_device :=
  { adev with hw := { adev.hw with log := adev.hw.log ++ cs } }

/-- The device `b` differs from `a` at most in the fields the output-stream
operations write: the table of outputs, the aggregated output device and the
fields of `hw_frame`. -/
structure out_frame (a b : audio_device) : Prop where
  in_device : b.in_device = a.in_device
  mic_mute : b.mic_mute = a.mic_mute
  input_source : b.input_source = a.input_source
  mode : b.mode = a.mode
  in_call : b.in_call = a.in_call
  bluetooth_nrec : b.bluetooth_nrec = a.bluetooth_nrec
  wb_amr : b.wb_amr = a.wb_amr
  two_mic_control : b.two_mic_control = a.two_mic_control
  two_mic_disabled : b.two_mic_disabled = a.two_mic_disabled
  in_channel_mask : b.in_channel_mask = a.in_channel_mask

/-- A run of `out_write` calls on the stream `t`, one per byte count. -/
def out_write_seq (R : routing_h) (t : output_type) (bs : List Nat) (adev : audio_device) :
    audio_device :=
  bs.foldl (fun a b => (out_write R t b a).1) adev

/-- A call to the PCM device. -/
def hw_call.is_pcm : hw_call → Bool
  | .pcm_open _ _ _ _ => true
  | .pcm_close _ => true
  | .pcm_start _ => true
  | .pcm_stop _ => true
  | .pcm_write _ _ _ => true
  | _ => false

/-- The two PCM handle slots of a stream. -/
def stream_out.pcms (out : stream_out) : Option pcm × Option pcm :=
  (out.pcm_card, out.pcm_card_spdif)

/-- The PCM handle slots of every open stream. -/
def audio_device.out_pcms (adev : audio_device) (u : output_type) :
    Option (Option pcm × Option pcm) :=
  (adev.outputs.get u).map stream_out.pcms

/-- The kind of stream a call of `adev_open_output_stream` asks for, as its
`if` chain on `flags` and `devices` decides it. -/
def requested_output_type (devices flags : Nat) : output_type :=
  if flags &&& AUDIO_OUTPUT_FLAG_DIRECT ≠ 0 ∧
      (if devices = AUDIO_DEVICE_NONE then AUDIO_DEVICE_OUT_SPEAKER else devices) =
        AUDIO_DEVICE_OUT_AUX_DIGITAL then OUTPUT_HDMI
  else if flags &&& AUDIO_OUTPUT_FLAG_DEEP_BUFFER ≠ 0 then OUTPUT_DEEP_BUF
  else OUTPUT_LOW_LATENCY

/-- The status `read_hdmi_channel_masks` returns in the state `adev` (it does
not depend on the stream being opened). -/
def hdmi_query_status (adev : audio_device) : Int :=
  (read_hdmi_channel_masks adev stream_out_calloc).2.2

/-! ## Reachable states -/

/-- The public operations on the device and its output streams: open and
close an output, write, standby, set-parameters (routing), set-mode and the
wideband notification. -/
inductive hal_op where
  | open_output (fast : pcm_config) (devices flags : Nat) (config : audio_config)
  | close_output (t : output_type)
  | write (t : output_type) (bytes : Nat)
  | standby (t : output_type)
  | set_parameters (t : output_type) (routing : Option Nat)
  | set_mode (mode : Int)
  | wb_amr (enable : Int)

/-- The device after one public operation. -/
def hal_op.apply (R : routing_h) : hal_op → audio_device → audio_device
  | .open_output fast devices flags config, a =>
    (adev_open_output_stream fast devices flags config a).adev
  | .close_output t, a => adev_close_output_stream R t a
  | .write t bytes, a => (out_write R t bytes a).1
  | .standby t, a => out_standby R t a
  | .set_parameters t routing, a => out_set_parameters R t routing a
  | .set_mode mode, a => adev_set_mode R mode a
  | .wb_amr enable, a => adev_set_wb_amr_callback R enable a

/-- The states reachable from a freshly opened device through the public
operations, in any outside world. -/
inductive reachable (R : routing_h) : audio_device → Prop where
  | init (force_wideband disable_two_mic : Bool) (hw : hw_world) :
      reachable R (adev_open force_wideband disable_two_mic hw)
  | step (op : hal_op) (a : audio_device) : reachable R a → reachable R (op.apply R a)

/-- The public operations that neither set a routing parameter nor enter a
call: everything but set-parameters and set-mode to IN_CALL. -/
def hal_op.keeps_idle : hal_op → Prop
  | .set_parameters _ _ => False
  | .set_mode mode => mode ≠ AUDIO_MODE_IN_CALL
  | _ => True

/-- The states reachable from a freshly opened device through the public
operations other than set-parameters and set-mode to IN_CALL. -/
inductive reachable_idle (R : routing_h) : audio_device → Prop where
  | init (force_wideband disable_two_mic : Bool) (hw : hw_world) :
      reachable_idle R (adev_open force_wideband disable_two_mic hw)
  | step (op : hal_op) (a : audio_device) :
      op.keeps_idle → reachable_idle R a → reachable_idle R (op.apply R a)

/-- The OR of the device masks of all open output streams that are not in
standby. -/
def active_devices (o : outputs_t) : Nat :=
  active_device o.deep_buf ||| active_device o.low_latency ||| active_device o.hdmi

/-- The stream in a slot is open, not in standby, and has its `disabled` flag
set. -/
def disabled_active (o : Option stream_out) : Bool :=
  match o with
  | some out => !out.standby && out.disabled
  | none => false

/-- No open output stream is both active and disabled. -/
def none_disabled (o : outputs_t) : Prop :=
  disabled_active o.deep_buf = false ∧ disabled_active o.low_latency = false ∧
    disabled_active o.hdmi = false

/-- The invariant about the `disabled` flag: the HDMI stream is never active
with the flag set, and a deep-buffer or low-latency stream is active with the
flag set only while the HDMI stream is active. -/
def disabled_inv (o : outputs_t) : Prop :=
  disabled_active o.hdmi = false ∧
  (disabled_active o.deep_buf = true → active o OUTPUT_HDMI = true) ∧
  (disabled_active o.low_latency = true → active o OUTPUT_HDMI = true)

/-- The invariant of the states reached without set-parameters and without
entering a call: the device is not in a call, the `disabled` invariant holds,
and the aggregated output device is the OR of the devices of the active
streams whenever no active stream is disabled. -/
def idle_inv (a : audio_device) : Prop :=
  a.in_call = false ∧ disabled_inv a.outputs ∧
    (none_disabled a.outputs → a.out_device = active_devices a.outputs)

/-! ## Sample states -/

/-- An outside world with an empty trace in which every hardware call
succeeds, except that `/dev/video16` cannot be opened. -/
def hw_quiet : hw_world := ⟨[], [], [], [], []⟩

/-- The device as `adev_open` creates it in `hw_quiet`. -/
def adev_fresh : audio_device := adev_open false false hw_quiet

/-- An outside world like `hw_quiet` in which `/dev/video16` opens with
descriptor 5. -/
def hw_hdmi : hw_world := ⟨[], [], [], [5], []⟩

/-- A device with an HDMI output (open, in standby) and a low-latency output
on the speaker that has been written to and is active. -/
def adev_hdmi_low : audio_device :=
  (out_write routing_h_sample OUTPUT_LOW_LATENCY 960
    (adev_open_output_stream pcm_config_fast AUDIO_DEVICE_OUT_SPEAKER 0 ⟨0, 0⟩
      (adev_open_output_stream pcm_config_fast AUDIO_DEVICE_OUT_AUX_DIGITAL
        AUDIO_OUTPUT_FLAG_DIRECT ⟨0, 0⟩ (adev_open false false hw_hdmi)).adev).adev).1

/-- The low-latency stream of `adev_hdmi_low`. -/
def stream_low_active : stream_out :=
  { pcm_card := some ⟨0, 0, false, pcm_config_fast, true, false⟩, pcm_card_spdif := none,
    config := pcm_config_fast, pcm_device := 0, standby := false, device := 2,
    disabled := false, channel_mask := 3, supported_channel_masks := [3, 0, 0],
    muted := false, written := 240 }

/-- The HDMI stream of `adev_hdmi_low`. -/
def stream_hdmi_idle : stream_out :=
  { pcm_card := none, pcm_card_spdif := none, config := pcm_config_hdmi_multi, pcm_device := 0,
    standby := true, device := 1024, disabled := false, channel_mask := 63,
    supported_channel_masks := [63, 0, 0], muted := false, written := 0 }

/-- The device `adev_hdmi_low` after a write on its HDMI output: the HDMI
output is active, the low-latency output is in standby. -/
def adev_hdmi_active : audio_device :=
  (out_write routing_h_sample OUTPUT_HDMI 960 adev_hdmi_low).1

/-- The device `adev_hdmi_low` at a moment when the HDMI driver reports 2
channels (its next channel query answers 2). -/
def adev_hdmi_two_channels : audio_device :=
  { adev_hdmi_low with hw := { adev_hdmi_low.hw with hdmi_max_channels_results := [(0, 2)] } }

/-- The device `adev_hdmi_active` after a write on its low-latency output:
that output is active and disabled. -/
def adev_low_disabled : audio_device :=
  (out_write routing_h_sample OUTPUT_LOW_LATENCY 960 adev_hdmi_active).1

/-- The low-latency stream of `adev_low_disabled`. -/
def stream_low_disabled : stream_out :=
  { stream_low_active.to_standby with disabled := true, standby := false }

/-- The device `adev_low_disabled` after `out_standby` on its HDMI output. -/
def adev_hdmi_gone : audio_device :=
  out_standby routing_h_sample OUTPUT_HDMI adev_low_disabled

/-- The device `adev_fresh` after `adev_set_mode` to IN_CALL. -/
def adev_in_call : audio_device :=
  adev_set_mode routing_h_sample AUDIO_MODE_IN_CALL adev_fresh

/-- The device `adev_in_call` after `adev_set_mode` back to NORMAL. -/
def adev_after_call : audio_device :=
  adev_set_mode routing_h_sample AUDIO_MODE_NORMAL adev_in_call

/-- The device `adev_fresh` after a low-latency output has been opened on the
speaker and, still in standby, been routed to the wired headset by
`out_set_parameters`. -/
def adev_routed : audio_device :=
  out_set_parameters routing_h_sample OUTPUT_LOW_LATENCY (some AUDIO_DEVICE_OUT_WIRED_HEADSET)
    (adev_open_output_stream pcm_config_fast AUDIO_DEVICE_OUT_SPEAKER 0 ⟨0, 0⟩ adev_fresh).adev

/-! ## Specification helpers: the call session -/

/-- The device at the moment `start_call` calls `start_voice_call`, for a
device that is not yet in a call: `in_call` is set, the output device
defaulted, the input source forced and the route selected. -/
def start_call_entry (R : routing_h) (adev : audio_device) : audio_device :=
  let adev := { adev with in_call := true }
  let adev :=
    if adev.out_device = AUDIO_DEVICE_NONE ∧ adev.in_device = AUDIO_DEVICE_NONE then
      { adev with out_device := AUDIO_DEVICE_OUT_EARPIECE }
    else adev
  let adev := { adev with input_source := AUDIO_SOURCE_VOICE_CALL }
  select_devices R adev

/-- The part of `start_call` after the call of `start_voice_call`: the two-mic
control, the call audio path, the call volume and the call clock. -/
def start_call_finish (adev : audio_device) : audio_device :=
  let adev :=
    if adev.out_device = AUDIO_DEVICE_OUT_EARPIECE ∨
       adev.out_device = AUDIO_DEVICE_OUT_SPEAKER then
      { adev with two_mic_control := true }
    else { adev with two_mic_control := false }
  let adev := if adev.two_mic_disabled then { adev with two_mic_control := false } else adev
  let adev := adev.call (.ril_set_two_mic_control adev.two_mic_control)
  let adev := adev_set_call_audio_path adev
  let adev := adev_set_voice_volume adev
  adev.call (.ril_set_call_clock_sync true)

/-- The open of the voice PCM pair fails, as `start_voice_call` tests it,
when the PCM device answers its next `pcm_open` calls with `rs`: the RX handle
is not ready, or the TX handle (the second open) is not ready. -/
def voice_open_fails : List pcm_open_result → Bool
  | .not_ready :: _ => true
  | _ :: .not_ready :: _ => true
  | _ => false

/-- The PCM calls of a `start_voice_call` whose open fails: RX is opened and,
if it is not ready, closed; else TX is opened and both handles are closed. -/
def voice_open_trace (adev : audio_device) : List hw_call :=
  let voice_config := if adev.wb_amr then pcm_config_voice_wide else pcm_config_voice
  let rx := pcm_open PCM_CARD PCM_DEVICE_VOICE false voice_config adev.hw
  let tx := pcm_open PCM_CARD PCM_DEVICE_VOICE true voice_config rx.2
  if pcm_open_failed rx.1 then
    [.pcm_open PCM_CARD PCM_DEVICE_VOICE false voice_config, .pcm_close rx.1]
  else
    [.pcm_open PCM_CARD PCM_DEVICE_VOICE false voice_config,
     .pcm_open PCM_CARD PCM_DEVICE_VOICE true voice_config, .pcm_close tx.1, .pcm_close rx.1]

/-- A fresh device in an outside world whose first `pcm_open` gives a handle
that is not ready. -/
def adev_voice_rx_fails : audio_device :=
  adev_open false false ⟨[], [.not_ready], [], [], []⟩

/-- A fresh device in an outside world whose second `pcm_open` gives a handle
that is not ready. -/
def adev_voice_tx_fails : audio_device :=
  adev_open false false ⟨[], [.ready, .not_ready], [], [], []⟩

/-- The part of `stop_call` after the call of `stop_voice_call`: unless the
mode is IN_CALL the output device and the input source are reset and the
route selected; the device leaves the call state. -/
def stop_call_finish (R : routing_h) (adev : audio_device) : audio_device :=
  let adev :=
    if adev.mode ≠ AUDIO_MODE_IN_CALL then
      let adev :=
        if adev.out_device = AUDIO_DEVICE_NONE ∨
           adev.out_device = AUDIO_DEVICE_OUT_EARPIECE then
          { adev with out_device := AUDIO_DEVICE_OUT_SPEAKER }
        else adev
      let adev := { adev with input_source := AUDIO_SOURCE_DEFAULT }
      select_devices R adev
    else adev
  { adev with in_call := false }

/-- The calls `stop_voice_call` makes: stop and close of each voice handle
that is not `NULL` and, when the aggregated output device contains an SCO
device, stop and close of each SCO handle that is not `NULL`. -/
def stop_voice_trace (adev : audio_device) : List hw_call :=
  (if adev.pcm_voice_rx ≠ none then
     [hw_call.pcm_stop adev.pcm_voice_rx, hw_call.pcm_close adev.pcm_voice_rx] else []) ++
  (if adev.pcm_voice_tx ≠ none then
     [hw_call.pcm_stop adev.pcm_voice_tx, hw_call.pcm_close adev.pcm_voice_tx] else []) ++
  (if adev.out_device &&& AUDIO_DEVICE_OUT_ALL_SCO ≠ 0 then
     (if adev.pcm_sco_rx ≠ none then
        [hw_call.pcm_stop adev.pcm_sco_rx, hw_call.pcm_close adev.pcm_sco_rx] else []) ++
     (if adev.pcm_sco_tx ≠ none then
        [hw_call.pcm_stop adev.pcm_sco_tx, hw_call.pcm_close adev.pcm_sco_tx] else [])
   else [])

/-- A device in a call on a Bluetooth SCO headset: a low-latency output opened
on the SCO headset has been written to, then the mode was set to IN_CALL. -/
def adev_sco_call : audio_device :=
  adev_set_mode routing_h_sample AUDIO_MODE_IN_CALL
    (out_write routing_h_sample OUTPUT_LOW_LATENCY 960
      (adev_open_output_stream pcm_config_fast AUDIO_DEVICE_OUT_BLUETOOTH_SCO_HEADSET 0 ⟨0, 0⟩
        adev_fresh).adev).1

/-- The device `adev_sco_call` after `out_set_parameters` has routed its
output to the speaker, in the middle of the call. -/
def adev_sco_rerouted : audio_device :=
  out_set_parameters routing_h_sample OUTPUT_LOW_LATENCY (some AUDIO_DEVICE_OUT_SPEAKER)
    adev_sco_call

/-- A device with a low-latency output (in standby) on the speaker and the
digital dock headset, in an outside world whose first `pcm_open` succeeds and
whose second gives a handle that is not ready. -/
def adev_dock_spdif_fails : audio_device :=
  (adev_open_output_stream pcm_config_fast
    (AUDIO_DEVICE_OUT_SPEAKER ||| AUDIO_DEVICE_OUT_DGTL_DOCK_HEADSET) 0 ⟨0, 0⟩
    (adev_open false false ⟨[], [.ready, .not_ready], [], [], []⟩)).adev

/-- A device with a low-latency output (in standby) on the speaker, in an
outside world whose first `pcm_open` gives a handle that is not ready. -/
def adev_speaker_card_fails : audio_device :=
  (adev_open_output_stream pcm_config_fast AUDIO_DEVICE_OUT_SPEAKER 0 ⟨0, 0⟩
    (adev_open false false ⟨[], [.not_ready], [], [], []⟩)).adev

/-- The low-latency stream of `adev_dock_spdif_fails` after a
`start_output_stream` whose SPDIF open failed: the primary-card handle is
open, the SPDIF handle is closed, the stream is in standby. -/
def stream_dock_spdif_failed : stream_out :=
  { pcm_card := some ⟨0, 0, false, pcm_config_fast, true, false⟩,
    pcm_card_spdif := some ⟨1, 0, false, pcm_config_fast, false, true⟩,
    config := pcm_config_fast, pcm_device := 0, standby := true, device := 0x1002,
    disabled := false, channel_mask := 3, supported_channel_masks := [3, 0, 0],
    muted := false, written := 0 }

/-- The low-latency stream of `adev_speaker_card_fails` after a
`start_output_stream` whose primary-card open failed: the slot keeps the
closed handle. -/
def stream_speaker_card_failed : stream_out :=
  { pcm_card := some ⟨0, 0, false, pcm_config_fast, false, true⟩, pcm_card_spdif := none,
    config := pcm_config_fast, pcm_device := 0, standby := true, device := 2,
    disabled := false, channel_mask := 3, supported_channel_masks := [3, 0, 0],
    muted := false, written := 0 }

/-! ## Input stream

The capture path: `struct stream_in`, the read-ahead buffer, the resampler
callbacks and the start ramp. Buffers of 16-bit samples are lists of
integers; the capture PCM device and the resampler (a library outside the
HAL) answer from the scripts of `capture_hw`. An input stream is not stored
in `struct audio_device`, so the functions take the stream and the device. -/

@[simp] abbrev AUDIO_CHANNEL_IN_MONO : Nat := 0x10
@[simp] abbrev AUDIO_CHANNEL_IN_STEREO : Nat := 0xC
@[simp] abbrev AUDIO_INPUT_FLAG_FAST : Nat := 0x1
@[simp] abbrev ENODEV : Int := 19
@[simp] abbrev EINVAL : Int := 22
@[simp] abbrev CAPTURE_START_RAMP_MS : Nat := 100
@[simp] abbrev USHRT_MAX : Nat := 65535

/-- The global `pcm_config_in` with its static initialiser. `adev_open`
overwrites its period size when one of the system properties
`audio_hal.period_size` and `audio_hal.in_period_size` is set; the functions
of this section are for a device on which neither is set, the `Thread.*`
functions of the capture path take the period size as an argument. -/
def pcm_config_in : pcm_config := ⟨2, 48000, 320, 2⟩

/-- The global `pcm_config_in_low_latency`; nothing writes to it. -/
def pcm_config_in_low_latency : pcm_config := ⟨2, 48000, 240, 2⟩

/-- The field `config` of `struct stream_in` is a pointer to one of the two
global capture configurations. -/
inductive capture_config where
  | normal
  | low_latency
deriving DecidableEq, Repr

/-- The configuration `in->config` points to, with its static initialiser. -/
def capture_config.deref : capture_config → pcm_config
  | .normal => pcm_config_in
  | .low_latency => pcm_config_in_low_latency

/-- The `struct stream_in` of the source (without the function table, the
mutex, the I/O handle and the back pointer). `resampler` tells whether
`in->resampler` is not `NULL`; `buffer` is the read-ahead buffer `in->buffer`
as a list of 16-bit samples. -/
structure stream_in where
  pcm : Option pcm
  standby : Bool
  requested_rate : Nat
  resampler : Bool
  buffer : List Int
  frames_in : Nat
  read_status : Int
  input_source : Int
  device : Nat
  ramp_vol : Nat
  ramp_step : Nat
  ramp_frames : Nat
  channel_mask : Nat
  flags : Nat
  config : capture_config
deriving DecidableEq, Repr

/-- One answer of the capture PCM device to `pcm_read`: the returned status
and the interleaved samples it delivers. -/
structure pcm_read_result where
  status : Int
  samples : List Int
deriving DecidableEq, Repr

/-- One answer of the resampler to `resample_from_provider`: the frame counts
it asks of `get_next_buffer`, in order, the number of frames it produces and
the samples it writes. -/
structure resample_result where
  pulls : List Nat
  frames : Nat
  samples : List Int
deriving DecidableEq, Repr

/-- The capture hardware and the resampler library: the answers still to
come. When a script is exhausted `pcm_read` returns 0 and delivers silence,
and the resampler produces all the frames asked for without pulling. -/
structure capture_hw where
  pcm_read_results : List pcm_read_result
  resample_results : List resample_result
deriving DecidableEq, Repr

/-- The cast `(int16_t)` of an `int`. -/
def int16 (x : Int) : Int :=
  (x + 32768) % 65536 - 32768

/-- The buffer `dst` after `n` samples of `src`, from index `soff` on, were
copied to index `doff` on (`memcpy` on 16-bit samples). -/
def copy_samples (dst : List Int) (doff : Nat) (src : List Int) (soff n : Nat) : List Int :=
  (List.range dst.length).map
    (fun i => if doff ≤ i ∧ i < doff + n then src.getD (soff + (i - doff)) 0 else dst.getD i 0)

/-- `pcm_read(pcm, data, count)`: the returned status, the buffer `data`
(whose first `count / 2` samples are the captured ones when the status is 0)
and the capture hardware. -/
def pcm_read (data : List Int) (count : Nat) (cap : capture_hw) :
    Int × List Int × capture_hw :=
  match cap.pcm_read_results with
  | [] => (0, copy_samples data 0 [] 0 (count / 2), cap)
  | r :: rest =>
    (r.status,
     if r.status = 0 then copy_samples data 0 r.samples 0 (count / 2) else data,
     { cap with pcm_read_results := rest })

/-- The stereo to mono conversion of `get_next_buffer`, in place: the loop
`for (i = 1; i < frames_in; i++) buffer[i] = buffer[i * 2]`. -/
def stereo_to_mono (buffer : List Int) (frames_in : Nat) : List Int :=
  (List.range' 1 (frames_in - 1)).foldl (fun b i => b.set i (b.getD (i * 2) 0)) buffer

/-- The `struct resampler_buffer` after `get_next_buffer`: `raw` is the
offset of the returned pointer in `in->buffer`, in samples (`none` for
`NULL`). -/
structure resampler_buffer where
  raw : Option Nat
  frame_count : Nat
deriving DecidableEq, Repr

/-- The result of `get_next_buffer`: the stream, the capture hardware, the
buffer descriptor and the returned status. -/
structure next_buffer where
  stream : stream_in
  cap : capture_hw
  buf : resampler_buffer
  ret : Int
deriving DecidableEq, Repr

/-- The end of `get_next_buffer`: the frame count is clipped to the frames
left in the read-ahead buffer and the pointer set to the first of them. -/
def get_next_buffer_clip (s : stream_in) (cap : capture_hw) (frame_count : Nat) : next_buffer :=
  let frame_count := if frame_count > s.frames_in then s.frames_in else frame_count
  ⟨s, cap,
   ⟨some ((s.config.deref.period_size - s.frames_in) * popcount s.channel_mask), frame_count⟩,
   s.read_status⟩

/-- `get_next_buffer`, called with `buffer->frame_count = frame_count` (both
pointer arguments are never `NULL` at its call sites). The channel count of
an input mask is the number of its bits. -/
def get_next_buffer (s : stream_in) (cap : capture_hw) (frame_count : Nat) : next_buffer :=
  match s.pcm with
  | none => ⟨{ s with read_status := -ENODEV }, cap, ⟨none, 0⟩, -ENODEV⟩
  | some _ =>
    if s.frames_in = 0 then
      let r := pcm_read s.buffer (s.config.deref.period_size * s.config.deref.channels * 2) cap
      let s := { s with read_status := r.1 }
      if s.read_status ≠ 0 then ⟨s, r.2.2, ⟨none, 0⟩, s.read_status⟩
      else
        let s := { s with buffer := r.2.1 }
        let s := { s with frames_in := s.config.deref.period_size }
        let s :=
          if s.channel_mask = AUDIO_CHANNEL_IN_MONO then
            { s with buffer := stereo_to_mono s.buffer s.frames_in }
          else s
        get_next_buffer_clip s r.2.2 frame_count
    else get_next_buffer_clip s cap frame_count

/-- `release_buffer` (`frame_count` is never more than `frames_in`). -/
def release_buffer (s : stream_in) (buf : resampler_buffer) : stream_in :=
  { s with frames_in := s.frames_in - buf.frame_count }

/-- The frame size of an input stream in bytes, `audio_stream_in_frame_size`:
the number of channels of the channel mask times two bytes (the format is
always 16-bit PCM). -/
def audio_stream_in_frame_size (s : stream_in) : Nat :=
  popcount s.channel_mask * 2

/-- The calls of `get_next_buffer` and `release_buffer` the resampler makes
during one `resample_from_provider`: one pair per entry of `pulls`, up to the
first `get_next_buffer` that returns no buffer. -/
def resampler_pulls : List Nat → stream_in → capture_hw → stream_in × capture_hw
  | [], s, cap => (s, cap)
  | n :: rest, s, cap =>
    let r := get_next_buffer s cap n
    if r.buf.raw = none then (r.stream, r.cap)
    else resampler_pulls rest (release_buffer r.stream r.buf) r.cap

/-- The state of the loop of `read_frames`: the stream, the capture hardware,
the caller's buffer and the value the function returns. -/
structure read_frames_result where
  stream : stream_in
  cap : capture_hw
  buffer : List Int
  ret : Int
deriving DecidableEq, Repr

/-- One turn of the loop body of `read_frames` up to the test of
`read_status`: the stream, the capture hardware, the caller's buffer and
`frames_rd`. -/
def read_frames_step (s : stream_in) (cap : capture_hw) (buffer : List Int)
    (frames_wr frames_rd : Nat) : stream_in × capture_hw × List Int × Nat :=
  let channels := audio_stream_in_frame_size s / 2
  if s.resampler then
    let r : resample_result × capture_hw :=
      match cap.resample_results with
      | [] => (⟨[], frames_rd, []⟩, cap)
      | r :: rest => (r, { cap with resample_results := rest })
    let p := resampler_pulls r.1.pulls s r.2
    let frames_rd := if r.1.frames < frames_rd then r.1.frames else frames_rd
    (p.1, p.2, copy_samples buffer (frames_wr * channels) r.1.samples 0 (frames_rd * channels),
     frames_rd)
  else
    let r := get_next_buffer s cap frames_rd
    match r.buf.raw with
    | some raw =>
      (release_buffer r.stream r.buf, r.cap,
       copy_samples buffer (frames_wr * channels) r.stream.buffer raw
         (r.buf.frame_count * channels),
       r.buf.frame_count)
    | none => (release_buffer r.stream r.buf, r.cap, buffer, frames_rd)

/-- The loop `while (frames_wr < frames)` of `read_frames`; `fuel` bounds the
number of turns. -/
def read_frames_loop : Nat → stream_in → capture_hw → List Int → Nat → Nat → read_frames_result
  | 0, s, cap, buffer, _, frames_wr => ⟨s, cap, buffer, frames_wr⟩
  | fuel + 1, s, cap, buffer, frames, frames_wr =>
    if frames_wr < frames then
      let r := read_frames_step s cap buffer frames_wr (frames - frames_wr)
      if r.1.read_status ≠ 0 then ⟨r.1, r.2.1, r.2.2.1, r.1.read_status⟩
      else read_frames_loop fuel r.1 r.2.1 r.2.2.1 frames (frames_wr + r.2.2.2)
    else ⟨s, cap, buffer, frames_wr⟩

/-- `read_frames`. Every turn of its loop either returns, or produces at
least one frame, or uses up one answer of the resampler, so the loop makes at
most `frames` turns plus one per scripted answer of the resampler. -/
def read_frames (s : stream_in) (cap : capture_hw) (buffer : List Int) (frames : Nat) :
    read_frames_result :=
  read_frames_loop (cap.resample_results.length + frames) s cap buffer frames 0

/-- `start_input_stream`: the stream, the device and the returned status.
The product `CAPTURE_START_RAMP_MS * in->requested_rate` is an `unsigned
int`; the quotient `USHRT_MAX / in->ramp_frames` is cast to `uint16_t`. C
leaves a division by zero undefined; the ARMv8 `udiv` instruction of the
target yields 0, which is also the value of the division used here. The
division as one that does not return on a zero divisor is in
`Thread.start_input_stream`. -/
def start_input_stream (R : routing_h) (s : stream_in) (adev : audio_device) :
    stream_in × audio_device × Int :=
  let p := pcm_open PCM_CARD PCM_DEVICE true s.config.deref adev.hw
  let s := { s with pcm := p.1 }
  let adev := { adev with hw := p.2 }
  if pcm_open_failed s.pcm then
    ({ s with pcm := pcm_closed s.pcm }, adev.call (.pcm_close s.pcm), -ENOMEM)
  else
    let s := { s with frames_in := 0 }
    let adev :=
      if adev.in_call = false then
        select_devices R { adev with
          input_source := s.input_source, in_device := s.device,
          in_channel_mask := s.channel_mask }
      else adev
    let s := { s with ramp_frames := (CAPTURE_START_RAMP_MS * s.requested_rate) % 2 ^ 32 / 1000 }
    let s := { s with ramp_step := (USHRT_MAX / s.ramp_frames) % 2 ^ 16 }
    let s := { s with ramp_vol := 0 }
    (s, adev, 0)

/-- One frame of the ramp loop for a mono buffer. -/
def ramp_frame_mono (step : Nat) (st : List Int × Nat) (i : Nat) : List Int × Nat :=
  (st.1.set i (int16 ((st.1.getD i 0 * st.2) >>> 16)), (st.2 + step) % 2 ^ 16)

/-- One frame of the ramp loop for a stereo buffer. -/
def ramp_frame_stereo (step : Nat) (st : List Int × Nat) (i : Nat) : List Int × Nat :=
  let b := st.1.set (2 * i) (int16 ((st.1.getD (2 * i) 0 * st.2) >>> 16))
  let b := b.set (2 * i + 1) (int16 ((b.getD (2 * i + 1) 0 * st.2) >>> 16))
  (b, (st.2 + step) % 2 ^ 16)

/-- `in_apply_ramp`: the stream and the buffer. The volume `vol` is a
`uint16_t`. -/
def in_apply_ramp (s : stream_in) (buffer : List Int) (frames : Nat) : stream_in × List Int :=
  let frames := if frames < s.ramp_frames then frames else s.ramp_frames
  let r : List Int × Nat :=
    if s.channel_mask = AUDIO_CHANNEL_IN_MONO then
      (List.range frames).foldl (ramp_frame_mono s.ramp_step) (buffer, s.ramp_vol)
    else
      (List.range frames).foldl (ramp_frame_stereo s.ramp_step) (buffer, s.ramp_vol)
  ({ s with ramp_vol := r.2, ramp_frames := s.ramp_frames - frames }, r.1)

/-- The standby block at the top of `in_read`: a stream in standby is started
and, unless the start failed, leaves standby. -/
def in_read_start (R : routing_h) (s : stream_in) (adev : audio_device) :
    stream_in × audio_device × Int :=
  if s.standby then
    let r := start_input_stream R s adev
    if r.2.2 < 0 then r else ({ r.1 with standby := false }, r.2.1, r.2.2)
  else (s, adev, 0)

/-- The ramp step of `in_read`: `if (in->ramp_frames > 0) in_apply_ramp(...)`. -/
def in_read_ramp (s : stream_in) (buffer : List Int) (frames_rq : Nat) : stream_in × List Int :=
  if s.ramp_frames > 0 then in_apply_ramp s buffer frames_rq else (s, buffer)

/-- The result of `in_read`: the stream, the device, the capture hardware,
the caller's buffer and the returned byte count. -/
structure in_read_result where
  stream : stream_in
  adev : audio_device
  cap : capture_hw
  buffer : List Int
  bytes : Nat
deriving DecidableEq, Repr

/-- `in_read`, with total divisions, the static period size and the byte
count `bytes` of the `return` statement; `buffer` is the caller's buffer as
16-bit samples, zeroed as a whole when the microphone is muted. The call with
its faulting divisions, its `ssize_t` return value and `memset` over `bytes`
is `Thread.in_read`. -/
def in_read (R : routing_h) (s : stream_in) (adev : audio_device) (cap : capture_hw)
    (buffer : List Int) (bytes : Nat) : in_read_result :=
  let frames_rq := bytes / audio_stream_in_frame_size s
  let usec := bytes * 1000000 / audio_stream_in_frame_size s / s.requested_rate
  let st := in_read_start R s adev
  if st.2.2 < 0 then ⟨st.1, st.2.1.call (.usleep usec), cap, buffer, bytes⟩
  else
    let rf := read_frames st.1 cap buffer frames_rq
    let ret : Int := if rf.ret > 0 then 0 else rf.ret
    let rp := in_read_ramp rf.stream rf.buffer frames_rq
    let buffer := if ret = 0 ∧ st.2.1.mic_mute then rp.2.map (fun _ => 0) else rp.2
    let adev := if ret < 0 then st.2.1.call (.usleep usec) else st.2.1
    ⟨rp.1, adev, rf.cap, buffer, bytes⟩

/-- The stream `adev_open_input_stream` builds for a stereo request, before
it creates the resampler: in standby, with a read-ahead buffer of
`period_size * channels * frame_size` bytes. -/
def stream_in_new (devices : Nat) (config : audio_config) (flags : Nat) : stream_in :=
  let pcm_config : capture_config :=
    if flags &&& AUDIO_INPUT_FLAG_FAST ≠ 0 then .low_latency else .normal
  { pcm := none, standby := true, requested_rate := config.sample_rate, resampler := false,
    buffer := List.replicate
      (pcm_config.deref.period_size * pcm_config.deref.channels *
        (popcount config.channel_mask * 2) / 2) 0,
    frames_in := 0, read_status := 0, input_source := AUDIO_SOURCE_DEFAULT,
    device := devices &&& 0x7FFFFFFF, ramp_vol := 0, ramp_step := 0, ramp_frames := 0,
    channel_mask := config.channel_mask, flags := flags, config := pcm_config }

/-- `adev_open_input_stream`: the stream handed to the caller (`none` for
`*stream_in = NULL`), the returned status and the caller's `config`.
`create_resampler_ret` is the status `create_resampler` returns when it is
called; the allocations are taken to succeed. -/
def adev_open_input_stream (devices : Nat) (config : audio_config) (flags : Nat)
    (create_resampler_ret : Int) : Option stream_in × Int × audio_config :=
  if config.channel_mask ≠ AUDIO_CHANNEL_IN_STEREO then
    (none, -EINVAL, { config with channel_mask := AUDIO_CHANNEL_IN_STEREO })
  else
    let s := stream_in_new devices config flags
    if s.requested_rate ≠ s.config.deref.rate then
      if create_resampler_ret ≠ 0 then (none, -EINVAL, config)
      else (some { s with resampler := true }, 0, config)
    else (some s, 0, config)

/-- `get_input_buffer_size`. `size_bits` is the width of `size_t` (32 or 64
on the ARM targets) and `audio_bytes_per_sample` the function of that name of
`system/audio.h`; the product `config->period_size * sample_rate` is an
`unsigned int`, the rest of the computation is on `size_t`. -/
def get_input_buffer_size (size_bits : Nat) (audio_bytes_per_sample : Nat → Nat)
    (sample_rate format channel_count : Nat) (is_low_latency : Bool) : Nat :=
  let config := if is_low_latency then pcm_config_in_low_latency else pcm_config_in
  let size := (config.period_size * sample_rate) % 2 ^ 32 / config.rate % 2 ^ size_bits
  let size := (size + 15) % 2 ^ size_bits / 16 * 16 % 2 ^ size_bits
  size * channel_count * audio_bytes_per_sample format % 2 ^ size_bits

/-- `adev_get_input_buffer_size`; `format` is the field of that name of
`struct audio_config`. -/
def adev_get_input_buffer_size (size_bits : Nat) (audio_bytes_per_sample : Nat → Nat)
    (config : audio_config) (format : Nat) : Nat :=
  get_input_buffer_size size_bits audio_bytes_per_sample config.sample_rate format
    (popcount config.channel_mask) false

/-- `out_set_sample_rate`: the stream and the returned status. -/
def out_set_sample_rate (out : stream_out) (_rate : Nat) : stream_out × Int :=
  (out, -ENOSYS)

/-- `out_set_format`: the stream and the returned status. -/
def out_set_format (out : stream_out) (_format : Nat) : stream_out × Int :=
  (out, -ENOSYS)

/-- `in_set_sample_rate`: the stream and the returned status. -/
def in_set_sample_rate (s : stream_in) (_rate : Nat) : stream_in × Int :=
  (s, 0)

/-- `in_set_format`: the stream and the returned status. -/
def in_set_format (s : stream_in) (_format : Nat) : stream_in × Int :=
  (s, -ENOSYS)

/-! ## Specification helpers: the capture ramp -/

/-- A sample scaled by `gain / 65536`, as the ramp loop computes it. -/
def ramp_scale (x : Int) (gain : Nat) : Int :=
  int16 ((x * gain) >>> 16)

/-- The gain of the `k`-th frame of a ramp of `ramp_frames` frames. -/
def ramp_gain (ramp_frames k : Nat) : Nat :=
  k * (USHRT_MAX / ramp_frames)

/-- The frame count the statement of the input buffer size names: the
smallest multiple of 16 that is at least `period_size * sample_rate / 48000`. -/
def input_buffer_frames (period_size sample_rate : Nat) : Nat :=
  (period_size * sample_rate / 48000 + 15) / 16 * 16

/-- A run of reads, seen from the ramp: each read hands its buffer and its
frame count to the ramp step of `in_read`. The result is the stream and the
buffers after the ramp step. -/
def ramp_reads : stream_in → List (List Int × Nat) → stream_in × List (List Int)
  | s, [] => (s, [])
  | s, (buffer, frames_rq) :: rest =>
    let r := in_read_ramp s buffer frames_rq
    let rr := ramp_reads r.1 rest
    (rr.1, r.2 :: rr.2)

/-- The number of frames of the first `j` reads of a run. -/
def frames_before (reads : List (List Int × Nat)) (j : Nat) : Nat :=
  ((reads.take j).map Prod.snd).sum

/-- A stereo input stream opened at 48000 Hz on the built-in microphone. -/
def stream_in_48k : stream_in :=
  stream_in_new 0x80000004 ⟨48000, AUDIO_CHANNEL_IN_STEREO⟩ 0

/-- A stereo input stream opened at 42949773 Hz, a rate whose product with
`CAPTURE_START_RAMP_MS` does not fit an `unsigned int`. -/
def stream_in_wrap : stream_in :=
  { stream_in_new 0x80000004 ⟨42949773, AUDIO_CHANNEL_IN_STEREO⟩ 0 with resampler := true }

/-- An input stream with mono channel mask, its PCM open and its read-ahead
buffer empty. -/
def stream_in_mono : stream_in :=
  { stream_in_48k with
    pcm := some ⟨0, 0, true, pcm_config_in, true, false⟩, standby := false,
    channel_mask := AUDIO_CHANNEL_IN_MONO }

/-- A capture device whose next period holds the samples 0, 1, 2, ... -/
def capture_counting : capture_hw :=
  ⟨[⟨0, (List.range 640).map Int.ofNat⟩], []⟩

/-! ## Specification helpers: the frames-written counter -/

/-- The stream of a slot is still there with the counter `written` and the
configuration it had. -/
def same_counter (x y : Option stream_out) : Prop :=
  ∀ out, x = some out →
    ∃ out', y = some out' ∧ out'.written = out.written ∧ out'.config = out.config

/-- Every open stream is still open with the counter `written` and the
configuration it had. -/
def keeps_counters (o o' : outputs_t) : Prop :=
  ∀ t, same_counter (o.get t) (o'.get t)

/-- The byte count of a write on stream `t` that reaches the end of the
write loop with status 0: the only operation that adds to the counter of
that stream. -/
def hal_op.counted_bytes (R : routing_h) (t : output_type) (a : audio_device) :
    hal_op → Option Nat
  | .write u bytes =>
    if u = t ∧ (out_write_status R u bytes a).2 = 0 then some bytes else none
  | _ => none

/-- A low-latency stream on the speaker after four writes of 2^64 - 4 bytes
each, all of them successful: the counter stands at 2^64 - 4 frames. -/
def adev_written_high : audio_device :=
  (out_write routing_h_sample OUTPUT_LOW_LATENCY (2 ^ 64 - 4)
    (out_write routing_h_sample OUTPUT_LOW_LATENCY (2 ^ 64 - 4)
      (out_write routing_h_sample OUTPUT_LOW_LATENCY (2 ^ 64 - 4)
        (out_write routing_h_sample OUTPUT_LOW_LATENCY (2 ^ 64 - 4)
          (adev_open_output_stream pcm_config_fast AUDIO_DEVICE_OUT_SPEAKER 0 ⟨48000, 0⟩
            (adev_open false false hw_quiet)).adev).1).1).1).1

/-! ## Specification helpers: the route identifier and the table lookups -/

/-- The enumerators of the output-device enumeration of `routing.h`, the one
for "no device" included. -/
def routing_h.out_ids (R : routing_h) : List Nat :=
  [R.OUT_DEVICE_SPEAKER, R.OUT_DEVICE_EARPIECE, R.OUT_DEVICE_HEADSET,
   R.OUT_DEVICE_HEADPHONES, R.OUT_DEVICE_BT_SCO, R.OUT_DEVICE_BT_SCO_HEADSET_OUT,
   R.OUT_DEVICE_BT_SCO_CARKIT, R.OUT_DEVICE_SPEAKER_AND_HEADSET,
   R.OUT_DEVICE_SPEAKER_AND_EARPIECE, R.OUT_DEVICE_NONE]

/-- The output-device enumerators that name a column of the route table:
all but `OUT_DEVICE_NONE`. -/
def routing_h.out_table_ids (R : routing_h) : List Nat :=
  [R.OUT_DEVICE_SPEAKER, R.OUT_DEVICE_EARPIECE, R.OUT_DEVICE_HEADSET,
   R.OUT_DEVICE_HEADPHONES, R.OUT_DEVICE_BT_SCO, R.OUT_DEVICE_BT_SCO_HEADSET_OUT,
   R.OUT_DEVICE_BT_SCO_CARKIT, R.OUT_DEVICE_SPEAKER_AND_HEADSET,
   R.OUT_DEVICE_SPEAKER_AND_EARPIECE]

/-- The input-source enumerators that name a row of the route table: all but
`IN_SOURCE_NONE`. -/
def routing_h.in_table_ids (R : routing_h) : List Nat :=
  [R.IN_SOURCE_MIC, R.IN_SOURCE_CAMCORDER, R.IN_SOURCE_VOICE_RECOGNITION,
   R.IN_SOURCE_VOICE_COMMUNICATION, R.IN_SOURCE_VOICE_CALL, R.IN_SOURCE_VOICE_CALL_WB]

/-- Every enumerator of the output-device enumeration is below its last
one, `OUT_DEVICE_CNT` (as the enumerators of a C `enum` that ends in its
count are). -/
def routing_h.out_ids_below_cnt (R : routing_h) : Prop :=
  ∀ x ∈ R.out_ids, x < R.OUT_DEVICE_CNT

instance (R : routing_h) : Decidable R.out_ids_below_cnt := by
  unfold routing_h.out_ids_below_cnt; infer_instance

/-- The enumerators of the input-source enumeration that name a row of the
table differ from `IN_SOURCE_NONE`, and the two voice-call rows differ. -/
def routing_h.in_ids_distinct (R : routing_h) : Prop :=
  (∀ x ∈ R.in_table_ids, x ≠ R.IN_SOURCE_NONE) ∧
    R.IN_SOURCE_VOICE_CALL ≠ R.IN_SOURCE_VOICE_CALL_WB

instance (R : routing_h) : Decidable R.in_ids_distinct := by
  unfold routing_h.in_ids_distinct; infer_instance

/-- The output ordinal `select_devices` puts in place of `OUT_DEVICE_NONE`
when an input source is active: the `switch (adev->in_device)` of its
input-only branch. -/
def implied_output_device_id (R : routing_h) (adev : audio_device) : Nat :=
  if adev.in_device = AUDIO_DEVICE_IN_WIRED_HEADSET_bits then R.OUT_DEVICE_HEADSET
  else if adev.in_device = AUDIO_DEVICE_IN_BLUETOOTH_SCO_HEADSET_bits then
    R.OUT_DEVICE_BT_SCO_HEADSET_OUT
  else if adev.input_source = AUDIO_SOURCE_VOICE_CALL then R.OUT_DEVICE_EARPIECE
  else R.OUT_DEVICE_SPEAKER

/-- The index pairs `[input_source_id][output_device_id]` at which
`select_devices` reads the table `route_configs` once it has found the route
identifier changed: the pair the output route is read from and the pair the
input route is read from (`none` where the branch taken reads no entry). -/
def route_lookups (R : routing_h) (input_source_id output_device_id : Nat)
    (adev : audio_device) : Option (Nat × Nat) × Option (Nat × Nat) :=
  if input_source_id ≠ R.IN_SOURCE_NONE then
    if output_device_id ≠ R.OUT_DEVICE_NONE then
      (some (input_source_id, output_device_id), some (input_source_id, output_device_id))
    else
      let output_device_id :=
        if adev.in_device = AUDIO_DEVICE_IN_WIRED_HEADSET_bits then R.OUT_DEVICE_HEADSET
        else if adev.in_device = AUDIO_DEVICE_IN_BLUETOOTH_SCO_HEADSET_bits then
          R.OUT_DEVICE_BT_SCO_HEADSET_OUT
        else if adev.input_source = AUDIO_SOURCE_VOICE_CALL then R.OUT_DEVICE_EARPIECE
        else R.OUT_DEVICE_SPEAKER
      (none, some (input_source_id, output_device_id))
  else
    if output_device_id ≠ R.OUT_DEVICE_NONE then
      (some (R.IN_SOURCE_MIC, output_device_id), none)
    else (none, none)

/-- A device with the communication source active on the wired headset
microphone and no output device. -/
def adev_headset_mic : audio_device :=
  { adev_fresh with input_source := AUDIO_SOURCE_VOICE_COMMUNICATION,
                    in_device := AUDIO_DEVICE_IN_WIRED_HEADSET_bits }

/-- The device `adev_routed` at the moment a stream start has added the
speaker to its aggregated output mask: the cached route identifier is that of
the wired headset. -/
def adev_routed_back : audio_device :=
  { adev_routed with out_device := AUDIO_DEVICE_OUT_SPEAKER }

/-- A stereo input stream opened at 42949673 Hz, a rate above 10 whose
product with `CAPTURE_START_RAMP_MS` wraps to 4 in an `unsigned int`. -/
def stream_in_zero_ramp : stream_in :=
  { stream_in_new 0x80000004 ⟨42949673, AUDIO_CHANNEL_IN_STEREO⟩ 0 with resampler := true }

/-! ## Input stream: standby and parameters -/

/-- The constant of `system/audio.h`, with `AUDIO_DEVICE_BIT_IN`. -/
@[simp] abbrev AUDIO_DEVICE_IN_BLUETOOTH_SCO_HEADSET : Nat := 0x80000008

/-- `do_in_standby`: the stream and the device. -/
def do_in_standby (R : routing_h) (s : stream_in) (adev : audio_device) :
    stream_in × audio_device :=
  if s.standby = false then
    let adev := adev.call (.pcm_close s.pcm)
    let s := { s with pcm := none }
    let adev :=
      if adev.mode ≠ AUDIO_MODE_IN_CALL then
        select_devices R { adev with
          input_source := AUDIO_SOURCE_DEFAULT, in_device := AUDIO_DEVICE_NONE,
          in_channel_mask := 0 }
      else adev
    ({ s with standby := true }, adev)
  else (s, adev)

/-- `in_standby` (always returns 0). -/
def in_standby (R : routing_h) (s : stream_in) (adev : audio_device) :
    stream_in × audio_device :=
  do_in_standby R s adev

/-- `in_set_parameters`: `input_source` and `routing` are the values of the
keys of these names in the key/value string (`none` when the key is absent),
already converted by `atoi` to `unsigned int`. The returned status of the
string lookup is not part of the embedding. -/
def in_set_parameters (R : routing_h) (s : stream_in) (adev : audio_device)
    (input_source routing : Option Nat) : stream_in × audio_device :=
  let apply_now := false
  let r1 : stream_in × Bool :=
    match input_source with
    | some val =>
      if s.input_source ≠ (val : Int) ∧ val ≠ 0 then
        ({ s with input_source := (val : Int) }, !s.standby)
      else (s, apply_now)
    | none => (s, apply_now)
  let r2 : stream_in × audio_device × Bool :=
    match routing with
    | some value =>
      let val := value &&& 0x7FFFFFFF
      if r1.1.device ≠ val ∧ val ≠ 0 then
        let st :=
          if ((val &&& AUDIO_DEVICE_IN_BLUETOOTH_SCO_HEADSET) ^^^
              (r1.1.device &&& AUDIO_DEVICE_IN_BLUETOOTH_SCO_HEADSET)) ≠ 0 then
            do_in_standby R r1.1 adev
          else (r1.1, adev)
        ({ st.1 with device := val }, st.2, !st.1.standby)
      else (r1.1, adev, r1.2)
    | none => (r1.1, adev, r1.2)
  if r2.2.2 then
    (r2.1, select_devices R { r2.2.1 with
      input_source := r2.1.input_source, in_device := r2.1.device })
  else (r2.1, r2.2.1)

/-! ## Specification helpers: the call flag and the mode -/

/-- One public operation on the device, on an output or on an input stream.
The input-stream operations carry the stream they are called on; an
operation is considered for every state of that stream. -/
inductive device_op where
  | output (op : hal_op)
  | in_read (s : stream_in) (cap : capture_hw) (buffer : List Int) (bytes : Nat)
  | in_standby (s : stream_in)
  | in_set_parameters (s : stream_in) (input_source routing : Option Nat)

/-- The device after one public operation. -/
def device_op.apply (R : routing_h) : device_op → audio_device → audio_device
  | .output op, a => op.apply R a
  | .in_read s cap buffer bytes, a => (AudioHw.in_read R s a cap buffer bytes).adev
  | .in_standby s, a => (AudioHw.in_standby R s a).2
  | .in_set_parameters s input_source routing, a =>
    (AudioHw.in_set_parameters R s a input_source routing).2

/-- The states reachable from a freshly opened device through the public
operations on the device, on its output streams and on input streams. -/
inductive reachable_dev (R : routing_h) : audio_device → Prop where
  | init (force_wideband disable_two_mic : Bool) (hw : hw_world) :
      reachable_dev R (adev_open force_wideband disable_two_mic hw)
  | step (op : device_op) (a : audio_device) :
      reachable_dev R a → reachable_dev R (op.apply R a)


/-! ## Specification helpers: the wideband notification -/

/-- The PCM device answers the next two `pcm_open` calls with ready handles
(an exhausted script answers with a ready handle). -/
def voice_open_ready : List pcm_open_result → Bool
  | [] => true
  | [.ready] => true
  | .ready :: .ready :: _ => true
  | _ => false

/-- The device `adev_in_call` after a capture stream opened at 48000 Hz has
been started by a first `in_read` (of no bytes). -/
def adev_call_capture : audio_device :=
  (in_read routing_h_sample stream_in_48k adev_in_call ⟨[], []⟩ [] 0).adev

/-- The capture stream of `adev_call_capture`, started. -/
def stream_in_call : stream_in :=
  (in_read routing_h_sample stream_in_48k adev_in_call ⟨[], []⟩ [] 0).stream

/-- The device `adev_call_capture` after `in_set_parameters` has set the input
source of the running capture stream to the microphone: the device is in a
call with the input source MIC, and its cached route identifier is current. -/
def adev_call_mic : audio_device :=
  (in_set_parameters routing_h_sample stream_in_call adev_call_capture (some 1) none).2

/-! ## Mutexes of the output-stream operations

The calls of `pthread_mutex_lock` and `pthread_mutex_unlock` an operation
makes are embedded as the list of lock events of one call of the operation,
in the order in which it makes them. The mutexes are never initialised with
attributes, so they are plain (non-recursive) mutexes. -/

/-- The mutexes the output-stream operations take: `adev->lock_outputs`, the
`lock` of the stream in slot `t` of `adev->outputs`, and `adev->lock`. -/
inductive mutex where
  | lock_outputs
  | out (t : output_type)
  | dev
deriving DecidableEq, Repr

/-- One call of `pthread_mutex_lock` (`acquire`) or `pthread_mutex_unlock`
(`release`). -/
inductive lock_event where
  | acquire (m : mutex)
  | release (m : mutex)
deriving DecidableEq, Repr

/-- `lock_all_outputs`. -/
def lock_all_outputs (o : outputs_t) : List lock_event :=
  [lock_event.acquire .lock_outputs] ++
  [OUTPUT_DEEP_BUF, OUTPUT_LOW_LATENCY, OUTPUT_HDMI].flatMap
    (fun type => if (o.get type).isSome then [lock_event.acquire (.out type)] else []) ++
  [lock_event.acquire .dev]

/-- `unlock_all_outputs(adev, except)`; `except` is the slot of the stream
that stays locked, `none` for `NULL`. -/
def unlock_all_outputs (o : outputs_t) (except : Option output_type) : List lock_event :=
  [lock_event.release .dev] ++
  [OUTPUT_HDMI, OUTPUT_LOW_LATENCY, OUTPUT_DEEP_BUF].flatMap
    (fun type =>
      if (o.get type).isSome ∧ some type ≠ except then [lock_event.release (.out type)]
      else []) ++
  [lock_event.release .lock_outputs]

/-- The lock events of `force_non_hdmi_out_standby`: every open stream other
than the HDMI stream is locked around its `do_out_standby` (which, for such a
stream, takes no lock itself). -/
def force_non_hdmi_out_standby_locks (o : outputs_t) : List lock_event :=
  [OUTPUT_DEEP_BUF, OUTPUT_LOW_LATENCY, OUTPUT_HDMI].flatMap
    (fun type =>
      if type = OUTPUT_HDMI ∨ (o.get type).isSome = false then []
      else [lock_event.acquire (.out type), lock_event.release (.out type)])

/-- The lock events of `do_out_standby`: those of
`force_non_hdmi_out_standby`, which it calls for the HDMI stream when that
stream is not in standby. -/
def do_out_standby_locks (t : output_type) (adev : audio_device) : List lock_event :=
  match adev.outputs.get t with
  | none => []
  | some out =>
    if out.standby = false ∧ t = OUTPUT_HDMI then force_non_hdmi_out_standby_locks adev.outputs
    else []

/-- The lock events of `start_output_stream`: those of
`force_non_hdmi_out_standby`, which it calls for the HDMI stream. -/
def start_output_stream_locks (t : output_type) (adev : audio_device) : List lock_event :=
  if t = OUTPUT_HDMI then force_non_hdmi_out_standby_locks adev.outputs else []

/-- The lock events of `out_standby`. -/
def out_standby_locks (t : output_type) (adev : audio_device) : List lock_event :=
  match adev.outputs.get t with
  | none => []
  | some _ =>
    lock_all_outputs adev.outputs ++ do_out_standby_locks t adev ++
      unlock_all_outputs adev.outputs none

/-- The lock events of `out_write`. `raced` tells whether the second test of
`out->standby`, made after `lock_all_outputs`, finds the stream started by
another thread in the meantime (the jump to `false_alarm`). -/
def out_write_locks (R : routing_h) (t : output_type) (raced : Bool) (adev : audio_device) :
    List lock_event :=
  match adev.outputs.get t with
  | none => []
  | some out =>
    [lock_event.acquire (.out t)] ++
    (if out.standby then
      [lock_event.release (.out t)] ++ lock_all_outputs adev.outputs ++
      (if raced then
        unlock_all_outputs adev.outputs (some t) ++ [lock_event.release (.out t)]
       else
        start_output_stream_locks t adev ++
        (if (start_output_stream R t adev).2 < 0 then unlock_all_outputs adev.outputs none
         else unlock_all_outputs adev.outputs (some t) ++ [lock_event.release (.out t)]))
     else [lock_event.release (.out t)])

/-- The lock events of `out_set_parameters`. -/
def out_set_parameters_locks (R : routing_h) (t : output_type) (routing : Option Nat)
    (adev : audio_device) : List lock_event :=
  match routing, adev.outputs.get t with
  | some val, some out =>
    lock_all_outputs adev.outputs ++
    (if out.device ≠ val ∧ val ≠ 0 then
      let first :=
        ((val &&& AUDIO_DEVICE_OUT_DGTL_DOCK_HEADSET) ^^^
          (adev.out_device &&& AUDIO_DEVICE_OUT_DGTL_DOCK_HEADSET)) ≠ 0 ∨
        (adev.out_device &&& AUDIO_DEVICE_OUT_DGTL_DOCK_HEADSET) ≠ 0
      let adev1 := if first then do_out_standby R t adev else adev
      (if first then do_out_standby_locks t adev else []) ++
      (if ((val &&& AUDIO_DEVICE_OUT_ALL_SCO) ^^^ (out.device &&& AUDIO_DEVICE_OUT_ALL_SCO)) ≠ 0
        then do_out_standby_locks t adev1 else [])
     else []) ++
    unlock_all_outputs adev.outputs none
  | _, _ => []

/-! ## Specification helpers: the lock order -/

/-- The place of a mutex in the documented global order: outputs-list lock,
then the output-stream locks in stream-kind order, then the device lock. -/
def mutex.rank : mutex → Nat
  | .lock_outputs => 0
  | .out OUTPUT_DEEP_BUF => 1
  | .out OUTPUT_LOW_LATENCY => 2
  | .out OUTPUT_HDMI => 3
  | .dev => 4

/-- A thread that holds the mutexes `held` and goes on with the lock events
`tr` respects the global order: it acquires a mutex only while every mutex it
holds comes earlier in the order (so never one it already holds), releases
only mutexes it holds, and holds none at the end. -/
def lock_ordered_from : List mutex → List lock_event → Bool
  | held, [] => held.isEmpty
  | held, .acquire m :: rest =>
    held.all (fun h => decide (h.rank < m.rank)) && lock_ordered_from (m :: held) rest
  | held, .release m :: rest => held.contains m && lock_ordered_from (held.erase m) rest

/-- The lock events `tr` of a call respect the global order. -/
def lock_ordered (tr : List lock_event) : Bool :=
  lock_ordered_from [] tr

/-- The first event at which a thread going through `tr` leaves the global
order, with the mutexes it holds at that moment. -/
def first_violation : List mutex → List lock_event → Option (lock_event × List mutex)
  | _, [] => none
  | held, .acquire m :: rest =>
    if held.all (fun h => decide (h.rank < m.rank)) then first_violation (m :: held) rest
    else some (.acquire m, held)
  | held, .release m :: rest =>
    if held.contains m then first_violation (held.erase m) rest
    else some (.release m, held)

/-- One call of an output-stream operation, as far as its lock events go. -/
inductive out_call where
  | standby (t : output_type)
  | write (t : output_type) (raced : Bool)
  | set_parameters (t : output_type) (routing : Option Nat)
deriving DecidableEq, Repr

/-- The lock events of the call, made in the device state `adev`. -/
def out_call.locks (R : routing_h) (adev : audio_device) : out_call → List lock_event
  | .standby t => out_standby_locks t adev
  | .write t raced => out_write_locks R t raced adev
  | .set_parameters t routing => out_set_parameters_locks R t routing adev

/-- The lock events of a thread that makes the calls `calls` one after the
other, each in the device state it finds. -/
def thread_locks (R : routing_h) (calls : List (out_call × audio_device)) : List lock_event :=
  calls.flatMap (fun c => c.1.locks R c.2)

/-- A thread in a concurrent run: the mutexes it holds and the lock events
it still has to make. -/
structure lock_thread where
  held : List mutex
  rest : List lock_event
deriving DecidableEq, Repr

/-- No thread holds the mutex `m`. -/
def lock_free (cfg : List lock_thread) (m : mutex) : Bool :=
  cfg.all (fun th => !th.held.contains m)

/-- One step of thread `k`: its next lock event, with the behaviour of a
plain mutex. An `acquire` of a mutex that some thread holds, the acquiring
thread included, blocks (`none`), as does a thread with no event left. -/
def lock_step (k : Nat) (cfg : List lock_thread) : Option (List lock_thread) :=
  match cfg[k]? with
  | none => none
  | some th =>
    match th.rest with
    | [] => none
    | .acquire m :: rest =>
      if lock_free cfg m then some (cfg.set k ⟨m :: th.held, rest⟩) else none
    | .release m :: rest => some (cfg.set k ⟨th.held.erase m, rest⟩)

/-- The run that the schedule `sched` (the thread to step next, one after the
other) drives; `none` when a scheduled thread cannot step. -/
def lock_run : List Nat → List lock_thread → Option (List lock_thread)
  | [], cfg => some cfg
  | k :: ks, cfg => (lock_step k cfg).bind (lock_run ks)

/-- Every thread has made all of its lock events. -/
def lock_finished (cfg : List lock_thread) : Bool :=
  cfg.all (fun th => th.rest.isEmpty)

/-- The lock events all threads together still have to make. -/
def lock_remaining (cfg : List lock_thread) : Nat :=
  (cfg.map (fun th => th.rest.length)).sum

/-- The start of a concurrent run: no thread holds a mutex. -/
def lock_start (programs : List (List lock_event)) : List lock_thread :=
  programs.map (fun p => ⟨[], p⟩)


/-- The stream an output-stream call is made on. -/
def out_call.stream : out_call → output_type
  | .standby t => t
  | .write t _ => t
  | .set_parameters t _ => t

/-- A device on which the HDMI output was opened and written to, and then a
low-latency output opened: the HDMI stream is active, the low-latency stream
is open and in standby. -/
def adev_hdmi_then_low : audio_device :=
  (adev_open_output_stream pcm_config_fast AUDIO_DEVICE_OUT_SPEAKER 0 ⟨0, 0⟩
    (out_write routing_h_sample OUTPUT_HDMI 960
      (adev_open_output_stream pcm_config_fast AUDIO_DEVICE_OUT_AUX_DIGITAL
        AUDIO_OUTPUT_FLAG_DIRECT ⟨0, 0⟩ (adev_open false false hw_hdmi)).adev).1).adev

/-! ## The operations as calls made by a thread

The state-passing functions above take the device through one operation as
if every mutex the operation asks for were granted. The functions of this
section embed the same source functions together with their calls of
`pthread_mutex_lock` and `pthread_mutex_unlock`, with the C types of the
values they return and with their divisions. The caller is a thread that
holds the mutexes `held`, and the call ends in an `outcome`. One call runs at
a time: no other thread holds a mutex or changes the state in between. -/

/-- How a call ends. It returns; or it waits for ever in
`pthread_mutex_lock` for the plain mutex `m`, which the calling thread holds
itself (`held` are the mutexes it holds and `adev` is the device state at that
moment); or it divides by zero; or a loop of it has not come to its end within
the turns it was given. -/
inductive outcome (α : Type) where
  | returns (a : α)
  | blocks (m : mutex) (held : List mutex) (adev : audio_device)
  | divides_by_zero
  | unfinished
deriving DecidableEq

/-- Sequencing: what follows a call is run only if the call returns. -/
def outcome.bind {α β : Type} (x : outcome α) (f : α → outcome β) : outcome β :=
  match x with
  | .returns a => f a
  | .blocks m held adev => .blocks m held adev
  | .divides_by_zero => .divides_by_zero
  | .unfinished => .unfinished

/-- `pthread_mutex_lock(m)` by a thread that holds `held`. The mutexes are
plain ones (`calloc` memory, never initialised with attributes): locking one
that the thread holds does not return. -/
def pthread_mutex_lock (m : mutex) (held : List mutex) (adev : audio_device) :
    outcome (List mutex) :=
  if held.contains m then .blocks m held adev else .returns (m :: held)

/-- `pthread_mutex_unlock(m)`. -/
def pthread_mutex_unlock (m : mutex) (held : List mutex) : List mutex :=
  held.erase m

/-- The value of a `size_t` converted to `ssize_t`; `size_bits` is the width
of both (32 or 64 on the ARM targets). -/
def ssize_t_cast (size_bits x : Nat) : Int :=
  if x % 2 ^ size_bits < 2 ^ (size_bits - 1) then ((x % 2 ^ size_bits : Nat) : Int)
  else ((x % 2 ^ size_bits : Nat) : Int) - 2 ^ size_bits

/-- `lock_all_outputs`. -/
def Thread.lock_all_outputs (held : List mutex) (adev : audio_device) : outcome (List mutex) :=
  (pthread_mutex_lock .lock_outputs held adev).bind fun held =>
  ([OUTPUT_DEEP_BUF, OUTPUT_LOW_LATENCY, OUTPUT_HDMI].foldl
    (fun (r : outcome (List mutex)) type =>
      r.bind fun held =>
        if (adev.outputs.get type).isSome then pthread_mutex_lock (.out type) held adev
        else .returns held)
    (.returns held)).bind fun held =>
  pthread_mutex_lock .dev held adev

/-- `unlock_all_outputs(adev, except)`; `except` is the slot of the stream
that stays locked, `none` for `NULL`. -/
def Thread.unlock_all_outputs (held : List mutex) (adev : audio_device)
    (except : Option output_type) : List mutex :=
  let held := pthread_mutex_unlock .dev held
  let held := [OUTPUT_HDMI, OUTPUT_LOW_LATENCY, OUTPUT_DEEP_BUF].foldl
    (fun held type =>
      if (adev.outputs.get type).isSome ∧ some type ≠ except then
        pthread_mutex_unlock (.out type) held
      else held)
    held
  pthread_mutex_unlock .lock_outputs held

/-- The body of `do_out_standby`, with the call of
`force_non_hdmi_out_standby` (made only for the HDMI stream) passed as
`force`. -/
def Thread.do_out_standby_with (R : routing_h)
    (force : List mutex → audio_device → outcome (List mutex × audio_device))
    (held : List mutex) (t : output_type) (adev : audio_device) :
    outcome (List mutex × audio_device) :=
  match adev.outputs.get t with
  | none => .returns (held, adev)
  | some out =>
    if out.standby = false then
      let adev := if out.pcm_card ≠ none then adev.call (.pcm_close out.pcm_card) else adev
      let out := if out.pcm_card ≠ none then { out with pcm_card := none } else out
      let adev :=
        if out.pcm_card_spdif ≠ none then adev.call (.pcm_close out.pcm_card_spdif) else adev
      let out := if out.pcm_card_spdif ≠ none then { out with pcm_card_spdif := none } else out
      let out := { out with standby := true }
      let adev := adev.set_out t out
      (if t = OUTPUT_HDMI then force held adev else .returns (held, adev)).bind
        fun (r : List mutex × audio_device) =>
        let adev : audio_device := { r.2 with out_device := output_devices t r.2 }
        .returns (r.1, if adev.out_device ≠ 0 then select_devices R adev else adev)
    else .returns (held, adev)

/-- The body of the loop of `force_non_hdmi_out_standby` for one `type`:
`pthread_mutex_lock(&out->lock); do_out_standby(out);
pthread_mutex_unlock(&out->lock)` for an open stream other than the HDMI
stream. That stream is not the HDMI stream, so its `do_out_standby` does not
come back to `force_non_hdmi_out_standby`. -/
def Thread.force_step (R : routing_h) (r : outcome (List mutex × audio_device))
    (type : output_type) : outcome (List mutex × audio_device) :=
  r.bind fun r =>
    if type = OUTPUT_HDMI ∨ r.2.outputs.get type = none then .returns r
    else
      (pthread_mutex_lock (.out type) r.1 r.2).bind fun held =>
      (Thread.do_out_standby_with R (fun h a => .returns (h, a)) held type r.2).bind fun r =>
      .returns (pthread_mutex_unlock (.out type) r.1, r.2)

/-- `force_non_hdmi_out_standby`. -/
def Thread.force_non_hdmi_out_standby (R : routing_h) (held : List mutex)
    (adev : audio_device) : outcome (List mutex × audio_device) :=
  [OUTPUT_DEEP_BUF, OUTPUT_LOW_LATENCY, OUTPUT_HDMI].foldl (Thread.force_step R)
    (.returns (held, adev))

/-- `do_out_standby`. -/
def Thread.do_out_standby (R : routing_h) (held : List mutex) (t : output_type)
    (adev : audio_device) : outcome (List mutex × audio_device) :=
  Thread.do_out_standby_with R (Thread.force_non_hdmi_out_standby R) held t adev

/-- `out_standby`: the mutexes held afterwards, the device and the returned
status. -/
def Thread.out_standby (R : routing_h) (held : List mutex) (t : output_type)
    (adev : audio_device) : outcome (List mutex × audio_device × Int) :=
  (Thread.lock_all_outputs held adev).bind fun held =>
  (Thread.do_out_standby R held t adev).bind fun r =>
  .returns (Thread.unlock_all_outputs r.1 r.2 none, r.2, 0)

/-- `start_output_stream`: the mutexes held afterwards, the device and the
returned status. -/
def Thread.start_output_stream (R : routing_h) (held : List mutex) (t : output_type)
    (adev : audio_device) : outcome (List mutex × audio_device × Int) :=
  match adev.outputs.get t with
  | none => .returns (held, adev, 0)
  | some _ =>
    if t = OUTPUT_HDMI then
      (Thread.force_non_hdmi_out_standby R held adev).bind fun r =>
      .returns (r.1, start_output_stream_open R t r.2)
    else if active adev.outputs OUTPUT_HDMI then
      .returns (held, adev.modify_out t (fun out => { out with disabled := true }), 0)
    else .returns (held, start_output_stream_open R t adev)

/-- The part of `out_write` up to the label `final_exit`: the mutexes held,
the device and the status `ret` there. The second test of `out->standby`,
made after `lock_all_outputs`, finds the flag as the first one did. -/
def Thread.out_write_status (R : routing_h) (held : List mutex) (t : output_type)
    (bytes : Nat) (adev : audio_device) : outcome (List mutex × audio_device × Int) :=
  match adev.outputs.get t with
  | none => .returns (held, adev, 0)
  | some out =>
    (pthread_mutex_lock (.out t) held adev).bind fun held =>
    (if out.standby then
      let held := pthread_mutex_unlock (.out t) held
      (Thread.lock_all_outputs held adev).bind fun held =>
      (Thread.start_output_stream R held t adev).bind fun r =>
        if r.2.2 < 0 then
          .returns (Thread.unlock_all_outputs r.1 r.2.1 none, r.2.1, r.2.2, true)
        else
          let adev := r.2.1.modify_out t (fun out => { out with standby := false })
          .returns (Thread.unlock_all_outputs r.1 adev (some t), adev, r.2.2, false)
     else .returns (held, adev, 0, false)).bind fun s =>
    if s.2.2.2 then .returns (s.1, s.2.1, s.2.2.1)
    else
      let r : audio_device × Int :=
        match s.2.1.outputs.get t with
        | none => (s.2.1, s.2.2.1)
        | some out =>
          if out.disabled then (s.2.1, -EPIPE) else out_write_pcms t bytes s.2.2.1 s.2.1
      .returns (pthread_mutex_unlock (.out t) s.1, r.1, r.2)

/-- `out_write`: the mutexes held afterwards, the device and the returned
`ssize_t`. The argument of `usleep` is computed on `size_t` and converted to
the 32-bit `useconds_t`. -/
def Thread.out_write (R : routing_h) (size_bits : Nat) (held : List mutex) (t : output_type)
    (bytes : Nat) (adev : audio_device) : outcome (List mutex × audio_device × Int) :=
  (Thread.out_write_status R held t bytes adev).bind fun r =>
    match r.2.1.outputs.get t with
    | none => .returns (r.1, r.2.1, ssize_t_cast size_bits bytes)
    | some out =>
      if r.2.2 ≠ 0 then
        if audio_stream_out_frame_size out = 0 ∨ out.config.rate = 0 then .divides_by_zero
        else
          .returns (r.1,
            r.2.1.call (.usleep ((bytes * 1000000) % 2 ^ size_bits /
              audio_stream_out_frame_size out / out.config.rate % 2 ^ 32)),
            ssize_t_cast size_bits bytes)
      else .returns (r.1, r.2.1, ssize_t_cast size_bits bytes)

/-- The two "force standby" tests of `out_set_parameters`. -/
def Thread.out_set_parameters_force_standby (R : routing_h) (held : List mutex)
    (t : output_type) (val : Nat) (adev : audio_device) :
    outcome (List mutex × audio_device) :=
  match adev.outputs.get t with
  | none => .returns (held, adev)
  | some out =>
    (if ((val &&& AUDIO_DEVICE_OUT_DGTL_DOCK_HEADSET) ^^^
          (adev.out_device &&& AUDIO_DEVICE_OUT_DGTL_DOCK_HEADSET)) ≠ 0 ∨
        (adev.out_device &&& AUDIO_DEVICE_OUT_DGTL_DOCK_HEADSET) ≠ 0 then
      Thread.do_out_standby R held t adev
     else .returns (held, adev)).bind fun r =>
    if ((val &&& AUDIO_DEVICE_OUT_ALL_SCO) ^^^ (out.device &&& AUDIO_DEVICE_OUT_ALL_SCO)) ≠ 0 then
      Thread.do_out_standby R r.1 t r.2
    else .returns r

/-- `out_set_parameters`; `routing` as for the state-passing function. -/
def Thread.out_set_parameters (R : routing_h) (held : List mutex) (t : output_type)
    (routing : Option Nat) (adev : audio_device) : outcome (List mutex × audio_device) :=
  match routing, adev.outputs.get t with
  | some val, some out =>
    (Thread.lock_all_outputs held adev).bind fun held =>
    (if out.device ≠ val ∧ val ≠ 0 then
      (Thread.out_set_parameters_force_standby R held t val adev).bind fun r =>
      .returns (r.1,
        out_set_parameters_route R t val (out_set_parameters_preselect R t val r.2))
     else .returns (held, adev)).bind fun r =>
    .returns (Thread.unlock_all_outputs r.1 r.2 none, r.2)
  | _, _ => .returns (held, adev)

/-- `adev_open_output_stream`: the device lock is taken around
`read_hdmi_channel_masks`, and the outputs-list lock around the test and the
assignment of the slot, which is not reached when the channel query failed. -/
def Thread.adev_open_output_stream (held : List mutex) (fast : pcm_config)
    (devices flags : Nat) (config : audio_config) (adev : audio_device) :
    outcome (List mutex × open_output_result) :=
  let direct : Bool := decide (flags &&& AUDIO_OUTPUT_FLAG_DIRECT ≠ 0 ∧
    (if devices = AUDIO_DEVICE_NONE then AUDIO_DEVICE_OUT_SPEAKER else devices) =
      AUDIO_DEVICE_OUT_AUX_DIGITAL)
  (if direct then
    (pthread_mutex_lock .dev held adev).bind fun held =>
    .returns (pthread_mutex_unlock .dev held)
   else .returns held).bind fun held =>
  let r := AudioHw.adev_open_output_stream fast devices flags config adev
  if direct ∧ hdmi_query_status adev ≠ 0 then .returns (held, r)
  else
    (pthread_mutex_lock .lock_outputs held r.adev).bind fun held =>
    .returns (pthread_mutex_unlock .lock_outputs held, r)

/-- `adev_close_output_stream`. -/
def Thread.adev_close_output_stream (R : routing_h) (held : List mutex) (t : output_type)
    (adev : audio_device) : outcome (List mutex × audio_device) :=
  match adev.outputs.get t with
  | none => .returns (held, adev)
  | some _ =>
    (Thread.out_standby R held t adev).bind fun r =>
    (pthread_mutex_lock .lock_outputs r.1 r.2.1).bind fun held =>
    .returns (pthread_mutex_unlock .lock_outputs held,
      { r.2.1 with outputs := r.2.1.outputs.set t none })

/-- `adev_set_mode`: the device lock is taken once the mode is known to
change. -/
def Thread.adev_set_mode (R : routing_h) (held : List mutex) (mode : Int)
    (adev : audio_device) : outcome (List mutex × audio_device) :=
  if adev.mode = mode then .returns (held, adev)
  else
    (pthread_mutex_lock .dev held adev).bind fun held =>
    .returns (pthread_mutex_unlock .dev held, AudioHw.adev_set_mode R mode adev)

/-- `adev_set_wb_amr_callback`, which runs under the device lock. -/
def Thread.adev_set_wb_amr_callback (R : routing_h) (held : List mutex) (enable : Int)
    (adev : audio_device) : outcome (List mutex × audio_device) :=
  (pthread_mutex_lock .dev held adev).bind fun held =>
  .returns (pthread_mutex_unlock .dev held, AudioHw.adev_set_wb_amr_callback R enable adev)

/-- One public operation, called by a thread that holds `held`: the mutexes
it holds afterwards and the device. -/
def Thread.apply (R : routing_h) (size_bits : Nat) :
    hal_op → List mutex → audio_device → outcome (List mutex × audio_device)
  | .open_output fast devices flags config, held, a =>
    (Thread.adev_open_output_stream held fast devices flags config a).bind fun r =>
    .returns (r.1, r.2.adev)
  | .close_output t, held, a => Thread.adev_close_output_stream R held t a
  | .write t bytes, held, a =>
    (Thread.out_write R size_bits held t bytes a).bind fun r => .returns (r.1, r.2.1)
  | .standby t, held, a =>
    (Thread.out_standby R held t a).bind fun r => .returns (r.1, r.2.1)
  | .set_parameters t routing, held, a => Thread.out_set_parameters R held t routing a
  | .set_mode mode, held, a => Thread.adev_set_mode R held mode a
  | .wb_amr enable, held, a => Thread.adev_set_wb_amr_callback R held enable a

/-- The states a thread reaches from a freshly opened device through public
operations that return: the mutexes it holds and the device. -/
inductive Thread.reachable (R : routing_h) (size_bits : Nat) :
    List mutex × audio_device → Prop where
  | init (force_wideband disable_two_mic : Bool) (hw : hw_world) :
      Thread.reachable R size_bits ([], adev_open force_wideband disable_two_mic hw)
  | step (op : hal_op) (s s' : List mutex × audio_device) :
      Thread.reachable R size_bits s → Thread.apply R size_bits op s.1 s.2 = .returns s' →
      Thread.reachable R size_bits s'

/-- The mutexes `lock_all_outputs` takes, last taken first. -/
def all_locks (o : outputs_t) : List mutex :=
  [mutex.dev] ++ (if o.hdmi.isSome then [mutex.out OUTPUT_HDMI] else []) ++
  (if o.low_latency.isSome then [mutex.out OUTPUT_LOW_LATENCY] else []) ++
  (if o.deep_buf.isSome then [mutex.out OUTPUT_DEEP_BUF] else []) ++ [mutex.lock_outputs]


/-! ## The capture operations as calls made by a thread

The capture path again, with the period size of the global `pcm_config_in`
as it is at run time, with the divisions of `start_input_stream` and
`in_read`, and with the C types of the values they return. The mutexes of the
capture path (`in->lock`, then `adev->lock` around the start) are asked for by
a thread that holds neither, and are not part of these functions. -/

/-- The configuration `in->config` points to, at run time. `adev_open`
replaces the period size of the global `pcm_config_in` when one of the system
properties `audio_hal.period_size` and `audio_hal.in_period_size` is set;
`in_period_size` is the value the global holds (320 when neither is set). -/
def capture_config.deref_with (in_period_size : Nat) : capture_config → pcm_config
  | .normal => { pcm_config_in with period_size := in_period_size }
  | .low_latency => pcm_config_in_low_latency

/-- The cast of an integer to `int`. -/
def int_cast (x : Int) : Int :=
  (x + 2 ^ 31) % 2 ^ 32 - 2 ^ 31

/-- The end of `get_next_buffer`. -/
def Thread.get_next_buffer_clip (ps : Nat) (s : stream_in) (cap : capture_hw)
    (frame_count : Nat) : next_buffer :=
  let frame_count := if frame_count > s.frames_in then s.frames_in else frame_count
  ⟨s, cap,
   ⟨some (((s.config.deref_with ps).period_size - s.frames_in) * popcount s.channel_mask),
     frame_count⟩,
   s.read_status⟩

/-- `get_next_buffer`, called with `buffer->frame_count = frame_count`; `ps`
is the period size of the global `pcm_config_in`. -/
def Thread.get_next_buffer (ps : Nat) (s : stream_in) (cap : capture_hw) (frame_count : Nat) :
    next_buffer :=
  match s.pcm with
  | none => ⟨{ s with read_status := -ENODEV }, cap, ⟨none, 0⟩, -ENODEV⟩
  | some _ =>
    if s.frames_in = 0 then
      let r := pcm_read s.buffer
        ((s.config.deref_with ps).period_size * (s.config.deref_with ps).channels * 2) cap
      let s := { s with read_status := r.1 }
      if s.read_status ≠ 0 then ⟨s, r.2.2, ⟨none, 0⟩, s.read_status⟩
      else
        let s := { s with buffer := r.2.1 }
        let s := { s with frames_in := (s.config.deref_with ps).period_size }
        let s :=
          if s.channel_mask = AUDIO_CHANNEL_IN_MONO then
            { s with buffer := stereo_to_mono s.buffer s.frames_in }
          else s
        Thread.get_next_buffer_clip ps s r.2.2 frame_count
    else Thread.get_next_buffer_clip ps s cap frame_count

/-- The calls of `get_next_buffer` and `release_buffer` the resampler makes
during one `resample_from_provider`. -/
def Thread.resampler_pulls (ps : Nat) : List Nat → stream_in → capture_hw → stream_in × capture_hw
  | [], s, cap => (s, cap)
  | n :: rest, s, cap =>
    let r := Thread.get_next_buffer ps s cap n
    if r.buf.raw = none then (r.stream, r.cap)
    else Thread.resampler_pulls ps rest (release_buffer r.stream r.buf) r.cap

/-- One turn of the loop body of `read_frames` up to the test of
`read_status`. -/
def Thread.read_frames_step (ps : Nat) (s : stream_in) (cap : capture_hw) (buffer : List Int)
    (frames_wr frames_rd : Nat) : stream_in × capture_hw × List Int × Nat :=
  let channels := audio_stream_in_frame_size s / 2
  if s.resampler then
    let r : resample_result × capture_hw :=
      match cap.resample_results with
      | [] => (⟨[], frames_rd, []⟩, cap)
      | r :: rest => (r, { cap with resample_results := rest })
    let p := Thread.resampler_pulls ps r.1.pulls s r.2
    let frames_rd := if r.1.frames < frames_rd then r.1.frames else frames_rd
    (p.1, p.2, copy_samples buffer (frames_wr * channels) r.1.samples 0 (frames_rd * channels),
     frames_rd)
  else
    let r := Thread.get_next_buffer ps s cap frames_rd
    match r.buf.raw with
    | some raw =>
      (release_buffer r.stream r.buf, r.cap,
       copy_samples buffer (frames_wr * channels) r.stream.buffer raw
         (r.buf.frame_count * channels),
       r.buf.frame_count)
    | none => (release_buffer r.stream r.buf, r.cap, buffer, frames_rd)

/-- The loop `while (frames_wr < frames)` of `read_frames`, given `fuel`
turns: `unfinished` when the loop asks for one more. -/
def Thread.read_frames_loop (ps : Nat) :
    Nat → stream_in → capture_hw → List Int → Nat → Nat → outcome read_frames_result
  | 0, s, cap, buffer, frames, frames_wr =>
    if frames_wr < frames then .unfinished else .returns ⟨s, cap, buffer, frames_wr⟩
  | fuel + 1, s, cap, buffer, frames, frames_wr =>
    if frames_wr < frames then
      let r := Thread.read_frames_step ps s cap buffer frames_wr (frames - frames_wr)
      if r.1.read_status ≠ 0 then .returns ⟨r.1, r.2.1, r.2.2.1, r.1.read_status⟩
      else Thread.read_frames_loop ps fuel r.1 r.2.1 r.2.2.1 frames (frames_wr + r.2.2.2)
    else .returns ⟨s, cap, buffer, frames_wr⟩

/-- `read_frames`, its loop given `fuel` turns. The frame count is below
half the range of `size_t` (a frame has at least two bytes), so its conversion
to `ssize_t` does not change it. -/
def Thread.read_frames (ps fuel : Nat) (s : stream_in) (cap : capture_hw) (buffer : List Int)
    (frames : Nat) : outcome read_frames_result :=
  Thread.read_frames_loop ps fuel s cap buffer frames 0

/-- `start_input_stream`: the stream, the device and the returned status.
The product `CAPTURE_START_RAMP_MS * in->requested_rate` is an `unsigned
int`; the quotient `USHRT_MAX / in->ramp_frames` is cast to `uint16_t`. -/
def Thread.start_input_stream (R : routing_h) (ps : Nat) (s : stream_in) (adev : audio_device) :
    outcome (stream_in × audio_device × Int) :=
  let p := pcm_open PCM_CARD PCM_DEVICE true (s.config.deref_with ps) adev.hw
  let s := { s with pcm := p.1 }
  let adev := { adev with hw := p.2 }
  if pcm_open_failed s.pcm then
    .returns ({ s with pcm := pcm_closed s.pcm }, adev.call (.pcm_close s.pcm), -ENOMEM)
  else
    let s := { s with frames_in := 0 }
    let adev :=
      if adev.in_call = false then
        select_devices R { adev with
          input_source := s.input_source, in_device := s.device,
          in_channel_mask := s.channel_mask }
      else adev
    let s := { s with ramp_frames := (CAPTURE_START_RAMP_MS * s.requested_rate) % 2 ^ 32 / 1000 }
    if s.ramp_frames = 0 then .divides_by_zero
    else
      let s := { s with ramp_step := (USHRT_MAX / s.ramp_frames) % 2 ^ 16 }
      let s := { s with ramp_vol := 0 }
      .returns (s, adev, 0)

/-- The caller's buffer after `memset(buffer, 0, bytes)`: the samples that
lie within the first `bytes` bytes are 0, and of a sample cut by that bound
the low byte is. -/
def memset_zero (buffer : List Int) (bytes : Nat) : List Int :=
  (List.range buffer.length).map (fun i =>
    if 2 * i + 1 < bytes then 0
    else if 2 * i < bytes then buffer.getD i 0 / 256 * 256
    else buffer.getD i 0)

/-- The result of `in_read`: the stream, the device, the capture hardware,
the caller's buffer and the returned `ssize_t`; with them the status `ret` at
the label `exit` and the caller's buffer as it was before the ramp step. -/
structure in_read_return where
  stream : stream_in
  adev : audio_device
  cap : capture_hw
  buffer : List Int
  ret : Int
  status : Int
  captured : List Int
deriving DecidableEq

/-- The label `exit` of `in_read`: the pacing sleep after a failure and the
return of the byte count. The argument of `usleep` is computed on `size_t`
and converted to the 32-bit `useconds_t`. -/
def Thread.in_read_exit (size_bits : Nat) (s : stream_in) (adev : audio_device)
    (cap : capture_hw) (buffer captured : List Int) (bytes : Nat) (ret : Int) :
    outcome in_read_return :=
  if ret < 0 then
    if s.requested_rate = 0 then .divides_by_zero
    else
      .returns ⟨s,
        adev.call (.usleep ((bytes * 1000000) % 2 ^ size_bits / audio_stream_in_frame_size s /
          s.requested_rate % 2 ^ 32)),
        cap, buffer, ssize_t_cast size_bits bytes, ret, captured⟩
  else .returns ⟨s, adev, cap, buffer, ssize_t_cast size_bits bytes, ret, captured⟩

/-- `in_read`. `buffer` is the caller's buffer as 16-bit samples, `ps` the
period size of the global `pcm_config_in`, `fuel` the turns given to the loop
of `read_frames`. -/
def Thread.in_read (R : routing_h) (size_bits ps fuel : Nat) (s : stream_in)
    (adev : audio_device) (cap : capture_hw) (buffer : List Int) (bytes : Nat) :
    outcome in_read_return :=
  if audio_stream_in_frame_size s = 0 then .divides_by_zero
  else
    let frames_rq := bytes / audio_stream_in_frame_size s
    (if s.standby then
      (Thread.start_input_stream R ps s adev).bind fun r =>
        if r.2.2 < 0 then .returns r
        else .returns ({ r.1 with standby := false }, r.2.1, r.2.2)
     else .returns (s, adev, 0)).bind fun st =>
    if st.2.2 < 0 then Thread.in_read_exit size_bits st.1 st.2.1 cap buffer buffer bytes st.2.2
    else
      (Thread.read_frames ps fuel st.1 cap buffer frames_rq).bind fun rf =>
      let ret : Int := int_cast rf.ret
      let ret : Int := if ret > 0 then 0 else ret
      let rp := in_read_ramp rf.stream rf.buffer frames_rq
      let buffer := if ret = 0 ∧ st.2.1.mic_mute then memset_zero rp.2 bytes else rp.2
      Thread.in_read_exit size_bits rp.1 st.2.1 rf.cap buffer rf.buffer bytes ret

/-- A run of `in_read` calls on one stream, each with its own buffer and
byte count: the results of the calls, in order. -/
def Thread.in_read_seq (R : routing_h) (size_bits ps fuel : Nat) :
    stream_in → audio_device → capture_hw → List (List Int × Nat) →
      outcome (List in_read_return)
  | _, _, _, [] => .returns []
  | s, adev, cap, (buffer, bytes) :: rest =>
    (Thread.in_read R size_bits ps fuel s adev cap buffer bytes).bind fun r =>
    (Thread.in_read_seq R size_bits ps fuel r.stream r.adev r.cap rest).bind fun rs =>
    .returns (r :: rs)


/-! ## Specification helpers: the calls that lock a mutex twice -/

/-- The lock `force_non_hdmi_out_standby` asks for first: that of the first
open stream other than the HDMI stream, in the order of its loop. -/
def first_other_lock (o : outputs_t) : mutex :=
  if o.deep_buf.isSome then .out OUTPUT_DEEP_BUF else .out OUTPUT_LOW_LATENCY

/-- An output stream other than the HDMI stream is open. -/
def others_open (o : outputs_t) : Bool :=
  o.deep_buf.isSome || o.low_latency.isSome

/-- The stream `t` is the HDMI stream, it is not in standby, and another
output stream is open: `do_out_standby` on it reaches
`force_non_hdmi_out_standby` with a stream to lock. -/
def standby_relocks (t : output_type) (a : audio_device) : Bool :=
  decide (t = OUTPUT_HDMI) && active a.outputs OUTPUT_HDMI && others_open a.outputs

/-- The stream `t` is the HDMI stream, it is in standby, and another output
stream is open: `out_write` on it starts the stream and so reaches
`force_non_hdmi_out_standby` with a stream to lock. -/
def write_relocks (t : output_type) (a : audio_device) : Bool :=
  decide (t = OUTPUT_HDMI) &&
    (match a.outputs.hdmi with
     | some out => out.standby
     | none => false) &&
    others_open a.outputs

/-- The device at the moment `do_out_standby` on the active stream `t` has
closed the PCM handles of the stream and marked it standby. -/
def standby_start (t : output_type) (a : audio_device) : audio_device :=
  match a.outputs.get t with
  | some out => (a.calls (standby_closes out)).set_out t out.to_standby
  | none => a


/-- The stream `t` is the HDMI stream and another output stream is open:
`start_output_stream` on it reaches `force_non_hdmi_out_standby` with a
stream to lock. -/
def start_relocks (t : output_type) (a : audio_device) : Bool :=
  decide (t = OUTPUT_HDMI) && a.outputs.hdmi.isSome && others_open a.outputs


/-- The mask `do_out_standby` on the stream `t` stores in `out_device`: the
OR of the device masks of all other output streams that are not in standby. -/
def others_active_devices (t : output_type) (o : outputs_t) : Nat :=
  (if t = OUTPUT_DEEP_BUF then 0 else active_device o.deep_buf) |||
  (if t = OUTPUT_LOW_LATENCY then 0 else active_device o.low_latency) |||
  (if t = OUTPUT_HDMI then 0 else active_device o.hdmi)

/-- The stream `s'` differs from `s` at most in the read-ahead buffer, its
fill level and the read status: what `read_frames` may change. -/
structure capture_frame (s s' : stream_in) : Prop where
  pcm : s'.pcm = s.pcm
  standby : s'.standby = s.standby
  requested_rate : s'.requested_rate = s.requested_rate
  resampler : s'.resampler = s.resampler
  ramp_vol : s'.ramp_vol = s.ramp_vol
  ramp_step : s'.ramp_step = s.ramp_step
  ramp_frames : s'.ramp_frames = s.ramp_frames
  channel_mask : s'.channel_mask = s.channel_mask
  config : s'.config = s.config

/-- The stereo input stream `adev_open_input_stream` hands out for a
requested rate of 8 Hz, the resampler created. -/
def stream_in_8hz : stream_in :=
  { stream_in_new 0x80000004 ⟨8, AUDIO_CHANNEL_IN_STEREO⟩ 0 with resampler := true }


/-- The number of frames the first `j` reads of a run ask for: each read
asks for its byte count divided by the frame size. -/
def requested_before (frame_size : Nat) (reads : List (List Int × Nat)) (j : Nat) : Nat :=
  ((reads.take j).map (fun r => r.2 / frame_size)).sum


/-- What a call returned, if it returned. -/
def outcome.returned {α : Type} : outcome α → Option α
  | .returns a => some a
  | _ => none

/-- The stereo input stream `adev_open_input_stream` hands out for a
requested rate of 44100 Hz, the resampler created. -/
def stream_in_44k : stream_in :=
  { stream_in_new 0x80000004 ⟨44100, AUDIO_CHANNEL_IN_STEREO⟩ 0 with resampler := true }

/-- A capture device whose resampler delivers four stereo frames of the
sample 30000 without pulling. -/
def capture_four : capture_hw :=
  ⟨[], [⟨[], 4, List.replicate 8 30000⟩]⟩

/-- A capture device whose first `pcm_read` fails with `-EIO` and whose second
succeeds; the resampler pulls once in each of its first two runs, delivers no
frame in the first and four stereo frames of the sample 30000 in the second. -/
def capture_fail_then_four : capture_hw :=
  ⟨[⟨-5, []⟩, ⟨0, []⟩], [⟨[4], 0, []⟩, ⟨[4], 4, List.replicate 8 30000⟩]⟩

/-- A capture device whose resampler delivers eleven stereo frames of the
sample 1000 without pulling. -/
def capture_eleven : capture_hw :=
  ⟨[], [⟨[], 11, List.replicate 22 1000⟩]⟩

/-! ## Basic facts about the model -/

section basic

variable (adev : audio_device) (c : hw_call)

@[simp] theorem call_out_device : (adev.call c).out_device = adev.out_device := rfl
@[simp] theorem call_in_device : (adev.call c).in_device = adev.in_device := rfl
@[simp] theorem call_input_source : (adev.call c).input_source = adev.input_source := rfl
@[simp] theorem call_cur_route_id : (adev.call c).cur_route_id = adev.cur_route_id := rfl
@[simp] theorem call_mode : (adev.call c).mode = adev.mode := rfl
@[simp] theorem call_in_call : (adev.call c).in_call = adev.in_call := rfl
@[simp] theorem call_wb_amr : (adev.call c).wb_amr = adev.wb_amr := rfl
@[simp] theorem call_hdmi_drv_fd : (adev.call c).hdmi_drv_fd = adev.hdmi_drv_fd := rfl
@[simp] theorem call_outputs : (adev.call c).outputs = adev.outputs := rfl
@[simp] theorem call_mic_mute : (adev.call c).mic_mute = adev.mic_mute := rfl
@[simp] theorem call_bluetooth_nrec : (adev.call c).bluetooth_nrec = adev.bluetooth_nrec := rfl
@[simp] theorem call_two_mic_control : (adev.call c).two_mic_control = adev.two_mic_control := rfl
@[simp] theorem call_two_mic_disabled :
    (adev.call c).two_mic_disabled = adev.two_mic_disabled := rfl
@[simp] theorem call_in_channel_mask : (adev.call c).in_channel_mask = adev.in_channel_mask := rfl
@[simp] theorem call_pcm_voice_rx : (adev.call c).pcm_voice_rx = adev.pcm_voice_rx := rfl
@[simp] theorem call_pcm_voice_tx : (adev.call c).pcm_voice_tx = adev.pcm_voice_tx := rfl
@[simp] theorem call_pcm_sco_rx : (adev.call c).pcm_sco_rx = adev.pcm_sco_rx := rfl
@[simp] theorem call_pcm_sco_tx : (adev.call c).pcm_sco_tx = adev.pcm_sco_tx := rfl
@[simp] theorem call_log : (adev.call c).hw.log = adev.hw.log ++ [c] := rfl
@[simp] theorem call_forget_log : (adev.call c).forget_log = adev.forget_log := rfl

end basic

theorem enable_hdmi_audio_fd0 (adev : audio_device) (e : Bool) (h : adev.hdmi_drv_fd = 0) :
    enable_hdmi_audio adev e = adev.call (.hdmi_enable_audio e) := by
  simp [enable_hdmi_audio, open_hdmi_driver, h]

@[simp] theorem resolve_routes_cur (R : routing_h) (i o n : Nat) (a : audio_device) :
    resolve_routes R i o { a with cur_route_id := n } = resolve_routes R i o a := by
  simp [resolve_routes]

@[simp] theorem resolve_routes_call (R : routing_h) (i o : Nat) (a : audio_device)
    (c : hw_call) : resolve_routes R i o (a.call c) = resolve_routes R i o a := by
  simp [resolve_routes]

/-- What `select_devices` does, in one equation: an HDMI ioctl when the
driver descriptor is 0, then nothing if the route identifier is the cached
one, else the new identifier is cached and the mixer is reset and set up. -/
theorem select_devices_eq (R : routing_h) (adev : audio_device) :
    select_devices R adev =
      { adev with
        cur_route_id := route_id_of R adev,
        hw := { adev.hw with log := adev.hw.log ++ select_devices_calls R adev } } := by
  rcases hrt : resolve_routes R (get_input_source_id R adev.input_source adev.wb_amr) (get_output_device_id R adev.out_device) adev with ⟨_ | o, _ | i⟩ <;>
  by_cases hfd : adev.hdmi_drv_fd = 0 <;>
  by_cases hr : route_id_of R adev = adev.cur_route_id
  all_goals
    simp only [select_devices, select_devices_calls, hfd, hr, if_true, if_false, reduceIte,
      enable_hdmi_audio_fd0, call_cur_route_id, mixer_calls, resolve_routes_cur,
      resolve_routes_call, hrt]
    simp only [route_id_of] at hr
    simp [audio_device.call, hw_world.call, hr, hfd, route_id_of]

/-! ### Fields the helper functions leave alone -/

theorem hw_frame.refl_hw (a : audio_device) : hw_frame a a := by
  constructor <;> rfl

theorem hw_frame.trans_hw {a b c : audio_device} (h1 : hw_frame a b) (h2 : hw_frame b c) :
    hw_frame a c := by
  constructor
  · exact h2.out_device.trans h1.out_device
  · exact h2.in_device.trans h1.in_device
  · exact h2.mic_mute.trans h1.mic_mute
  · exact h2.input_source.trans h1.input_source
  · exact h2.mode.trans h1.mode
  · exact h2.in_call.trans h1.in_call
  · exact h2.bluetooth_nrec.trans h1.bluetooth_nrec
  · exact h2.wb_amr.trans h1.wb_amr
  · exact h2.two_mic_control.trans h1.two_mic_control
  · exact h2.two_mic_disabled.trans h1.two_mic_disabled
  · exact h2.in_channel_mask.trans h1.in_channel_mask
  · exact h2.outputs.trans h1.outputs

theorem call_hw_frame (a : audio_device) (c : hw_call) : hw_frame a (a.call c) := by
  constructor <;> rfl

theorem open_hdmi_driver_frame (a : audio_device) : hw_frame a (open_hdmi_driver a) := by
  simp only [open_hdmi_driver]
  split_ifs
  · split <;> constructor <;> rfl
  · exact hw_frame.refl_hw a

theorem enable_hdmi_audio_frame (a : audio_device) (e : Bool) :
    hw_frame a (enable_hdmi_audio a e) := by
  simp only [enable_hdmi_audio]
  split_ifs
  · exact open_hdmi_driver_frame a
  · exact (open_hdmi_driver_frame a).trans_hw (call_hw_frame _ _)

theorem set_hdmi_channels_frame (a : audio_device) (n : Nat) :
    hw_frame a (set_hdmi_channels a n) := by
  simp only [set_hdmi_channels]
  split_ifs
  · exact open_hdmi_driver_frame a
  · exact (open_hdmi_driver_frame a).trans_hw (call_hw_frame _ _)

theorem select_devices_frame (R : routing_h) (a : audio_device) :
    hw_frame a (select_devices R a) := by
  rw [select_devices_eq]
  constructor <;> rfl

theorem start_bt_sco_frame (a : audio_device) : hw_frame a (start_bt_sco a) := by
  simp only [start_bt_sco]
  split_ifs <;> constructor <;> rfl

theorem stop_bt_sco_frame (a : audio_device) : hw_frame a (stop_bt_sco a) := by
  simp only [stop_bt_sco]
  split_ifs <;> constructor <;> rfl

theorem start_voice_call_frame (a : audio_device) : hw_frame a (start_voice_call a).1 := by
  simp only [start_voice_call]
  split_ifs
  all_goals
    first
    | exact hw_frame.refl_hw a
    | (constructor <;> rfl)
    | (refine hw_frame.trans_hw ?_ (start_bt_sco_frame _); constructor <;> rfl)

theorem stop_voice_call_frame (a : audio_device) : hw_frame a (stop_voice_call a) := by
  simp only [stop_voice_call]
  split_ifs
  any_goals (refine hw_frame.trans_hw ?_ (stop_bt_sco_frame _))
  all_goals (constructor <;> rfl)

theorem adev_set_call_audio_path_frame (a : audio_device) :
    hw_frame a (adev_set_call_audio_path a) := by
  simp only [adev_set_call_audio_path]
  exact call_hw_frame _ _

theorem adev_set_voice_volume_frame (a : audio_device) :
    hw_frame a (adev_set_voice_volume a) := by
  simp only [adev_set_voice_volume]
  split_ifs
  all_goals first | exact hw_frame.refl_hw a | exact call_hw_frame _ _

@[simp] theorem open_hdmi_driver_out_device (a : audio_device) :
    (open_hdmi_driver a).out_device = a.out_device := (open_hdmi_driver_frame a).out_device

@[simp] theorem open_hdmi_driver_in_device (a : audio_device) :
    (open_hdmi_driver a).in_device = a.in_device := (open_hdmi_driver_frame a).in_device

@[simp] theorem open_hdmi_driver_mic_mute (a : audio_device) :
    (open_hdmi_driver a).mic_mute = a.mic_mute := (open_hdmi_driver_frame a).mic_mute

@[simp] theorem open_hdmi_driver_input_source (a : audio_device) :
    (open_hdmi_driver a).input_source = a.input_source := (open_hdmi_driver_frame a).input_source

@[simp] theorem open_hdmi_driver_mode (a : audio_device) :
    (open_hdmi_driver a).mode = a.mode := (open_hdmi_driver_frame a).mode

@[simp] theorem open_hdmi_driver_in_call (a : audio_device) :
    (open_hdmi_driver a).in_call = a.in_call := (open_hdmi_driver_frame a).in_call

@[simp] theorem open_hdmi_driver_bluetooth_nrec (a : audio_device) :
    (open_hdmi_driver a).bluetooth_nrec = a.bluetooth_nrec := (open_hdmi_driver_frame a).bluetooth_nrec

@[simp] theorem open_hdmi_driver_wb_amr (a : audio_device) :
    (open_hdmi_driver a).wb_amr = a.wb_amr := (open_hdmi_driver_frame a).wb_amr

@[simp] theorem open_hdmi_driver_two_mic_control (a : audio_device) :
    (open_hdmi_driver a).two_mic_control = a.two_mic_control := (open_hdmi_driver_frame a).two_mic_control

@[simp] theorem open_hdmi_driver_two_mic_disabled (a : audio_device) :
    (open_hdmi_driver a).two_mic_disabled = a.two_mic_disabled := (open_hdmi_driver_frame a).two_mic_disabled

@[simp] theorem open_hdmi_driver_in_channel_mask (a : audio_device) :
    (open_hdmi_driver a).in_channel_mask = a.in_channel_mask := (open_hdmi_driver_frame a).in_channel_mask

@[simp] theorem open_hdmi_driver_outputs (a : audio_device) :
    (open_hdmi_driver a).outputs = a.outputs := (open_hdmi_driver_frame a).outputs

@[simp] theorem enable_hdmi_audio_out_device (a : audio_device) (e : Bool) :
    (enable_hdmi_audio a e).out_device = a.out_device := (enable_hdmi_audio_frame a e).out_device

@[simp] theorem enable_hdmi_audio_in_device (a : audio_device) (e : Bool) :
    (enable_hdmi_audio a e).in_device = a.in_device := (enable_hdmi_audio_frame a e).in_device

@[simp] theorem enable_hdmi_audio_mic_mute (a : audio_device) (e : Bool) :
    (enable_hdmi_audio a e).mic_mute = a.mic_mute := (enable_hdmi_audio_frame a e).mic_mute

@[simp] theorem enable_hdmi_audio_input_source (a : audio_device) (e : Bool) :
    (enable_hdmi_audio a e).input_source = a.input_source := (enable_hdmi_audio_frame a e).input_source

@[simp] theorem enable_hdmi_audio_mode (a : audio_device) (e : Bool) :
    (enable_hdmi_audio a e).mode = a.mode := (enable_hdmi_audio_frame a e).mode

@[simp] theorem enable_hdmi_audio_in_call (a : audio_device) (e : Bool) :
    (enable_hdmi_audio a e).in_call = a.in_call := (enable_hdmi_audio_frame a e).in_call

@[simp] theorem enable_hdmi_audio_bluetooth_nrec (a : audio_device) (e : Bool) :
    (enable_hdmi_audio a e).bluetooth_nrec = a.bluetooth_nrec := (enable_hdmi_audio_frame a e).bluetooth_nrec

@[simp] theorem enable_hdmi_audio_wb_amr (a : audio_device) (e : Bool) :
    (enable_hdmi_audio a e).wb_amr = a.wb_amr := (enable_hdmi_audio_frame a e).wb_amr

@[simp] theorem enable_hdmi_audio_two_mic_control (a : audio_device) (e : Bool) :
    (enable_hdmi_audio a e).two_mic_control = a.two_mic_control := (enable_hdmi_audio_frame a e).two_mic_control

@[simp] theorem enable_hdmi_audio_two_mic_disabled (a : audio_device) (e : Bool) :
    (enable_hdmi_audio a e).two_mic_disabled = a.two_mic_disabled := (enable_hdmi_audio_frame a e).two_mic_disabled

@[simp] theorem enable_hdmi_audio_in_channel_mask (a : audio_device) (e : Bool) :
    (enable_hdmi_audio a e).in_channel_mask = a.in_channel_mask := (enable_hdmi_audio_frame a e).in_channel_mask

@[simp] theorem enable_hdmi_audio_outputs (a : audio_device) (e : Bool) :
    (enable_hdmi_audio a e).outputs = a.outputs := (enable_hdmi_audio_frame a e).outputs

@[simp] theorem set_hdmi_channels_out_device (a : audio_device) (n : Nat) :
    (set_hdmi_channels a n).out_device = a.out_device := (set_hdmi_channels_frame a n).out_device

@[simp] theorem set_hdmi_channels_in_device (a : audio_device) (n : Nat) :
    (set_hdmi_channels a n).in_device = a.in_device := (set_hdmi_channels_frame a n).in_device

@[simp] theorem set_hdmi_channels_mic_mute (a : audio_device) (n : Nat) :
    (set_hdmi_channels a n).mic_mute = a.mic_mute := (set_hdmi_channels_frame a n).mic_mute

@[simp] theorem set_hdmi_channels_input_source (a : audio_device) (n : Nat) :
    (set_hdmi_channels a n).input_source = a.input_source := (set_hdmi_channels_frame a n).input_source

@[simp] theorem set_hdmi_channels_mode (a : audio_device) (n : Nat) :
    (set_hdmi_channels a n).mode = a.mode := (set_hdmi_channels_frame a n).mode

@[simp] theorem set_hdmi_channels_in_call (a : audio_device) (n : Nat) :
    (set_hdmi_channels a n).in_call = a.in_call := (set_hdmi_channels_frame a n).in_call

@[simp] theorem set_hdmi_channels_bluetooth_nrec (a : audio_device) (n : Nat) :
    (set_hdmi_channels a n).bluetooth_nrec = a.bluetooth_nrec := (set_hdmi_channels_frame a n).bluetooth_nrec

@[simp] theorem set_hdmi_channels_wb_amr (a : audio_device) (n : Nat) :
    (set_hdmi_channels a n).wb_amr = a.wb_amr := (set_hdmi_channels_frame a n).wb_amr

@[simp] theorem set_hdmi_channels_two_mic_control (a : audio_device) (n : Nat) :
    (set_hdmi_channels a n).two_mic_control = a.two_mic_control := (set_hdmi_channels_frame a n).two_mic_control

@[simp] theorem set_hdmi_channels_two_mic_disabled (a : audio_device) (n : Nat) :
    (set_hdmi_channels a n).two_mic_disabled = a.two_mic_disabled := (set_hdmi_channels_frame a n).two_mic_disabled

@[simp] theorem set_hdmi_channels_in_channel_mask (a : audio_device) (n : Nat) :
    (set_hdmi_channels a n).in_channel_mask = a.in_channel_mask := (set_hdmi_channels_frame a n).in_channel_mask

@[simp] theorem set_hdmi_channels_outputs (a : audio_device) (n : Nat) :
    (set_hdmi_channels a n).outputs = a.outputs := (set_hdmi_channels_frame a n).outputs

@[simp] theorem select_devices_out_device (R : routing_h) (a : audio_device) :
    (select_devices R a).out_device = a.out_device := (select_devices_frame R a).out_device

@[simp] theorem select_devices_in_device (R : routing_h) (a : audio_device) :
    (select_devices R a).in_device = a.in_device := (select_devices_frame R a).in_device

@[simp] theorem select_devices_mic_mute (R : routing_h) (a : audio_device) :
    (select_devices R a).mic_mute = a.mic_mute := (select_devices_frame R a).mic_mute

@[simp] theorem select_devices_input_source (R : routing_h) (a : audio_device) :
    (select_devices R a).input_source = a.input_source := (select_devices_frame R a).input_source

@[simp] theorem select_devices_mode (R : routing_h) (a : audio_device) :
    (select_devices R a).mode = a.mode := (select_devices_frame R a).mode

@[simp] theorem select_devices_in_call (R : routing_h) (a : audio_device) :
    (select_devices R a).in_call = a.in_call := (select_devices_frame R a).in_call

@[simp] theorem select_devices_bluetooth_nrec (R : routing_h) (a : audio_device) :
    (select_devices R a).bluetooth_nrec = a.bluetooth_nrec := (select_devices_frame R a).bluetooth_nrec

@[simp] theorem select_devices_wb_amr (R : routing_h) (a : audio_device) :
    (select_devices R a).wb_amr = a.wb_amr := (select_devices_frame R a).wb_amr

@[simp] theorem select_devices_two_mic_control (R : routing_h) (a : audio_device) :
    (select_devices R a).two_mic_control = a.two_mic_control := (select_devices_frame R a).two_mic_control

@[simp] theorem select_devices_two_mic_disabled (R : routing_h) (a : audio_device) :
    (select_devices R a).two_mic_disabled = a.two_mic_disabled := (select_devices_frame R a).two_mic_disabled

@[simp] theorem select_devices_in_channel_mask (R : routing_h) (a : audio_device) :
    (select_devices R a).in_channel_mask = a.in_channel_mask := (select_devices_frame R a).in_channel_mask

@[simp] theorem select_devices_outputs (R : routing_h) (a : audio_device) :
    (select_devices R a).outputs = a.outputs := (select_devices_frame R a).outputs

@[simp] theorem start_bt_sco_out_device (a : audio_device) :
    (start_bt_sco a).out_device = a.out_device := (start_bt_sco_frame a).out_device

@[simp] theorem start_bt_sco_in_device (a : audio_device) :
    (start_bt_sco a).in_device = a.in_device := (start_bt_sco_frame a).in_device

@[simp] theorem start_bt_sco_mic_mute (a : audio_device) :
    (start_bt_sco a).mic_mute = a.mic_mute := (start_bt_sco_frame a).mic_mute

@[simp] theorem start_bt_sco_input_source (a : audio_device) :
    (start_bt_sco a).input_source = a.input_source := (start_bt_sco_frame a).input_source

@[simp] theorem start_bt_sco_mode (a : audio_device) :
    (start_bt_sco a).mode = a.mode := (start_bt_sco_frame a).mode

@[simp] theorem start_bt_sco_in_call (a : audio_device) :
    (start_bt_sco a).in_call = a.in_call := (start_bt_sco_frame a).in_call

@[simp] theorem start_bt_sco_bluetooth_nrec (a : audio_device) :
    (start_bt_sco a).bluetooth_nrec = a.bluetooth_nrec := (start_bt_sco_frame a).bluetooth_nrec

@[simp] theorem start_bt_sco_wb_amr (a : audio_device) :
    (start_bt_sco a).wb_amr = a.wb_amr := (start_bt_sco_frame a).wb_amr

@[simp] theorem start_bt_sco_two_mic_control (a : audio_device) :
    (start_bt_sco a).two_mic_control = a.two_mic_control := (start_bt_sco_frame a).two_mic_control

@[simp] theorem start_bt_sco_two_mic_disabled (a : audio_device) :
    (start_bt_sco a).two_mic_disabled = a.two_mic_disabled := (start_bt_sco_frame a).two_mic_disabled

@[simp] theorem start_bt_sco_in_channel_mask (a : audio_device) :
    (start_bt_sco a).in_channel_mask = a.in_channel_mask := (start_bt_sco_frame a).in_channel_mask

@[simp] theorem start_bt_sco_outputs (a : audio_device) :
    (start_bt_sco a).outputs = a.outputs := (start_bt_sco_frame a).outputs

@[simp] theorem stop_bt_sco_out_device (a : audio_device) :
    (stop_bt_sco a).out_device = a.out_device := (stop_bt_sco_frame a).out_device

@[simp] theorem stop_bt_sco_in_device (a : audio_device) :
    (stop_bt_sco a).in_device = a.in_device := (stop_bt_sco_frame a).in_device

@[simp] theorem stop_bt_sco_mic_mute (a : audio_device) :
    (stop_bt_sco a).mic_mute = a.mic_mute := (stop_bt_sco_frame a).mic_mute

@[simp] theorem stop_bt_sco_input_source (a : audio_device) :
    (stop_bt_sco a).input_source = a.input_source := (stop_bt_sco_frame a).input_source

@[simp] theorem stop_bt_sco_mode (a : audio_device) :
    (stop_bt_sco a).mode = a.mode := (stop_bt_sco_frame a).mode

@[simp] theorem stop_bt_sco_in_call (a : audio_device) :
    (stop_bt_sco a).in_call = a.in_call := (stop_bt_sco_frame a).in_call

@[simp] theorem stop_bt_sco_bluetooth_nrec (a : audio_device) :
    (stop_bt_sco a).bluetooth_nrec = a.bluetooth_nrec := (stop_bt_sco_frame a).bluetooth_nrec

@[simp] theorem stop_bt_sco_wb_amr (a : audio_device) :
    (stop_bt_sco a).wb_amr = a.wb_amr := (stop_bt_sco_frame a).wb_amr

@[simp] theorem stop_bt_sco_two_mic_control (a : audio_device) :
    (stop_bt_sco a).two_mic_control = a.two_mic_control := (stop_bt_sco_frame a).two_mic_control

@[simp] theorem stop_bt_sco_two_mic_disabled (a : audio_device) :
    (stop_bt_sco a).two_mic_disabled = a.two_mic_disabled := (stop_bt_sco_frame a).two_mic_disabled

@[simp] theorem stop_bt_sco_in_channel_mask (a : audio_device) :
    (stop_bt_sco a).in_channel_mask = a.in_channel_mask := (stop_bt_sco_frame a).in_channel_mask

@[simp] theorem stop_bt_sco_outputs (a : audio_device) :
    (stop_bt_sco a).outputs = a.outputs := (stop_bt_sco_frame a).outputs

@[simp] theorem start_voice_call_out_device (a : audio_device) :
    ((start_voice_call a).1).out_device = a.out_device := (start_voice_call_frame a).out_device

@[simp] theorem start_voice_call_in_device (a : audio_device) :
    ((start_voice_call a).1).in_device = a.in_device := (start_voice_call_frame a).in_device

@[simp] theorem start_voice_call_mic_mute (a : audio_device) :
    ((start_voice_call a).1).mic_mute = a.mic_mute := (start_voice_call_frame a).mic_mute

@[simp] theorem start_voice_call_input_source (a : audio_device) :
    ((start_voice_call a).1).input_source = a.input_source := (start_voice_call_frame a).input_source

@[simp] theorem start_voice_call_mode (a : audio_device) :
    ((start_voice_call a).1).mode = a.mode := (start_voice_call_frame a).mode

@[simp] theorem start_voice_call_in_call (a : audio_device) :
    ((start_voice_call a).1).in_call = a.in_call := (start_voice_call_frame a).in_call

@[simp] theorem start_voice_call_bluetooth_nrec (a : audio_device) :
    ((start_voice_call a).1).bluetooth_nrec = a.bluetooth_nrec := (start_voice_call_frame a).bluetooth_nrec

@[simp] theorem start_voice_call_wb_amr (a : audio_device) :
    ((start_voice_call a).1).wb_amr = a.wb_amr := (start_voice_call_frame a).wb_amr

@[simp] theorem start_voice_call_two_mic_control (a : audio_device) :
    ((start_voice_call a).1).two_mic_control = a.two_mic_control := (start_voice_call_frame a).two_mic_control

@[simp] theorem start_voice_call_two_mic_disabled (a : audio_device) :
    ((start_voice_call a).1).two_mic_disabled = a.two_mic_disabled := (start_voice_call_frame a).two_mic_disabled

@[simp] theorem start_voice_call_in_channel_mask (a : audio_device) :
    ((start_voice_call a).1).in_channel_mask = a.in_channel_mask := (start_voice_call_frame a).in_channel_mask

@[simp] theorem start_voice_call_outputs (a : audio_device) :
    ((start_voice_call a).1).outputs = a.outputs := (start_voice_call_frame a).outputs

@[simp] theorem stop_voice_call_out_device (a : audio_device) :
    (stop_voice_call a).out_device = a.out_device := (stop_voice_call_frame a).out_device

@[simp] theorem stop_voice_call_in_device (a : audio_device) :
    (stop_voice_call a).in_device = a.in_device := (stop_voice_call_frame a).in_device

@[simp] theorem stop_voice_call_mic_mute (a : audio_device) :
    (stop_voice_call a).mic_mute = a.mic_mute := (stop_voice_call_frame a).mic_mute

@[simp] theorem stop_voice_call_input_source (a : audio_device) :
    (stop_voice_call a).input_source = a.input_source := (stop_voice_call_frame a).input_source

@[simp] theorem stop_voice_call_mode (a : audio_device) :
    (stop_voice_call a).mode = a.mode := (stop_voice_call_frame a).mode

@[simp] theorem stop_voice_call_in_call (a : audio_device) :
    (stop_voice_call a).in_call = a.in_call := (stop_voice_call_frame a).in_call

@[simp] theorem stop_voice_call_bluetooth_nrec (a : audio_device) :
    (stop_voice_call a).bluetooth_nrec = a.bluetooth_nrec := (stop_voice_call_frame a).bluetooth_nrec

@[simp] theorem stop_voice_call_wb_amr (a : audio_device) :
    (stop_voice_call a).wb_amr = a.wb_amr := (stop_voice_call_frame a).wb_amr

@[simp] theorem stop_voice_call_two_mic_control (a : audio_device) :
    (stop_voice_call a).two_mic_control = a.two_mic_control := (stop_voice_call_frame a).two_mic_control

@[simp] theorem stop_voice_call_two_mic_disabled (a : audio_device) :
    (stop_voice_call a).two_mic_disabled = a.two_mic_disabled := (stop_voice_call_frame a).two_mic_disabled

@[simp] theorem stop_voice_call_in_channel_mask (a : audio_device) :
    (stop_voice_call a).in_channel_mask = a.in_channel_mask := (stop_voice_call_frame a).in_channel_mask

@[simp] theorem stop_voice_call_outputs (a : audio_device) :
    (stop_voice_call a).outputs = a.outputs := (stop_voice_call_frame a).outputs

@[simp] theorem adev_set_call_audio_path_out_device (a : audio_device) :
    (adev_set_call_audio_path a).out_device = a.out_device := (adev_set_call_audio_path_frame a).out_device

@[simp] theorem adev_set_call_audio_path_in_device (a : audio_device) :
    (adev_set_call_audio_path a).in_device = a.in_device := (adev_set_call_audio_path_frame a).in_device

@[simp] theorem adev_set_call_audio_path_mic_mute (a : audio_device) :
    (adev_set_call_audio_path a).mic_mute = a.mic_mute := (adev_set_call_audio_path_frame a).mic_mute

@[simp] theorem adev_set_call_audio_path_input_source (a : audio_device) :
    (adev_set_call_audio_path a).input_source = a.input_source := (adev_set_call_audio_path_frame a).input_source

@[simp] theorem adev_set_call_audio_path_mode (a : audio_device) :
    (adev_set_call_audio_path a).mode = a.mode := (adev_set_call_audio_path_frame a).mode

@[simp] theorem adev_set_call_audio_path_in_call (a : audio_device) :
    (adev_set_call_audio_path a).in_call = a.in_call := (adev_set_call_audio_path_frame a).in_call

@[simp] theorem adev_set_call_audio_path_bluetooth_nrec (a : audio_device) :
    (adev_set_call_audio_path a).bluetooth_nrec = a.bluetooth_nrec := (adev_set_call_audio_path_frame a).bluetooth_nrec

@[simp] theorem adev_set_call_audio_path_wb_amr (a : audio_device) :
    (adev_set_call_audio_path a).wb_amr = a.wb_amr := (adev_set_call_audio_path_frame a).wb_amr

@[simp] theorem adev_set_call_audio_path_two_mic_control (a : audio_device) :
    (adev_set_call_audio_path a).two_mic_control = a.two_mic_control := (adev_set_call_audio_path_frame a).two_mic_control

@[simp] theorem adev_set_call_audio_path_two_mic_disabled (a : audio_device) :
    (adev_set_call_audio_path a).two_mic_disabled = a.two_mic_disabled := (adev_set_call_audio_path_frame a).two_mic_disabled

@[simp] theorem adev_set_call_audio_path_in_channel_mask (a : audio_device) :
    (adev_set_call_audio_path a).in_channel_mask = a.in_channel_mask := (adev_set_call_audio_path_frame a).in_channel_mask

@[simp] theorem adev_set_call_audio_path_outputs (a : audio_device) :
    (adev_set_call_audio_path a).outputs = a.outputs := (adev_set_call_audio_path_frame a).outputs

@[simp] theorem adev_set_voice_volume_out_device (a : audio_device) :
    (adev_set_voice_volume a).out_device = a.out_device := (adev_set_voice_volume_frame a).out_device

@[simp] theorem adev_set_voice_volume_in_device (a : audio_device) :
    (adev_set_voice_volume a).in_device = a.in_device := (adev_set_voice_volume_frame a).in_device

@[simp] theorem adev_set_voice_volume_mic_mute (a : audio_device) :
    (adev_set_voice_volume a).mic_mute = a.mic_mute := (adev_set_voice_volume_frame a).mic_mute

@[simp] theorem adev_set_voice_volume_input_source (a : audio_device) :
    (adev_set_voice_volume a).input_source = a.input_source := (adev_set_voice_volume_frame a).input_source

@[simp] theorem adev_set_voice_volume_mode (a : audio_device) :
    (adev_set_voice_volume a).mode = a.mode := (adev_set_voice_volume_frame a).mode

@[simp] theorem adev_set_voice_volume_in_call (a : audio_device) :
    (adev_set_voice_volume a).in_call = a.in_call := (adev_set_voice_volume_frame a).in_call

@[simp] theorem adev_set_voice_volume_bluetooth_nrec (a : audio_device) :
    (adev_set_voice_volume a).bluetooth_nrec = a.bluetooth_nrec := (adev_set_voice_volume_frame a).bluetooth_nrec

@[simp] theorem adev_set_voice_volume_wb_amr (a : audio_device) :
    (adev_set_voice_volume a).wb_amr = a.wb_amr := (adev_set_voice_volume_frame a).wb_amr

@[simp] theorem adev_set_voice_volume_two_mic_control (a : audio_device) :
    (adev_set_voice_volume a).two_mic_control = a.two_mic_control := (adev_set_voice_volume_frame a).two_mic_control

@[simp] theorem adev_set_voice_volume_two_mic_disabled (a : audio_device) :
    (adev_set_voice_volume a).two_mic_disabled = a.two_mic_disabled := (adev_set_voice_volume_frame a).two_mic_disabled

@[simp] theorem adev_set_voice_volume_in_channel_mask (a : audio_device) :
    (adev_set_voice_volume a).in_channel_mask = a.in_channel_mask := (adev_set_voice_volume_frame a).in_channel_mask

@[simp] theorem adev_set_voice_volume_outputs (a : audio_device) :
    (adev_set_voice_volume a).outputs = a.outputs := (adev_set_voice_volume_frame a).outputs

/-! ### Call entry and exit -/

theorem start_call_frame (R : routing_h) (a : audio_device) : call_frame a (start_call R a) := by
  simp only [start_call]
  split_ifs <;> constructor <;> simp

theorem stop_call_frame (R : routing_h) (a : audio_device) : call_frame a (stop_call R a) := by
  simp only [stop_call]
  split_ifs <;> constructor <;> simp

/-- What `start_call` leaves in the fields it writes, when the device is not
yet in a call. -/
theorem start_call_fields (R : routing_h) (a : audio_device) (h : a.in_call = false) :
    (start_call R a).in_call = true ∧
    (start_call R a).input_source = AUDIO_SOURCE_VOICE_CALL ∧
    (start_call R a).out_device =
      (if a.out_device = AUDIO_DEVICE_NONE ∧ a.in_device = AUDIO_DEVICE_NONE then
        AUDIO_DEVICE_OUT_EARPIECE else a.out_device) := by
  simp only [start_call, h]
  refine ⟨?_, ?_, ?_⟩ <;> split_ifs <;> simp_all

/-- What `stop_call` leaves in the fields it writes, when the device is in a
call. -/
theorem stop_call_fields (R : routing_h) (a : audio_device) (h : a.in_call = true) :
    (stop_call R a).in_call = false ∧
    (stop_call R a).input_source =
      (if a.mode ≠ AUDIO_MODE_IN_CALL then AUDIO_SOURCE_DEFAULT else a.input_source) ∧
    (stop_call R a).out_device =
      (if a.mode ≠ AUDIO_MODE_IN_CALL ∧
          (a.out_device = AUDIO_DEVICE_NONE ∨ a.out_device = AUDIO_DEVICE_OUT_EARPIECE) then
        AUDIO_DEVICE_OUT_SPEAKER else a.out_device) := by
  simp only [stop_call, h]
  refine ⟨?_, ?_, ?_⟩ <;> split_ifs <;> simp_all

/-! ### The table of outputs -/

@[simp] theorem outputs_get_set_same (o : outputs_t) (t : output_type) (v : Option stream_out) :
    (o.set t v).get t = v := by
  cases t <;> rfl

theorem outputs_get_set_other (o : outputs_t) (t u : output_type) (v : Option stream_out)
    (h : u ≠ t) : (o.set t v).get u = o.get u := by
  cases t <;> cases u <;> first | rfl | exact absurd rfl h

@[simp] theorem outputs_set_get (o : outputs_t) (t : output_type) : o.set t (o.get t) = o := by
  cases t <;> rfl

@[simp] theorem outputs_set_set (o : outputs_t) (t : output_type) (v w : Option stream_out) :
    (o.set t v).set t w = o.set t w := by
  cases t <;> rfl

@[simp] theorem set_out_outputs (a : audio_device) (t : output_type) (out : stream_out) :
    (a.set_out t out).outputs = a.outputs.set t (some out) := rfl

@[simp] theorem set_out_out_device (a : audio_device) (t : output_type) (out : stream_out) :
    (a.set_out t out).out_device = a.out_device := rfl

@[simp] theorem set_out_in_call (a : audio_device) (t : output_type) (out : stream_out) :
    (a.set_out t out).in_call = a.in_call := rfl

@[simp] theorem set_out_mode (a : audio_device) (t : output_type) (out : stream_out) :
    (a.set_out t out).mode = a.mode := rfl

@[simp] theorem set_out_hw (a : audio_device) (t : output_type) (out : stream_out) :
    (a.set_out t out).hw = a.hw := rfl

/-- `output_devices` in closed form. -/
theorem output_devices_eq (t : output_type) (a : audio_device) :
    output_devices t a =
      (if t = OUTPUT_DEEP_BUF then 0 else active_device a.outputs.deep_buf) |||
      (if t = OUTPUT_LOW_LATENCY then 0 else active_device a.outputs.low_latency) |||
      (if t = OUTPUT_HDMI then 0 else active_device a.outputs.hdmi) := by
  rcases a with ⟨_, _, _, _, _, _, _, _, _, _, _, _, _, _, _, _, _, _, ⟨d, l, h⟩, _⟩
  cases t <;> cases d <;> cases l <;> cases h <;>
    simp [output_devices, outputs_t.get, active_device] <;>
    split_ifs <;> simp

/-- `output_devices` only looks at the table of outputs. -/
theorem output_devices_congr (t : output_type) (a b : audio_device)
    (h : a.outputs = b.outputs) : output_devices t a = output_devices t b := by
  simp [output_devices, h]

/-- `output_devices t` does not look at slot `t`. -/
theorem output_devices_set_same (t : output_type) (a : audio_device) (v : Option stream_out) :
    output_devices t { a with outputs := a.outputs.set t v } = output_devices t a := by
  rw [output_devices_eq, output_devices_eq]
  cases t <;> simp [outputs_t.set]

theorem calls_frame (a : audio_device) (cs : List hw_call) : hw_frame a (a.calls cs) := by
  constructor <;> rfl

@[simp] theorem calls_outputs (a : audio_device) (cs : List hw_call) :
    (a.calls cs).outputs = a.outputs := rfl

@[simp] theorem calls_out_device (a : audio_device) (cs : List hw_call) :
    (a.calls cs).out_device = a.out_device := rfl

@[simp] theorem calls_in_call (a : audio_device) (cs : List hw_call) :
    (a.calls cs).in_call = a.in_call := rfl

@[simp] theorem calls_mode (a : audio_device) (cs : List hw_call) :
    (a.calls cs).mode = a.mode := rfl

/-- The body of `do_out_standby` for an active stream, in one piece. -/
theorem do_out_standby_with_active (R : routing_h) (force : audio_device → audio_device)
    (t : output_type) (a : audio_device) (out : stream_out)
    (h : a.outputs.get t = some out) (hs : out.standby = false) :
    do_out_standby_with R force t a =
      (let a1 := (a.calls (standby_closes out)).set_out t out.to_standby
       let a2 := if t = OUTPUT_HDMI then force a1 else a1
       let a3 := { a2 with out_device := output_devices t a2 }
       if a3.out_device ≠ 0 then select_devices R a3 else a3) := by
  simp only [do_out_standby_with, h, hs, if_true]
  rcases out with ⟨p0, p1, _, _, _, _, _, _, _, _, _⟩
  cases p0 <;> cases p1 <;>
    simp [standby_closes, stream_out.to_standby, audio_device.calls, audio_device.call,
      hw_world.call, audio_device.set_out]

theorem do_out_standby_with_idle (R : routing_h) (force : audio_device → audio_device)
    (t : output_type) (a : audio_device) (out : stream_out)
    (h : a.outputs.get t = some out) (hs : out.standby = true) :
    do_out_standby_with R force t a = a := by
  simp [do_out_standby_with, h, hs]

theorem do_out_standby_with_none (R : routing_h) (force : audio_device → audio_device)
    (t : output_type) (a : audio_device) (h : a.outputs.get t = none) :
    do_out_standby_with R force t a = a := by
  simp [do_out_standby_with, h]

/-- What `do_out_standby` does to the table of outputs when the stream is not
the HDMI stream. -/
theorem do_out_standby_with_outputs (R : routing_h) (force : audio_device → audio_device)
    (t : output_type) (a : audio_device) (ht : t ≠ OUTPUT_HDMI) :
    (do_out_standby_with R force t a).outputs =
      a.outputs.set t (standby_slot (a.outputs.get t)) := by
  cases h : a.outputs.get t with
  | none =>
    rw [do_out_standby_with_none R force t a h]
    have := outputs_set_get a.outputs t
    rw [h] at this
    simp [standby_slot, this]
  | some out =>
    cases hs : out.standby with
    | true =>
      rw [do_out_standby_with_idle R force t a out h hs]
      have := outputs_set_get a.outputs t
      rw [h] at this
      simp [standby_slot, hs, this]
    | false =>
      rw [do_out_standby_with_active R force t a out h hs]
      simp only [ht, if_false, standby_slot, Option.map, hs, if_true]
      split_ifs <;> simp

theorem out_frame.refl_out (a : audio_device) : out_frame a a := by
  constructor <;> rfl

theorem out_frame.trans_out {a b c : audio_device} (h1 : out_frame a b) (h2 : out_frame b c) :
    out_frame a c := by
  constructor
  · exact h2.in_device.trans h1.in_device
  · exact h2.mic_mute.trans h1.mic_mute
  · exact h2.input_source.trans h1.input_source
  · exact h2.mode.trans h1.mode
  · exact h2.in_call.trans h1.in_call
  · exact h2.bluetooth_nrec.trans h1.bluetooth_nrec
  · exact h2.wb_amr.trans h1.wb_amr
  · exact h2.two_mic_control.trans h1.two_mic_control
  · exact h2.two_mic_disabled.trans h1.two_mic_disabled
  · exact h2.in_channel_mask.trans h1.in_channel_mask

theorem hw_frame.to_out_frame {a b : audio_device} (h : hw_frame a b) : out_frame a b :=
  ⟨h.in_device, h.mic_mute, h.input_source, h.mode, h.in_call, h.bluetooth_nrec, h.wb_amr,
    h.two_mic_control, h.two_mic_disabled, h.in_channel_mask⟩

theorem do_out_standby_with_frame (R : routing_h) (force : audio_device → audio_device)
    (hforce : ∀ a, out_frame a (force a)) (t : output_type) (a : audio_device) :
    out_frame a (do_out_standby_with R force t a) := by
  cases h : a.outputs.get t with
  | none => rw [do_out_standby_with_none R force t a h]; exact out_frame.refl_out a
  | some out =>
    cases hs : out.standby with
    | true => rw [do_out_standby_with_idle R force t a out h hs]; exact out_frame.refl_out a
    | false =>
      rw [do_out_standby_with_active R force t a out h hs]
      have h1 : out_frame a ((a.calls (standby_closes out)).set_out t out.to_standby) := by
        constructor <;> rfl
      have key : ∀ a2 : audio_device, out_frame a a2 →
          out_frame a
            (if ({ a2 with out_device := output_devices t a2 } : audio_device).out_device ≠ 0 then
              select_devices R { a2 with out_device := output_devices t a2 }
             else { a2 with out_device := output_devices t a2 }) := by
        intro a2 h2
        have h3 : out_frame a { a2 with out_device := output_devices t a2 } :=
          h2.trans_out (by constructor <;> rfl)
        split_ifs
        · exact h3.trans_out (select_devices_frame R _).to_out_frame
        · exact h3
      by_cases hT : t = OUTPUT_HDMI
      · simp only [hT, ↓reduceIte]
        rw [hT] at h1 key
        exact key _ (h1.trans_out (hforce _))
      · simp only [hT, ↓reduceIte]
        exact key _ h1

/-- One step of the loop of `force_non_hdmi_out_standby`, on the table of
outputs. -/
theorem force_step_outputs (R : routing_h) (a : audio_device) (type : output_type) :
    (force_step R a type).outputs =
      if type = OUTPUT_HDMI then a.outputs
      else a.outputs.set type (standby_slot (a.outputs.get type)) := by
  unfold force_step
  by_cases ht : type = OUTPUT_HDMI
  · simp [ht]
  · by_cases hn : a.outputs.get type = none
    · have := outputs_set_get a.outputs type
      rw [hn] at this
      simp [ht, hn, standby_slot, this]
    · simp only [ht, hn, or_self, if_false]
      exact do_out_standby_with_outputs R id type a ht

theorem force_step_frame (R : routing_h) (a : audio_device) (type : output_type) :
    out_frame a (force_step R a type) := by
  unfold force_step
  split_ifs
  · exact out_frame.refl_out a
  · exact do_out_standby_with_frame R id (fun a => out_frame.refl_out a) type a

theorem force_non_hdmi_out_standby_eq (R : routing_h) (a : audio_device) :
    force_non_hdmi_out_standby R a =
      force_step R (force_step R (force_step R a OUTPUT_DEEP_BUF) OUTPUT_LOW_LATENCY)
        OUTPUT_HDMI := rfl

/-- What `force_non_hdmi_out_standby` does to the table of outputs. -/
theorem force_non_hdmi_out_standby_outputs (R : routing_h) (a : audio_device) :
    (force_non_hdmi_out_standby R a).outputs =
      ⟨standby_slot a.outputs.deep_buf, standby_slot a.outputs.low_latency, a.outputs.hdmi⟩ := by
  rw [force_non_hdmi_out_standby_eq, force_step_outputs, force_step_outputs, force_step_outputs]
  simp [outputs_t.set, outputs_t.get]

theorem force_non_hdmi_out_standby_frame (R : routing_h) (a : audio_device) :
    out_frame a (force_non_hdmi_out_standby R a) := by
  rw [force_non_hdmi_out_standby_eq]
  exact ((force_step_frame R _ _).trans_out (force_step_frame R _ _)).trans_out (force_step_frame R _ _)

theorem do_out_standby_frame (R : routing_h) (t : output_type) (a : audio_device) :
    out_frame a (do_out_standby R t a) :=
  do_out_standby_with_frame R _ (force_non_hdmi_out_standby_frame R) t a

/-! ### Starting an output stream -/

theorem modify_out_some (a : audio_device) (t : output_type) (f : stream_out → stream_out)
    (out : stream_out) (h : a.outputs.get t = some out) :
    a.modify_out t f = a.set_out t (f out) := by
  simp [audio_device.modify_out, audio_device.set_out, h]

@[simp] theorem modify_out_outputs (a : audio_device) (t : output_type)
    (f : stream_out → stream_out) :
    (a.modify_out t f).outputs = a.outputs.set t ((a.outputs.get t).map f) := rfl

@[simp] theorem modify_out_out_device (a : audio_device) (t : output_type)
    (f : stream_out → stream_out) : (a.modify_out t f).out_device = a.out_device := rfl

@[simp] theorem modify_out_in_call (a : audio_device) (t : output_type)
    (f : stream_out → stream_out) : (a.modify_out t f).in_call = a.in_call := rfl

theorem modify_out_frame (a : audio_device) (t : output_type) (f : stream_out → stream_out) :
    out_frame a (a.modify_out t f) := by
  constructor <;> rfl

theorem set_out_frame (a : audio_device) (t : output_type) (out : stream_out) :
    out_frame a (a.set_out t out) := by
  constructor <;> rfl

/-- The primary-card block changes only the `pcm_card` slot of the stream. -/
theorem start_output_stream_card_spec (t : output_type) (a : audio_device) (out : stream_out)
    (h : a.outputs.get t = some out) :
    (∃ p, (start_output_stream_card t a).1.outputs =
        a.outputs.set t (some { out with pcm_card := p })) ∧
    (start_output_stream_card t a).1.out_device = a.out_device ∧
    out_frame a (start_output_stream_card t a).1 := by
  simp only [start_output_stream_card, h]
  generalize pcm_open PCM_CARD out.pcm_device false out.config a.hw = p
  split_ifs
  · refine ⟨⟨pcm_closed p.1, ?_⟩, rfl, by constructor <;> rfl⟩
    simp [h]
  · refine ⟨⟨p.1, ?_⟩, rfl, by constructor <;> rfl⟩
    simp [h]
  · refine ⟨⟨out.pcm_card, ?_⟩, rfl, out_frame.refl_out a⟩
    simp [← h]

/-- The SPDIF block changes only the `pcm_card_spdif` slot of the stream. -/
theorem start_output_stream_spdif_spec (t : output_type) (a : audio_device) (out : stream_out)
    (h : a.outputs.get t = some out) :
    (∃ p, (start_output_stream_spdif t a).1.outputs =
        a.outputs.set t (some { out with pcm_card_spdif := p })) ∧
    (start_output_stream_spdif t a).1.out_device = a.out_device ∧
    out_frame a (start_output_stream_spdif t a).1 := by
  simp only [start_output_stream_spdif, h]
  generalize pcm_open PCM_CARD_SPDIF out.pcm_device false out.config a.hw = p
  split_ifs
  · refine ⟨⟨pcm_closed p.1, ?_⟩, rfl, by constructor <;> rfl⟩
    simp [h]
  · refine ⟨⟨p.1, ?_⟩, rfl, by constructor <;> rfl⟩
    simp [h]
  · refine ⟨⟨out.pcm_card_spdif, ?_⟩, rfl, out_frame.refl_out a⟩
    simp [← h]

/-- The routing end of `start_output_stream` leaves the table of outputs
alone and, outside a call, adds the device of the stream to the aggregated
device. -/
theorem start_output_stream_route_spec (R : routing_h) (t : output_type) (a : audio_device)
    (out : stream_out) (h : a.outputs.get t = some out) :
    (start_output_stream_route R t a).outputs = a.outputs ∧
    (start_output_stream_route R t a).out_device =
      (if a.in_call = false then a.out_device ||| out.device else a.out_device) ∧
    out_frame a (start_output_stream_route R t a) := by
  simp only [start_output_stream_route, h]
  have h1 : out_frame a
      (select_devices R { a with out_device := a.out_device ||| out.device }) :=
    out_frame.trans_out (by constructor <;> rfl) (select_devices_frame R _).to_out_frame
  refine ⟨?_, ?_, ?_⟩
  · split_ifs <;> simp
  · split_ifs <;> simp
  · split_ifs
    all_goals
      first
      | exact out_frame.refl_out a
      | exact h1
      | exact (set_hdmi_channels_frame _ _).to_out_frame
      | exact h1.trans_out (set_hdmi_channels_frame _ _).to_out_frame

/-- The part of `start_output_stream` from `out->disabled = false` on: only
the slot of the stream changes (its PCM handles, and `disabled` is cleared),
the status is 0 or `-ENOMEM`, and the device of the stream joins the
aggregated device exactly when the status is 0 outside a call. -/
theorem start_output_stream_open_spec (R : routing_h) (t : output_type) (a : audio_device)
    (out : stream_out) (h : a.outputs.get t = some out) :
    (∃ p0 p1, (start_output_stream_open R t a).1.outputs =
      a.outputs.set t (some { out with disabled := false, pcm_card := p0,
                                       pcm_card_spdif := p1 })) ∧
    ((start_output_stream_open R t a).2 = 0 ∨ (start_output_stream_open R t a).2 = -ENOMEM) ∧
    (start_output_stream_open R t a).1.out_device =
      (if (start_output_stream_open R t a).2 = 0 ∧ a.in_call = false then
        a.out_device ||| out.device else a.out_device) ∧
    out_frame a (start_output_stream_open R t a).1 := by
  have h0 : (a.modify_out t (fun out => { out with disabled := false })).outputs.get t =
      some { out with disabled := false } := by simp [h]
  obtain ⟨⟨p0, e1⟩, d1, f1⟩ := start_output_stream_card_spec t _ _ h0
  have h1 : (start_output_stream_card t
      (a.modify_out t (fun out => { out with disabled := false }))).1.outputs.get t =
      some { out with disabled := false, pcm_card := p0 } := by rw [e1]; simp
  obtain ⟨⟨p1, e2⟩, d2, f2⟩ := start_output_stream_spdif_spec t _ _ h1
  have h2 : (start_output_stream_spdif t (start_output_stream_card t
      (a.modify_out t (fun out => { out with disabled := false }))).1).1.outputs.get t =
      some { out with disabled := false, pcm_card := p0, pcm_card_spdif := p1 } := by
    rw [e2]; simp
  obtain ⟨e3, d3, f3⟩ := start_output_stream_route_spec R t _ _ h2
  have fm := modify_out_frame a t (fun out => { out with disabled := false })
  simp only [start_output_stream_open]
  cases c1 : (start_output_stream_card t
      (a.modify_out t (fun out => { out with disabled := false }))).2 with
  | true =>
    simp only [if_true]
    refine ⟨⟨p0, out.pcm_card_spdif, ?_⟩, by simp, ?_, fm.trans_out f1⟩
    · rw [e1]; simp [h]
    · simp [d1]
  | false =>
    simp only [Bool.false_eq_true, if_false]
    cases c2 : (start_output_stream_spdif t (start_output_stream_card t
        (a.modify_out t (fun out => { out with disabled := false }))).1).2 with
    | true =>
      simp only [if_true]
      refine ⟨⟨p0, p1, ?_⟩, by simp, ?_, (fm.trans_out f1).trans_out f2⟩
      · rw [e2, e1]; simp [h]
      · simp [d2, d1]
    | false =>
      simp only [Bool.false_eq_true, if_false]
      refine ⟨⟨p0, p1, ?_⟩, by simp, ?_, ((fm.trans_out f1).trans_out f2).trans_out f3⟩
      · rw [e3, e2, e1]; simp [h]
      · simp only [d3, d2, d1, f2.in_call, f1.in_call, fm.in_call]
        simp

/-- Starting a stream other than the HDMI one while the HDMI stream is
active only sets its `disabled` flag. -/
theorem start_output_stream_disabled (R : routing_h) (t : output_type) (a : audio_device)
    (out : stream_out) (ht : t ≠ OUTPUT_HDMI) (h : a.outputs.get t = some out)
    (hact : active a.outputs OUTPUT_HDMI = true) :
    start_output_stream R t a = (a.set_out t { out with disabled := true }, 0) := by
  simp only [start_output_stream, h, ht, if_false, hact, if_true, modify_out_some _ t _ out h]

/-- A write on a stream in standby, while the HDMI stream is active: the
stream is disabled, leaves standby, and the write stops with `-EPIPE`. -/
theorem out_write_status_disabled_standby (R : routing_h) (t : output_type) (bytes : Nat)
    (a : audio_device) (out : stream_out) (ht : t ≠ OUTPUT_HDMI)
    (h : a.outputs.get t = some out) (hs : out.standby = true)
    (hact : active a.outputs OUTPUT_HDMI = true) :
    out_write_status R t bytes a =
      (a.set_out t { out with disabled := true, standby := false }, -EPIPE) := by
  simp only [out_write_status, out_write_start, h, hs, if_true,
    start_output_stream_disabled R t a out ht h hact]
  simp [audio_device.modify_out, audio_device.set_out]

/-- A write on an active stream whose `disabled` flag is set stops with
`-EPIPE` and changes nothing. -/
theorem out_write_status_disabled_active (R : routing_h) (t : output_type) (bytes : Nat)
    (a : audio_device) (out : stream_out)
    (h : a.outputs.get t = some out) (hs : out.standby = false) (hd : out.disabled = true) :
    out_write_status R t bytes a = (a, -EPIPE) := by
  simp [out_write_status, out_write_start, h, hs, hd]

/-! ### The trace only grows -/

theorem call_log_grows (a : audio_device) (c : hw_call) : a.hw.log <+: (a.call c).hw.log :=
  List.prefix_append _ _

theorem calls_log_grows (a : audio_device) (cs : List hw_call) :
    a.hw.log <+: (a.calls cs).hw.log :=
  List.prefix_append _ _

theorem select_devices_log_grows (R : routing_h) (a : audio_device) :
    a.hw.log <+: (select_devices R a).hw.log := by
  rw [select_devices_eq]
  exact List.prefix_append _ _

theorem open_hdmi_driver_log_grows (a : audio_device) :
    a.hw.log <+: (open_hdmi_driver a).hw.log := by
  simp only [open_hdmi_driver]
  split_ifs
  · split <;> exact List.prefix_append _ _
  · exact List.prefix_refl _

theorem set_hdmi_channels_log_grows (a : audio_device) (n : Nat) :
    a.hw.log <+: (set_hdmi_channels a n).hw.log := by
  simp only [set_hdmi_channels]
  split_ifs
  · exact open_hdmi_driver_log_grows a
  · exact (open_hdmi_driver_log_grows a).trans (call_log_grows _ _)

theorem pcm_open_log_grows (card device : Nat) (is_in : Bool) (config : pcm_config)
    (w : hw_world) : w.log <+: (pcm_open card device is_in config w).2.log := by
  simp only [pcm_open]
  split
  · exact List.prefix_append _ _
  · split <;> exact List.prefix_append _ _

theorem do_out_standby_with_log_grows (R : routing_h) (force : audio_device → audio_device)
    (hforce : ∀ a, a.hw.log <+: (force a).hw.log) (t : output_type) (a : audio_device) :
    a.hw.log <+: (do_out_standby_with R force t a).hw.log := by
  cases h : a.outputs.get t with
  | none => rw [do_out_standby_with_none R force t a h]
  | some out =>
    cases hs : out.standby with
    | true => rw [do_out_standby_with_idle R force t a out h hs]
    | false =>
      rw [do_out_standby_with_active R force t a out h hs]
      have h1 : a.hw.log <+: ((a.calls (standby_closes out)).set_out t out.to_standby).hw.log :=
        calls_log_grows a _
      have key : ∀ a2 : audio_device, a.hw.log <+: a2.hw.log →
          a.hw.log <+:
            (if ({ a2 with out_device := output_devices t a2 } : audio_device).out_device ≠ 0 then
              select_devices R { a2 with out_device := output_devices t a2 }
             else { a2 with out_device := output_devices t a2 }).hw.log := by
        intro a2 h2
        split_ifs
        · exact h2.trans (select_devices_log_grows R { a2 with out_device := output_devices t a2 })
        · exact h2
      by_cases hT : t = OUTPUT_HDMI
      · simp only [hT, ↓reduceIte]
        rw [hT] at h1 key
        exact key _ (h1.trans (hforce _))
      · simp only [hT, ↓reduceIte]
        exact key _ h1

theorem force_step_log_grows (R : routing_h) (a : audio_device) (type : output_type) :
    a.hw.log <+: (force_step R a type).hw.log := by
  unfold force_step
  split_ifs
  · exact List.prefix_refl _
  · exact do_out_standby_with_log_grows R id (fun a => List.prefix_refl _) type a

theorem force_non_hdmi_out_standby_log_grows (R : routing_h) (a : audio_device) :
    a.hw.log <+: (force_non_hdmi_out_standby R a).hw.log := by
  rw [force_non_hdmi_out_standby_eq]
  exact ((force_step_log_grows R _ _).trans (force_step_log_grows R _ _)).trans
    (force_step_log_grows R _ _)

theorem start_output_stream_card_log_grows (t : output_type) (a : audio_device) :
    a.hw.log <+: (start_output_stream_card t a).1.hw.log := by
  simp only [start_output_stream_card]
  split
  · exact List.prefix_refl _
  · split_ifs
    · exact (pcm_open_log_grows _ _ _ _ _).trans (List.prefix_append _ _)
    · exact pcm_open_log_grows _ _ _ _ _
    · exact List.prefix_refl _

theorem start_output_stream_spdif_log_grows (t : output_type) (a : audio_device) :
    a.hw.log <+: (start_output_stream_spdif t a).1.hw.log := by
  simp only [start_output_stream_spdif]
  split
  · exact List.prefix_refl _
  · split_ifs
    · exact (pcm_open_log_grows _ _ _ _ _).trans (List.prefix_append _ _)
    · exact pcm_open_log_grows _ _ _ _ _
    · exact List.prefix_refl _

theorem start_output_stream_route_log_grows (R : routing_h) (t : output_type)
    (a : audio_device) : a.hw.log <+: (start_output_stream_route R t a).hw.log := by
  simp only [start_output_stream_route]
  have h1 : ∀ d, a.hw.log <+: (select_devices R { a with out_device := d }).hw.log :=
    fun d => select_devices_log_grows R { a with out_device := d }
  split
  · exact List.prefix_refl _
  · split_ifs
    all_goals
      first
      | exact List.prefix_refl _
      | exact h1 _
      | exact set_hdmi_channels_log_grows _ _
      | exact (h1 _).trans (set_hdmi_channels_log_grows _ _)

theorem start_output_stream_open_log_grows (R : routing_h) (t : output_type)
    (a : audio_device) : a.hw.log <+: (start_output_stream_open R t a).1.hw.log := by
  simp only [start_output_stream_open]
  have h0 : a.hw.log <+: (a.modify_out t (fun out => { out with disabled := false })).hw.log :=
    List.prefix_refl _
  have h1 := h0.trans (start_output_stream_card_log_grows t _)
  have h2 := h1.trans (start_output_stream_spdif_log_grows t _)
  have h3 := h2.trans (start_output_stream_route_log_grows R t _)
  split_ifs
  · exact h1
  · exact h2
  · exact h3

/-- An active stream put into standby has had its open handles passed to
`pcm_close`. -/
theorem do_out_standby_with_closes (R : routing_h) (force : audio_device → audio_device)
    (hforce : ∀ a, a.hw.log <+: (force a).hw.log) (t : output_type) (a : audio_device)
    (out : stream_out) (h : a.outputs.get t = some out) (hs : out.standby = false) :
    (a.hw.log ++ standby_closes out) <+: (do_out_standby_with R force t a).hw.log := by
  rw [do_out_standby_with_active R force t a out h hs]
  have h1 : (a.hw.log ++ standby_closes out) <+:
      ((a.calls (standby_closes out)).set_out t out.to_standby).hw.log := List.prefix_refl _
  have key : ∀ a2 : audio_device, (a.hw.log ++ standby_closes out) <+: a2.hw.log →
      (a.hw.log ++ standby_closes out) <+:
        (if ({ a2 with out_device := output_devices t a2 } : audio_device).out_device ≠ 0 then
          select_devices R { a2 with out_device := output_devices t a2 }
         else { a2 with out_device := output_devices t a2 }).hw.log := by
    intro a2 h2
    split_ifs
    · exact h2.trans (select_devices_log_grows R { a2 with out_device := output_devices t a2 })
    · exact h2
  by_cases hT : t = OUTPUT_HDMI
  · simp only [hT, ↓reduceIte]
    rw [hT] at h1 key
    exact key _ (h1.trans (hforce _))
  · simp only [hT, ↓reduceIte]
    exact key _ h1

theorem out_write_of_status (R : routing_h) (t : output_type) (bytes : Nat) (a b : audio_device)
    (out : stream_out) (ret : Int) (hst : out_write_status R t bytes a = (b, ret))
    (hb : b.outputs.get t = some out) (hret : ret ≠ 0) :
    out_write R t bytes a =
      (b.call (.usleep (bytes * 1000000 / audio_stream_out_frame_size out / out.config.rate)),
       bytes) := by
  simp [out_write, hst, hb, hret]

/-- One write on a disabled stream while the HDMI stream is active: the status
is `-EPIPE`, the stream stays disabled, the HDMI stream stays active, no PCM
slot changes and the only call made is the pacing sleep. -/
theorem out_write_disabled_step (R : routing_h) (t : output_type) (bytes : Nat)
    (s : audio_device) (ht : t ≠ OUTPUT_HDMI)
    (hact : active s.outputs OUTPUT_HDMI = true)
    (hd : ∃ o, s.outputs.get t = some o ∧ o.disabled = true) :
    (out_write_status R t bytes s).2 = -EPIPE ∧
    active (out_write R t bytes s).1.outputs OUTPUT_HDMI = true ∧
    (∃ o, (out_write R t bytes s).1.outputs.get t = some o ∧ o.disabled = true) ∧
    (∀ u, (out_write R t bytes s).1.out_pcms u = s.out_pcms u) ∧
    ∃ n, (out_write R t bytes s).1.hw.log = s.hw.log ++ [hw_call.usleep n] := by
  obtain ⟨o, ho, hdis⟩ := hd
  cases hs : o.standby with
  | false =>
    have e := out_write_status_disabled_active R t bytes s o ho hs hdis
    have e2 := out_write_of_status R t bytes s s o (-EPIPE) e ho (by decide)
    refine ⟨by rw [e], ?_, ?_, ?_, ?_⟩
    · rw [e2]; exact hact
    · rw [e2]; exact ⟨o, ho, hdis⟩
    · intro u; rw [e2]; rfl
    · rw [e2]; exact ⟨_, rfl⟩
  | true =>
    have e := out_write_status_disabled_standby R t bytes s o ht ho hs hact
    have hb : (s.set_out t { o with disabled := true, standby := false }).outputs.get t =
        some { o with disabled := true, standby := false } := by simp
    have e2 := out_write_of_status R t bytes s _ _ (-EPIPE) e hb (by decide)
    refine ⟨by rw [e], ?_, ?_, ?_, ?_⟩
    · rw [e2]
      simp only [active, call_outputs, set_out_outputs] at hact ⊢
      rw [outputs_get_set_other _ _ _ _ (Ne.symm ht)]
      exact hact
    · rw [e2]; exact ⟨_, hb, rfl⟩
    · intro u
      rw [e2]
      simp only [audio_device.out_pcms, call_outputs, set_out_outputs]
      by_cases hu : u = t
      · subst hu; simp [ho, stream_out.pcms]
      · rw [outputs_get_set_other _ _ _ _ hu]
    · rw [e2]; exact ⟨_, rfl⟩

theorem read_hdmi_channel_masks_status (a : audio_device) (out : stream_out) :
    (read_hdmi_channel_masks a out).2.2 = hdmi_query_status a := by
  simp only [hdmi_query_status, read_hdmi_channel_masks]
  split_ifs <;> rfl

theorem read_hdmi_channel_masks_outputs (a : audio_device) (out : stream_out) :
    (read_hdmi_channel_masks a out).1.outputs = a.outputs := by
  simp only [read_hdmi_channel_masks]
  split_ifs <;> simp

/-! ### What the output operations do to the table of outputs -/

/-- `do_out_standby` on the table of outputs: a stream other than the HDMI
one goes to standby alone; an active HDMI stream takes the other two with
it. -/
theorem do_out_standby_outputs (R : routing_h) (t : output_type) (a : audio_device) :
    (do_out_standby R t a).outputs =
      if t = OUTPUT_HDMI then
        (if active a.outputs OUTPUT_HDMI then
          ⟨standby_slot a.outputs.deep_buf, standby_slot a.outputs.low_latency,
            standby_slot a.outputs.hdmi⟩
         else a.outputs)
      else a.outputs.set t (standby_slot (a.outputs.get t)) := by
  by_cases ht : t = OUTPUT_HDMI
  · subst ht
    simp only [if_true, do_out_standby]
    cases h : a.outputs.get OUTPUT_HDMI with
    | none =>
      rw [do_out_standby_with_none R _ _ a h]
      simp [active, h]
    | some out =>
      cases hs : out.standby with
      | true =>
        rw [do_out_standby_with_idle R _ _ a out h hs]
        simp [active, h, hs]
      | false =>
        rw [do_out_standby_with_active R _ _ a out h hs]
        have h' : a.outputs.hdmi = some out := h
        simp only [if_true, active, h, hs, Bool.not_false]
        split_ifs <;>
          simp [force_non_hdmi_out_standby_outputs, outputs_t.set, standby_slot, h', hs]
  · simp only [if_neg ht, do_out_standby]
    exact do_out_standby_with_outputs R _ t a ht

/-! ### What the output operations do to the aggregated device -/

theorem active_device_standby_slot (x : Option stream_out) :
    active_device (standby_slot x) = 0 := by
  cases x with
  | none => rfl
  | some out =>
    cases hs : out.standby <;> simp [standby_slot, active_device, stream_out.to_standby, hs]

theorem active_device_of_inactive (o : outputs_t) (t : output_type)
    (h : active o t = false) : active_device (o.get t) = 0 := by
  unfold active at h
  cases hx : o.get t with
  | none => rfl
  | some out =>
    rw [hx] at h
    simp only [Bool.not_eq_false'] at h
    simp [active_device, h]

/-- `do_out_standby` on a stream other than the HDMI one: an active stream
leaves the devices of the other active streams in the aggregated device. -/
theorem do_out_standby_with_out_device (R : routing_h) (force : audio_device → audio_device)
    (t : output_type) (a : audio_device) (ht : t ≠ OUTPUT_HDMI) :
    (do_out_standby_with R force t a).out_device =
      if active a.outputs t then output_devices t a else a.out_device := by
  cases h : a.outputs.get t with
  | none => rw [do_out_standby_with_none R force t a h]; simp [active, h]
  | some out =>
    cases hs : out.standby with
    | true => rw [do_out_standby_with_idle R force t a out h hs]; simp [active, h, hs]
    | false =>
      rw [do_out_standby_with_active R force t a out h hs]
      have e : output_devices t ((a.calls (standby_closes out)).set_out t out.to_standby) =
          output_devices t a := output_devices_set_same t (a.calls (standby_closes out)) _
      simp only [ht, if_false, active, h, hs, Bool.not_false, if_true, e]
      split_ifs <;> simp

theorem force_step_out_device (R : routing_h) (a : audio_device) (type : output_type)
    (ht : type ≠ OUTPUT_HDMI) :
    (force_step R a type).out_device =
      if active a.outputs type then output_devices type a else a.out_device := by
  unfold force_step
  by_cases hn : a.outputs.get type = none
  · simp [hn, active]
  · simp only [ht, hn, or_self, if_false]
    exact do_out_standby_with_out_device R id type a ht

/-- `force_non_hdmi_out_standby` on the aggregated device: when one of the
two other streams was active, only the device of an active HDMI stream is
left. -/
theorem force_non_hdmi_out_standby_out_device (R : routing_h) (a : audio_device) :
    (force_non_hdmi_out_standby R a).out_device =
      if active a.outputs OUTPUT_DEEP_BUF ∨ active a.outputs OUTPUT_LOW_LATENCY then
        active_device a.outputs.hdmi
      else a.out_device := by
  rw [force_non_hdmi_out_standby_eq]
  have e3 : ∀ b : audio_device, force_step R b OUTPUT_HDMI = b := by
    intro b; simp [force_step]
  rw [e3, force_step_out_device R _ _ (by decide), force_step_out_device R _ _ (by decide)]
  have ho := force_step_outputs R a OUTPUT_DEEP_BUF
  simp only [if_neg (show OUTPUT_DEEP_BUF ≠ OUTPUT_HDMI by decide)] at ho
  rw [output_devices_eq, output_devices_eq, ho]
  simp only [active, outputs_t.get, outputs_t.set, reduceCtorEq, if_false, if_true,
    active_device_standby_slot]
  rcases a.outputs with ⟨d, l, h⟩
  cases d <;> cases l <;> simp [active_device] <;> split_ifs <;> simp_all

theorem do_out_standby_inactive (R : routing_h) (t : output_type) (a : audio_device)
    (h : active a.outputs t = false) : do_out_standby R t a = a := by
  unfold active at h
  unfold do_out_standby
  cases hx : a.outputs.get t with
  | none => exact do_out_standby_with_none R _ t a hx
  | some out =>
    rw [hx] at h
    simp only [Bool.not_eq_false'] at h
    exact do_out_standby_with_idle R _ t a out hx h

/-- After `do_out_standby` on an active stream the aggregated device is the
OR of the devices of the streams that are still active. -/
theorem do_out_standby_out_device (R : routing_h) (t : output_type) (a : audio_device)
    (h : active a.outputs t = true) :
    (do_out_standby R t a).out_device = active_devices (do_out_standby R t a).outputs := by
  rw [do_out_standby_outputs]
  by_cases ht : t = OUTPUT_HDMI
  · subst ht
    simp only [if_true, h, active_devices, active_device_standby_slot]
    unfold active at h
    cases hx : a.outputs.get OUTPUT_HDMI with
    | none => rw [hx] at h; simp at h
    | some out =>
      rw [hx] at h
      simp only [Bool.not_eq_true'] at h
      unfold do_out_standby
      rw [do_out_standby_with_active R _ _ a out hx h]
      simp only [if_true]
      have e : output_devices OUTPUT_HDMI (force_non_hdmi_out_standby R
          ((a.calls (standby_closes out)).set_out OUTPUT_HDMI out.to_standby)) = 0 := by
        rw [output_devices_eq, force_non_hdmi_out_standby_outputs]
        simp [active_device_standby_slot]
      split_ifs <;> simp [e]
  · simp only [if_neg ht]
    unfold do_out_standby
    rw [do_out_standby_with_out_device R _ t a ht, h, if_pos rfl, output_devices_eq]
    cases t <;>
      simp [active_devices, outputs_t.set, outputs_t.get, active_device_standby_slot] at ht ⊢

/-- The write loop of `out_write` changes only the `written` counter of the
stream and the outside world. -/
theorem out_write_pcms_effect (t : output_type) (bytes : Nat) (ret : Int) (a : audio_device)
    (out : stream_out) (h : a.outputs.get t = some out) :
    (∃ w, (out_write_pcms t bytes ret a).1.outputs =
      a.outputs.set t (some { out with written := w })) ∧
    (out_write_pcms t bytes ret a).1.out_device = a.out_device ∧
    out_frame a (out_write_pcms t bytes ret a).1 := by
  simp only [out_write_pcms, h]
  refine ⟨?_, rfl, by constructor <;> rfl⟩
  simp only [modify_out_outputs, h, Option.map]
  split_ifs
  all_goals first | exact ⟨_, rfl⟩ | exact ⟨out.written, rfl⟩

/-- The part of `out_write` after the standby block changes only the
`written` counter of the stream and the outside world. -/
theorem out_write_tail (R : routing_h) (t : output_type) (bytes : Nat) (a : audio_device)
    (o : stream_out) (h : (out_write_start R t a).1.outputs.get t = some o) :
    (∃ w, (out_write R t bytes a).1.outputs =
      (out_write_start R t a).1.outputs.set t (some { o with written := w })) ∧
    (out_write R t bytes a).1.out_device = (out_write_start R t a).1.out_device ∧
    out_frame (out_write_start R t a).1 (out_write R t bytes a).1 := by
  have hself : (out_write_start R t a).1.outputs =
      (out_write_start R t a).1.outputs.set t (some { o with written := o.written }) := by
    rw [← h]; simp
  obtain ⟨⟨w, e1⟩, e2, e3⟩ := out_write_pcms_effect t bytes (out_write_start R t a).2
    (out_write_start R t a).1 o h
  have key : (∃ w, (out_write_status R t bytes a).1.outputs =
        (out_write_start R t a).1.outputs.set t (some { o with written := w })) ∧
      (out_write_status R t bytes a).1.out_device = (out_write_start R t a).1.out_device ∧
      out_frame (out_write_start R t a).1 (out_write_status R t bytes a).1 := by
    simp only [out_write_status, h]
    split_ifs
    · exact ⟨⟨_, hself⟩, rfl, out_frame.refl_out _⟩
    · exact ⟨⟨_, hself⟩, rfl, out_frame.refl_out _⟩
    · exact ⟨⟨w, e1⟩, e2, e3⟩
  obtain ⟨⟨w', k1⟩, k2, k3⟩ := key
  simp only [out_write]
  split
  · exact ⟨⟨w', k1⟩, k2, k3⟩
  · split_ifs
    · exact ⟨⟨w', k1⟩, k2, k3.trans_out (call_hw_frame _ _).to_out_frame⟩
    · exact ⟨⟨w', k1⟩, k2, k3⟩

/-- `start_output_stream` when the stream is not pre-empted by an active
HDMI stream: after `force_non_hdmi_out_standby` (HDMI stream only), only the
slot of the stream changes, and its device joins the aggregated device when
the start succeeds outside a call. -/
theorem start_output_stream_effect (R : routing_h) (t : output_type) (a : audio_device)
    (out : stream_out) (h : a.outputs.get t = some out)
    (hna : ¬(t ≠ OUTPUT_HDMI ∧ active a.outputs OUTPUT_HDMI = true)) :
    ∃ p0 p1,
      (start_output_stream R t a).1.outputs =
        (if t = OUTPUT_HDMI then force_non_hdmi_out_standby R a else a).outputs.set t
          (some { out with disabled := false, pcm_card := p0, pcm_card_spdif := p1 }) ∧
      ((start_output_stream R t a).2 = 0 ∨ (start_output_stream R t a).2 = -ENOMEM) ∧
      (start_output_stream R t a).1.out_device =
        (if (start_output_stream R t a).2 = 0 ∧ a.in_call = false then
          (if t = OUTPUT_HDMI then force_non_hdmi_out_standby R a else a).out_device |||
            out.device
         else (if t = OUTPUT_HDMI then force_non_hdmi_out_standby R a else a).out_device) ∧
      out_frame a (start_output_stream R t a).1 := by
  by_cases ht : t = OUTPUT_HDMI
  · subst ht
    have e : start_output_stream R OUTPUT_HDMI a =
        start_output_stream_open R OUTPUT_HDMI (force_non_hdmi_out_standby R a) := by
      simp only [start_output_stream, h, if_true]
    have hfh : (force_non_hdmi_out_standby R a).outputs.get OUTPUT_HDMI = some out := by
      rw [force_non_hdmi_out_standby_outputs]; exact h
    obtain ⟨⟨p0, p1, e1⟩, e2, e3, e4⟩ := start_output_stream_open_spec R OUTPUT_HDMI _ out hfh
    have hf := force_non_hdmi_out_standby_frame R a
    rw [e]
    simp only [if_true]
    rw [hf.in_call] at e3
    exact ⟨p0, p1, e1, e2, e3, hf.trans_out e4⟩
  · have hact : active a.outputs OUTPUT_HDMI = false := by
      cases hx : active a.outputs OUTPUT_HDMI with
      | false => rfl
      | true => exact absurd ⟨ht, hx⟩ hna
    have e : start_output_stream R t a = start_output_stream_open R t a := by
      simp [start_output_stream, h, ht, hact]
    obtain ⟨⟨p0, p1, e1⟩, e2, e3, e4⟩ := start_output_stream_open_spec R t a out h
    rw [e]
    simp only [if_neg ht]
    exact ⟨p0, p1, e1, e2, e3, e4⟩

/-- The standby block of `out_write`: what becomes of the stream, of the
table of outputs and of the aggregated device. -/
theorem out_write_start_effect (R : routing_h) (t : output_type) (a : audio_device)
    (out : stream_out) (h : a.outputs.get t = some out) :
    (out.standby = false ∧ out_write_start R t a = (a, 0)) ∨
    (out.standby = true ∧ t ≠ OUTPUT_HDMI ∧ active a.outputs OUTPUT_HDMI = true ∧
      (out_write_start R t a).1 = a.set_out t { out with disabled := true, standby := false }) ∨
    (out.standby = true ∧ ¬(t ≠ OUTPUT_HDMI ∧ active a.outputs OUTPUT_HDMI = true) ∧
      ∃ (p0 p1 : Option pcm) (ok : Bool),
        (out_write_start R t a).1.outputs =
          (if t = OUTPUT_HDMI then force_non_hdmi_out_standby R a else a).outputs.set t
            (some { out with disabled := false, standby := !ok, pcm_card := p0,
                             pcm_card_spdif := p1 }) ∧
        (out_write_start R t a).1.out_device =
          (if ok = true ∧ a.in_call = false then
            (if t = OUTPUT_HDMI then force_non_hdmi_out_standby R a else a).out_device |||
              out.device
           else (if t = OUTPUT_HDMI then force_non_hdmi_out_standby R a else a).out_device) ∧
        out_frame a (out_write_start R t a).1) := by
  cases hs : out.standby with
  | false => left; simp [out_write_start, h, hs]
  | true =>
    right
    by_cases hp : t ≠ OUTPUT_HDMI ∧ active a.outputs OUTPUT_HDMI = true
    · left
      refine ⟨rfl, hp.1, hp.2, ?_⟩
      simp only [out_write_start, h, hs, if_true,
        start_output_stream_disabled R t a out hp.1 h hp.2]
      simp [audio_device.modify_out, audio_device.set_out]
    · right
      refine ⟨rfl, hp, ?_⟩
      obtain ⟨p0, p1, e1, e2, e3, e4⟩ := start_output_stream_effect R t a out h hp
      simp only [out_write_start, h, hs, if_true]
      rcases e2 with e2 | e2
      · refine ⟨p0, p1, true, ?_, ?_, ?_⟩
        · simp [e2, e1, hs]
        · simp [e2, e3]
        · simp only [e2, lt_self_iff_false, if_false]
          exact e4.trans_out (modify_out_frame _ _ _)
      · refine ⟨p0, p1, false, ?_, ?_, ?_⟩
        · simp [e2, e1, hs]
        · simp [e2, e3]
        · simp only [e2]
          exact e4

/-! ### The invariant about the `disabled` flag -/

theorem disabled_active_standby_slot (x : Option stream_out) :
    disabled_active (standby_slot x) = false := by
  cases x with
  | none => rfl
  | some out =>
    cases hs : out.standby <;> simp [standby_slot, disabled_active, stream_out.to_standby, hs]

theorem active_standby_slot_hdmi (d l h : Option stream_out) :
    active ⟨d, l, standby_slot h⟩ OUTPUT_HDMI = false := by
  cases h with
  | none => rfl
  | some out =>
    cases hs : out.standby <;>
      simp [standby_slot, active, outputs_t.get, stream_out.to_standby, hs]

theorem disabled_inv_init (force_wideband disable_two_mic : Bool) (hw : hw_world) :
    disabled_inv (adev_open force_wideband disable_two_mic hw).outputs := by
  have : (adev_open force_wideband disable_two_mic hw).outputs = ⟨none, none, none⟩ := by
    simp only [adev_open, open_hdmi_driver_outputs]
    split_ifs <;> rfl
  rw [this]
  simp [disabled_inv, disabled_active]

theorem disabled_inv_do_out_standby (R : routing_h) (t : output_type) (a : audio_device)
    (h : disabled_inv a.outputs) : disabled_inv (do_out_standby R t a).outputs := by
  rw [do_out_standby_outputs]
  rcases ho : a.outputs with ⟨d, l, hd⟩
  rw [ho] at h
  obtain ⟨h1, h2, h3⟩ := h
  cases t
  · simp only [reduceCtorEq, if_false, outputs_t.set, outputs_t.get]
    exact ⟨h1, by simp [disabled_active_standby_slot], h3⟩
  · simp only [reduceCtorEq, if_false, outputs_t.set, outputs_t.get]
    exact ⟨h1, h2, by simp [disabled_active_standby_slot]⟩
  · simp only [if_true]
    split_ifs
    · simp [disabled_inv, disabled_active_standby_slot]
    · exact ⟨h1, h2, h3⟩

/-- Replacing a stream by one with the same standby and disabled flags keeps
the invariant. -/
theorem disabled_inv_set_same_flags (o : outputs_t) (t : output_type) (out out' : stream_out)
    (h : o.get t = some out) (hs : out'.standby = out.standby)
    (hd : out'.disabled = out.disabled) (hinv : disabled_inv o) :
    disabled_inv (o.set t (some out')) := by
  rcases o with ⟨d, l, hh⟩
  cases t <;> simp only [outputs_t.get] at h <;> subst h <;>
    simpa [disabled_inv, disabled_active, active, outputs_t.get, outputs_t.set, hs, hd]
      using hinv

/-- A stream that is in standby, or not disabled, can be put in any slot. -/
theorem disabled_inv_set_clean (o : outputs_t) (t : output_type) (out' : stream_out)
    (hc : out'.standby = true ∨ out'.disabled = false)
    (hh : t = OUTPUT_HDMI → disabled_active o.deep_buf = false ∧
      disabled_active o.low_latency = false)
    (hinv : disabled_inv o) :
    disabled_inv (o.set t (some out')) := by
  rcases o with ⟨d, l, hd⟩
  obtain ⟨h1, h2, h3⟩ := hinv
  have hda : disabled_active (some out') = false := by
    rcases hc with hc | hc <;> simp [disabled_active, hc]
  cases t
  · exact ⟨h1, by simp [outputs_t.set, hda], h3⟩
  · exact ⟨h1, h2, by simp [outputs_t.set, hda]⟩
  · obtain ⟨g1, g2⟩ := hh rfl
    simp only [outputs_t.set] at g1 g2 ⊢
    exact ⟨hda, by simp [g1], by simp [g2]⟩

theorem disabled_inv_set_hdmi_active (o : outputs_t) (t : output_type) (x : stream_out)
    (ht : t ≠ OUTPUT_HDMI) (hact : active o OUTPUT_HDMI = true) (hinv : disabled_inv o) :
    disabled_inv (o.set t (some x)) := by
  rcases o with ⟨d, l, hd⟩
  obtain ⟨h1, -, -⟩ := hinv
  cases t
  · exact ⟨h1, fun _ => hact, fun _ => hact⟩
  · exact ⟨h1, fun _ => hact, fun _ => hact⟩
  · exact absurd rfl ht

theorem disabled_inv_remove (o : outputs_t) (t : output_type)
    (hh : t = OUTPUT_HDMI → active o OUTPUT_HDMI = false) (hinv : disabled_inv o) :
    disabled_inv (o.set t none) := by
  rcases o with ⟨d, l, hd⟩
  obtain ⟨h1, h2, h3⟩ := hinv
  cases t
  · exact ⟨h1, by simp [outputs_t.set, disabled_active], h3⟩
  · exact ⟨h1, h2, by simp [outputs_t.set, disabled_active]⟩
  · have hf := hh rfl
    refine ⟨rfl, ?_, ?_⟩
    · intro hx; rw [h2 hx] at hf; exact absurd hf (by decide)
    · intro hx; rw [h3 hx] at hf; exact absurd hf (by decide)

theorem out_write_none (R : routing_h) (t : output_type) (bytes : Nat) (a : audio_device)
    (h : a.outputs.get t = none) : (out_write R t bytes a).1 = a := by
  simp [out_write, out_write_status, out_write_start, h]

theorem disabled_inv_force (R : routing_h) (a : audio_device) (h : disabled_inv a.outputs) :
    disabled_inv (force_non_hdmi_out_standby R a).outputs ∧
    disabled_active (force_non_hdmi_out_standby R a).outputs.deep_buf = false ∧
    disabled_active (force_non_hdmi_out_standby R a).outputs.low_latency = false := by
  rw [force_non_hdmi_out_standby_outputs]
  exact ⟨⟨h.1, by simp [disabled_active_standby_slot], by simp [disabled_active_standby_slot]⟩,
    disabled_active_standby_slot _, disabled_active_standby_slot _⟩

theorem disabled_inv_out_write (R : routing_h) (t : output_type) (bytes : Nat)
    (a : audio_device) (h : disabled_inv a.outputs) :
    disabled_inv (out_write R t bytes a).1.outputs := by
  cases hx : a.outputs.get t with
  | none => rw [out_write_none R t bytes a hx]; exact h
  | some out =>
    have key : disabled_inv (out_write_start R t a).1.outputs ∧
        ∃ o, (out_write_start R t a).1.outputs.get t = some o := by
      rcases out_write_start_effect R t a out hx with ⟨-, e⟩ | ⟨-, ht, hact, e⟩ |
          ⟨-, hp, p0, p1, ok, e, -, -⟩
      · rw [e]; exact ⟨h, out, hx⟩
      · rw [e]
        exact ⟨disabled_inv_set_hdmi_active _ t _ ht hact h, _, outputs_get_set_same _ _ _⟩
      · rw [e]
        refine ⟨?_, _, outputs_get_set_same _ _ _⟩
        by_cases ht : t = OUTPUT_HDMI
        · subst ht
          obtain ⟨f1, f2, f3⟩ := disabled_inv_force R a h
          simp only [if_true]
          exact disabled_inv_set_clean _ _ _ (Or.inr rfl) (fun _ => ⟨f2, f3⟩) f1
        · simp only [if_neg ht]
          exact disabled_inv_set_clean _ _ _ (Or.inr rfl) (fun e => absurd e ht) h
    obtain ⟨hinv, o, ho⟩ := key
    obtain ⟨⟨w, e⟩, -, -⟩ := out_write_tail R t bytes a o ho
    rw [e]
    exact disabled_inv_set_same_flags _ t o _ ho rfl rfl hinv

theorem read_hdmi_channel_masks_stream (a : audio_device) (out : stream_out) :
    (read_hdmi_channel_masks a out).2.1.disabled = out.disabled ∧
    (read_hdmi_channel_masks a out).2.1.standby = out.standby ∧
    (read_hdmi_channel_masks a out).2.1.device = out.device := by
  simp only [read_hdmi_channel_masks]
  split_ifs <;> exact ⟨rfl, rfl, rfl⟩

theorem adev_open_output_stream_register_outputs (a a0 : audio_device) (out : stream_out)
    (type : output_type) (h0 : a0.outputs = a.outputs) (hd : out.disabled = false) :
    (adev_open_output_stream_register a0 out type).adev.outputs = a.outputs ∨
    ∃ t out', a.outputs.get t = none ∧ out'.standby = true ∧ out'.disabled = false ∧
      (adev_open_output_stream_register a0 out type).adev.outputs =
        a.outputs.set t (some out') := by
  simp only [adev_open_output_stream_register]
  split_ifs with c
  · left; exact h0
  · right
    refine ⟨type, { out with standby := true }, ?_, rfl, hd, ?_⟩
    · rw [← h0]; exact not_not.mp c
    · simp [h0]

/-- What `adev_open_output_stream` does to the table of outputs: nothing, or
a stream in standby is put into an empty slot. -/
theorem adev_open_output_stream_outputs (fast : pcm_config) (devices flags : Nat)
    (config : audio_config) (a : audio_device) :
    (adev_open_output_stream fast devices flags config a).adev.outputs = a.outputs ∨
    ∃ t out', a.outputs.get t = none ∧ out'.standby = true ∧ out'.disabled = false ∧
      (adev_open_output_stream fast devices flags config a).adev.outputs =
        a.outputs.set t (some out') := by
  simp only [adev_open_output_stream]
  split_ifs
  all_goals
    first
    | (left; exact read_hdmi_channel_masks_outputs _ _)
    | exact adev_open_output_stream_register_outputs a _ _ _
        (read_hdmi_channel_masks_outputs _ _) (read_hdmi_channel_masks_stream _ _).1
    | exact adev_open_output_stream_register_outputs a a _ _ rfl rfl

theorem disabled_inv_open (fast : pcm_config) (devices flags : Nat)
    (config : audio_config) (a : audio_device) (h : disabled_inv a.outputs) :
    disabled_inv (adev_open_output_stream fast devices flags config a).adev.outputs := by
  rcases adev_open_output_stream_outputs fast devices flags config a with e |
      ⟨t, out', hn, hs, -, e⟩
  · rw [e]; exact h
  · rw [e]
    refine disabled_inv_set_clean _ _ _ (Or.inl hs) ?_ h
    intro ht
    subst ht
    have hact : active a.outputs OUTPUT_HDMI = false := by simp [active, hn]
    obtain ⟨-, h2, h3⟩ := h
    constructor
    · cases hx : disabled_active a.outputs.deep_buf with
      | false => rfl
      | true => rw [h2 hx] at hact; exact absurd hact (by decide)
    · cases hx : disabled_active a.outputs.low_latency with
      | false => rfl
      | true => rw [h3 hx] at hact; exact absurd hact (by decide)

theorem active_after_do_out_standby (R : routing_h) (t : output_type) (a : audio_device) :
    active (do_out_standby R t a).outputs t = false := by
  have hss : ∀ x : Option stream_out,
      (match standby_slot x with
        | some out => !out.standby
        | none => false) = false := by
    intro x
    cases x with
    | none => rfl
    | some out => cases hs : out.standby <;> simp [standby_slot, stream_out.to_standby, hs]
  rw [do_out_standby_outputs]
  by_cases ht : t = OUTPUT_HDMI
  · subst ht
    simp only [if_true]
    split_ifs with hact
    · exact hss _
    · simpa using hact
  · simp only [if_neg ht, active, outputs_get_set_same]
    exact hss _

theorem disabled_inv_close (R : routing_h) (t : output_type) (a : audio_device)
    (h : disabled_inv a.outputs) : disabled_inv (adev_close_output_stream R t a).outputs := by
  simp only [adev_close_output_stream]
  split
  · exact h
  · exact disabled_inv_remove _ t (fun ht => by
      subst ht; exact active_after_do_out_standby R _ a) (disabled_inv_do_out_standby R t a h)

theorem call_frame.trans_call {a b c : audio_device} (h1 : call_frame a b) (h2 : call_frame b c) :
    call_frame a c := by
  constructor
  · exact h2.in_device.trans h1.in_device
  · exact h2.mic_mute.trans h1.mic_mute
  · exact h2.mode.trans h1.mode
  · exact h2.bluetooth_nrec.trans h1.bluetooth_nrec
  · exact h2.wb_amr.trans h1.wb_amr
  · exact h2.two_mic_disabled.trans h1.two_mic_disabled
  · exact h2.in_channel_mask.trans h1.in_channel_mask
  · exact h2.outputs.trans h1.outputs

theorem disabled_inv_force_standby (R : routing_h) (t : output_type) (val : Nat)
    (a : audio_device) (h : disabled_inv a.outputs) :
    disabled_inv (out_set_parameters_force_standby R t val a).outputs := by
  simp only [out_set_parameters_force_standby]
  split
  · exact h
  · have h1 := disabled_inv_do_out_standby R t a h
    split_ifs
    · exact disabled_inv_do_out_standby R t _ h1
    · exact h1
    · exact disabled_inv_do_out_standby R t _ h
    · exact h

theorem out_set_parameters_preselect_outputs (R : routing_h) (t : output_type) (val : Nat)
    (a : audio_device) : (out_set_parameters_preselect R t val a).outputs = a.outputs := by
  simp only [out_set_parameters_preselect]
  split_ifs
  · split
    · rfl
    · split_ifs <;> simp
  · rfl

theorem out_set_parameters_route_outputs (R : routing_h) (t : output_type) (val : Nat)
    (a : audio_device) :
    (out_set_parameters_route R t val a).outputs =
      a.outputs.set t ((a.outputs.get t).map (fun out => { out with device := val })) := by
  simp only [out_set_parameters_route]
  split_ifs <;>
    simp [(start_call_frame R _).outputs, (stop_call_frame R _).outputs]

theorem disabled_inv_out_set_parameters (R : routing_h) (t : output_type)
    (routing : Option Nat) (a : audio_device) (h : disabled_inv a.outputs) :
    disabled_inv (out_set_parameters R t routing a).outputs := by
  have key : ∀ val : Nat, disabled_inv (out_set_parameters_route R t val
      (out_set_parameters_preselect R t val
        (out_set_parameters_force_standby R t val a))).outputs := by
    intro val
    rw [out_set_parameters_route_outputs, out_set_parameters_preselect_outputs]
    have h1 := disabled_inv_force_standby R t val a h
    cases hx : (out_set_parameters_force_standby R t val a).outputs.get t with
    | none =>
      have := outputs_set_get (out_set_parameters_force_standby R t val a).outputs t
      rw [hx] at this
      simpa [this] using h1
    | some o =>
      exact disabled_inv_set_same_flags _ t o _ hx rfl rfl h1
  simp only [out_set_parameters]
  split
  · split_ifs
    · exact key _
    · exact h
  · exact h

theorem adev_set_mode_outputs (R : routing_h) (mode : Int) (a : audio_device) :
    (adev_set_mode R mode a).outputs = a.outputs := by
  simp only [adev_set_mode]
  split_ifs
  · rfl
  · exact (start_call_frame R _).outputs
  · exact (stop_call_frame R _).outputs

theorem adev_set_wb_amr_callback_outputs (R : routing_h) (enable : Int) (a : audio_device) :
    (adev_set_wb_amr_callback R enable a).outputs = a.outputs := by
  simp only [adev_set_wb_amr_callback]
  split_ifs
  all_goals
    first
    | rfl
    | exact ((stop_call_frame R _).trans_call (start_call_frame R _)).outputs

/-- The invariant about the `disabled` flag holds in every reachable state. -/
theorem disabled_inv_reachable (R : routing_h) (a : audio_device) (h : reachable R a) :
    disabled_inv a.outputs := by
  induction h with
  | init fw dm hw => exact disabled_inv_init fw dm hw
  | step op a _ ih =>
    cases op with
    | open_output fast devices flags config => exact disabled_inv_open fast devices flags config a ih
    | close_output t => exact disabled_inv_close R t a ih
    | write t bytes => exact disabled_inv_out_write R t bytes a ih
    | standby t => exact disabled_inv_do_out_standby R t a ih
    | set_parameters t routing => exact disabled_inv_out_set_parameters R t routing a ih
    | set_mode mode =>
      show disabled_inv (adev_set_mode R mode a).outputs
      rw [adev_set_mode_outputs]; exact ih
    | wb_amr enable =>
      show disabled_inv (adev_set_wb_amr_callback R enable a).outputs
      rw [adev_set_wb_amr_callback_outputs]; exact ih

/-! ### Reachability of the sample states -/

theorem reachable_adev_hdmi_low : reachable routing_h_sample adev_hdmi_low :=
  reachable.step (.write OUTPUT_LOW_LATENCY 960) _
    (reachable.step (.open_output pcm_config_fast AUDIO_DEVICE_OUT_SPEAKER 0 ⟨0, 0⟩) _
      (reachable.step (.open_output pcm_config_fast AUDIO_DEVICE_OUT_AUX_DIGITAL
          AUDIO_OUTPUT_FLAG_DIRECT ⟨0, 0⟩) _
        (reachable.init false false hw_hdmi)))

theorem reachable_adev_low_disabled : reachable routing_h_sample adev_low_disabled :=
  reachable.step (.write OUTPUT_LOW_LATENCY 960) _
    (reachable.step (.write OUTPUT_HDMI 960) _ reachable_adev_hdmi_low)

theorem reachable_adev_hdmi_gone : reachable routing_h_sample adev_hdmi_gone :=
  reachable.step (.standby OUTPUT_HDMI) _ reachable_adev_low_disabled

/-! ### The aggregated output device outside calls -/

theorem adev_open_in_call (fw dm : Bool) (hw : hw_world) :
    (adev_open fw dm hw).in_call = false ∧ (adev_open fw dm hw).out_device = 0 ∧
    (adev_open fw dm hw).outputs = ⟨none, none, none⟩ := by
  simp only [adev_open, open_hdmi_driver_outputs, open_hdmi_driver_in_call,
    open_hdmi_driver_out_device]
  split_ifs <;> exact ⟨rfl, rfl, rfl⟩

theorem read_hdmi_channel_masks_frame (a : audio_device) (out : stream_out) :
    hw_frame a (read_hdmi_channel_masks a out).1 := by
  simp only [read_hdmi_channel_masks]
  split_ifs
  all_goals
    first
    | exact open_hdmi_driver_frame a
    | exact (open_hdmi_driver_frame a).trans_hw (by constructor <;> rfl)

theorem adev_open_output_stream_register_frame (a : audio_device) (out : stream_out)
    (type : output_type) :
    out_frame a (adev_open_output_stream_register a out type).adev ∧
    (adev_open_output_stream_register a out type).adev.out_device = a.out_device := by
  simp only [adev_open_output_stream_register]
  split_ifs
  · exact ⟨out_frame.refl_out a, rfl⟩
  · exact ⟨by constructor <;> rfl, rfl⟩

theorem adev_open_output_stream_frame (fast : pcm_config) (devices flags : Nat)
    (config : audio_config) (a : audio_device) :
    out_frame a (adev_open_output_stream fast devices flags config a).adev ∧
    (adev_open_output_stream fast devices flags config a).adev.out_device = a.out_device := by
  have hr := fun out => read_hdmi_channel_masks_frame a out
  simp only [adev_open_output_stream]
  split_ifs
  all_goals
    first
    | exact adev_open_output_stream_register_frame a _ _
    | exact ⟨(hr _).to_out_frame, (hr _).out_device⟩
    | exact ⟨(hr _).to_out_frame.trans_out (adev_open_output_stream_register_frame _ _ _).1,
        ((adev_open_output_stream_register_frame _ _ _).2).trans (hr _).out_device⟩

theorem none_disabled_of_inactive_hdmi (o : outputs_t) (h : disabled_inv o)
    (hact : active o OUTPUT_HDMI = false) : none_disabled o := by
  obtain ⟨h1, h2, h3⟩ := h
  refine ⟨?_, ?_, h1⟩
  · cases hx : disabled_active o.deep_buf with
    | false => rfl
    | true => rw [h2 hx] at hact; exact absurd hact (by decide)
  · cases hx : disabled_active o.low_latency with
    | false => rfl
    | true => rw [h3 hx] at hact; exact absurd hact (by decide)

theorem active_devices_set_same_flags (o : outputs_t) (t : output_type) (out out' : stream_out)
    (h : o.get t = some out) (hs : out'.standby = out.standby) (hv : out'.device = out.device) :
    active_devices (o.set t (some out')) = active_devices o := by
  rcases o with ⟨d, l, hh⟩
  cases t <;> simp only [outputs_t.get] at h <;> subst h <;>
    simp [active_devices, active_device, outputs_t.set, hs, hv]

theorem none_disabled_set_same_flags (o : outputs_t) (t : output_type) (out out' : stream_out)
    (h : o.get t = some out) (hs : out'.standby = out.standby)
    (hd : out'.disabled = out.disabled) :
    none_disabled (o.set t (some out')) ↔ none_disabled o := by
  rcases o with ⟨d, l, hh⟩
  cases t <;> simp only [outputs_t.get] at h <;> subst h <;>
    simp [none_disabled, disabled_active, outputs_t.set, hs, hd]

theorem idle_inv_init (fw dm : Bool) (hw : hw_world) : idle_inv (adev_open fw dm hw) := by
  obtain ⟨h1, h2, h3⟩ := adev_open_in_call fw dm hw
  refine ⟨h1, disabled_inv_init fw dm hw, fun _ => ?_⟩
  rw [h2, h3]; rfl

theorem idle_inv_do_out_standby (R : routing_h) (t : output_type) (a : audio_device)
    (h : idle_inv a) : idle_inv (do_out_standby R t a) := by
  obtain ⟨h1, h2, h3⟩ := h
  cases hact : active a.outputs t with
  | false => rw [do_out_standby_inactive R t a hact]; exact ⟨h1, h2, h3⟩
  | true =>
    exact ⟨(do_out_standby_frame R t a).in_call.trans h1, disabled_inv_do_out_standby R t a h2,
      fun _ => do_out_standby_out_device R t a hact⟩

theorem idle_inv_close (R : routing_h) (t : output_type) (a : audio_device)
    (h : idle_inv a) : idle_inv (adev_close_output_stream R t a) := by
  have hc := disabled_inv_close R t a h.2.1
  obtain ⟨h1, h2, h3⟩ := idle_inv_do_out_standby R t a h
  have hin := active_after_do_out_standby R t a
  simp only [adev_close_output_stream] at hc ⊢
  split
  · exact h
  · rename_i x hx
    simp only [hx] at hc
    refine ⟨h1, hc, ?_⟩
    unfold out_standby
    intro hnd
    have e : active_devices ((do_out_standby R t a).outputs.set t none) =
        active_devices (do_out_standby R t a).outputs := by
      have := active_device_of_inactive _ t hin
      rcases ho : (do_out_standby R t a).outputs with ⟨d, l, hh⟩
      rw [ho] at this
      cases t <;> simp only [outputs_t.get] at this <;>
        simp [active_devices, outputs_t.set, this, show active_device none = 0 from rfl]
    have hnd' : none_disabled (do_out_standby R t a).outputs := by
      have hda : disabled_active ((do_out_standby R t a).outputs.get t) = false := by
        unfold active at hin
        cases hx : (do_out_standby R t a).outputs.get t with
        | none => rfl
        | some o =>
          rw [hx] at hin
          simp only [Bool.not_eq_false'] at hin
          simp [disabled_active, hin]
      rcases ho : (do_out_standby R t a).outputs with ⟨d, l, hh⟩
      rw [ho] at hnd hda
      cases t <;> simp only [outputs_t.get] at hda <;>
        simp_all [none_disabled, outputs_t.set]
    show (do_out_standby R t a).out_device = _
    rw [e]
    exact h3 hnd'

theorem active_devices_set_of_standby (o : outputs_t) (t : output_type) (out out' : stream_out)
    (h : o.get t = some out) (hs : out.standby = true) :
    active_devices (o.set t (some out')) = active_devices o ||| active_device (some out') := by
  rcases o with ⟨d, l, hh⟩
  cases t <;> simp only [outputs_t.get] at h <;> subst h
  · simp only [active_devices, outputs_t.set, show active_device (some out) = 0 by
      simp [active_device, hs], Nat.zero_or]
    rw [Nat.lor_comm (active_device (some out')), Nat.lor_assoc, Nat.lor_assoc,
      Nat.lor_comm (active_device (some out'))]
  · simp only [active_devices, outputs_t.set, show active_device (some out) = 0 by
      simp [active_device, hs], Nat.or_zero]
    rw [Nat.lor_assoc, Nat.lor_assoc, Nat.lor_comm (active_device (some out'))]
  · simp only [active_devices, outputs_t.set, show active_device (some out) = 0 by
      simp [active_device, hs], Nat.or_zero]

theorem idle_inv_out_write (R : routing_h) (t : output_type) (bytes : Nat)
    (a : audio_device) (h : idle_inv a) : idle_inv (out_write R t bytes a).1 := by
  have hdi := disabled_inv_out_write R t bytes a h.2.1
  obtain ⟨h1, h2, h3⟩ := h
  cases hx : a.outputs.get t with
  | none => rw [out_write_none R t bytes a hx]; exact ⟨h1, h2, h3⟩
  | some out =>
    rcases out_write_start_effect R t a out hx with ⟨hs, he⟩ | ⟨hs, ht, hact, he⟩ |
      ⟨hs, hna, p0, p1, ok, ho, hd, hf⟩
    · have hget : (out_write_start R t a).1.outputs.get t = some out := by rw [he]; exact hx
      obtain ⟨⟨w, hw⟩, hdev, hfr⟩ := out_write_tail R t bytes a out hget
      simp only [he] at hw hdev hfr
      refine ⟨hfr.in_call.trans h1, hdi, ?_⟩
      rw [hw, hdev, active_devices_set_same_flags _ _ out { out with written := w } hx rfl rfl,
        none_disabled_set_same_flags _ _ out { out with written := w } hx rfl rfl]
      exact h3
    · have hget : (out_write_start R t a).1.outputs.get t =
          some { out with disabled := true, standby := false } := by
        rw [he]; simp
      obtain ⟨⟨w, hw⟩, hdev, hfr⟩ := out_write_tail R t bytes a _ hget
      refine ⟨?_, hdi, ?_⟩
      · rw [hfr.in_call, he]; exact h1
      · intro hnd
        exfalso
        rw [hw] at hnd
        rcases ho : (out_write_start R t a).1.outputs with ⟨d, l, hh⟩
        rw [ho] at hnd
        cases t <;> simp [none_disabled, outputs_t.set, disabled_active] at hnd ht
    · have hget : (out_write_start R t a).1.outputs.get t =
          some { out with disabled := false, standby := !ok, pcm_card := p0,
                          pcm_card_spdif := p1 } := by
        rw [ho]; simp
      obtain ⟨⟨w, hw⟩, hdev, hfr⟩ := out_write_tail R t bytes a _ hget
      refine ⟨?_, hdi, fun _ => ?_⟩
      · rw [hfr.in_call, hf.in_call]; exact h1
      rw [hdev, hd, hw, ho, outputs_set_set]
      by_cases ht : t = OUTPUT_HDMI
      · subst ht
        have hb : (force_non_hdmi_out_standby R a).out_device = 0 := by
          rw [force_non_hdmi_out_standby_out_device]
          have hz : active_device a.outputs.hdmi = 0 := by
            have : a.outputs.hdmi = some out := hx
            rw [this]; simp [active_device, hs]
          split
          · exact hz
          · rename_i hn
            have hnd : none_disabled a.outputs :=
              none_disabled_of_inactive_hdmi _ h2 (by unfold active; rw [hx]; simp [hs])
            rw [h3 hnd]
            have e1 := active_device_of_inactive a.outputs OUTPUT_DEEP_BUF (by
              cases hc : active a.outputs OUTPUT_DEEP_BUF
              · rfl
              · exact absurd (Or.inl hc) hn)
            have e2 := active_device_of_inactive a.outputs OUTPUT_LOW_LATENCY (by
              cases hc : active a.outputs OUTPUT_LOW_LATENCY
              · rfl
              · exact absurd (Or.inr hc) hn)
            simp only [outputs_t.get] at e1 e2
            simp [active_devices, e1, e2, hz]
        simp only [if_true, hb, force_non_hdmi_out_standby_outputs, active_devices,
          outputs_t.set, active_device_standby_slot, h1, and_true, Nat.zero_or]
        cases ok <;> simp [active_device]
      · have hact : active a.outputs OUTPUT_HDMI = false := by
          cases hc : active a.outputs OUTPUT_HDMI
          · rfl
          · exact absurd ⟨ht, hc⟩ hna
        have hnd : none_disabled a.outputs := none_disabled_of_inactive_hdmi _ h2 hact
        simp only [if_neg ht, h1, and_true]
        rw [active_devices_set_of_standby _ _ _ _ hx hs, h3 hnd]
        cases ok <;> simp [active_device]

theorem idle_inv_open (fast : pcm_config) (devices flags : Nat)
    (config : audio_config) (a : audio_device) (h : idle_inv a) :
    idle_inv (adev_open_output_stream fast devices flags config a).adev := by
  have hdi := disabled_inv_open fast devices flags config a h.2.1
  obtain ⟨h1, h2, h3⟩ := h
  obtain ⟨hf, hdev⟩ := adev_open_output_stream_frame fast devices flags config a
  refine ⟨hf.in_call.trans h1, hdi, ?_⟩
  rw [hdev]
  rcases adev_open_output_stream_outputs fast devices flags config a with e | ⟨t, x, hn, hs, hd, e⟩
  · rw [e]; exact h3
  · rw [e]
    have e1 : active_devices (a.outputs.set t (some x)) = active_devices a.outputs := by
      rcases ho : a.outputs with ⟨d, l, hh⟩
      rw [ho] at hn
      cases t <;> simp only [outputs_t.get] at hn <;> subst hn <;>
        simp [active_devices, outputs_t.set, active_device, hs]
    have e2 : none_disabled (a.outputs.set t (some x)) ↔ none_disabled a.outputs := by
      rcases ho : a.outputs with ⟨d, l, hh⟩
      rw [ho] at hn
      cases t <;> simp only [outputs_t.get] at hn <;> subst hn <;>
        simp [none_disabled, outputs_t.set, disabled_active, hs]
    rw [e1, e2]; exact h3

theorem stop_call_idle (R : routing_h) (a : audio_device) (h : a.in_call = false) :
    stop_call R a = a := by
  simp [stop_call, h]

theorem idle_inv_set_mode (R : routing_h) (mode : Int) (a : audio_device)
    (hm : mode ≠ AUDIO_MODE_IN_CALL) (h : idle_inv a) : idle_inv (adev_set_mode R mode a) := by
  obtain ⟨h1, h2, h3⟩ := h
  by_cases hm0 : a.mode = mode
  · rw [show adev_set_mode R mode a = a by simp [adev_set_mode, hm0]]
    exact ⟨h1, h2, h3⟩
  · rw [show adev_set_mode R mode a = stop_call R { a with mode := mode } by
      simp only [adev_set_mode, if_neg hm0, if_neg hm],
      stop_call_idle R { a with mode := mode } h1]
    exact ⟨h1, h2, h3⟩

theorem idle_inv_wb_amr (R : routing_h) (enable : Int) (a : audio_device)
    (h : idle_inv a) : idle_inv (adev_set_wb_amr_callback R enable a) := by
  obtain ⟨h1, h2, h3⟩ := h
  simp only [adev_set_wb_amr_callback, h1, Bool.false_eq_true, false_and, if_false]
  repeat' split
  all_goals first | exact ⟨h1, h2, h3⟩ | exact ⟨rfl, h2, h3⟩

theorem idle_inv_reachable (R : routing_h) (a : audio_device) (h : reachable_idle R a) :
    idle_inv a := by
  induction h with
  | init fw dm hw => exact idle_inv_init fw dm hw
  | step op a hk _ ih =>
    cases op with
    | open_output fast devices flags config => exact idle_inv_open fast devices flags config a ih
    | close_output t => exact idle_inv_close R t a ih
    | write t bytes => exact idle_inv_out_write R t bytes a ih
    | standby t => exact idle_inv_do_out_standby R t a ih
    | set_parameters t routing => exact absurd hk (by simp [hal_op.keeps_idle])
    | set_mode mode => exact idle_inv_set_mode R mode a hk ih
    | wb_amr enable => exact idle_inv_wb_amr R enable a ih

theorem reachable_idle_adev_hdmi_low : reachable_idle routing_h_sample adev_hdmi_low :=
  reachable_idle.step (.write OUTPUT_LOW_LATENCY 960) _ trivial
    (reachable_idle.step (.open_output pcm_config_fast AUDIO_DEVICE_OUT_SPEAKER 0 ⟨0, 0⟩) _ trivial
      (reachable_idle.step (.open_output pcm_config_fast AUDIO_DEVICE_OUT_AUX_DIGITAL
          AUDIO_OUTPUT_FLAG_DIRECT ⟨0, 0⟩) _ trivial
        (reachable_idle.init false false hw_hdmi)))

theorem reachable_adev_in_call : reachable routing_h_sample adev_in_call :=
  reachable.step (.set_mode AUDIO_MODE_IN_CALL) _ (reachable.init false false hw_quiet)

theorem reachable_adev_after_call : reachable routing_h_sample adev_after_call :=
  reachable.step (.set_mode AUDIO_MODE_NORMAL) _ reachable_adev_in_call

theorem reachable_adev_routed : reachable routing_h_sample adev_routed :=
  reachable.step (.set_parameters OUTPUT_LOW_LATENCY (some AUDIO_DEVICE_OUT_WIRED_HEADSET)) _
    (reachable.step (.open_output pcm_config_fast AUDIO_DEVICE_OUT_SPEAKER 0 ⟨0, 0⟩) _
      (reachable.init false false hw_quiet))

/-! ### Failure of the voice PCM open -/

theorem start_voice_call_fails (s : audio_device) (hrx : s.pcm_voice_rx = none)
    (htx : s.pcm_voice_tx = none) (hf : voice_open_fails s.hw.pcm_open_results = true) :
    (start_voice_call s).2 = -ENOMEM ∧
    (start_voice_call s).1.pcm_voice_rx = none ∧
    (start_voice_call s).1.pcm_voice_tx = none ∧
    (start_voice_call s).1.hw.log = s.hw.log ++ voice_open_trace s ∧
    (start_voice_call s).1.in_call = s.in_call ∧
    (start_voice_call s).1.out_device = s.out_device ∧
    (start_voice_call s).1.two_mic_disabled = s.two_mic_disabled ∧
    (start_voice_call s).1.mode = s.mode := by
  rcases s with ⟨od, id, mm, is, cr, mo, vrx, vtx, srx, stx, ic, tty, nrec, wb, tmc, tmd, fd, icm,
    outs, ⟨log, rs, ws, hs, cs⟩⟩
  simp only at hrx htx hf
  subst hrx htx
  match rs, hf with
  | .not_ready :: rest, _ =>
    simp [start_voice_call, voice_open_trace, pcm_open, pcm_open_failed, audio_device.call,
      hw_world.call]
  | .ready :: .not_ready :: rest, _ =>
    simp [start_voice_call, voice_open_trace, pcm_open, pcm_open_failed, audio_device.call,
      hw_world.call]
  | .null :: .not_ready :: rest, _ =>
    simp [start_voice_call, voice_open_trace, pcm_open, pcm_open_failed, audio_device.call,
      hw_world.call]

theorem start_call_eq_finish (R : routing_h) (a : audio_device) (h : a.in_call = false) :
    start_call R a = start_call_finish (start_voice_call (start_call_entry R a)).1 := by
  simp only [start_call, h, start_call_finish, start_call_entry]
  rfl

theorem calls_calls (a : audio_device) (cs ds : List hw_call) :
    (a.calls cs).calls ds = a.calls (cs ++ ds) := by
  simp [audio_device.calls, List.append_assoc]

theorem adev_set_voice_volume_calls (a : audio_device) :
    ∃ cs, adev_set_voice_volume a = a.calls cs := by
  by_cases hm : a.mode = AUDIO_MODE_IN_CALL
  · simp only [adev_set_voice_volume, if_pos hm]
    exact ⟨[_], rfl⟩
  · simp only [adev_set_voice_volume, if_neg hm]
    exact ⟨[], by simp [audio_device.calls]⟩

theorem adev_set_call_audio_path_call (a : audio_device) :
    ∃ c, adev_set_call_audio_path a = a.call c :=
  ⟨_, rfl⟩

/-- The part of `start_call` after `start_voice_call` sets the two-mic flag
and makes calls to the modem channel; it changes nothing else. -/
theorem start_call_finish_eq (v : audio_device) :
    ∃ b cs, start_call_finish v = ({ v with two_mic_control := b }).calls cs := by
  have h2 : ∃ b, (let adev :=
      if v.out_device = AUDIO_DEVICE_OUT_EARPIECE ∨
         v.out_device = AUDIO_DEVICE_OUT_SPEAKER then
        { v with two_mic_control := true }
      else { v with two_mic_control := false }
      if adev.two_mic_disabled then { adev with two_mic_control := false } else adev) =
      { v with two_mic_control := b } := by
    by_cases h1 : v.out_device = AUDIO_DEVICE_OUT_EARPIECE ∨
        v.out_device = AUDIO_DEVICE_OUT_SPEAKER <;>
      by_cases hd : v.two_mic_disabled = true
    · exact ⟨false, by simp only [h1, if_true, hd]⟩
    · exact ⟨true, by simp only [h1, if_true, hd]; rfl⟩
    · exact ⟨false, by simp only [h1, if_false, hd, if_true]⟩
    · exact ⟨false, by simp only [h1, if_false, hd]; rfl⟩
  obtain ⟨b, hb⟩ := h2
  obtain ⟨c, hc⟩ := adev_set_call_audio_path_call
    (({ v with two_mic_control := b } : audio_device).call (.ril_set_two_mic_control b))
  obtain ⟨cs, hcs⟩ := adev_set_voice_volume_calls
    (adev_set_call_audio_path (({ v with two_mic_control := b } : audio_device).call
      (.ril_set_two_mic_control b)))
  refine ⟨b, [.ril_set_two_mic_control b] ++ [c] ++ cs ++ [.ril_set_call_clock_sync true], ?_⟩
  have e : start_call_finish v =
      (adev_set_voice_volume (adev_set_call_audio_path
        (({ v with two_mic_control := b } : audio_device).call
          (.ril_set_two_mic_control b)))).call (.ril_set_call_clock_sync true) := by
    simp only [start_call_finish]
    simp only [] at hb
    rw [hb]
  rw [e, hcs, hc]
  simp [audio_device.calls, audio_device.call, hw_world.call, List.append_assoc]

theorem start_call_finish_fields (v : audio_device) :
    (start_call_finish v).pcm_voice_rx = v.pcm_voice_rx ∧
    (start_call_finish v).pcm_voice_tx = v.pcm_voice_tx ∧
    (start_call_finish v).pcm_sco_rx = v.pcm_sco_rx ∧
    (start_call_finish v).pcm_sco_tx = v.pcm_sco_tx ∧
    (start_call_finish v).in_call = v.in_call ∧
    ∃ rest, (start_call_finish v).hw.log = v.hw.log ++ rest := by
  obtain ⟨b, cs, e⟩ := start_call_finish_eq v
  rw [e]
  exact ⟨rfl, rfl, rfl, rfl, rfl, cs, rfl⟩

theorem start_call_entry_fields (R : routing_h) (a : audio_device) :
    (start_call_entry R a).pcm_voice_rx = a.pcm_voice_rx ∧
    (start_call_entry R a).pcm_voice_tx = a.pcm_voice_tx ∧
    (start_call_entry R a).hw.pcm_open_results = a.hw.pcm_open_results ∧
    (start_call_entry R a).in_call = true := by
  simp only [start_call_entry, select_devices_eq]
  split_ifs <;> exact ⟨rfl, rfl, rfl, rfl⟩

/-! ### The PCM handles after `stop_call` -/

theorem stop_voice_call_eq (a : audio_device) :
    stop_voice_call a =
      { a with
        pcm_voice_rx := none, pcm_voice_tx := none,
        pcm_sco_rx := if a.out_device &&& AUDIO_DEVICE_OUT_ALL_SCO ≠ 0 then none else a.pcm_sco_rx,
        pcm_sco_tx := if a.out_device &&& AUDIO_DEVICE_OUT_ALL_SCO ≠ 0 then none else a.pcm_sco_tx,
        hw := { a.hw with log := a.hw.log ++ stop_voice_trace a } } := by
  rcases a with ⟨od, id, mm, is, cr, mo, vrx, vtx, srx, stx, ic, tty, nrec, wb, tmc, tmd, fd, icm,
    outs, ⟨log, rs, ws, hs, cs⟩⟩
  by_cases hsco : od &&& AUDIO_DEVICE_OUT_ALL_SCO = 0 <;>
    cases vrx <;> cases vtx <;> cases srx <;> cases stx <;>
    simp [stop_voice_call, stop_bt_sco, stop_voice_trace, audio_device.call, hw_world.call, hsco]

theorem stop_call_eq_finish (R : routing_h) (a : audio_device) (h : a.in_call = true) :
    stop_call R a =
      stop_call_finish R (stop_voice_call (a.call (.ril_set_call_clock_sync false))) := by
  simp only [stop_call, h, stop_call_finish]
  rfl

theorem stop_call_finish_fields (R : routing_h) (v : audio_device) :
    (stop_call_finish R v).pcm_voice_rx = v.pcm_voice_rx ∧
    (stop_call_finish R v).pcm_voice_tx = v.pcm_voice_tx ∧
    (stop_call_finish R v).pcm_sco_rx = v.pcm_sco_rx ∧
    (stop_call_finish R v).pcm_sco_tx = v.pcm_sco_tx ∧
    ∃ rest, (stop_call_finish R v).hw.log = v.hw.log ++ rest := by
  simp only [stop_call_finish, select_devices_eq]
  split_ifs
  · exact ⟨rfl, rfl, rfl, rfl, _, rfl⟩
  · exact ⟨rfl, rfl, rfl, rfl, _, rfl⟩
  · exact ⟨rfl, rfl, rfl, rfl, [], by simp⟩

theorem reachable_adev_sco_call : reachable routing_h_sample adev_sco_call :=
  reachable.step (.set_mode AUDIO_MODE_IN_CALL) _
    (reachable.step (.write OUTPUT_LOW_LATENCY 960) _
      (reachable.step
        (.open_output pcm_config_fast AUDIO_DEVICE_OUT_BLUETOOTH_SCO_HEADSET 0 ⟨0, 0⟩) _
        (reachable.init false false hw_quiet)))

theorem reachable_adev_sco_rerouted : reachable routing_h_sample adev_sco_rerouted :=
  reachable.step (.set_parameters OUTPUT_LOW_LATENCY (some AUDIO_DEVICE_OUT_SPEAKER)) _
    reachable_adev_sco_call

/-! ### The end of `do_out_standby` -/

/-- The end of `do_out_standby`, from the assignment of `out_device` on: the
table of outputs stays, the trace grows, and the aggregated device is the
recomputed mask. -/
theorem out_standby_tail (R : routing_h) (t : output_type) (a2 : audio_device) :
    (if output_devices t a2 ≠ 0 then
        select_devices R { a2 with out_device := output_devices t a2 }
      else { a2 with out_device := output_devices t a2 }).outputs = a2.outputs ∧
    a2.hw.log <+: (if output_devices t a2 ≠ 0 then
        select_devices R { a2 with out_device := output_devices t a2 }
      else { a2 with out_device := output_devices t a2 }).hw.log ∧
    (if output_devices t a2 ≠ 0 then
        select_devices R { a2 with out_device := output_devices t a2 }
      else { a2 with out_device := output_devices t a2 }).out_device =
      (if t = OUTPUT_DEEP_BUF then 0
        else active_device (if output_devices t a2 ≠ 0 then
            select_devices R { a2 with out_device := output_devices t a2 }
          else { a2 with out_device := output_devices t a2 }).outputs.deep_buf) |||
      (if t = OUTPUT_LOW_LATENCY then 0
        else active_device (if output_devices t a2 ≠ 0 then
            select_devices R { a2 with out_device := output_devices t a2 }
          else { a2 with out_device := output_devices t a2 }).outputs.low_latency) |||
      (if t = OUTPUT_HDMI then 0
        else active_device (if output_devices t a2 ≠ 0 then
            select_devices R { a2 with out_device := output_devices t a2 }
          else { a2 with out_device := output_devices t a2 }).outputs.hdmi) := by
  by_cases hm : output_devices t a2 ≠ 0
  · simp only [if_pos hm, select_devices_outputs, select_devices_out_device]
    exact ⟨trivial,
      select_devices_log_grows R { a2 with out_device := output_devices t a2 },
      output_devices_eq t a2⟩
  · simp only [if_neg hm]
    exact ⟨trivial, List.prefix_refl _, output_devices_eq t a2⟩

/-! ### The read-ahead buffer -/

theorem getD_set (l : List Int) (i k : Nat) (v : Int) :
    (l.set i v).getD k 0 = if i = k ∧ i < l.length then v else l.getD k 0 := by
  simp only [List.getD_eq_getElem?_getD, List.getElem?_set]
  by_cases hik : i = k
  · subst hik
    by_cases hl : i < l.length
    · simp [hl]
    · simp [hl, List.getElem?_eq_none (Nat.le_of_not_lt hl)]
  · simp [hik]

theorem stereo_to_mono_succ (b : List Int) (n : Nat) :
    stereo_to_mono b (n + 2) =
      (stereo_to_mono b (n + 1)).set (n + 1) ((stereo_to_mono b (n + 1)).getD ((n + 1) * 2) 0) := by
  simp only [stereo_to_mono, Nat.add_sub_cancel]
  rw [show n + 2 - 1 = n + 1 from rfl, List.range'_1_concat, List.foldl_append]
  simp [Nat.add_comm]

theorem stereo_to_mono_length (b : List Int) (n : Nat) :
    (stereo_to_mono b n).length = b.length := by
  match n with
  | 0 => rfl
  | 1 => rfl
  | n + 2 =>
    rw [stereo_to_mono_succ, List.length_set]
    exact stereo_to_mono_length b (n + 1)

/-- The in-place conversion leaves at index `k` the sample that was at index
`2 * k`, for every `k` from 1 up to the frame count, and no other change. -/
theorem stereo_to_mono_getD (b : List Int) (n k : Nat) :
    (stereo_to_mono b n).getD k 0 =
      if 1 ≤ k ∧ k < n then b.getD (k * 2) 0 else b.getD k 0 := by
  match n with
  | 0 => simp [stereo_to_mono]
  | 1 =>
    have : ¬ (1 ≤ k ∧ k < 1) := by omega
    rw [if_neg this]
    rfl
  | n + 2 =>
    rw [stereo_to_mono_succ, getD_set, stereo_to_mono_length,
      stereo_to_mono_getD b (n + 1) ((n + 1) * 2), stereo_to_mono_getD b (n + 1) k]
    have h2 : ¬ (1 ≤ (n + 1) * 2 ∧ (n + 1) * 2 < n + 1) := by omega
    rw [if_neg h2]
    by_cases hk : n + 1 = k
    · subst hk
      by_cases hl : n + 1 < b.length
      · simp [hl]
      · have h3 : b.length ≤ (n + 1) * 2 := by omega
        have h4 : b.length ≤ n + 1 := by omega
        rw [if_neg (fun h => hl h.2), if_neg (by omega : ¬(1 ≤ n + 1 ∧ n + 1 < n + 1)),
          if_pos (by omega : 1 ≤ n + 1 ∧ n + 1 < n + 2), List.getD_eq_default _ _ h3,
          List.getD_eq_default _ _ h4]
    · have : (1 ≤ k ∧ k < n + 2) ↔ (1 ≤ k ∧ k < n + 1) := by omega
      simp [hk, this]

theorem copy_samples_length (dst : List Int) (doff : Nat) (src : List Int) (soff n : Nat) :
    (copy_samples dst doff src soff n).length = dst.length := by
  simp [copy_samples]

theorem copy_samples_getD (dst : List Int) (doff : Nat) (src : List Int) (soff n k : Nat) :
    (copy_samples dst doff src soff n).getD k 0 =
      if k < dst.length then
        (if doff ≤ k ∧ k < doff + n then src.getD (soff + (k - doff)) 0 else dst.getD k 0)
      else 0 := by
  by_cases hk : k < dst.length
  · simp only [copy_samples, List.getD_eq_getElem?_getD, List.getElem?_map, if_pos hk,
      List.getElem?_range hk, Option.map_some', Option.getD_some]
  · rw [if_neg hk]
    exact List.getD_eq_default _ _ (by rw [copy_samples_length]; omega)

/-! ### The ramp loop -/

theorem ramp_scale_zero (g : Nat) : ramp_scale 0 g = 0 := by
  simp [ramp_scale, int16]

theorem ramp_mono_succ (st m : Nat) (b : List Int) (v : Nat) :
    (List.range (m + 1)).foldl (ramp_frame_mono st) (b, v) =
      ramp_frame_mono st ((List.range m).foldl (ramp_frame_mono st) (b, v)) m := by
  rw [List.range_succ, List.foldl_append]
  rfl

theorem ramp_stereo_succ (st m : Nat) (b : List Int) (v : Nat) :
    (List.range (m + 1)).foldl (ramp_frame_stereo st) (b, v) =
      ramp_frame_stereo st ((List.range m).foldl (ramp_frame_stereo st) (b, v)) m := by
  rw [List.range_succ, List.foldl_append]
  rfl

theorem ramp_mono_vol (st m : Nat) (b : List Int) (v : Nat) (hv : v < 2 ^ 16) :
    ((List.range m).foldl (ramp_frame_mono st) (b, v)).2 = (v + m * st) % 2 ^ 16 := by
  induction m with
  | zero =>
    simp only [List.range_zero, List.foldl_nil, Nat.zero_mul, Nat.add_zero]
    exact (Nat.mod_eq_of_lt hv).symm
  | succ m ih =>
    rw [ramp_mono_succ]
    simp only [ramp_frame_mono, ih]
    rw [Nat.mod_add_mod]
    congr 1
    ring

theorem ramp_stereo_vol (st m : Nat) (b : List Int) (v : Nat) (hv : v < 2 ^ 16) :
    ((List.range m).foldl (ramp_frame_stereo st) (b, v)).2 = (v + m * st) % 2 ^ 16 := by
  induction m with
  | zero =>
    simp only [List.range_zero, List.foldl_nil, Nat.zero_mul, Nat.add_zero]
    exact (Nat.mod_eq_of_lt hv).symm
  | succ m ih =>
    rw [ramp_stereo_succ]
    simp only [ramp_frame_stereo, ih]
    rw [Nat.mod_add_mod]
    congr 1
    ring

theorem ramp_mono_length (st m : Nat) (b : List Int) (v : Nat) :
    ((List.range m).foldl (ramp_frame_mono st) (b, v)).1.length = b.length := by
  induction m with
  | zero => rfl
  | succ m ih =>
    rw [ramp_mono_succ]
    simp only [ramp_frame_mono, List.length_set, ih]

theorem ramp_stereo_length (st m : Nat) (b : List Int) (v : Nat) :
    ((List.range m).foldl (ramp_frame_stereo st) (b, v)).1.length = b.length := by
  induction m with
  | zero => rfl
  | succ m ih =>
    rw [ramp_stereo_succ]
    simp only [ramp_frame_stereo, List.length_set, ih]

/-- The mono ramp loop over `m` frames scales sample `i` by the volume of its
turn and leaves the samples from `m` on alone. -/
theorem ramp_mono_getD (st m : Nat) (b : List Int) (v : Nat) (hv : v < 2 ^ 16) (i : Nat) :
    ((List.range m).foldl (ramp_frame_mono st) (b, v)).1.getD i 0 =
      if i < m then ramp_scale (b.getD i 0) ((v + i * st) % 2 ^ 16) else b.getD i 0 := by
  induction m generalizing i with
  | zero => simp
  | succ m ih =>
    rw [ramp_mono_succ]
    simp only [ramp_frame_mono]
    rw [getD_set, ramp_mono_length, ih, ramp_mono_vol st m b v hv, ih]
    by_cases hmi : m = i
    · subst hmi
      rw [if_neg (Nat.lt_irrefl m), if_pos (Nat.lt_succ_self m)]
      by_cases hl : m < b.length
      · rw [if_pos ⟨rfl, hl⟩]
        rfl
      · rw [if_neg (fun h => hl h.2), List.getD_eq_default _ _ (Nat.le_of_not_lt hl),
          ramp_scale_zero]
    · rw [if_neg (fun h => hmi h.1)]
      by_cases him : i < m
      · rw [if_pos him, if_pos (Nat.lt_succ_of_lt him)]
      · rw [if_neg him, if_neg (by omega)]

/-- The stereo ramp loop over `m` frames scales both samples of frame `i` by
the volume of its turn and leaves the samples from `2 * m` on alone. -/
theorem ramp_stereo_getD (st m : Nat) (b : List Int) (v : Nat) (hv : v < 2 ^ 16) (j : Nat) :
    ((List.range m).foldl (ramp_frame_stereo st) (b, v)).1.getD j 0 =
      if j < 2 * m then ramp_scale (b.getD j 0) ((v + j / 2 * st) % 2 ^ 16)
      else b.getD j 0 := by
  induction m generalizing j with
  | zero => simp
  | succ m ih =>
    rw [ramp_stereo_succ]
    simp only [ramp_frame_stereo]
    rw [getD_set, List.length_set, ramp_stereo_length, getD_set, ramp_stereo_length,
      getD_set, ramp_stereo_length, ih, ih, ih, ramp_stereo_vol st m b v hv]
    have e1 : ¬ (2 * m = 2 * m + 1 ∧ 2 * m < b.length) := by omega
    have e2 : ¬ (2 * m < 2 * m) := by omega
    have e3 : ¬ (2 * m + 1 < 2 * m) := by omega
    rw [if_neg e1, if_neg e2, if_neg e3]
    by_cases h1 : 2 * m + 1 = j
    · subst h1
      have hd : (2 * m + 1) / 2 = m := by omega
      rw [if_pos (by omega : 2 * m + 1 < 2 * (m + 1)), hd]
      by_cases hl : 2 * m + 1 < b.length
      · rw [if_pos ⟨rfl, hl⟩]
        rfl
      · rw [if_neg (fun h => hl h.2), if_neg (by omega : ¬ (2 * m = 2 * m + 1 ∧ 2 * m < b.length)),
          List.getD_eq_default _ _ (Nat.le_of_not_lt hl), ramp_scale_zero]
        split_ifs <;> rfl
    · rw [if_neg (fun h => h1 h.1)]
      by_cases h0 : 2 * m = j
      · subst h0
        have hd : 2 * m / 2 = m := by omega
        rw [if_pos (by omega : 2 * m < 2 * (m + 1)), hd]
        by_cases hl : 2 * m < b.length
        · rw [if_pos ⟨rfl, hl⟩]
          rfl
        · rw [if_neg (fun h => hl h.2), List.getD_eq_default _ _ (Nat.le_of_not_lt hl),
            ramp_scale_zero]
          split_ifs <;> rfl
      · rw [if_neg (fun h => h0 h.1)]
        by_cases him : j < 2 * m
        · rw [if_pos him, if_pos (by omega)]
        · rw [if_neg him, if_neg (by omega)]

/-- One ramp step of `in_read` on a stream that has ramped `c` of its `rf`
frames: the first frames of the buffer, up to the end of the ramp, are scaled
by the gains that follow, and the stream has ramped `min (c + n) rf` frames. -/
theorem in_read_ramp_spec (st rf c n : Nat) (s : stream_in) (b : List Int)
    (hst : rf * st < 2 ^ 16) (hc : c ≤ rf) (hv : s.ramp_vol = c * st)
    (hs : s.ramp_step = st) (hr : s.ramp_frames = rf - c) :
    (in_read_ramp s b n).1.ramp_vol = min (c + n) rf * st ∧
    (in_read_ramp s b n).1.ramp_step = st ∧
    (in_read_ramp s b n).1.ramp_frames = rf - min (c + n) rf ∧
    (in_read_ramp s b n).1.channel_mask = s.channel_mask ∧
    (s.channel_mask = AUDIO_CHANNEL_IN_MONO → ∀ i, i < n →
      (in_read_ramp s b n).2.getD i 0 =
        if c + i < rf then ramp_scale (b.getD i 0) ((c + i) * st) else b.getD i 0) ∧
    (s.channel_mask ≠ AUDIO_CHANNEL_IN_MONO → ∀ j, j < 2 * n →
      (in_read_ramp s b n).2.getD j 0 =
        if c + j / 2 < rf then ramp_scale (b.getD j 0) ((c + j / 2) * st) else b.getD j 0) := by
  have hbound : ∀ k, k ≤ rf → k * st < 2 ^ 16 := fun k hk =>
    Nat.lt_of_le_of_lt (Nat.mul_le_mul_right st hk) hst
  have hvol : s.ramp_vol < 2 ^ 16 := by rw [hv]; exact hbound c hc
  by_cases hpos : s.ramp_frames > 0
  · obtain ⟨m, hm⟩ : ∃ m, m = (if n < s.ramp_frames then n else s.ramp_frames) := ⟨_, rfl⟩
    have hm' : m = min n (rf - c) := by
      rw [hm, hr]; split_ifs <;> omega
    have hmin : min (c + n) rf = c + m := by omega
    have hcm : c + m ≤ rf := by omega
    have hg : ∀ i, i ≤ m → (s.ramp_vol + i * s.ramp_step) % 2 ^ 16 = (c + i) * st := by
      intro i hi
      rw [hv, hs, ← Nat.add_mul]
      exact Nat.mod_eq_of_lt (hbound _ (by omega))
    simp only [in_read_ramp, if_pos hpos, in_apply_ramp, ← hm]
    refine ⟨?_, hs, ?_, trivial, ?_, ?_⟩
    · rw [hmin]
      by_cases hmono : s.channel_mask = AUDIO_CHANNEL_IN_MONO
      · simp only [if_pos hmono]
        rw [ramp_mono_vol _ _ _ _ hvol, hg m (Nat.le_refl m)]
      · simp only [if_neg hmono]
        rw [ramp_stereo_vol _ _ _ _ hvol, hg m (Nat.le_refl m)]
    · omega
    · intro hmono i hi
      simp only [if_pos hmono]
      rw [ramp_mono_getD _ _ _ _ hvol]
      by_cases him : i < m
      · rw [if_pos him, if_pos (by omega), hg i (Nat.le_of_lt him)]
      · rw [if_neg him, if_neg (by omega)]
    · intro hmono j hj
      simp only [if_neg hmono]
      rw [ramp_stereo_getD _ _ _ _ hvol]
      by_cases him : j < 2 * m
      · rw [if_pos him, if_pos (by omega), hg (j / 2) (by omega)]
      · rw [if_neg him, if_neg (by omega)]
  · have hcr : c = rf := by omega
    have hmin : min (c + n) rf = rf := by omega
    simp only [in_read_ramp, if_neg hpos]
    refine ⟨by rw [hmin, hv, hcr], hs, by rw [hmin, hr, hcr], trivial, ?_, ?_⟩
    · intro _ i _
      rw [if_neg (by omega)]
    · intro _ j _
      rw [if_neg (by omega)]

theorem frames_before_zero (reads : List (List Int × Nat)) : frames_before reads 0 = 0 := by
  simp [frames_before]

theorem frames_before_succ (b : List Int) (n : Nat) (rest : List (List Int × Nat)) (j : Nat) :
    frames_before ((b, n) :: rest) (j + 1) = n + frames_before rest j := by
  simp [frames_before]

/-- A run of reads on a stream that has ramped `c` of its `rf` frames: frame
`i` of read `j` is frame `c + frames_before reads j + i` of the ramp. -/
theorem ramp_reads_spec (st rf : Nat) (hst : rf * st < 2 ^ 16)
    (reads : List (List Int × Nat)) :
    ∀ (c : Nat) (s : stream_in), c ≤ rf → s.ramp_vol = c * st → s.ramp_step = st →
      s.ramp_frames = rf - c →
      ∀ j i, i < (reads.getD j ([], 0)).2 →
        (s.channel_mask = AUDIO_CHANNEL_IN_MONO →
          ((ramp_reads s reads).2.getD j []).getD i 0 =
            if c + frames_before reads j + i < rf then
              ramp_scale ((reads.getD j ([], 0)).1.getD i 0)
                ((c + frames_before reads j + i) * st)
            else (reads.getD j ([], 0)).1.getD i 0) ∧
        (s.channel_mask ≠ AUDIO_CHANNEL_IN_MONO → ∀ e, e < 2 →
          ((ramp_reads s reads).2.getD j []).getD (2 * i + e) 0 =
            if c + frames_before reads j + i < rf then
              ramp_scale ((reads.getD j ([], 0)).1.getD (2 * i + e) 0)
                ((c + frames_before reads j + i) * st)
            else (reads.getD j ([], 0)).1.getD (2 * i + e) 0) := by
  induction reads with
  | nil =>
    intro c s _ _ _ _ j i hi
    simp at hi
  | cons hd rest ih =>
    obtain ⟨b, n⟩ := hd
    intro c s hc hv hs hr j i hi
    obtain ⟨r1, r2, r3, r4, r5, r6⟩ := in_read_ramp_spec st rf c n s b hst hc hv hs hr
    cases j with
    | zero =>
      simp only [List.getD_cons_zero] at hi
      simp only [ramp_reads, List.getD_cons_zero, frames_before_zero, Nat.add_zero]
      refine ⟨fun hm => r5 hm i hi, fun hm e he => ?_⟩
      have := r6 hm (2 * i + e) (by omega)
      rw [show (2 * i + e) / 2 = i by omega] at this
      exact this
    | succ j =>
      simp only [List.getD_cons_succ] at hi
      have hc1 : min (c + n) rf ≤ rf := Nat.min_le_right _ _
      have key := ih (min (c + n) rf) (in_read_ramp s b n).1 hc1 r1 r2 r3 j i hi
      rw [r4] at key
      simp only [ramp_reads, List.getD_cons_succ, frames_before_succ]
      by_cases hle : c + n ≤ rf
      · have hmin : min (c + n) rf = c + n := Nat.min_eq_left hle
        rw [hmin] at key
        have e : c + (n + frames_before rest j) + i = c + n + frames_before rest j + i := by
          omega
        rw [e]
        exact key
      · have hmin : min (c + n) rf = rf := by omega
        rw [hmin] at key
        have n1 : ¬ (rf + frames_before rest j + i < rf) := by omega
        have n2 : ¬ (c + (n + frames_before rest j) + i < rf) := by omega
        simp only [if_neg n2]
        refine ⟨fun hm => ?_, fun hm e he => ?_⟩
        · have := key.1 hm
          rw [if_neg n1] at this
          exact this
        · have := key.2 hm e he
          rw [if_neg n1] at this
          exact this

theorem start_input_stream_ramp (R : routing_h) (s : stream_in) (adev : audio_device)
    (h : (start_input_stream R s adev).2.2 = 0) :
    (start_input_stream R s adev).1.ramp_vol = 0 ∧
    (start_input_stream R s adev).1.ramp_frames =
      (CAPTURE_START_RAMP_MS * s.requested_rate) % 2 ^ 32 / 1000 ∧
    (start_input_stream R s adev).1.ramp_step =
      (USHRT_MAX / (start_input_stream R s adev).1.ramp_frames) % 2 ^ 16 ∧
    (start_input_stream R s adev).1.channel_mask = s.channel_mask := by
  simp only [start_input_stream] at h ⊢
  split_ifs at h ⊢
  · simp at h
  · exact ⟨rfl, rfl, rfl, rfl⟩
  · exact ⟨rfl, rfl, rfl, rfl⟩

theorem stream_in_mono_buffer : stream_in_mono.buffer.length = 1280 := by
  show (List.replicate _ (0 : Int)).length = 1280
  rw [List.length_replicate]
  decide

/-! ### The loop of `read_frames` -/

theorem get_next_buffer_resample_results (s : stream_in) (cap : capture_hw) (n : Nat) :
    (get_next_buffer s cap n).cap.resample_results = cap.resample_results := by
  simp only [get_next_buffer, pcm_read, get_next_buffer_clip]
  split
  · rfl
  · split_ifs <;> (try rfl) <;> (split <;> rfl)

theorem resampler_pulls_resample_results (pulls : List Nat) :
    ∀ (s : stream_in) (cap : capture_hw),
      (resampler_pulls pulls s cap).2.resample_results = cap.resample_results := by
  induction pulls with
  | nil => intro s cap; rfl
  | cons n rest ih =>
    intro s cap
    simp only [resampler_pulls]
    split_ifs
    · exact get_next_buffer_resample_results s cap n
    · rw [ih]; exact get_next_buffer_resample_results s cap n

theorem capture_period_pos (c : capture_config) : 0 < c.deref.period_size := by
  cases c <;> decide

theorem get_next_buffer_clip_progress (s : stream_in) (cap : capture_hw) (n : Nat)
    (hn : 0 < n) (hf : 0 < s.frames_in) :
    (get_next_buffer_clip s cap n).buf.raw ≠ none ∧
    0 < (get_next_buffer_clip s cap n).buf.frame_count ∧
    (get_next_buffer_clip s cap n).buf.frame_count ≤ n := by
  simp only [get_next_buffer_clip]
  refine ⟨by simp, ?_, ?_⟩
  all_goals split_ifs <;> omega

/-- What `get_next_buffer` returns: no buffer and a status other than 0, or a
buffer of at least one frame (when at least one was asked for) and at most
the number asked for. -/
theorem get_next_buffer_progress (s : stream_in) (cap : capture_hw) (n : Nat) (hn : 0 < n) :
    ((get_next_buffer s cap n).buf.raw = none ∧
      (get_next_buffer s cap n).stream.read_status ≠ 0) ∨
    ((get_next_buffer s cap n).buf.raw ≠ none ∧
      0 < (get_next_buffer s cap n).buf.frame_count ∧
      (get_next_buffer s cap n).buf.frame_count ≤ n) := by
  have hp := capture_period_pos s.config
  cases hpcm : s.pcm with
  | none =>
    have e : get_next_buffer s cap n =
        ⟨{ s with read_status := -ENODEV }, cap, ⟨none, 0⟩, -ENODEV⟩ := by
      simp only [get_next_buffer, hpcm]
    rw [e]
    exact Or.inl ⟨rfl, by simp⟩
  | some p =>
    by_cases hf : s.frames_in = 0
    · by_cases hr : (pcm_read s.buffer (s.config.deref.period_size * s.config.deref.channels * 2)
          cap).1 = 0
      · right
        simp only [get_next_buffer, hpcm, if_pos hf, hr, ne_eq, not_true_eq_false, if_false]
        apply get_next_buffer_clip_progress _ _ _ hn
        split_ifs <;> exact hp
      · left
        simp only [get_next_buffer, hpcm, if_pos hf, ne_eq, hr, not_false_eq_true, if_true]
        exact ⟨trivial, trivial⟩
    · right
      simp only [get_next_buffer, hpcm, if_neg hf]
      exact get_next_buffer_clip_progress _ _ _ hn (Nat.pos_of_ne_zero hf)

/-- One turn of the loop of `read_frames` that does not end it makes
progress: it yields at most the frames asked for, and it yields at least one
frame or uses up one scripted answer of the resampler. -/
theorem read_frames_step_progress (s : stream_in) (cap : capture_hw) (buffer : List Int)
    (frames_wr frames_rd : Nat) (hn : 0 < frames_rd)
    (h0 : (read_frames_step s cap buffer frames_wr frames_rd).1.read_status = 0) :
    (read_frames_step s cap buffer frames_wr frames_rd).2.2.2 ≤ frames_rd ∧
    (read_frames_step s cap buffer frames_wr frames_rd).2.1.resample_results.length +
        (frames_rd - (read_frames_step s cap buffer frames_wr frames_rd).2.2.2) <
      cap.resample_results.length + frames_rd := by
  unfold read_frames_step at h0 ⊢
  by_cases hrs : s.resampler = true
  · simp only [if_pos hrs] at h0 ⊢
    cases hc : cap.resample_results with
    | nil =>
      simp only [hc, resampler_pulls_resample_results, List.length_nil, Nat.lt_irrefl, if_false]
      omega
    | cons r rest =>
      simp only [hc, resampler_pulls_resample_results, List.length_cons]
      split_ifs <;> omega
  · simp only [if_neg hrs] at h0 ⊢
    rcases get_next_buffer_progress s cap frames_rd hn with ⟨h1, h2⟩ | ⟨h1, h2, h3⟩
    · rw [h1] at h0
      exact absurd h0 h2
    · have hcap := get_next_buffer_resample_results s cap frames_rd
      cases hraw : (get_next_buffer s cap frames_rd).buf.raw with
      | none => exact absurd hraw h1
      | some raw =>
        simp only [hcap]
        omega

/-- The loop of `read_frames` runs to its end within the turns it is given:
it returns the number of frames asked for, or the status of a failed read. -/
theorem read_frames_loop_returns (fuel : Nat) :
    ∀ (s : stream_in) (cap : capture_hw) (buffer : List Int) (frames frames_wr : Nat),
      frames_wr ≤ frames → cap.resample_results.length + (frames - frames_wr) ≤ fuel →
      (read_frames_loop fuel s cap buffer frames frames_wr).ret = frames ∨
      ((read_frames_loop fuel s cap buffer frames frames_wr).ret =
          (read_frames_loop fuel s cap buffer frames frames_wr).stream.read_status ∧
        (read_frames_loop fuel s cap buffer frames frames_wr).stream.read_status ≠ 0) := by
  induction fuel with
  | zero =>
    intro s cap buffer frames frames_wr hle hfuel
    left
    have : frames_wr = frames := by omega
    simp [read_frames_loop, this]
  | succ fuel ih =>
    intro s cap buffer frames frames_wr hle hfuel
    by_cases hlt : frames_wr < frames
    · simp only [read_frames_loop, if_pos hlt]
      by_cases hst : (read_frames_step s cap buffer frames_wr (frames - frames_wr)).1.read_status
          ≠ 0
      · simp only [if_pos hst]
        exact Or.inr ⟨trivial, hst⟩
      · simp only [if_neg hst]
        have h0 : (read_frames_step s cap buffer frames_wr
            (frames - frames_wr)).1.read_status = 0 := by
          by_contra hne; exact hst hne
        obtain ⟨p1, p2⟩ := read_frames_step_progress s cap buffer frames_wr
          (frames - frames_wr) (by omega) h0
        exact ih _ _ _ frames _ (by omega) (by omega)
    · simp only [read_frames_loop, if_neg hlt]
      left
      have : frames_wr = frames := by omega
      simp [this]

/-- `read_frames` returns the number of frames asked for, or the status of a
failed read. -/
theorem read_frames_returns (s : stream_in) (cap : capture_hw) (buffer : List Int)
    (frames : Nat) :
    (read_frames s cap buffer frames).ret = frames ∨
    ((read_frames s cap buffer frames).ret = (read_frames s cap buffer frames).stream.read_status ∧
      (read_frames s cap buffer frames).stream.read_status ≠ 0) :=
  read_frames_loop_returns _ s cap buffer frames 0 (Nat.zero_le _) (by omega)

/-! ### The frames-written counter -/

theorem same_counter_refl (x : Option stream_out) : same_counter x x :=
  fun out h => ⟨out, h, rfl, rfl⟩

theorem same_counter_trans {x y z : Option stream_out} (h1 : same_counter x y)
    (h2 : same_counter y z) : same_counter x z := by
  intro out h
  obtain ⟨o1, e1, w1, c1⟩ := h1 out h
  obtain ⟨o2, e2, w2, c2⟩ := h2 o1 e1
  exact ⟨o2, e2, w2.trans w1, c2.trans c1⟩

theorem same_counter_none (y : Option stream_out) : same_counter none y :=
  fun _ h => by cases h

theorem same_counter_map (x : Option stream_out) (f : stream_out → stream_out)
    (hf : ∀ out, (f out).written = out.written ∧ (f out).config = out.config) :
    same_counter x (x.map f) := by
  intro out h
  subst h
  exact ⟨f out, rfl, (hf out).1, (hf out).2⟩

theorem same_counter_standby_slot (x : Option stream_out) :
    same_counter x (standby_slot x) := by
  apply same_counter_map
  intro out
  split_ifs <;> exact ⟨rfl, rfl⟩

theorem keeps_counters_refl (o : outputs_t) : keeps_counters o o :=
  fun _ => same_counter_refl _

theorem keeps_counters_of_eq {o o' : outputs_t} (h : o' = o) : keeps_counters o o' :=
  h ▸ keeps_counters_refl o

theorem keeps_counters_trans {o1 o2 o3 : outputs_t} (h1 : keeps_counters o1 o2)
    (h2 : keeps_counters o2 o3) : keeps_counters o1 o3 :=
  fun t => same_counter_trans (h1 t) (h2 t)

theorem keeps_counters_set (o : outputs_t) (t : output_type) (y : Option stream_out)
    (h : same_counter (o.get t) y) : keeps_counters o (o.set t y) := by
  intro u
  by_cases hu : u = t
  · subst hu
    simpa using h
  · cases u <;> cases t <;> first | exact absurd rfl hu | exact same_counter_refl _

theorem keeps_counters_standby_all (o : outputs_t) :
    keeps_counters o
      ⟨standby_slot o.deep_buf, standby_slot o.low_latency, standby_slot o.hdmi⟩ := by
  intro u
  cases u <;> exact same_counter_standby_slot _

theorem keeps_counters_do_out_standby (R : routing_h) (t : output_type) (a : audio_device) :
    keeps_counters a.outputs (do_out_standby R t a).outputs := by
  rw [do_out_standby_outputs]
  split_ifs
  · exact keeps_counters_standby_all _
  · exact keeps_counters_refl _
  · exact keeps_counters_set _ _ _ (same_counter_standby_slot _)

theorem keeps_counters_force (R : routing_h) (a : audio_device) :
    keeps_counters a.outputs (force_non_hdmi_out_standby R a).outputs := by
  rw [force_non_hdmi_out_standby_outputs]
  intro u
  cases u
  · exact same_counter_standby_slot _
  · exact same_counter_standby_slot _
  · exact same_counter_refl _

theorem keeps_counters_out_write_start (R : routing_h) (t : output_type) (a : audio_device) :
    keeps_counters a.outputs (out_write_start R t a).1.outputs := by
  cases h : a.outputs.get t with
  | none =>
    have e : out_write_start R t a = (a, 0) := by simp [out_write_start, h]
    rw [e]
    exact keeps_counters_refl _
  | some out =>
    rcases out_write_start_effect R t a out h with ⟨_, e⟩ | ⟨_, _, _, e⟩ | ⟨_, _, p0, p1, ok, e, _⟩
    · rw [e]
      exact keeps_counters_refl _
    · rw [e, set_out_outputs]
      apply keeps_counters_set
      rw [h]
      intro o ho
      cases ho
      exact ⟨_, rfl, rfl, rfl⟩
    · rw [e]
      by_cases ht : t = OUTPUT_HDMI
      · subst ht
        simp only [if_true]
        refine keeps_counters_trans (keeps_counters_force R a) (keeps_counters_set _ _ _ ?_)
        rw [force_non_hdmi_out_standby_outputs]
        have h2 : a.outputs.hdmi = some out := h
        simp only [outputs_t.get, h2]
        intro o ho
        cases ho
        exact ⟨_, rfl, rfl, rfl⟩
      · simp only [if_neg ht]
        apply keeps_counters_set
        rw [h]
        intro o ho
        cases ho
        exact ⟨_, rfl, rfl, rfl⟩

/-- The write loop changes the slot of its stream only: the counter grows,
modulo 2^64, when the loop ends with status 0. -/
theorem out_write_pcms_outputs (t : output_type) (bytes : Nat) (ret : Int) (a : audio_device)
    (out : stream_out) (h : a.outputs.get t = some out) :
    (out_write_pcms t bytes ret a).1.outputs =
      a.outputs.set t (some
        (if (out_write_pcms t bytes ret a).2 = 0 then
          { out with written := (out.written + bytes / (out.config.channels * 2)) % 2 ^ 64 }
         else out)) := by
  simp only [out_write_pcms, h, modify_out_outputs, Option.map]

theorem out_write_outputs (R : routing_h) (t : output_type) (bytes : Nat) (a : audio_device) :
    (out_write R t bytes a).1.outputs = (out_write_status R t bytes a).1.outputs := by
  simp only [out_write]
  split
  · rfl
  · split_ifs <;> rfl

/-- The effect of `out_write`, up to its final label, on the counter of
every open stream. -/
theorem out_write_status_counter (R : routing_h) (t : output_type) (bytes : Nat)
    (a : audio_device) (u : output_type) (out : stream_out) (h : a.outputs.get u = some out) :
    ∃ out', (out_write_status R t bytes a).1.outputs.get u = some out' ∧
      out'.config = out.config ∧
      out'.written =
        if u = t ∧ (out_write_status R t bytes a).2 = 0 then
          (out.written + bytes / (out.config.channels * 2)) % 2 ^ 64
        else out.written := by
  obtain ⟨o1, e1, w1, c1⟩ := keeps_counters_out_write_start R t a u out h
  simp only [out_write_status]
  by_cases hneg : (out_write_start R t a).2 < 0
  · simp only [if_pos hneg]
    refine ⟨o1, e1, c1, ?_⟩
    rw [if_neg (fun hh => absurd hh.2 (ne_of_lt hneg)), w1]
  · simp only [if_neg hneg]
    cases hs : (out_write_start R t a).1.outputs.get t with
    | none =>
      refine ⟨o1, e1, c1, ?_⟩
      rw [if_neg, w1]
      rintro ⟨rfl, -⟩
      rw [hs] at e1
      cases e1
    | some o =>
      simp only []
      by_cases hd : o.disabled = true
      · simp only [if_pos hd]
        refine ⟨o1, e1, c1, ?_⟩
        rw [if_neg, w1]
        rintro ⟨-, hz⟩
        revert hz
        decide
      · simp only [if_neg hd]
        rw [out_write_pcms_outputs t bytes _ _ o hs]
        by_cases hu : u = t
        · subst hu
          rw [hs] at e1
          cases e1
          simp only [outputs_get_set_same, true_and]
          refine ⟨_, rfl, ?_, ?_⟩
          · split_ifs
            · exact c1
            · exact c1
          · split_ifs
            · show (o1.written + bytes / (o1.config.channels * 2)) % 2 ^ 64 = _
              rw [w1, c1]
            · exact w1
        · rw [outputs_get_set_other _ _ _ _ hu]
          refine ⟨o1, e1, c1, ?_⟩
          rw [if_neg (fun hh => hu hh.1), w1]

theorem out_write_counter (R : routing_h) (t : output_type) (bytes : Nat)
    (a : audio_device) (u : output_type) (out : stream_out) (h : a.outputs.get u = some out) :
    ∃ out', (out_write R t bytes a).1.outputs.get u = some out' ∧
      out'.config = out.config ∧
      out'.written =
        if u = t ∧ (out_write_status R t bytes a).2 = 0 then
          (out.written + bytes / (out.config.channels * 2)) % 2 ^ 64
        else out.written := by
  rw [out_write_outputs]
  exact out_write_status_counter R t bytes a u out h

/-- A write on a stream that is disabled once the standby block is over
does not end with status 0. -/
theorem out_write_status_disabled (R : routing_h) (t : output_type) (bytes : Nat)
    (a : audio_device) (o : stream_out) (h : (out_write_start R t a).1.outputs.get t = some o)
    (hd : o.disabled = true) : (out_write_status R t bytes a).2 ≠ 0 := by
  simp only [out_write_status]
  by_cases hneg : (out_write_start R t a).2 < 0
  · simp only [if_pos hneg]
    exact ne_of_lt hneg
  · simp only [if_neg hneg, h, if_pos hd]
    decide

theorem keeps_counters_open (fast : pcm_config) (devices flags : Nat) (config : audio_config)
    (a : audio_device) :
    keeps_counters a.outputs (adev_open_output_stream fast devices flags config a).adev.outputs := by
  rcases adev_open_output_stream_outputs fast devices flags config a with e | ⟨t, o, hn, _, _, e⟩
  · rw [e]
    exact keeps_counters_refl _
  · rw [e]
    apply keeps_counters_set
    rw [hn]
    exact same_counter_none _

theorem keeps_counters_force_standby (R : routing_h) (t : output_type) (val : Nat)
    (a : audio_device) :
    keeps_counters a.outputs (out_set_parameters_force_standby R t val a).outputs := by
  simp only [out_set_parameters_force_standby]
  split
  · exact keeps_counters_refl _
  · split_ifs
    · exact keeps_counters_trans (keeps_counters_do_out_standby R t a)
        (keeps_counters_do_out_standby R t _)
    · exact keeps_counters_do_out_standby R t a
    · exact keeps_counters_do_out_standby R t a
    · exact keeps_counters_refl _

theorem keeps_counters_set_parameters (R : routing_h) (t : output_type) (routing : Option Nat)
    (a : audio_device) : keeps_counters a.outputs (out_set_parameters R t routing a).outputs := by
  simp only [out_set_parameters]
  split
  · split_ifs
    · rw [out_set_parameters_route_outputs, out_set_parameters_preselect_outputs]
      refine keeps_counters_trans (keeps_counters_force_standby R t _ a)
        (keeps_counters_set _ _ _ (same_counter_map _ _ ?_))
      intro o
      exact ⟨rfl, rfl⟩
    · exact keeps_counters_refl _
  · exact keeps_counters_refl _

theorem close_other_counter (R : routing_h) (u t : output_type) (a : audio_device) (h : t ≠ u) :
    same_counter (a.outputs.get t) ((adev_close_output_stream R u a).outputs.get t) := by
  simp only [adev_close_output_stream]
  split
  · exact same_counter_refl _
  · show same_counter _ (((out_standby R u a).outputs.set u none).get t)
    rw [outputs_get_set_other _ _ _ _ h]
    exact keeps_counters_do_out_standby R u a t

/-! ### The route identifier -/

theorem get_output_device_id_mem (R : routing_h) (device : Nat) :
    get_output_device_id R device ∈ R.out_ids := by
  simp only [get_output_device_id, routing_h.out_ids]
  split_ifs <;> simp

theorem get_output_device_id_table (R : routing_h) (device : Nat)
    (h : get_output_device_id R device ≠ R.OUT_DEVICE_NONE) :
    get_output_device_id R device ∈ R.out_table_ids := by
  have hm := get_output_device_id_mem R device
  simp only [routing_h.out_ids, List.mem_cons, List.mem_singleton, List.not_mem_nil,
    or_false] at hm
  simp only [routing_h.out_table_ids, List.mem_cons, List.mem_singleton, List.not_mem_nil,
    or_false]
  tauto

theorem get_input_source_id_table (R : routing_h) (source : Int) (wb_amr : Bool)
    (h : get_input_source_id R source wb_amr ≠ R.IN_SOURCE_NONE) :
    get_input_source_id R source wb_amr ∈ R.in_table_ids := by
  simp only [get_input_source_id, routing_h.in_table_ids] at h ⊢
  split_ifs at h ⊢ <;> first | exact absurd rfl h | simp

theorem get_output_device_id_lt (R : routing_h) (hR : R.out_ids_below_cnt) (device : Nat) :
    get_output_device_id R device < R.OUT_DEVICE_CNT :=
  hR _ (get_output_device_id_mem R device)

theorem two_pow_add_eq_or (a b : Nat) (h : a < b) : 2 ^ b + 2 ^ a = 2 ^ b ||| 2 ^ a := by
  have h1 : 2 ^ a < 2 ^ b := Nat.pow_lt_pow_right (by decide) h
  have := Nat.mul_add_lt_is_or h1 1
  simpa using this

theorem two_pow_pair_inj (i o i' o' n : Nat) (ho : o < n) (ho' : o' < n)
    (h : 2 ^ (i + n) + 2 ^ o = 2 ^ (i' + n) + 2 ^ o') : i = i' ∧ o = o' := by
  have e1 : ∀ j p, p < n → (2 ^ (j + n) + 2 ^ p) % 2 ^ n = 2 ^ p := by
    intro j p hp
    have hlt : 2 ^ p < 2 ^ n := Nat.pow_lt_pow_right (by decide) hp
    rw [Nat.pow_add, Nat.add_comm, Nat.add_mul_mod_self_right, Nat.mod_eq_of_lt hlt]
  have e2 : ∀ j p, p < n → (2 ^ (j + n) + 2 ^ p) / 2 ^ n = 2 ^ j := by
    intro j p hp
    have hlt : 2 ^ p < 2 ^ n := Nat.pow_lt_pow_right (by decide) hp
    have hpos : 0 < 2 ^ n := Nat.pow_pos (by decide)
    rw [Nat.pow_add, Nat.add_comm, Nat.add_mul_div_right _ _ hpos, Nat.div_eq_of_lt hlt,
      Nat.zero_add]
  have ho2 : 2 ^ o = 2 ^ o' := by rw [← e1 i o ho, ← e1 i' o' ho', h]
  have hi2 : 2 ^ i = 2 ^ i' := by rw [← e2 i o ho, ← e2 i' o' ho', h]
  exact ⟨Nat.pow_right_injective (Nat.le_refl 2) hi2,
    Nat.pow_right_injective (Nat.le_refl 2) ho2⟩

theorem route_id_of_eq (R : routing_h) (adev : audio_device) :
    route_id_of R adev =
      2 ^ (get_input_source_id R adev.input_source adev.wb_amr + R.OUT_DEVICE_CNT) +
        2 ^ get_output_device_id R adev.out_device := by
  simp [route_id_of, Nat.shiftLeft_eq]

theorem route_changed_eq (R : routing_h) (adev : audio_device) :
    route_changed R adev = decide (route_id_of R adev ≠ adev.cur_route_id) := by
  simp only [route_changed, route_id_of, ne_eq, decide_not]
  cases h : ((1 <<< (get_input_source_id R adev.input_source adev.wb_amr + R.OUT_DEVICE_CNT) +
      1 <<< get_output_device_id R adev.out_device) == adev.cur_route_id) <;>
    simp_all [bne]

theorem select_devices_cur_route_id (R : routing_h) (adev : audio_device) :
    (select_devices R adev).cur_route_id = route_id_of R adev := by
  rw [select_devices_eq]

theorem select_devices_log (R : routing_h) (adev : audio_device) :
    (select_devices R adev).hw.log = adev.hw.log ++ select_devices_calls R adev := by
  rw [select_devices_eq]

/-- The routes `select_devices` resolves are the entries of the table at the
index pairs of `route_lookups`. -/
theorem resolve_routes_eq_lookups (R : routing_h) (i o : Nat) (adev : audio_device) :
    resolve_routes R i o adev =
      ((route_lookups R i o adev).1.bind (fun p => (R.route_configs p.1 p.2).output_route),
       (route_lookups R i o adev).2.bind (fun p => (R.route_configs p.1 p.2).input_route)) := by
  simp only [resolve_routes, route_lookups]
  split_ifs <;> rfl

theorem mixer_calls_eq (routes : Option String × Option String) :
    mixer_calls routes =
      [hw_call.audio_route_reset, hw_call.audio_route_update_mixer] ++
        (routes.1.map hw_call.audio_route_apply_path).toList ++
        (routes.2.map hw_call.audio_route_apply_path).toList ++
        [hw_call.audio_route_update_mixer] := by
  rcases routes with ⟨_ | a, _ | b⟩ <;> rfl

theorem out_table_ids_ne_none (R : routing_h) (hR : R.out_ids_distinct) (x : Nat)
    (h : x ∈ R.out_table_ids) : x ≠ R.OUT_DEVICE_NONE := by
  simp only [routing_h.out_ids_distinct, List.nodup_cons, List.mem_cons, not_or,
    List.not_mem_nil, not_false_eq_true, List.nodup_nil, and_true, List.mem_singleton] at hR
  simp only [routing_h.out_table_ids, List.mem_cons, List.mem_singleton, List.not_mem_nil,
    or_false] at h
  obtain ⟨h1, h2, h3, h4, h5, h6, h7, h8, h9⟩ := hR
  rcases h with h | h | h | h | h | h | h | h | h <;> subst h <;> tauto

theorem implied_output_device_id_table (R : routing_h) (adev : audio_device) :
    implied_output_device_id R adev ∈ R.out_table_ids := by
  simp only [implied_output_device_id, routing_h.out_table_ids]
  split_ifs <;> simp

theorem route_lookups_input_only (R : routing_h) (i o : Nat) (adev : audio_device)
    (hi : i ≠ R.IN_SOURCE_NONE) (ho : o = R.OUT_DEVICE_NONE) :
    route_lookups R i o adev = (none, some (i, implied_output_device_id R adev)) := by
  simp only [route_lookups, implied_output_device_id, ho, hi, ne_eq, not_false_eq_true,
    if_true, not_true_eq_false, if_false]

/-! ### The call flag and the mode -/

theorem start_call_in_call (R : routing_h) (a : audio_device) :
    (start_call R a).in_call = true := by
  cases h : a.in_call with
  | true => simp [start_call, h]
  | false => exact (start_call_fields R a h).1

theorem stop_call_in_call (R : routing_h) (a : audio_device) :
    (stop_call R a).in_call = false := by
  cases h : a.in_call with
  | true => exact (stop_call_fields R a h).1
  | false => rw [stop_call_idle R a h]; exact h

theorem start_call_mode (R : routing_h) (a : audio_device) : (start_call R a).mode = a.mode :=
  (start_call_frame R a).mode

theorem stop_call_mode (R : routing_h) (a : audio_device) : (stop_call R a).mode = a.mode :=
  (stop_call_frame R a).mode

/-- After `adev_set_mode` has changed the mode, the call flag is set exactly
when the new mode is IN_CALL. -/
theorem adev_set_mode_agree (R : routing_h) (mode : Int) (a : audio_device)
    (h : a.in_call = true ↔ a.mode = AUDIO_MODE_IN_CALL) :
    (adev_set_mode R mode a).in_call = true ↔
      (adev_set_mode R mode a).mode = AUDIO_MODE_IN_CALL := by
  simp only [adev_set_mode]
  by_cases hm : a.mode = mode
  · rw [if_pos hm]
    exact h
  · rw [if_neg hm]
    by_cases hc : mode = AUDIO_MODE_IN_CALL
    · have hc' : ({ a with mode := mode } : audio_device).mode = AUDIO_MODE_IN_CALL := hc
      rw [if_pos hc', start_call_in_call, start_call_mode]
      exact iff_of_true rfl hc'
    · have hc' : ¬({ a with mode := mode } : audio_device).mode = AUDIO_MODE_IN_CALL := hc
      rw [if_neg hc', stop_call_in_call, stop_call_mode]
      exact iff_of_false (by simp) hc'

theorem adev_set_wb_amr_callback_call (R : routing_h) (enable : Int) (a : audio_device) :
    (adev_set_wb_amr_callback R enable a).in_call = a.in_call ∧
    (adev_set_wb_amr_callback R enable a).mode = a.mode := by
  simp only [adev_set_wb_amr_callback]
  generalize (if a.wb_amr = true then (1 : Int) else 0) = k
  split_ifs with h1 h2
  · refine ⟨?_, ?_⟩
    · rw [start_call_in_call]
      exact h2.1.symm
    · rw [start_call_mode, stop_call_mode]
  · exact ⟨rfl, rfl⟩
  · exact ⟨rfl, rfl⟩

theorem restart_or_select_call (R : routing_h) (b : audio_device) :
    (if b.in_call = true then
        if route_changed R b = true then start_call R (stop_call R b) else b
      else select_devices R b).in_call = b.in_call ∧
    (if b.in_call = true then
        if route_changed R b = true then start_call R (stop_call R b) else b
      else select_devices R b).mode = b.mode := by
  by_cases h1 : b.in_call = true
  · rw [if_pos h1]
    by_cases h2 : route_changed R b = true
    · rw [if_pos h2]
      exact ⟨by rw [start_call_in_call, h1], by rw [start_call_mode, stop_call_mode]⟩
    · rw [if_neg h2]
      exact ⟨rfl, rfl⟩
  · rw [if_neg h1]
    exact ⟨select_devices_in_call R b, select_devices_mode R b⟩

theorem out_set_parameters_route_call (R : routing_h) (t : output_type) (val : Nat)
    (a : audio_device) :
    (out_set_parameters_route R t val a).in_call = a.in_call ∧
    (out_set_parameters_route R t val a).mode = a.mode := by
  have key := restart_or_select_call R
    { a.modify_out t (fun out => { out with device := val }) with
      out_device := output_devices t (a.modify_out t (fun out => { out with device := val })) |||
        val }
  by_cases hs : val &&& AUDIO_DEVICE_OUT_ALL_SCO ≠ 0
  · simp only [out_set_parameters_route, if_pos hs]
    exact ⟨((start_bt_sco_frame _).in_call).trans key.1, ((start_bt_sco_frame _).mode).trans key.2⟩
  · simp only [out_set_parameters_route, if_neg hs]
    exact key

theorem out_set_parameters_preselect_call (R : routing_h) (t : output_type) (val : Nat)
    (a : audio_device) :
    (out_set_parameters_preselect R t val a).in_call = a.in_call ∧
    (out_set_parameters_preselect R t val a).mode = a.mode := by
  simp only [out_set_parameters_preselect]
  split_ifs
  · split
    · exact ⟨rfl, rfl⟩
    · split_ifs
      · exact ⟨by rw [select_devices_in_call], by rw [select_devices_mode]⟩
      · exact ⟨rfl, rfl⟩
  · exact ⟨rfl, rfl⟩

theorem out_set_parameters_force_standby_call (R : routing_h) (t : output_type) (val : Nat)
    (a : audio_device) :
    (out_set_parameters_force_standby R t val a).in_call = a.in_call ∧
    (out_set_parameters_force_standby R t val a).mode = a.mode := by
  simp only [out_set_parameters_force_standby]
  split
  · exact ⟨rfl, rfl⟩
  · split_ifs
    · exact ⟨((do_out_standby_frame R t a).trans_out (do_out_standby_frame R t _)).in_call,
        ((do_out_standby_frame R t a).trans_out (do_out_standby_frame R t _)).mode⟩
    · exact ⟨(do_out_standby_frame R t a).in_call, (do_out_standby_frame R t a).mode⟩
    · exact ⟨(do_out_standby_frame R t a).in_call, (do_out_standby_frame R t a).mode⟩
    · exact ⟨rfl, rfl⟩

theorem out_set_parameters_call (R : routing_h) (t : output_type) (routing : Option Nat)
    (a : audio_device) :
    (out_set_parameters R t routing a).in_call = a.in_call ∧
    (out_set_parameters R t routing a).mode = a.mode := by
  simp only [out_set_parameters]
  split
  · split_ifs
    · obtain ⟨r1, r2⟩ := out_set_parameters_route_call R t _
        (out_set_parameters_preselect R t _ (out_set_parameters_force_standby R t _ a))
      obtain ⟨p1, p2⟩ := out_set_parameters_preselect_call R t _
        (out_set_parameters_force_standby R t _ a)
      obtain ⟨f1, f2⟩ := out_set_parameters_force_standby_call R t _ a
      exact ⟨r1.trans (p1.trans f1), r2.trans (p2.trans f2)⟩
    · exact ⟨rfl, rfl⟩
  · exact ⟨rfl, rfl⟩

theorem out_write_frame (R : routing_h) (t : output_type) (bytes : Nat) (a : audio_device) :
    out_frame a (out_write R t bytes a).1 := by
  cases h : a.outputs.get t with
  | none =>
    rw [out_write_none R t bytes a h]
    exact out_frame.refl_out a
  | some out =>
    rcases out_write_start_effect R t a out h with ⟨_, e⟩ | ⟨_, _, _, e⟩ | ⟨_, _, p0, p1, ok, e, _, f⟩
    · have hs : (out_write_start R t a).1.outputs.get t = some out := by rw [e]; exact h
      have := (out_write_tail R t bytes a out hs).2.2
      rw [e] at this
      exact this
    · have hs : (out_write_start R t a).1.outputs.get t =
          some { out with disabled := true, standby := false } := by
        rw [e]; simp
      have := (out_write_tail R t bytes a _ hs).2.2
      rw [e] at this
      exact (set_out_frame a t _).trans_out this
    · have hs : (out_write_start R t a).1.outputs.get t =
          some { out with disabled := false, standby := !ok, pcm_card := p0,
                          pcm_card_spdif := p1 } := by
        rw [e]; simp
      exact f.trans_out (out_write_tail R t bytes a _ hs).2.2

theorem hal_op_apply_call (R : routing_h) (op : hal_op) (a : audio_device)
    (h : a.in_call = true ↔ a.mode = AUDIO_MODE_IN_CALL) :
    (op.apply R a).in_call = true ↔ (op.apply R a).mode = AUDIO_MODE_IN_CALL := by
  have keep : ∀ b : audio_device, b.in_call = a.in_call → b.mode = a.mode →
      (b.in_call = true ↔ b.mode = AUDIO_MODE_IN_CALL) := by
    intro b h1 h2
    rw [h1, h2]
    exact h
  cases op with
  | open_output fast devices flags config =>
    exact keep _ (adev_open_output_stream_frame fast devices flags config a).1.in_call
      (adev_open_output_stream_frame fast devices flags config a).1.mode
  | close_output t =>
    show ((adev_close_output_stream R t a).in_call = true ↔
      (adev_close_output_stream R t a).mode = _)
    cases hg : a.outputs.get t with
    | none =>
      rw [show adev_close_output_stream R t a = a by simp [adev_close_output_stream, hg]]
      exact h
    | some o =>
      have e : adev_close_output_stream R t a =
          { out_standby R t a with outputs := (out_standby R t a).outputs.set t none } := by
        simp [adev_close_output_stream, hg]
      rw [e]
      exact keep _ (do_out_standby_frame R t a).in_call (do_out_standby_frame R t a).mode
  | write t bytes =>
    exact keep _ (out_write_frame R t bytes a).in_call (out_write_frame R t bytes a).mode
  | standby t =>
    exact keep _ (do_out_standby_frame R t a).in_call (do_out_standby_frame R t a).mode
  | set_parameters t routing =>
    exact keep _ (out_set_parameters_call R t routing a).1 (out_set_parameters_call R t routing a).2
  | set_mode mode => exact adev_set_mode_agree R mode a h
  | wb_amr enable =>
    exact keep _ (adev_set_wb_amr_callback_call R enable a).1
      (adev_set_wb_amr_callback_call R enable a).2

theorem start_input_stream_call (R : routing_h) (s : stream_in) (a : audio_device) :
    (start_input_stream R s a).2.1.in_call = a.in_call ∧
    (start_input_stream R s a).2.1.mode = a.mode := by
  simp only [start_input_stream]
  split_ifs
  · exact ⟨rfl, rfl⟩
  · exact ⟨by rw [select_devices_in_call], by rw [select_devices_mode]⟩
  · exact ⟨rfl, rfl⟩

theorem in_read_call (R : routing_h) (s : stream_in) (a : audio_device) (cap : capture_hw)
    (buffer : List Int) (bytes : Nat) :
    (in_read R s a cap buffer bytes).adev.in_call = a.in_call ∧
    (in_read R s a cap buffer bytes).adev.mode = a.mode := by
  have hst : (in_read_start R s a).2.1.in_call = a.in_call ∧
      (in_read_start R s a).2.1.mode = a.mode := by
    simp only [in_read_start]
    split_ifs
    · exact start_input_stream_call R s a
    · exact start_input_stream_call R s a
    · exact ⟨rfl, rfl⟩
  simp only [in_read]
  split_ifs
  all_goals exact hst

theorem do_in_standby_call (R : routing_h) (s : stream_in) (a : audio_device) :
    (do_in_standby R s a).2.in_call = a.in_call ∧ (do_in_standby R s a).2.mode = a.mode := by
  simp only [do_in_standby]
  split_ifs
  · exact ⟨by rw [select_devices_in_call]; rfl, by rw [select_devices_mode]; rfl⟩
  · exact ⟨rfl, rfl⟩
  · exact ⟨rfl, rfl⟩

theorem in_set_parameters_call (R : routing_h) (s : stream_in) (a : audio_device)
    (input_source routing : Option Nat) :
    (in_set_parameters R s a input_source routing).2.in_call = a.in_call ∧
    (in_set_parameters R s a input_source routing).2.mode = a.mode := by
  have hd := fun s' => do_in_standby_call R s' a
  simp only [in_set_parameters]
  rcases input_source with _ | v <;> rcases routing with _ | w <;> simp only []
  all_goals
    split_ifs
    all_goals
      first
      | exact ⟨rfl, rfl⟩
      | exact hd _
      | (simp only [select_devices_in_call, select_devices_mode]
         first
         | exact ⟨trivial, trivial⟩
         | exact ⟨rfl, rfl⟩
         | exact hd _)

theorem device_op_apply_call (R : routing_h) (op : device_op) (a : audio_device)
    (h : a.in_call = true ↔ a.mode = AUDIO_MODE_IN_CALL) :
    (op.apply R a).in_call = true ↔ (op.apply R a).mode = AUDIO_MODE_IN_CALL := by
  have keep : ∀ b : audio_device, b.in_call = a.in_call → b.mode = a.mode →
      (b.in_call = true ↔ b.mode = AUDIO_MODE_IN_CALL) := by
    intro b h1 h2
    rw [h1, h2]
    exact h
  cases op with
  | output op => exact hal_op_apply_call R op a h
  | in_read s cap buffer bytes =>
    exact keep _ (in_read_call R s a cap buffer bytes).1 (in_read_call R s a cap buffer bytes).2
  | in_standby s => exact keep _ (do_in_standby_call R s a).1 (do_in_standby_call R s a).2
  | in_set_parameters s input_source routing =>
    exact keep _ (in_set_parameters_call R s a input_source routing).1
      (in_set_parameters_call R s a input_source routing).2

theorem adev_open_mode (fw dm : Bool) (hw : hw_world) :
    (adev_open fw dm hw).mode = AUDIO_MODE_NORMAL := by
  simp only [adev_open, open_hdmi_driver_mode]
  split_ifs <;> rfl

theorem reachable_dev_of_reachable (R : routing_h) (a : audio_device) (h : reachable R a) :
    reachable_dev R a := by
  induction h with
  | init fw dm hw => exact reachable_dev.init fw dm hw
  | step op a _ ih => exact reachable_dev.step (.output op) a ih

/-! ### The wideband notification -/

theorem get_input_source_id_voice_call (R : routing_h) (w : Bool) :
    get_input_source_id R AUDIO_SOURCE_VOICE_CALL w =
      if w then R.IN_SOURCE_VOICE_CALL_WB else R.IN_SOURCE_VOICE_CALL := by
  simp [get_input_source_id]

theorem get_input_source_id_other (R : routing_h) (source : Int) (w w' : Bool)
    (h : source ≠ AUDIO_SOURCE_VOICE_CALL) :
    get_input_source_id R source w = get_input_source_id R source w' := by
  simp only [get_input_source_id]
  split_ifs <;> rfl

/-- In a state whose cached route identifier is current, a change of the
wideband flag changes the route exactly when it changes the input-source
ordinal. -/
theorem route_changed_wb (R : routing_h) (a : audio_device) (w : Bool)
    (hcur : a.cur_route_id = route_id_of R a) :
    route_changed R { a with wb_amr := w } = true ↔
      get_input_source_id R a.input_source w ≠
        get_input_source_id R a.input_source a.wb_amr := by
  rw [route_changed_eq, hcur, route_id_of_eq, route_id_of_eq]
  simp only [ne_eq, decide_not, Bool.not_eq_true', decide_eq_false_iff_not,
    Nat.add_right_cancel_iff]
  constructor
  · intro h e
    exact h (by rw [e])
  · intro h e
    have := Nat.pow_right_injective (Nat.le_refl 2) e
    exact h (Nat.add_right_cancel this)

theorem start_bt_sco_voice (a : audio_device) :
    (start_bt_sco a).pcm_voice_rx = a.pcm_voice_rx ∧
    (start_bt_sco a).pcm_voice_tx = a.pcm_voice_tx ∧
    a.hw.log <+: (start_bt_sco a).hw.log := by
  have p1 := fun c d i cfg => pcm_open_log_grows c d i cfg
  simp only [start_bt_sco]
  split_ifs
  · exact ⟨rfl, rfl, List.prefix_refl _⟩
  · refine ⟨rfl, rfl, ?_⟩
    exact (p1 _ _ _ _ a.hw).trans (List.prefix_append _ _)
  · refine ⟨rfl, rfl, ?_⟩
    exact ((p1 _ _ _ _ a.hw).trans (p1 _ _ _ _ _)).trans
      ((List.prefix_append _ _).trans (List.prefix_append _ _))
  · refine ⟨rfl, rfl, ?_⟩
    exact ((p1 _ _ _ _ a.hw).trans (p1 _ _ _ _ _)).trans
      ((List.prefix_append _ _).trans (List.prefix_append _ _))

/-- A `start_voice_call` whose two opens give ready handles leaves the pair
open with the configuration of the wideband flag. -/
theorem start_voice_call_ready (s : audio_device) (hrx : s.pcm_voice_rx = none)
    (htx : s.pcm_voice_tx = none) (hr : voice_open_ready s.hw.pcm_open_results = true) :
    (start_voice_call s).1.pcm_voice_rx =
      some ⟨PCM_CARD, PCM_DEVICE_VOICE, false,
        if s.wb_amr then pcm_config_voice_wide else pcm_config_voice, true, false⟩ ∧
    (start_voice_call s).1.pcm_voice_tx =
      some ⟨PCM_CARD, PCM_DEVICE_VOICE, true,
        if s.wb_amr then pcm_config_voice_wide else pcm_config_voice, true, false⟩ := by
  rcases s with ⟨od, id, mm, is, cr, mo, vrx, vtx, srx, stx, ic, tty, nrec, wb, tmc, tmd, fd, icm,
    outs, ⟨log, rs, ws, hs, cs⟩⟩
  simp only at hrx htx hr
  subst hrx htx
  match rs, hr with
  | [], _ =>
    simp only [start_voice_call, pcm_open, pcm_open_failed, audio_device.call, hw_world.call,
      ne_eq, not_true_eq_false, or_self, if_false, Bool.not_true, Bool.false_eq_true]
    split_ifs
    all_goals
      first
      | exact ⟨rfl, rfl⟩
      | exact ⟨(start_bt_sco_voice _).1, (start_bt_sco_voice _).2.1⟩
  | [.ready], _ =>
    simp only [start_voice_call, pcm_open, pcm_open_failed, audio_device.call, hw_world.call,
      ne_eq, not_true_eq_false, or_self, if_false, Bool.not_true, Bool.false_eq_true]
    split_ifs
    all_goals
      first
      | exact ⟨rfl, rfl⟩
      | exact ⟨(start_bt_sco_voice _).1, (start_bt_sco_voice _).2.1⟩
  | .ready :: .ready :: rest, _ =>
    simp only [start_voice_call, pcm_open, pcm_open_failed, audio_device.call, hw_world.call,
      ne_eq, not_true_eq_false, or_self, if_false, Bool.not_true, Bool.false_eq_true]
    split_ifs
    all_goals
      first
      | exact ⟨rfl, rfl⟩
      | exact ⟨(start_bt_sco_voice _).1, (start_bt_sco_voice _).2.1⟩

theorem stop_call_finish_world (R : routing_h) (v : audio_device) :
    (stop_call_finish R v).hw.pcm_open_results = v.hw.pcm_open_results ∧
    (stop_call_finish R v).wb_amr = v.wb_amr ∧
    (stop_call_finish R v).in_call = false := by
  simp only [stop_call_finish, select_devices_eq]
  split_ifs <;> simp

theorem start_call_entry_wb_amr (R : routing_h) (a : audio_device) :
    (start_call_entry R a).wb_amr = a.wb_amr := by
  simp only [start_call_entry, select_devices_eq]
  split_ifs <;> rfl

theorem start_call_finish_wb_amr (v : audio_device) :
    (start_call_finish v).wb_amr = v.wb_amr := by
  obtain ⟨b, cs, e⟩ := start_call_finish_eq v
  rw [e]
  rfl

theorem start_call_entry_log_grows (R : routing_h) (a : audio_device) :
    a.hw.log <+: (start_call_entry R a).hw.log := by
  simp only [start_call_entry, select_devices_eq]
  split_ifs <;> exact List.prefix_append _ _

theorem start_voice_call_log_grows (s : audio_device) :
    s.hw.log <+: (start_voice_call s).1.hw.log := by
  have p1 := fun c d i cfg => pcm_open_log_grows c d i cfg
  simp only [start_voice_call]
  split_ifs
  all_goals
    first
    | exact List.prefix_refl _
    | exact (p1 _ _ _ _ _).trans (List.prefix_append _ _)
    | exact ((p1 _ _ _ _ _).trans (p1 _ _ _ _ _)).trans
        ((List.prefix_append _ _).trans (List.prefix_append _ _))
    | (refine List.IsPrefix.trans ?_ (start_bt_sco_voice _).2.2
       exact ((p1 _ _ _ _ _).trans (p1 _ _ _ _ _)).trans
        ((List.prefix_append _ _).trans (List.prefix_append _ _)))

/-- The teardown and rebuild of the call that the wideband notification and
`out_set_parameters` make, in a device that is in a call. -/
theorem restart_call_spec (R : routing_h) (a : audio_device) (h : a.in_call = true) :
    (start_call R (stop_call R a)).wb_amr = a.wb_amr ∧
    (start_call R (stop_call R a)).in_call = true ∧
    (∃ rest, (start_call R (stop_call R a)).hw.log =
      a.hw.log ++ [hw_call.ril_set_call_clock_sync false] ++ stop_voice_trace a ++ rest) ∧
    (voice_open_ready a.hw.pcm_open_results = true →
      (start_call R (stop_call R a)).pcm_voice_rx =
        some ⟨PCM_CARD, PCM_DEVICE_VOICE, false,
          if a.wb_amr then pcm_config_voice_wide else pcm_config_voice, true, false⟩ ∧
      (start_call R (stop_call R a)).pcm_voice_tx =
        some ⟨PCM_CARD, PCM_DEVICE_VOICE, true,
          if a.wb_amr then pcm_config_voice_wide else pcm_config_voice, true, false⟩) := by
  have hstop := stop_call_eq_finish R a h
  obtain ⟨f1, f2, -, -, rest1, f5⟩ := stop_call_finish_fields R
    (stop_voice_call (a.call (.ril_set_call_clock_sync false)))
  obtain ⟨w1, w2, w3⟩ := stop_call_finish_world R
    (stop_voice_call (a.call (.ril_set_call_clock_sync false)))
  have hv := stop_voice_call_eq (a.call (.ril_set_call_clock_sync false))
  have c_rx : (stop_call R a).pcm_voice_rx = none := by rw [hstop, f1, hv]
  have c_tx : (stop_call R a).pcm_voice_tx = none := by rw [hstop, f2, hv]
  have c_res : (stop_call R a).hw.pcm_open_results = a.hw.pcm_open_results := by
    rw [hstop, w1, hv]; rfl
  have c_wb : (stop_call R a).wb_amr = a.wb_amr := by rw [hstop, w2, hv]; rfl
  have c_ic : (stop_call R a).in_call = false := by rw [hstop, w3]
  have c_log : (stop_call R a).hw.log =
      a.hw.log ++ [hw_call.ril_set_call_clock_sync false] ++ stop_voice_trace a ++ rest1 := by
    rw [hstop, f5, hv]; rfl
  have hstart := start_call_eq_finish R (stop_call R a) c_ic
  obtain ⟨e1, e2, e3, -⟩ := start_call_entry_fields R (stop_call R a)
  obtain ⟨g1, g2, -, -, -, rest3, g6⟩ :=
    start_call_finish_fields (start_voice_call (start_call_entry R (stop_call R a))).1
  have e_log := start_call_entry_log_grows R (stop_call R a)
  have sv_log := start_voice_call_log_grows (start_call_entry R (stop_call R a))
  refine ⟨?_, start_call_in_call R _, ?_, ?_⟩
  · rw [hstart, start_call_finish_wb_amr, (start_voice_call_frame _).wb_amr,
      start_call_entry_wb_amr, c_wb]
  · obtain ⟨r1, hr1⟩ := e_log.trans sv_log
    refine ⟨rest1 ++ r1 ++ rest3, ?_⟩
    rw [hstart, g6, ← hr1, c_log]
    simp only [List.append_assoc]
  · intro hready
    have hr' : voice_open_ready (start_call_entry R (stop_call R a)).hw.pcm_open_results = true := by
      rw [e3, c_res]; exact hready
    obtain ⟨s1, s2⟩ := start_voice_call_ready (start_call_entry R (stop_call R a))
      (e1.trans c_rx) (e2.trans c_tx) hr'
    rw [start_call_entry_wb_amr, c_wb] at s1 s2
    rw [hstart, g1, g2]
    exact ⟨s1, s2⟩

/-! ## The route selector -/

/-- C1: running `select_devices` twice in a row is idempotent, for every
device state (so in particular for those whose ordinal pair is in the route
table): the second run leaves the device state, the cached route identifier
included, exactly as the first run left it, and the calls it issues (at most
the HDMI audio ioctl made when the driver descriptor is 0) contain no mixer
reset, apply-path or commit. -/
theorem select_devices_idempotent (R : routing_h) (adev : audio_device) :
    (select_devices R (select_devices R adev)).forget_log =
      (select_devices R adev).forget_log ∧
    (select_devices R (select_devices R adev)).cur_route_id =
      (select_devices R adev).cur_route_id ∧
    ∃ calls : List hw_call,
      (select_devices R (select_devices R adev)).hw.log =
        (select_devices R adev).hw.log ++ calls ∧
      ∀ c ∈ calls, c.is_mixer = false := by
  have e2 := select_devices_eq R (select_devices R adev)
  have e1 := select_devices_eq R adev
  have hid : route_id_of R (select_devices R adev) = (select_devices R adev).cur_route_id := by
    rw [e1]; simp [route_id_of]
  refine ⟨?_, ?_, select_devices_calls R (select_devices R adev), ?_, ?_⟩
  · rw [e2, hid]; simp [audio_device.forget_log]
  · rw [e2, hid]
  · rw [e2]
  · intro c hc
    simp only [select_devices_calls, hid, if_true, List.append_nil] at hc
    split_ifs at hc
    · simp only [List.mem_singleton] at hc
      subst hc; rfl
    · simp at hc

/-! ## Call mode defaults -/

theorem adev_set_mode_enter (R : routing_h) (adev : audio_device)
    (hmode : adev.mode ≠ AUDIO_MODE_IN_CALL) :
    adev_set_mode R AUDIO_MODE_IN_CALL adev =
      start_call R { adev with mode := AUDIO_MODE_IN_CALL } := by
  simp only [adev_set_mode, if_neg hmode, if_true]

theorem adev_set_mode_leave (R : routing_h) (adev : audio_device) (mode : Int)
    (hmode : adev.mode ≠ mode) (hm : mode ≠ AUDIO_MODE_IN_CALL) :
    adev_set_mode R mode adev = stop_call R { adev with mode := mode } := by
  simp only [adev_set_mode, if_neg hmode, if_neg hm]

/-- C10: on an idle device (not in a call, mode other than IN_CALL) with
empty output and input device masks, `adev_set_mode(IN_CALL)` sets the
output device to earpiece, and a following `adev_set_mode` to any non-call
mode sets the output device to speaker and the input source to default. -/
theorem set_mode_call_defaults (R : routing_h) (adev : audio_device) (mode : Int)
    (hidle : adev.in_call = false) (hmode : adev.mode ≠ AUDIO_MODE_IN_CALL)
    (hout : adev.out_device = AUDIO_DEVICE_NONE) (hin : adev.in_device = AUDIO_DEVICE_NONE)
    (hm : mode ≠ AUDIO_MODE_IN_CALL) :
    (adev_set_mode R AUDIO_MODE_IN_CALL adev).out_device = AUDIO_DEVICE_OUT_EARPIECE ∧
    (adev_set_mode R mode (adev_set_mode R AUDIO_MODE_IN_CALL adev)).out_device =
      AUDIO_DEVICE_OUT_SPEAKER ∧
    (adev_set_mode R mode (adev_set_mode R AUDIO_MODE_IN_CALL adev)).input_source =
      AUDIO_SOURCE_DEFAULT := by
  have e1 := adev_set_mode_enter R adev hmode
  obtain ⟨c1, -, o1⟩ := start_call_fields R { adev with mode := AUDIO_MODE_IN_CALL } hidle
  have m1 := (start_call_frame R { adev with mode := AUDIO_MODE_IN_CALL }).mode
  rw [← e1] at c1 o1 m1
  have o1' : (adev_set_mode R AUDIO_MODE_IN_CALL adev).out_device = AUDIO_DEVICE_OUT_EARPIECE := by
    rw [o1]; simp [hout, hin]
  have hne : (adev_set_mode R AUDIO_MODE_IN_CALL adev).mode ≠ mode := by
    rw [m1]; exact fun h => hm h.symm
  have e2 := adev_set_mode_leave R (adev_set_mode R AUDIO_MODE_IN_CALL adev) mode hne hm
  obtain ⟨-, i2, o2⟩ :=
    stop_call_fields R { adev_set_mode R AUDIO_MODE_IN_CALL adev with mode := mode } c1
  rw [← e2] at i2 o2
  refine ⟨o1', ?_, ?_⟩
  · rw [o2]; simp [hm, o1']
  · rw [i2]; simp [hm]

theorem set_mode_call_defaults_witness :
    (adev_set_mode routing_h_sample AUDIO_MODE_IN_CALL adev_fresh).out_device =
      AUDIO_DEVICE_OUT_EARPIECE ∧
    (adev_set_mode routing_h_sample AUDIO_MODE_NORMAL
      (adev_set_mode routing_h_sample AUDIO_MODE_IN_CALL adev_fresh)).out_device =
      AUDIO_DEVICE_OUT_SPEAKER ∧
    (adev_set_mode routing_h_sample AUDIO_MODE_NORMAL
      (adev_set_mode routing_h_sample AUDIO_MODE_IN_CALL adev_fresh)).input_source =
      AUDIO_SOURCE_DEFAULT :=
  set_mode_call_defaults routing_h_sample adev_fresh AUDIO_MODE_NORMAL (by decide) (by decide)
    (by decide) (by decide) (by decide)

/-! ## The device classifier -/

/-- C3: for a mask that is empty or has at least two bits set,
`get_output_device_id` returns SPEAKER_AND_HEADSET exactly for
speaker|wired-headset and speaker|wired-headphone, SPEAKER_AND_EARPIECE
exactly for speaker|earpiece, and NONE for every other such mask (every other
two-bit mask, the empty mask, every mask with three or more bits). -/
theorem get_output_device_id_combined (R : routing_h) (hR : R.out_ids_distinct)
    (device : Nat) (h : device = AUDIO_DEVICE_NONE ∨ 2 ≤ popcount device) :
    (get_output_device_id R device = R.OUT_DEVICE_SPEAKER_AND_HEADSET ↔
      (device = (AUDIO_DEVICE_OUT_SPEAKER ||| AUDIO_DEVICE_OUT_WIRED_HEADSET) ∨
       device = (AUDIO_DEVICE_OUT_SPEAKER ||| AUDIO_DEVICE_OUT_WIRED_HEADPHONE))) ∧
    (get_output_device_id R device = R.OUT_DEVICE_SPEAKER_AND_EARPIECE ↔
      device = (AUDIO_DEVICE_OUT_SPEAKER ||| AUDIO_DEVICE_OUT_EARPIECE)) ∧
    ((device ≠ (AUDIO_DEVICE_OUT_SPEAKER ||| AUDIO_DEVICE_OUT_WIRED_HEADSET) ∧
      device ≠ (AUDIO_DEVICE_OUT_SPEAKER ||| AUDIO_DEVICE_OUT_WIRED_HEADPHONE) ∧
      device ≠ (AUDIO_DEVICE_OUT_SPEAKER ||| AUDIO_DEVICE_OUT_EARPIECE)) →
      get_output_device_id R device = R.OUT_DEVICE_NONE) := by
  have h6 : popcount 6 = 2 := by decide
  have h10 : popcount 10 = 2 := by decide
  have h3 : popcount 3 = 2 := by decide
  simp only [routing_h.out_ids_distinct, List.nodup_cons, List.mem_cons, not_or,
    List.not_mem_nil, not_false_eq_true, List.nodup_nil, and_true] at hR
  obtain ⟨-, -, -, -, -, -, -, ⟨hSE, hSN⟩, hEN⟩ := hR
  have hp : popcount device ≠ 1 := by
    rcases h with h | h
    · subst h; decide
    · omega
  by_cases d6 : device = 6
  · subst d6; simp [get_output_device_id, h6, hSE, hSN]
  by_cases d10 : device = 10
  · subst d10; simp [get_output_device_id, h10, hSE, hSN]
  by_cases d3 : device = 3
  · subst d3; simp [get_output_device_id, h3, hEN, Ne.symm hSE]
  · have e : get_output_device_id R device = R.OUT_DEVICE_NONE := by
      unfold get_output_device_id
      split_ifs <;> simp_all
    simp [e, d6, d10, d3, Ne.symm hSN, Ne.symm hEN]

theorem get_output_device_id_combined_witness :
    (get_output_device_id routing_h_sample 6 = 7 ↔ ((6 : Nat) = 6 ∨ (6 : Nat) = 10)) ∧
    (get_output_device_id routing_h_sample 6 = 8 ↔ (6 : Nat) = 3) ∧
    (((6 : Nat) ≠ 6 ∧ (6 : Nat) ≠ 10 ∧ (6 : Nat) ≠ 3) →
      get_output_device_id routing_h_sample 6 = 10) :=
  get_output_device_id_combined routing_h_sample (by decide) 6 (Or.inr (by decide))

/-- C4: a mask with exactly one bit set is mapped to the ordinal of its
device for speaker, earpiece, wired headset, wired headphone, SCO, SCO
headset and SCO carkit, and to NONE for every other single bit; the seven
ordinals are pairwise different and none of them is NONE. -/
theorem get_output_device_id_single (R : routing_h) (hR : R.out_ids_distinct)
    (device : Nat) (h : popcount device = 1) :
    get_output_device_id R device =
      (if device = AUDIO_DEVICE_OUT_SPEAKER then R.OUT_DEVICE_SPEAKER
       else if device = AUDIO_DEVICE_OUT_EARPIECE then R.OUT_DEVICE_EARPIECE
       else if device = AUDIO_DEVICE_OUT_WIRED_HEADSET then R.OUT_DEVICE_HEADSET
       else if device = AUDIO_DEVICE_OUT_WIRED_HEADPHONE then R.OUT_DEVICE_HEADPHONES
       else if device = AUDIO_DEVICE_OUT_BLUETOOTH_SCO then R.OUT_DEVICE_BT_SCO
       else if device = AUDIO_DEVICE_OUT_BLUETOOTH_SCO_HEADSET then
         R.OUT_DEVICE_BT_SCO_HEADSET_OUT
       else if device = AUDIO_DEVICE_OUT_BLUETOOTH_SCO_CARKIT then R.OUT_DEVICE_BT_SCO_CARKIT
       else R.OUT_DEVICE_NONE) ∧
    ((List.map (get_output_device_id R)
        [AUDIO_DEVICE_OUT_SPEAKER, AUDIO_DEVICE_OUT_EARPIECE, AUDIO_DEVICE_OUT_WIRED_HEADSET,
         AUDIO_DEVICE_OUT_WIRED_HEADPHONE, AUDIO_DEVICE_OUT_BLUETOOTH_SCO,
         AUDIO_DEVICE_OUT_BLUETOOTH_SCO_HEADSET, AUDIO_DEVICE_OUT_BLUETOOTH_SCO_CARKIT]) ++
      [R.OUT_DEVICE_NONE]).Nodup := by
  constructor
  · have h0 : device ≠ 0 := by
      intro h0; subst h0; revert h; decide
    unfold get_output_device_id
    simp [h0, h]
  · have e : ∀ d : Nat, d ≠ 0 → popcount d = 1 →
        get_output_device_id R d =
          (if d = 2 then R.OUT_DEVICE_SPEAKER
           else if d = 1 then R.OUT_DEVICE_EARPIECE
           else if d = 4 then R.OUT_DEVICE_HEADSET
           else if d = 8 then R.OUT_DEVICE_HEADPHONES
           else if d = 16 then R.OUT_DEVICE_BT_SCO
           else if d = 32 then R.OUT_DEVICE_BT_SCO_HEADSET_OUT
           else if d = 64 then R.OUT_DEVICE_BT_SCO_CARKIT
           else R.OUT_DEVICE_NONE) := by
      intro d hd hp
      unfold get_output_device_id
      simp [hd, hp]
    have p1 : popcount 1 = 1 := by decide
    have p2 : popcount 2 = 1 := by decide
    have p4 : popcount 4 = 1 := by decide
    have p8 : popcount 8 = 1 := by decide
    have p16 : popcount 16 = 1 := by decide
    have p32 : popcount 32 = 1 := by decide
    have p64 : popcount 64 = 1 := by decide
    simp only [routing_h.out_ids_distinct, List.nodup_cons, List.mem_cons, not_or,
      List.not_mem_nil, not_false_eq_true, List.nodup_nil, and_true] at hR
    simp only [List.map, AUDIO_DEVICE_OUT_SPEAKER, AUDIO_DEVICE_OUT_EARPIECE,
      AUDIO_DEVICE_OUT_WIRED_HEADSET, AUDIO_DEVICE_OUT_WIRED_HEADPHONE,
      AUDIO_DEVICE_OUT_BLUETOOTH_SCO, AUDIO_DEVICE_OUT_BLUETOOTH_SCO_HEADSET,
      AUDIO_DEVICE_OUT_BLUETOOTH_SCO_CARKIT]
    rw [e 2 (by decide) p2, e 1 (by decide) p1, e 4 (by decide) p4, e 8 (by decide) p8,
      e 16 (by decide) p16, e 32 (by decide) p32, e 64 (by decide) p64]
    simp only [List.cons_append, List.nil_append, List.nodup_cons, List.mem_cons, not_or,
      List.not_mem_nil, not_false_eq_true, List.nodup_nil, and_true]
    norm_num
    tauto

theorem get_output_device_id_single_witness :
    get_output_device_id routing_h_sample 32 = 5 ∧
    ((List.map (get_output_device_id routing_h_sample) [2, 1, 4, 8, 16, 32, 64]) ++
      [10]).Nodup :=
  get_output_device_id_single routing_h_sample (by decide) 32 (by decide)

/-- C5: `get_input_source_id` returns NONE for the default source, the
matching ordinal for mic, camcorder, voice recognition and voice
communication, VOICE_CALL_WB or VOICE_CALL for voice call according to the
wideband flag, NONE for every other source; the wideband flag changes the
result only for the voice-call source. -/
theorem get_input_source_id_spec (R : routing_h) (source : Int) (wb_amr : Bool) :
    get_input_source_id R AUDIO_SOURCE_DEFAULT wb_amr = R.IN_SOURCE_NONE ∧
    get_input_source_id R AUDIO_SOURCE_MIC wb_amr = R.IN_SOURCE_MIC ∧
    get_input_source_id R AUDIO_SOURCE_CAMCORDER wb_amr = R.IN_SOURCE_CAMCORDER ∧
    get_input_source_id R AUDIO_SOURCE_VOICE_RECOGNITION wb_amr =
      R.IN_SOURCE_VOICE_RECOGNITION ∧
    get_input_source_id R AUDIO_SOURCE_VOICE_COMMUNICATION wb_amr =
      R.IN_SOURCE_VOICE_COMMUNICATION ∧
    get_input_source_id R AUDIO_SOURCE_VOICE_CALL true = R.IN_SOURCE_VOICE_CALL_WB ∧
    get_input_source_id R AUDIO_SOURCE_VOICE_CALL false = R.IN_SOURCE_VOICE_CALL ∧
    ((source ≠ AUDIO_SOURCE_DEFAULT ∧ source ≠ AUDIO_SOURCE_MIC ∧
      source ≠ AUDIO_SOURCE_CAMCORDER ∧ source ≠ AUDIO_SOURCE_VOICE_RECOGNITION ∧
      source ≠ AUDIO_SOURCE_VOICE_COMMUNICATION ∧ source ≠ AUDIO_SOURCE_VOICE_CALL) →
      get_input_source_id R source wb_amr = R.IN_SOURCE_NONE) ∧
    (source ≠ AUDIO_SOURCE_VOICE_CALL →
      get_input_source_id R source true = get_input_source_id R source false) := by
  refine ⟨?_, ?_, ?_, ?_, ?_, ?_, ?_, ?_, ?_⟩
  · simp [get_input_source_id]
  · simp [get_input_source_id]
  · simp [get_input_source_id]
  · simp [get_input_source_id]
  · simp [get_input_source_id]
  · simp [get_input_source_id]
  · simp [get_input_source_id]
  · rintro ⟨h0, h1, h2, h3, h4, h5⟩
    simp only [AUDIO_SOURCE_DEFAULT, AUDIO_SOURCE_MIC, AUDIO_SOURCE_CAMCORDER,
      AUDIO_SOURCE_VOICE_RECOGNITION, AUDIO_SOURCE_VOICE_COMMUNICATION,
      AUDIO_SOURCE_VOICE_CALL] at h0 h1 h2 h3 h4 h5
    simp [get_input_source_id, h0, h1, h2, h3, h4, h5]
  · intro h
    simp only [AUDIO_SOURCE_VOICE_CALL] at h
    simp [get_input_source_id, h]

/-! ## HDMI exclusivity -/

/-- C7: starting a deep-buffer or low-latency output while the HDMI output is
open and not in standby only sets the `disabled` flag of the stream and
returns 0 (nothing else changes, so no PCM is opened); after that, in every
run of `out_write` calls on that stream, each write stops with the status
`-EPIPE`, no PCM slot of any stream changes, and the calls made contain no
PCM call. -/
theorem start_while_hdmi_active_disables (R : routing_h) (t : output_type) (a : audio_device)
    (out : stream_out) (ht : t ≠ OUTPUT_HDMI) (h : a.outputs.get t = some out)
    (hact : active a.outputs OUTPUT_HDMI = true) (bs : List Nat) (bytes : Nat) :
    start_output_stream R t a = (a.set_out t { out with disabled := true }, 0) ∧
    (out_write_status R t bytes
      (out_write_seq R t bs (start_output_stream R t a).1)).2 = -EPIPE ∧
    (∀ u, (out_write R t bytes (out_write_seq R t bs (start_output_stream R t a).1)).1.out_pcms u
      = a.out_pcms u) ∧
    ∃ cs, (out_write R t bytes (out_write_seq R t bs (start_output_stream R t a).1)).1.hw.log =
        a.hw.log ++ cs ∧ ∀ c ∈ cs, c.is_pcm = false := by
  have e := start_output_stream_disabled R t a out ht h hact
  refine ⟨e, ?_⟩
  rw [e]
  have inv : ∀ (bs : List Nat) (s : audio_device),
      (active s.outputs OUTPUT_HDMI = true ∧
       (∃ o, s.outputs.get t = some o ∧ o.disabled = true) ∧
       (∀ u, s.out_pcms u = a.out_pcms u) ∧
       ∃ cs, s.hw.log = a.hw.log ++ cs ∧ ∀ c ∈ cs, hw_call.is_pcm c = false) →
      (active (out_write_seq R t bs s).outputs OUTPUT_HDMI = true ∧
       (∃ o, (out_write_seq R t bs s).outputs.get t = some o ∧ o.disabled = true) ∧
       (∀ u, (out_write_seq R t bs s).out_pcms u = a.out_pcms u) ∧
       ∃ cs, (out_write_seq R t bs s).hw.log = a.hw.log ++ cs ∧
         ∀ c ∈ cs, hw_call.is_pcm c = false) := by
    intro bs
    induction bs with
    | nil => intro s hs; exact hs
    | cons b bs ih =>
      intro s ⟨h1, h2, h3, cs, h4, h5⟩
      obtain ⟨-, g1, g2, g3, n, g4⟩ := out_write_disabled_step R t b s ht h1 h2
      apply ih
      refine ⟨g1, g2, fun u => (g3 u).trans (h3 u), cs ++ [hw_call.usleep n], ?_, ?_⟩
      · rw [g4, h4, List.append_assoc]
      · intro c hc
        rcases List.mem_append.mp hc with hc | hc
        · exact h5 c hc
        · rw [List.mem_singleton.mp hc]; rfl
  have h0 : active (a.set_out t { out with disabled := true }).outputs OUTPUT_HDMI = true ∧
       (∃ o, (a.set_out t { out with disabled := true }).outputs.get t = some o ∧
          o.disabled = true) ∧
       (∀ u, (a.set_out t { out with disabled := true }).out_pcms u = a.out_pcms u) ∧
       ∃ cs, (a.set_out t { out with disabled := true }).hw.log = a.hw.log ++ cs ∧
         ∀ c ∈ cs, hw_call.is_pcm c = false := by
    refine ⟨?_, ⟨{ out with disabled := true }, by simp, rfl⟩, ?_, [], by simp, by simp⟩
    · simp only [active, set_out_outputs] at hact ⊢
      rw [outputs_get_set_other _ _ _ _ (Ne.symm ht)]
      exact hact
    · intro u
      simp only [audio_device.out_pcms, set_out_outputs]
      by_cases hu : u = t
      · subst hu; simp [h, stream_out.pcms]
      · rw [outputs_get_set_other _ _ _ _ hu]
  obtain ⟨h1, h2, h3, cs, h4, h5⟩ := inv bs _ h0
  obtain ⟨g0, -, -, g3, n, g4⟩ := out_write_disabled_step R t bytes _ ht h1 h2
  refine ⟨g0, fun u => (g3 u).trans (h3 u), cs ++ [hw_call.usleep n], ?_, ?_⟩
  · rw [g4, h4, List.append_assoc]
  · intro c hc
    rcases List.mem_append.mp hc with hc | hc
    · exact h5 c hc
    · rw [List.mem_singleton.mp hc]; rfl

theorem start_while_hdmi_active_disables_witness :
    start_output_stream routing_h_sample OUTPUT_LOW_LATENCY adev_hdmi_active =
      (adev_hdmi_active.set_out OUTPUT_LOW_LATENCY
        { stream_low_active.to_standby with disabled := true }, 0) ∧
    (out_write_status routing_h_sample OUTPUT_LOW_LATENCY 960
      (out_write_seq routing_h_sample OUTPUT_LOW_LATENCY [960, 480]
        (start_output_stream routing_h_sample OUTPUT_LOW_LATENCY adev_hdmi_active).1)).2 =
      -EPIPE ∧
    (∀ u, (out_write routing_h_sample OUTPUT_LOW_LATENCY 960
        (out_write_seq routing_h_sample OUTPUT_LOW_LATENCY [960, 480]
          (start_output_stream routing_h_sample OUTPUT_LOW_LATENCY
            adev_hdmi_active).1)).1.out_pcms u = adev_hdmi_active.out_pcms u) ∧
    ∃ cs, (out_write routing_h_sample OUTPUT_LOW_LATENCY 960
        (out_write_seq routing_h_sample OUTPUT_LOW_LATENCY [960, 480]
          (start_output_stream routing_h_sample OUTPUT_LOW_LATENCY
            adev_hdmi_active).1)).1.hw.log = adev_hdmi_active.hw.log ++ cs ∧
      ∀ c ∈ cs, c.is_pcm = false :=
  start_while_hdmi_active_disables routing_h_sample OUTPUT_LOW_LATENCY adev_hdmi_active
    stream_low_active.to_standby (by decide) (by decide) (by decide) [960, 480] 960

/-! ## Opening a second stream of a kind -/

/-- C9 (amended): a call of `adev_open_output_stream` for a kind whose slot
already holds a stream fails, returns no stream and leaves the table of
outputs (so the open stream too) unchanged. The status is `-EBUSY`, except
for an HDMI request whose channel query fails: that call returns the status
of the query, before the table is looked at. In no case does a call replace
or change a registered stream, so at most one stream per kind is ever
registered. -/
theorem open_output_stream_busy (fast : pcm_config) (devices flags : Nat) (config : audio_config)
    (a : audio_device)
    (hocc : a.outputs.get (requested_output_type devices flags) ≠ none) :
    (adev_open_output_stream fast devices flags config a).stream_out = none ∧
    (adev_open_output_stream fast devices flags config a).adev.outputs = a.outputs ∧
    (adev_open_output_stream fast devices flags config a).ret ≠ 0 ∧
    ((adev_open_output_stream fast devices flags config a).ret = -EBUSY ∨
      (requested_output_type devices flags = OUTPUT_HDMI ∧ hdmi_query_status a ≠ 0 ∧
       (adev_open_output_stream fast devices flags config a).ret = hdmi_query_status a)) := by
  unfold requested_output_type at hocc ⊢
  by_cases c1 : flags &&& AUDIO_OUTPUT_FLAG_DIRECT ≠ 0 ∧
      (if devices = AUDIO_DEVICE_NONE then AUDIO_DEVICE_OUT_SPEAKER else devices) =
        AUDIO_DEVICE_OUT_AUX_DIGITAL
  · rw [if_pos c1] at hocc
    simp only [adev_open_output_stream, adev_open_output_stream_register, if_pos c1,
      read_hdmi_channel_masks_status, read_hdmi_channel_masks_outputs]
    by_cases hq : hdmi_query_status a = 0
    · simp [hq, hocc, read_hdmi_channel_masks_outputs]
    · simp [hq, read_hdmi_channel_masks_outputs]
  · rw [if_neg c1] at hocc
    by_cases c2 : flags &&& AUDIO_OUTPUT_FLAG_DEEP_BUFFER ≠ 0
    · rw [if_pos c2] at hocc
      simp only [adev_open_output_stream, adev_open_output_stream_register, if_neg c1,
        if_pos c2]
      simp [hocc]
    · rw [if_neg c2] at hocc
      simp only [adev_open_output_stream, adev_open_output_stream_register, if_neg c1,
        if_neg c2]
      simp [hocc]

theorem open_output_stream_busy_witness :
    (adev_open_output_stream pcm_config_fast AUDIO_DEVICE_OUT_SPEAKER 0 ⟨0, 0⟩
      adev_hdmi_low).stream_out = none ∧
    (adev_open_output_stream pcm_config_fast AUDIO_DEVICE_OUT_SPEAKER 0 ⟨0, 0⟩
      adev_hdmi_low).adev.outputs = adev_hdmi_low.outputs ∧
    (adev_open_output_stream pcm_config_fast AUDIO_DEVICE_OUT_SPEAKER 0 ⟨0, 0⟩
      adev_hdmi_low).ret ≠ 0 ∧
    ((adev_open_output_stream pcm_config_fast AUDIO_DEVICE_OUT_SPEAKER 0 ⟨0, 0⟩
      adev_hdmi_low).ret = -EBUSY ∨
      (requested_output_type AUDIO_DEVICE_OUT_SPEAKER 0 = OUTPUT_HDMI ∧
       hdmi_query_status adev_hdmi_low ≠ 0 ∧
       (adev_open_output_stream pcm_config_fast AUDIO_DEVICE_OUT_SPEAKER 0 ⟨0, 0⟩
        adev_hdmi_low).ret = hdmi_query_status adev_hdmi_low)) :=
  open_output_stream_busy pcm_config_fast AUDIO_DEVICE_OUT_SPEAKER 0 ⟨0, 0⟩ adev_hdmi_low
    (by decide)

/-- C9, as stated, fails: with an HDMI stream registered, an HDMI request
made when the driver reports 2 channels returns `-ENOSYS`, not `-EBUSY`. -/
theorem open_output_stream_busy_counterexample :
    adev_hdmi_two_channels.outputs.get OUTPUT_HDMI ≠ none ∧
    requested_output_type AUDIO_DEVICE_OUT_AUX_DIGITAL AUDIO_OUTPUT_FLAG_DIRECT = OUTPUT_HDMI ∧
    (adev_open_output_stream pcm_config_fast AUDIO_DEVICE_OUT_AUX_DIGITAL
      AUDIO_OUTPUT_FLAG_DIRECT ⟨0, 0⟩ adev_hdmi_two_channels).ret = -ENOSYS ∧
    (adev_open_output_stream pcm_config_fast AUDIO_DEVICE_OUT_AUX_DIGITAL
      AUDIO_OUTPUT_FLAG_DIRECT ⟨0, 0⟩ adev_hdmi_two_channels).ret ≠ -EBUSY := by
  decide

/-! ## The aggregated output device -/

/-- C2 (amended): in every state reachable from a freshly opened device
through open/close output, write, standby, set-mode to a mode other than
IN_CALL and the wideband notification (no set-parameters, no entry into a
call), and in which no output stream is at once not in standby and disabled,
the aggregated output mask `out_device` equals the bitwise OR of the device
masks of all open output streams that are not in standby. -/
theorem out_device_is_active_devices (R : routing_h) (a : audio_device)
    (h : reachable_idle R a) (hnd : none_disabled a.outputs) :
    a.out_device = active_devices a.outputs :=
  (idle_inv_reachable R a h).2.2 hnd

theorem out_device_is_active_devices_witness :
    adev_hdmi_low.out_device = active_devices adev_hdmi_low.outputs :=
  out_device_is_active_devices routing_h_sample adev_hdmi_low reachable_idle_adev_hdmi_low
    ⟨by decide, by decide, by decide⟩

/-- C2, as stated, fails in four reachable states. After set-mode to IN_CALL
on a fresh device `out_device` is the earpiece although no stream is open;
after the return to NORMAL it is the speaker, still with no stream open;
after set-parameters has routed a stream in standby to the wired headset it
is the wired headset although no stream is active; and while a low-latency
stream on the speaker is active but disabled by the active HDMI stream it is
the HDMI device alone. -/
theorem out_device_aggregate_counterexample :
    (reachable routing_h_sample adev_in_call ∧
      adev_in_call.out_device = AUDIO_DEVICE_OUT_EARPIECE ∧
      active_devices adev_in_call.outputs = 0) ∧
    (reachable routing_h_sample adev_after_call ∧ adev_after_call.in_call = false ∧
      adev_after_call.out_device = AUDIO_DEVICE_OUT_SPEAKER ∧
      active_devices adev_after_call.outputs = 0) ∧
    (reachable routing_h_sample adev_routed ∧
      adev_routed.out_device = AUDIO_DEVICE_OUT_WIRED_HEADSET ∧
      active_devices adev_routed.outputs = 0) ∧
    (reachable routing_h_sample adev_low_disabled ∧
      adev_low_disabled.out_device = AUDIO_DEVICE_OUT_AUX_DIGITAL ∧
      active_devices adev_low_disabled.outputs =
        AUDIO_DEVICE_OUT_AUX_DIGITAL ||| AUDIO_DEVICE_OUT_SPEAKER) :=
  ⟨⟨reachable_adev_in_call, by decide, by decide⟩,
   ⟨reachable_adev_after_call, by decide, by decide, by decide⟩,
   ⟨reachable_adev_routed, by decide, by decide⟩,
   ⟨reachable_adev_low_disabled, by decide, by decide⟩⟩

/-! ## Failure of the voice PCM open on call entry -/

/-- C11 (amended): if opening either direction of the baseband voice PCM pair
fails while entering IN_CALL (the RX handle, or else the TX handle, is not
ready), `start_voice_call` calls `pcm_close` on every voice handle it opened,
clears both slots and returns the out-of-memory error; `start_call`, which
returns nothing, does not look at that status: it has set `in_call` before
the open and leaves it set, so the device is in the call state afterwards. -/
theorem start_call_voice_open_fails (R : routing_h) (a : audio_device)
    (hidle : a.in_call = false) (hrx : a.pcm_voice_rx = none) (htx : a.pcm_voice_tx = none)
    (hf : voice_open_fails a.hw.pcm_open_results = true) :
    (start_voice_call (start_call_entry R a)).2 = -ENOMEM ∧
    (start_call R a).pcm_voice_rx = none ∧
    (start_call R a).pcm_voice_tx = none ∧
    (∃ rest, (start_call R a).hw.log =
      (start_call_entry R a).hw.log ++ voice_open_trace (start_call_entry R a) ++ rest) ∧
    (start_call R a).in_call = true := by
  obtain ⟨e1, e2, e3, e4⟩ := start_call_entry_fields R a
  obtain ⟨s1, s2, s3, s4, s5, -⟩ :=
    start_voice_call_fails (start_call_entry R a) (e1.trans hrx) (e2.trans htx) (by rw [e3]; exact hf)
  obtain ⟨f1, f2, -, -, f5, rest, f6⟩ :=
    start_call_finish_fields (start_voice_call (start_call_entry R a)).1
  rw [start_call_eq_finish R a hidle]
  exact ⟨s1, f1.trans s2, f2.trans s3, ⟨rest, by rw [f6, s4]⟩, f5.trans (s5.trans e4)⟩

theorem start_call_voice_open_fails_witness :
    (start_voice_call (start_call_entry routing_h_sample adev_voice_tx_fails)).2 = -ENOMEM ∧
    (start_call routing_h_sample adev_voice_tx_fails).pcm_voice_rx = none ∧
    (start_call routing_h_sample adev_voice_tx_fails).pcm_voice_tx = none ∧
    (∃ rest, (start_call routing_h_sample adev_voice_tx_fails).hw.log =
      (start_call_entry routing_h_sample adev_voice_tx_fails).hw.log ++
        voice_open_trace (start_call_entry routing_h_sample adev_voice_tx_fails) ++ rest) ∧
    (start_call routing_h_sample adev_voice_tx_fails).in_call = true :=
  start_call_voice_open_fails routing_h_sample adev_voice_tx_fails (by decide) (by decide)
    (by decide) (by decide)

/-- C11, as stated, fails: on a fresh device whose first `pcm_open` (the voice
RX stream) gives a handle that is not ready, `adev_set_mode(IN_CALL)` runs
`start_call`, the open fails, and the device is in the call state afterwards
(`in_call` is true). -/
theorem start_call_enters_call_counterexample :
    adev_voice_rx_fails.in_call = false ∧
    voice_open_fails adev_voice_rx_fails.hw.pcm_open_results = true ∧
    (start_voice_call (start_call_entry routing_h_sample adev_voice_rx_fails)).2 = -ENOMEM ∧
    (start_call routing_h_sample adev_voice_rx_fails).in_call = true ∧
    (adev_set_mode routing_h_sample AUDIO_MODE_IN_CALL adev_voice_rx_fails).in_call = true := by
  decide

/-! ## The PCM handles at call exit -/

/-- C12 (amended): for every in-call device state, after Exit IN_CALL
(`stop_call`) both voice PCM handles are closed (stopped and closed if they
were open, their slots `NULL`); both SCO PCM handles are closed as well
whenever the aggregated output mask at the time of the exit contains a
Bluetooth SCO device; when it contains none, the SCO handles are left as they
are. -/
theorem stop_call_closes_pcms (R : routing_h) (a : audio_device) (h : a.in_call = true) :
    (stop_call R a).pcm_voice_rx = none ∧
    (stop_call R a).pcm_voice_tx = none ∧
    (a.out_device &&& AUDIO_DEVICE_OUT_ALL_SCO ≠ 0 →
      (stop_call R a).pcm_sco_rx = none ∧ (stop_call R a).pcm_sco_tx = none) ∧
    (a.out_device &&& AUDIO_DEVICE_OUT_ALL_SCO = 0 →
      (stop_call R a).pcm_sco_rx = a.pcm_sco_rx ∧ (stop_call R a).pcm_sco_tx = a.pcm_sco_tx) ∧
    ∃ rest, (stop_call R a).hw.log =
      a.hw.log ++ [hw_call.ril_set_call_clock_sync false] ++ stop_voice_trace a ++ rest := by
  obtain ⟨f1, f2, f3, f4, rest, f5⟩ := stop_call_finish_fields R
    (stop_voice_call (a.call (.ril_set_call_clock_sync false)))
  rw [stop_call_eq_finish R a h, f1, f2, f3, f4, f5, stop_voice_call_eq]
  refine ⟨rfl, rfl, ?_, ?_, rest, rfl⟩
  · intro hs
    simp only [call_out_device]
    exact ⟨if_pos hs, if_pos hs⟩
  · intro hs
    simp only [call_out_device]
    exact ⟨if_neg (fun hn => hn hs), if_neg (fun hn => hn hs)⟩

theorem stop_call_closes_pcms_witness :
    (stop_call routing_h_sample adev_sco_call).pcm_voice_rx = none ∧
    (stop_call routing_h_sample adev_sco_call).pcm_voice_tx = none ∧
    (adev_sco_call.out_device &&& AUDIO_DEVICE_OUT_ALL_SCO ≠ 0 →
      (stop_call routing_h_sample adev_sco_call).pcm_sco_rx = none ∧
      (stop_call routing_h_sample adev_sco_call).pcm_sco_tx = none) ∧
    (adev_sco_call.out_device &&& AUDIO_DEVICE_OUT_ALL_SCO = 0 →
      (stop_call routing_h_sample adev_sco_call).pcm_sco_rx = adev_sco_call.pcm_sco_rx ∧
      (stop_call routing_h_sample adev_sco_call).pcm_sco_tx = adev_sco_call.pcm_sco_tx) ∧
    ∃ rest, (stop_call routing_h_sample adev_sco_call).hw.log =
      adev_sco_call.hw.log ++ [hw_call.ril_set_call_clock_sync false] ++
        stop_voice_trace adev_sco_call ++ rest :=
  stop_call_closes_pcms routing_h_sample adev_sco_call (by decide)

/-- C12, as stated, fails: in a call on a Bluetooth SCO headset (SCO pair
open), `out_set_parameters` routes the output to the speaker; the device is
then in a call with the SCO pair open and an aggregated output mask without
SCO device, and `stop_call` leaves both SCO handles open: the slots keep their
handles and no `pcm_close` is made on them. -/
theorem stop_call_leaves_sco_counterexample :
    reachable routing_h_sample adev_sco_rerouted ∧
    adev_sco_rerouted.in_call = true ∧
    adev_sco_rerouted.out_device = AUDIO_DEVICE_OUT_SPEAKER ∧
    adev_sco_rerouted.pcm_sco_rx ≠ none ∧ adev_sco_rerouted.pcm_sco_tx ≠ none ∧
    (stop_call routing_h_sample adev_sco_rerouted).pcm_sco_rx = adev_sco_rerouted.pcm_sco_rx ∧
    (stop_call routing_h_sample adev_sco_rerouted).pcm_sco_tx = adev_sco_rerouted.pcm_sco_tx ∧
    hw_call.pcm_close adev_sco_rerouted.pcm_sco_rx ∉
      (stop_call routing_h_sample adev_sco_rerouted).hw.log ∧
    hw_call.pcm_close adev_sco_rerouted.pcm_sco_tx ∉
      (stop_call routing_h_sample adev_sco_rerouted).hw.log :=
  ⟨reachable_adev_sco_rerouted, by decide, by decide, by decide, by decide, by decide,
    by decide, by decide, by decide⟩

/-! ## Failure of a PCM open in `start_output_stream` -/

/-- C14: what `start_output_stream` leaves behind when a PCM open fails. When
the SPDIF open fails after the primary card was opened, it returns the
out-of-memory error, but the primary-card handle opened in the same call
stays open in its slot (no `pcm_close` is made on it) and the SPDIF slot
keeps the closed handle; when the primary-card open fails, the primary slot
keeps the closed handle. The stream is still in standby in both cases. -/
theorem start_output_stream_failure_handles :
    (start_output_stream routing_h_sample OUTPUT_LOW_LATENCY adev_dock_spdif_fails).2 =
      -ENOMEM ∧
    (start_output_stream routing_h_sample OUTPUT_LOW_LATENCY
      adev_dock_spdif_fails).1.outputs.get OUTPUT_LOW_LATENCY = some stream_dock_spdif_failed ∧
    hw_call.pcm_close stream_dock_spdif_failed.pcm_card ∉
      (start_output_stream routing_h_sample OUTPUT_LOW_LATENCY
        adev_dock_spdif_fails).1.hw.log ∧
    (out_write routing_h_sample OUTPUT_LOW_LATENCY 960
      adev_dock_spdif_fails).1.outputs.get OUTPUT_LOW_LATENCY = some stream_dock_spdif_failed ∧
    (start_output_stream routing_h_sample OUTPUT_LOW_LATENCY adev_speaker_card_fails).2 =
      -ENOMEM ∧
    (start_output_stream routing_h_sample OUTPUT_LOW_LATENCY
      adev_speaker_card_fails).1.outputs.get OUTPUT_LOW_LATENCY =
        some stream_speaker_card_failed := by
  decide

/-! ## The stereo to mono conversion of the read-ahead buffer -/

/-- C17: for an input stream with mono channel mask whose read-ahead buffer
is empty, when `get_next_buffer` refills the buffer from one captured period
of interleaved stereo samples (a `pcm_read` that returns 0 and delivers
`samples`), sample `i` of the buffer equals sample `2 * i` of the captured
data for every `i` below the frame count of the period. The read-ahead buffer
holds at least the samples of one stereo period. -/
theorem get_next_buffer_mono (s : stream_in) (cap : capture_hw) (frame_count : Nat)
    (p : pcm) (samples : List Int) (rest : List pcm_read_result)
    (hp : s.pcm = some p) (hf : s.frames_in = 0)
    (hm : s.channel_mask = AUDIO_CHANNEL_IN_MONO)
    (hcap : cap.pcm_read_results = ⟨0, samples⟩ :: rest)
    (hlen : 2 * s.config.deref.period_size ≤ s.buffer.length) :
    (get_next_buffer s cap frame_count).stream.frames_in = s.config.deref.period_size ∧
    ∀ i, i < s.config.deref.period_size →
      (get_next_buffer s cap frame_count).stream.buffer.getD i 0 = samples.getD (2 * i) 0 := by
  have hch : s.config.deref.channels = 2 := by
    cases s.config <;> rfl
  simp only [get_next_buffer, hp, hf, if_true, pcm_read, hcap, ne_eq, not_true_eq_false,
    if_false, hm, get_next_buffer_clip, hch]
  refine ⟨trivial, fun i hi => ?_⟩
  rw [stereo_to_mono_getD, copy_samples_getD, copy_samples_getD]
  have h1 : i * 2 < s.buffer.length := by omega
  have h2 : i < s.buffer.length := by omega
  have h3 : s.config.deref.period_size * 2 * 2 / 2 = s.config.deref.period_size * 2 := by omega
  rw [if_pos h1, if_pos h2, h3]
  by_cases hi0 : 1 ≤ i
  · rw [if_pos ⟨hi0, hi⟩, if_pos ⟨Nat.zero_le _, by omega⟩]
    simp [Nat.mul_comm]
  · have : i = 0 := by omega
    subst this
    rw [if_neg (by omega), if_pos ⟨Nat.le_refl _, by omega⟩]

theorem get_next_buffer_mono_witness :
    (get_next_buffer stream_in_mono capture_counting 16).stream.buffer.getD 5 0 =
      ((List.range 640).map Int.ofNat).getD (2 * 5) 0 :=
  (get_next_buffer_mono stream_in_mono capture_counting 16 ⟨0, 0, true, pcm_config_in, true, false⟩
    ((List.range 640).map Int.ofNat) [] rfl rfl rfl rfl
    (by rw [stream_in_mono_buffer]; decide)).2 5 (by decide)

/-! ## The fixed-function setters -/

/-- C18: what the four setters return. `out_set_sample_rate`,
`out_set_format` and `in_set_format` return the unsupported-operation error
and change no stream state; `in_set_sample_rate` changes no stream state
either but returns 0, not the error. -/
theorem setters_return (out : stream_out) (s : stream_in) (rate format : Nat) :
    out_set_sample_rate out rate = (out, -ENOSYS) ∧
    out_set_format out format = (out, -ENOSYS) ∧
    in_set_format s format = (s, -ENOSYS) ∧
    in_set_sample_rate s rate = (s, 0) ∧
    (in_set_sample_rate s rate).2 ≠ -ENOSYS :=
  ⟨rfl, rfl, rfl, rfl, by simp [in_set_sample_rate]⟩

/-! ## The input buffer size -/

/-- C20 (amended): for every sample rate whose product with the period size
of the selected capture configuration (320 normally, 240 for low latency)
fits an `unsigned int`, and every channel count and format for which the
result fits `size_t`, `get_input_buffer_size` returns
`F * channel_count * bytes_per_sample`, where `F` is a multiple of 16 and is
the smallest multiple of 16 that is at least
`floor(period_size * sample_rate / 48000)`. -/
theorem get_input_buffer_size_spec (size_bits : Nat) (audio_bytes_per_sample : Nat → Nat)
    (sample_rate format channel_count : Nat) (is_low_latency : Bool)
    (hbits : 32 ≤ size_bits)
    (hmul : (if is_low_latency then 240 else 320) * sample_rate < 2 ^ 32)
    (hfit : input_buffer_frames (if is_low_latency then 240 else 320) sample_rate *
      channel_count * audio_bytes_per_sample format < 2 ^ size_bits) :
    get_input_buffer_size size_bits audio_bytes_per_sample sample_rate format channel_count
        is_low_latency =
      input_buffer_frames (if is_low_latency then 240 else 320) sample_rate * channel_count *
        audio_bytes_per_sample format ∧
    16 ∣ input_buffer_frames (if is_low_latency then 240 else 320) sample_rate ∧
    (if is_low_latency then 240 else 320) * sample_rate / 48000 ≤
      input_buffer_frames (if is_low_latency then 240 else 320) sample_rate ∧
    ∀ G, 16 ∣ G → (if is_low_latency then 240 else 320) * sample_rate / 48000 ≤ G →
      input_buffer_frames (if is_low_latency then 240 else 320) sample_rate ≤ G := by
  have h32 : (2 : Nat) ^ 32 ≤ 2 ^ size_bits := Nat.pow_le_pow_right (by decide) hbits
  generalize hP : (if is_low_latency then 240 else 320) = P at hmul hfit ⊢
  have hq : P * sample_rate / 48000 + 15 < 2 ^ 32 := by
    have : P * sample_rate / 48000 ≤ P * sample_rate / 48000 := Nat.le_refl _
    have h2 : P * sample_rate / 48000 * 48000 ≤ P * sample_rate := Nat.div_mul_le_self _ _
    have h3 : (2 : Nat) ^ 32 = 4294967296 := by norm_num
    omega
  have hcfg : (if is_low_latency = true then pcm_config_in_low_latency else pcm_config_in) =
      ⟨2, 48000, P, 2⟩ := by
    cases is_low_latency <;> simp at hP <;> subst hP <;> rfl
  refine ⟨?_, ?_, ?_, ?_⟩
  · simp only [get_input_buffer_size, hcfg, input_buffer_frames]
    have e1 : P * sample_rate % 2 ^ 32 = P * sample_rate := Nat.mod_eq_of_lt hmul
    have e2 : P * sample_rate / 48000 % 2 ^ size_bits = P * sample_rate / 48000 :=
      Nat.mod_eq_of_lt (by omega)
    have e3 : (P * sample_rate / 48000 + 15) % 2 ^ size_bits = P * sample_rate / 48000 + 15 :=
      Nat.mod_eq_of_lt (by omega)
    have e4 : (P * sample_rate / 48000 + 15) / 16 * 16 % 2 ^ size_bits =
        (P * sample_rate / 48000 + 15) / 16 * 16 :=
      Nat.mod_eq_of_lt (by
        have := Nat.div_mul_le_self (P * sample_rate / 48000 + 15) 16
        omega)
    rw [e1, e2, e3, e4]
    exact Nat.mod_eq_of_lt hfit
  · exact ⟨_, Nat.mul_comm _ _⟩
  · simp only [input_buffer_frames]
    omega
  · intro G hG hle
    obtain ⟨g, rfl⟩ := hG
    simp only [input_buffer_frames]
    omega

theorem get_input_buffer_size_spec_witness :
    get_input_buffer_size 32 (fun _ => 2) 44100 1 2 false =
      input_buffer_frames (if false = true then 240 else 320) 44100 * 2 * (fun _ => 2) 1 ∧
    16 ∣ input_buffer_frames (if false = true then 240 else 320) 44100 ∧
    (if false = true then 240 else 320) * 44100 / 48000 ≤
      input_buffer_frames (if false = true then 240 else 320) 44100 ∧
    ∀ G, 16 ∣ G → (if false = true then 240 else 320) * 44100 / 48000 ≤ G →
      input_buffer_frames (if false = true then 240 else 320) 44100 ≤ G :=
  get_input_buffer_size_spec 32 (fun _ => 2) 44100 1 2 false (by decide) (by decide) (by decide)

/-- C20, as stated, fails: for the sample rate 13421773 the product
`320 * sample_rate` does not fit an `unsigned int` (it wraps to 64), and
`get_input_buffer_size` returns 0, although
`floor(320 * sample_rate / 48000) = 89478`, so that no `F` at least that
large gives the result `F * channel_count * bytes_per_sample`. And for a
32-bit `size_t`, the rate 48000 and the channel count 2^31 the final product
`320 * 2^31 * 2` wraps to 0. -/
theorem get_input_buffer_size_wrap_counterexample :
    get_input_buffer_size 64 (fun _ => 2) 13421773 1 1 false = 0 ∧
    320 * 13421773 / 48000 = 89478 ∧
    (¬ ∃ F, 320 * 13421773 / 48000 ≤ F ∧
      get_input_buffer_size 64 (fun _ => 2) 13421773 1 1 false = F * 1 * 2) ∧
    get_input_buffer_size 32 (fun _ => 2) 48000 1 (2 ^ 31) false = 0 ∧
    input_buffer_frames 320 48000 = 320 := by
  refine ⟨by decide, by decide, ?_, by decide, by decide⟩
  rintro ⟨F, h1, h2⟩
  have e : get_input_buffer_size 64 (fun _ => 2) 13421773 1 1 false = 0 := by decide
  have e2 : 320 * 13421773 / 48000 = 89478 := by decide
  omega

/-! ## The frames-written counter -/

/-- C19 (amended): the frames-written counter of an output stream is never
reset and changes only by a write that ends with status 0 on that stream,
which adds exactly `bytes / (channels * 2)` modulo 2^64 (the counter is a
`uint64_t`). For every public operation that leaves the stream open (each
one but the close of that stream) the stream is still open afterwards with
its configuration; its counter is the old one increased, modulo 2^64, by the
frames of a counted write, and is unchanged by standby, set-parameters, a
write that does not end with status 0 (a failed start, a failed PCM write, a
disabled stream), a write on another stream and every other operation.
Hence the counter does not decrease as long as the sum stays below 2^64. -/
theorem written_counter (R : routing_h) (op : hal_op) (a : audio_device) (t : output_type)
    (out : stream_out) (h : a.outputs.get t = some out) (hop : op ≠ .close_output t) :
    ∃ out', (op.apply R a).outputs.get t = some out' ∧
      out'.config = out.config ∧
      out'.written =
        (match op.counted_bytes R t a with
         | some bytes => (out.written + bytes / (out.config.channels * 2)) % 2 ^ 64
         | none => out.written) ∧
      ((∀ bytes, op.counted_bytes R t a = some bytes →
          out.written + bytes / (out.config.channels * 2) < 2 ^ 64) →
        out.written ≤ out'.written) ∧
      (∀ u bytes o, op = .write u bytes →
        (out_write_start R u a).1.outputs.get u = some o → o.disabled = true →
        op.counted_bytes R t a = none) := by
  have keep : ∀ op : hal_op, op.counted_bytes R t a = none →
      (∀ u bytes, op ≠ .write u bytes) →
      same_counter (a.outputs.get t) ((op.apply R a).outputs.get t) →
      ∃ out', (op.apply R a).outputs.get t = some out' ∧
        out'.config = out.config ∧
        out'.written =
          (match op.counted_bytes R t a with
           | some bytes => (out.written + bytes / (out.config.channels * 2)) % 2 ^ 64
           | none => out.written) ∧
        ((∀ bytes, op.counted_bytes R t a = some bytes →
            out.written + bytes / (out.config.channels * 2) < 2 ^ 64) →
          out.written ≤ out'.written) ∧
        (∀ u bytes o, op = .write u bytes →
          (out_write_start R u a).1.outputs.get u = some o → o.disabled = true →
          op.counted_bytes R t a = none) := by
    intro op hc hw hk
    obtain ⟨o1, e1, w1, c1⟩ := hk out h
    refine ⟨o1, e1, c1, ?_, fun _ => le_of_eq w1.symm, fun u bytes _ e => absurd e (hw u bytes)⟩
    rw [hc]
    exact w1
  cases op with
  | open_output fast devices flags config =>
    exact keep _ rfl (fun _ _ e => by cases e) (keeps_counters_open fast devices flags config a t)
  | close_output u =>
    have hu : t ≠ u := fun e => hop (by rw [e])
    exact keep _ rfl (fun _ _ e => by cases e) (close_other_counter R u t a hu)
  | standby u =>
    exact keep _ rfl (fun _ _ e => by cases e) (keeps_counters_do_out_standby R u a t)
  | set_parameters u routing =>
    exact keep _ rfl (fun _ _ e => by cases e) (keeps_counters_set_parameters R u routing a t)
  | set_mode mode =>
    exact keep _ rfl (fun _ _ e => by cases e)
      (keeps_counters_of_eq (adev_set_mode_outputs R mode a) t)
  | wb_amr enable =>
    exact keep _ rfl (fun _ _ e => by cases e)
      (keeps_counters_of_eq (adev_set_wb_amr_callback_outputs R enable a) t)
  | write u bytes =>
    obtain ⟨o1, e1, c1, w1⟩ := out_write_counter R u bytes a t out h
    refine ⟨o1, e1, c1, ?_, ?_, ?_⟩
    · by_cases hc : u = t ∧ (out_write_status R u bytes a).2 = 0
      · have hc2 : t = u ∧ (out_write_status R u bytes a).2 = 0 := ⟨hc.1.symm, hc.2⟩
        rw [if_pos hc2] at w1
        simp only [hal_op.counted_bytes, if_pos hc]
        exact w1
      · have hc2 : ¬(t = u ∧ (out_write_status R u bytes a).2 = 0) :=
          fun hh => hc ⟨hh.1.symm, hh.2⟩
        rw [if_neg hc2] at w1
        simp only [hal_op.counted_bytes, if_neg hc]
        exact w1
    · intro hb
      by_cases hc : u = t ∧ (out_write_status R u bytes a).2 = 0
      · have hc2 : t = u ∧ (out_write_status R u bytes a).2 = 0 := ⟨hc.1.symm, hc.2⟩
        rw [if_pos hc2] at w1
        have hlt := hb bytes (by simp only [hal_op.counted_bytes, if_pos hc])
        rw [w1, Nat.mod_eq_of_lt hlt]
        exact Nat.le_add_right _ _
      · have hc2 : ¬(t = u ∧ (out_write_status R u bytes a).2 = 0) :=
          fun hh => hc ⟨hh.1.symm, hh.2⟩
        rw [if_neg hc2] at w1
        exact le_of_eq w1.symm
    · intro u2 bytes2 o e hs hd
      cases e
      have hz := out_write_status_disabled R u bytes a o hs hd
      simp only [hal_op.counted_bytes]
      rw [if_neg (fun hh => hz hh.2)]

theorem written_counter_witness :
    adev_hdmi_low.outputs.get OUTPUT_LOW_LATENCY = some stream_low_active ∧
    ∃ out', ((hal_op.write OUTPUT_LOW_LATENCY 960).apply routing_h_sample
        adev_hdmi_low).outputs.get OUTPUT_LOW_LATENCY = some out' ∧
      out'.config = stream_low_active.config ∧
      out'.written =
        (match (hal_op.write OUTPUT_LOW_LATENCY 960).counted_bytes routing_h_sample
            OUTPUT_LOW_LATENCY adev_hdmi_low with
         | some bytes =>
           (stream_low_active.written + bytes / (stream_low_active.config.channels * 2)) % 2 ^ 64
         | none => stream_low_active.written) ∧
      ((∀ bytes, (hal_op.write OUTPUT_LOW_LATENCY 960).counted_bytes routing_h_sample
            OUTPUT_LOW_LATENCY adev_hdmi_low = some bytes →
          stream_low_active.written + bytes / (stream_low_active.config.channels * 2) < 2 ^ 64) →
        stream_low_active.written ≤ out'.written) ∧
      (∀ u bytes o, hal_op.write OUTPUT_LOW_LATENCY 960 = .write u bytes →
        (out_write_start routing_h_sample u adev_hdmi_low).1.outputs.get u = some o →
        o.disabled = true →
        (hal_op.write OUTPUT_LOW_LATENCY 960).counted_bytes routing_h_sample
          OUTPUT_LOW_LATENCY adev_hdmi_low = none) :=
  ⟨by decide,
   written_counter routing_h_sample (.write OUTPUT_LOW_LATENCY 960) adev_hdmi_low
     OUTPUT_LOW_LATENCY stream_low_active (by decide) (fun e => by cases e)⟩

/-- C19, as stated, fails: the counter is a `uint64_t` and wraps. After four
successful writes of 2^64 - 4 bytes on a low-latency stereo stream the
counter stands at 2^64 - 4; one more successful write of 16 bytes (4 frames)
brings it back to 0. -/
theorem written_counter_wraps_counterexample :
    reachable routing_h_sample adev_written_high ∧
    (adev_written_high.outputs.get OUTPUT_LOW_LATENCY).map (fun o => o.written) =
      some (2 ^ 64 - 4) ∧
    (out_write_status routing_h_sample OUTPUT_LOW_LATENCY 16 adev_written_high).2 = 0 ∧
    ((out_write routing_h_sample OUTPUT_LOW_LATENCY 16
      adev_written_high).1.outputs.get OUTPUT_LOW_LATENCY).map (fun o => o.written) = some 0 := by
  refine ⟨?_, by decide, by decide, by decide⟩
  exact reachable.step (.write OUTPUT_LOW_LATENCY (2 ^ 64 - 4)) _
    (reachable.step (.write OUTPUT_LOW_LATENCY (2 ^ 64 - 4)) _
      (reachable.step (.write OUTPUT_LOW_LATENCY (2 ^ 64 - 4)) _
        (reachable.step (.write OUTPUT_LOW_LATENCY (2 ^ 64 - 4)) _
          (reachable.step (.open_output pcm_config_fast AUDIO_DEVICE_OUT_SPEAKER 0 ⟨48000, 0⟩) _
            (reachable.init false false hw_quiet)))))

/-! ## The route identifier -/

/-- C23: for every output-device mask, input source and wideband flag, the
route identifier `(1 << (input_source_id + OUT_DEVICE_CNT)) +
(1 << output_device_id)` that `route_changed` compares with the cached one and
that `select_devices` caches equals the bitmask
`(1 << (input_source_id + OUT_DEVICE_CNT)) | (1 << output_device_id)`: the
output-device ordinal is below `OUT_DEVICE_CNT`, so the two bits never
coincide. The enumerators of `routing.h` are assumed to lie below
`OUT_DEVICE_CNT`. -/
theorem route_id_is_bitmask (R : routing_h) (hR : R.out_ids_below_cnt) (adev : audio_device) :
    get_output_device_id R adev.out_device < R.OUT_DEVICE_CNT ∧
    get_output_device_id R adev.out_device ≠
      get_input_source_id R adev.input_source adev.wb_amr + R.OUT_DEVICE_CNT ∧
    (select_devices R adev).cur_route_id =
      (1 <<< (get_input_source_id R adev.input_source adev.wb_amr + R.OUT_DEVICE_CNT)) |||
        (1 <<< get_output_device_id R adev.out_device) ∧
    route_changed R adev =
      decide ((1 <<< (get_input_source_id R adev.input_source adev.wb_amr + R.OUT_DEVICE_CNT)) |||
        (1 <<< get_output_device_id R adev.out_device) ≠ adev.cur_route_id) := by
  have hlt := get_output_device_id_lt R hR adev.out_device
  have e : route_id_of R adev =
      (1 <<< (get_input_source_id R adev.input_source adev.wb_amr + R.OUT_DEVICE_CNT)) |||
        (1 <<< get_output_device_id R adev.out_device) := by
    rw [route_id_of_eq, Nat.shiftLeft_eq, Nat.shiftLeft_eq, Nat.one_mul, Nat.one_mul]
    exact two_pow_add_eq_or _ _ (by omega)
  refine ⟨hlt, by omega, ?_, ?_⟩
  · rw [select_devices_cur_route_id, e]
  · rw [route_changed_eq, e]

theorem route_id_is_bitmask_witness :
    get_output_device_id routing_h_sample adev_routed.out_device <
      routing_h_sample.OUT_DEVICE_CNT ∧
    get_output_device_id routing_h_sample adev_routed.out_device ≠
      get_input_source_id routing_h_sample adev_routed.input_source adev_routed.wb_amr +
        routing_h_sample.OUT_DEVICE_CNT ∧
    (select_devices routing_h_sample adev_routed).cur_route_id =
      (1 <<< (get_input_source_id routing_h_sample adev_routed.input_source adev_routed.wb_amr +
          routing_h_sample.OUT_DEVICE_CNT)) |||
        (1 <<< get_output_device_id routing_h_sample adev_routed.out_device) ∧
    route_changed routing_h_sample adev_routed =
      decide ((1 <<< (get_input_source_id routing_h_sample adev_routed.input_source
            adev_routed.wb_amr + routing_h_sample.OUT_DEVICE_CNT)) |||
        (1 <<< get_output_device_id routing_h_sample adev_routed.out_device) ≠
          adev_routed.cur_route_id) :=
  route_id_is_bitmask routing_h_sample (by decide) adev_routed

/-- C28: the route identifier is an injective encoding of the classified
pair. For any two device states, the identifiers computed from them are
equal if and only if the input-source ordinals are equal and the
output-device ordinals are equal; so in a state whose cached identifier is
the one `select_devices` cached in an earlier state, `route_changed` reports
false exactly when neither ordinal differs from that earlier state. The
enumerators of `routing.h` are assumed to lie below `OUT_DEVICE_CNT`. -/
theorem route_id_injective (R : routing_h) (hR : R.out_ids_below_cnt) (a b : audio_device) :
    (((1 <<< (get_input_source_id R a.input_source a.wb_amr + R.OUT_DEVICE_CNT)) +
        (1 <<< get_output_device_id R a.out_device) =
      (1 <<< (get_input_source_id R b.input_source b.wb_amr + R.OUT_DEVICE_CNT)) +
        (1 <<< get_output_device_id R b.out_device)) ↔
      (get_input_source_id R a.input_source a.wb_amr =
          get_input_source_id R b.input_source b.wb_amr ∧
        get_output_device_id R a.out_device = get_output_device_id R b.out_device)) ∧
    (b.cur_route_id = (select_devices R a).cur_route_id →
      (route_changed R b = false ↔
        (get_input_source_id R b.input_source b.wb_amr =
            get_input_source_id R a.input_source a.wb_amr ∧
          get_output_device_id R b.out_device = get_output_device_id R a.out_device))) := by
  have key : route_id_of R a = route_id_of R b ↔
      (get_input_source_id R a.input_source a.wb_amr =
          get_input_source_id R b.input_source b.wb_amr ∧
        get_output_device_id R a.out_device = get_output_device_id R b.out_device) := by
    constructor
    · intro h
      rw [route_id_of_eq, route_id_of_eq] at h
      exact two_pow_pair_inj _ _ _ _ _ (get_output_device_id_lt R hR _)
        (get_output_device_id_lt R hR _) h
    · rintro ⟨h1, h2⟩
      rw [route_id_of_eq, route_id_of_eq, h1, h2]
  refine ⟨key, fun hc => ?_⟩
  have hb : (decide (route_id_of R b ≠ route_id_of R a) = false) ↔
      route_id_of R b = route_id_of R a := by simp
  rw [route_changed_eq, hc, select_devices_cur_route_id, hb]
  constructor
  · intro h
    have := key.1 h.symm
    exact ⟨this.1.symm, this.2.symm⟩
  · rintro ⟨h1, h2⟩
    exact (key.2 ⟨h1.symm, h2.symm⟩).symm

theorem route_id_injective_witness :
    (((1 <<< (get_input_source_id routing_h_sample adev_in_call.input_source
            adev_in_call.wb_amr + routing_h_sample.OUT_DEVICE_CNT)) +
        (1 <<< get_output_device_id routing_h_sample adev_in_call.out_device) =
      (1 <<< (get_input_source_id routing_h_sample adev_after_call.input_source
            adev_after_call.wb_amr + routing_h_sample.OUT_DEVICE_CNT)) +
        (1 <<< get_output_device_id routing_h_sample adev_after_call.out_device)) ↔
      (get_input_source_id routing_h_sample adev_in_call.input_source adev_in_call.wb_amr =
          get_input_source_id routing_h_sample adev_after_call.input_source
            adev_after_call.wb_amr ∧
        get_output_device_id routing_h_sample adev_in_call.out_device =
          get_output_device_id routing_h_sample adev_after_call.out_device)) ∧
    (adev_after_call.cur_route_id = (select_devices routing_h_sample adev_in_call).cur_route_id →
      (route_changed routing_h_sample adev_after_call = false ↔
        (get_input_source_id routing_h_sample adev_after_call.input_source
              adev_after_call.wb_amr =
            get_input_source_id routing_h_sample adev_in_call.input_source adev_in_call.wb_amr ∧
          get_output_device_id routing_h_sample adev_after_call.out_device =
            get_output_device_id routing_h_sample adev_in_call.out_device))) :=
  route_id_injective routing_h_sample (by decide) adev_in_call adev_after_call

/-! ## The mixer calls of the route selector -/

/-- C24: whenever `select_devices` finds the route identifier changed, the
calls it adds to the trace are: the HDMI audio ioctl if the driver descriptor
is 0, then the mixer calls reset, commit, apply of the resolved output path
if there is one, apply of the resolved input path if there is one, commit, in
this order and no other. -/
theorem select_devices_mixer_order (R : routing_h) (adev : audio_device)
    (h : (1 <<< (get_input_source_id R adev.input_source adev.wb_amr + R.OUT_DEVICE_CNT)) +
      (1 <<< get_output_device_id R adev.out_device) ≠ adev.cur_route_id) :
    (select_devices R adev).hw.log =
      adev.hw.log ++
      (if adev.hdmi_drv_fd = 0 then
         [hw_call.hdmi_enable_audio
           (decide (adev.out_device &&& AUDIO_DEVICE_OUT_AUX_DIGITAL ≠ 0))]
       else []) ++
      ([hw_call.audio_route_reset, hw_call.audio_route_update_mixer] ++
        ((resolve_routes R (get_input_source_id R adev.input_source adev.wb_amr)
          (get_output_device_id R adev.out_device) adev).1.map
            hw_call.audio_route_apply_path).toList ++
        ((resolve_routes R (get_input_source_id R adev.input_source adev.wb_amr)
          (get_output_device_id R adev.out_device) adev).2.map
            hw_call.audio_route_apply_path).toList ++
        [hw_call.audio_route_update_mixer]) ∧
    ((select_devices R adev).hw.log.drop adev.hw.log.length).filter hw_call.is_mixer =
      [hw_call.audio_route_reset, hw_call.audio_route_update_mixer] ++
        ((resolve_routes R (get_input_source_id R adev.input_source adev.wb_amr)
          (get_output_device_id R adev.out_device) adev).1.map
            hw_call.audio_route_apply_path).toList ++
        ((resolve_routes R (get_input_source_id R adev.input_source adev.wb_amr)
          (get_output_device_id R adev.out_device) adev).2.map
            hw_call.audio_route_apply_path).toList ++
        [hw_call.audio_route_update_mixer] := by
  have hne : route_id_of R adev ≠ adev.cur_route_id := h
  have e : (select_devices R adev).hw.log =
      adev.hw.log ++
      (if adev.hdmi_drv_fd = 0 then
         [hw_call.hdmi_enable_audio
           (decide (adev.out_device &&& AUDIO_DEVICE_OUT_AUX_DIGITAL ≠ 0))]
       else []) ++
      ([hw_call.audio_route_reset, hw_call.audio_route_update_mixer] ++
        ((resolve_routes R (get_input_source_id R adev.input_source adev.wb_amr)
          (get_output_device_id R adev.out_device) adev).1.map
            hw_call.audio_route_apply_path).toList ++
        ((resolve_routes R (get_input_source_id R adev.input_source adev.wb_amr)
          (get_output_device_id R adev.out_device) adev).2.map
            hw_call.audio_route_apply_path).toList ++
        [hw_call.audio_route_update_mixer]) := by
    rw [select_devices_log, select_devices_calls, if_neg hne, mixer_calls_eq]
    simp only [List.append_assoc]
  refine ⟨e, ?_⟩
  rw [e, List.append_assoc, List.drop_left]
  rcases resolve_routes R (get_input_source_id R adev.input_source adev.wb_amr)
    (get_output_device_id R adev.out_device) adev with ⟨_ | x, _ | y⟩ <;>
  split_ifs <;> simp [hw_call.is_mixer]

theorem select_devices_mixer_order_witness :
    (select_devices routing_h_sample adev_routed_back).hw.log =
      adev_routed_back.hw.log ++
      (if adev_routed_back.hdmi_drv_fd = 0 then
         [hw_call.hdmi_enable_audio
           (decide (adev_routed_back.out_device &&& AUDIO_DEVICE_OUT_AUX_DIGITAL ≠ 0))]
       else []) ++
      ([hw_call.audio_route_reset, hw_call.audio_route_update_mixer] ++
        ((resolve_routes routing_h_sample
          (get_input_source_id routing_h_sample adev_routed_back.input_source
            adev_routed_back.wb_amr)
          (get_output_device_id routing_h_sample adev_routed_back.out_device)
            adev_routed_back).1.map hw_call.audio_route_apply_path).toList ++
        ((resolve_routes routing_h_sample
          (get_input_source_id routing_h_sample adev_routed_back.input_source
            adev_routed_back.wb_amr)
          (get_output_device_id routing_h_sample adev_routed_back.out_device)
            adev_routed_back).2.map hw_call.audio_route_apply_path).toList ++
        [hw_call.audio_route_update_mixer]) ∧
    ((select_devices routing_h_sample adev_routed_back).hw.log.drop
        adev_routed_back.hw.log.length).filter hw_call.is_mixer =
      [hw_call.audio_route_reset, hw_call.audio_route_update_mixer] ++
        ((resolve_routes routing_h_sample
          (get_input_source_id routing_h_sample adev_routed_back.input_source
            adev_routed_back.wb_amr)
          (get_output_device_id routing_h_sample adev_routed_back.out_device)
            adev_routed_back).1.map hw_call.audio_route_apply_path).toList ++
        ((resolve_routes routing_h_sample
          (get_input_source_id routing_h_sample adev_routed_back.input_source
            adev_routed_back.wb_amr)
          (get_output_device_id routing_h_sample adev_routed_back.out_device)
            adev_routed_back).2.map hw_call.audio_route_apply_path).toList ++
        [hw_call.audio_route_update_mixer] :=
  select_devices_mixer_order routing_h_sample adev_routed_back (by decide)

/-- C25: when `select_devices` runs with an active input source (ordinal not
NONE), an output mask that classifies to NONE and a changed route identifier,
it applies no output path, and the input path it applies is that of the table
entry for the implied output ordinal: headset if the input device is the wired
headset, SCO-headset-out if it is the SCO headset, otherwise earpiece when the
input source is voice-call and speaker in every other case. The mixer calls
are reset, commit, apply of that input path if the entry has one, commit. -/
theorem select_devices_input_only (R : routing_h) (adev : audio_device)
    (hin : get_input_source_id R adev.input_source adev.wb_amr ≠ R.IN_SOURCE_NONE)
    (hout : get_output_device_id R adev.out_device = R.OUT_DEVICE_NONE)
    (h : (1 <<< (get_input_source_id R adev.input_source adev.wb_amr + R.OUT_DEVICE_CNT)) +
      (1 <<< get_output_device_id R adev.out_device) ≠ adev.cur_route_id) :
    (select_devices R adev).hw.log =
      adev.hw.log ++
      (if adev.hdmi_drv_fd = 0 then
         [hw_call.hdmi_enable_audio
           (decide (adev.out_device &&& AUDIO_DEVICE_OUT_AUX_DIGITAL ≠ 0))]
       else []) ++
      ([hw_call.audio_route_reset, hw_call.audio_route_update_mixer] ++
        ((R.route_configs (get_input_source_id R adev.input_source adev.wb_amr)
          (implied_output_device_id R adev)).input_route.map
            hw_call.audio_route_apply_path).toList ++
        [hw_call.audio_route_update_mixer]) ∧
    (adev.in_device = AUDIO_DEVICE_IN_WIRED_HEADSET_bits →
      implied_output_device_id R adev = R.OUT_DEVICE_HEADSET) ∧
    (adev.in_device = AUDIO_DEVICE_IN_BLUETOOTH_SCO_HEADSET_bits →
      implied_output_device_id R adev = R.OUT_DEVICE_BT_SCO_HEADSET_OUT) ∧
    (adev.in_device ≠ AUDIO_DEVICE_IN_WIRED_HEADSET_bits →
      adev.in_device ≠ AUDIO_DEVICE_IN_BLUETOOTH_SCO_HEADSET_bits →
      (adev.input_source = AUDIO_SOURCE_VOICE_CALL →
        implied_output_device_id R adev = R.OUT_DEVICE_EARPIECE) ∧
      (adev.input_source ≠ AUDIO_SOURCE_VOICE_CALL →
        implied_output_device_id R adev = R.OUT_DEVICE_SPEAKER)) := by
  have hne : route_id_of R adev ≠ adev.cur_route_id := h
  refine ⟨?_, ?_, ?_, ?_⟩
  · rw [select_devices_log, select_devices_calls, if_neg hne, mixer_calls_eq,
      resolve_routes_eq_lookups, route_lookups_input_only R _ _ adev hin hout]
    simp [List.append_assoc]
  · intro h1
    simp [implied_output_device_id, h1]
  · intro h1
    simp [implied_output_device_id, h1]
  · intro h1 h2
    constructor
    · intro h3
      simp only [implied_output_device_id, if_neg h1, if_neg h2, if_pos h3]
    · intro h3
      simp only [implied_output_device_id, if_neg h1, if_neg h2, if_neg h3]

theorem select_devices_input_only_witness :
    (select_devices routing_h_sample adev_headset_mic).hw.log =
      adev_headset_mic.hw.log ++
      (if adev_headset_mic.hdmi_drv_fd = 0 then
         [hw_call.hdmi_enable_audio
           (decide (adev_headset_mic.out_device &&& AUDIO_DEVICE_OUT_AUX_DIGITAL ≠ 0))]
       else []) ++
      ([hw_call.audio_route_reset, hw_call.audio_route_update_mixer] ++
        ((routing_h_sample.route_configs
          (get_input_source_id routing_h_sample adev_headset_mic.input_source
            adev_headset_mic.wb_amr)
          (implied_output_device_id routing_h_sample adev_headset_mic)).input_route.map
            hw_call.audio_route_apply_path).toList ++
        [hw_call.audio_route_update_mixer]) ∧
    (adev_headset_mic.in_device = AUDIO_DEVICE_IN_WIRED_HEADSET_bits →
      implied_output_device_id routing_h_sample adev_headset_mic =
        routing_h_sample.OUT_DEVICE_HEADSET) ∧
    (adev_headset_mic.in_device = AUDIO_DEVICE_IN_BLUETOOTH_SCO_HEADSET_bits →
      implied_output_device_id routing_h_sample adev_headset_mic =
        routing_h_sample.OUT_DEVICE_BT_SCO_HEADSET_OUT) ∧
    (adev_headset_mic.in_device ≠ AUDIO_DEVICE_IN_WIRED_HEADSET_bits →
      adev_headset_mic.in_device ≠ AUDIO_DEVICE_IN_BLUETOOTH_SCO_HEADSET_bits →
      (adev_headset_mic.input_source = AUDIO_SOURCE_VOICE_CALL →
        implied_output_device_id routing_h_sample adev_headset_mic =
          routing_h_sample.OUT_DEVICE_EARPIECE) ∧
      (adev_headset_mic.input_source ≠ AUDIO_SOURCE_VOICE_CALL →
        implied_output_device_id routing_h_sample adev_headset_mic =
          routing_h_sample.OUT_DEVICE_SPEAKER)) :=
  select_devices_input_only routing_h_sample adev_headset_mic (by decide) (by decide)
    (by decide)

/-! ## The indices of the route table lookups -/

/-- C30: for every device state, each lookup `select_devices` makes in the
table `route_configs` uses an input-source ordinal and an output-device
ordinal that are both real table ordinals: the row is one of the six
input-source enumerators other than `IN_SOURCE_NONE`, the column one of the
nine output-device enumerators other than `OUT_DEVICE_NONE`, and neither is
the NONE ordinal, in the direct lookup, in the input-only fallback and in the
MIC-row output-only fallback. The routes the function resolves are the
entries at these indices. The enumerators of `routing.h` are assumed
pairwise distinct where the statement needs it. -/
theorem route_lookups_in_table (R : routing_h) (hout : R.out_ids_distinct)
    (hin : R.in_ids_distinct) (adev : audio_device) (p : Nat × Nat)
    (hp : (route_lookups R (get_input_source_id R adev.input_source adev.wb_amr)
        (get_output_device_id R adev.out_device) adev).1 = some p ∨
      (route_lookups R (get_input_source_id R adev.input_source adev.wb_amr)
        (get_output_device_id R adev.out_device) adev).2 = some p) :
    p.1 ∈ R.in_table_ids ∧ p.2 ∈ R.out_table_ids ∧
    p.1 ≠ R.IN_SOURCE_NONE ∧ p.2 ≠ R.OUT_DEVICE_NONE ∧
    resolve_routes R (get_input_source_id R adev.input_source adev.wb_amr)
        (get_output_device_id R adev.out_device) adev =
      ((route_lookups R (get_input_source_id R adev.input_source adev.wb_amr)
          (get_output_device_id R adev.out_device) adev).1.bind
            (fun q => (R.route_configs q.1 q.2).output_route),
       (route_lookups R (get_input_source_id R adev.input_source adev.wb_amr)
          (get_output_device_id R adev.out_device) adev).2.bind
            (fun q => (R.route_configs q.1 q.2).input_route)) := by
  have key : p.1 ∈ R.in_table_ids ∧ p.2 ∈ R.out_table_ids := by
    by_cases hi : get_input_source_id R adev.input_source adev.wb_amr ≠ R.IN_SOURCE_NONE
    · by_cases ho : get_output_device_id R adev.out_device ≠ R.OUT_DEVICE_NONE
      · simp only [route_lookups, if_pos hi, if_pos ho, Option.some.injEq, or_self] at hp
        subst hp
        exact ⟨get_input_source_id_table R _ _ hi, get_output_device_id_table R _ ho⟩
      · rw [route_lookups_input_only R _ _ adev hi (not_not.mp ho)] at hp
        simp only [reduceCtorEq, Option.some.injEq, false_or] at hp
        subst hp
        exact ⟨get_input_source_id_table R _ _ hi, implied_output_device_id_table R adev⟩
    · by_cases ho : get_output_device_id R adev.out_device ≠ R.OUT_DEVICE_NONE
      · simp only [route_lookups, if_neg hi, if_pos ho, Option.some.injEq, reduceCtorEq,
          or_false] at hp
        subst hp
        exact ⟨by simp [routing_h.in_table_ids], get_output_device_id_table R _ ho⟩
      · simp only [route_lookups, if_neg hi, if_neg ho, reduceCtorEq, or_self] at hp
  exact ⟨key.1, key.2, hin.1 _ key.1, out_table_ids_ne_none R hout _ key.2,
    resolve_routes_eq_lookups R _ _ adev⟩

theorem route_lookups_in_table_witness :
    (routing_h_sample.IN_SOURCE_VOICE_COMMUNICATION, routing_h_sample.OUT_DEVICE_HEADSET).1 ∈
      routing_h_sample.in_table_ids ∧
    (routing_h_sample.IN_SOURCE_VOICE_COMMUNICATION, routing_h_sample.OUT_DEVICE_HEADSET).2 ∈
      routing_h_sample.out_table_ids ∧
    (routing_h_sample.IN_SOURCE_VOICE_COMMUNICATION, routing_h_sample.OUT_DEVICE_HEADSET).1 ≠
      routing_h_sample.IN_SOURCE_NONE ∧
    (routing_h_sample.IN_SOURCE_VOICE_COMMUNICATION, routing_h_sample.OUT_DEVICE_HEADSET).2 ≠
      routing_h_sample.OUT_DEVICE_NONE ∧
    resolve_routes routing_h_sample
        (get_input_source_id routing_h_sample adev_headset_mic.input_source
          adev_headset_mic.wb_amr)
        (get_output_device_id routing_h_sample adev_headset_mic.out_device) adev_headset_mic =
      ((route_lookups routing_h_sample
          (get_input_source_id routing_h_sample adev_headset_mic.input_source
            adev_headset_mic.wb_amr)
          (get_output_device_id routing_h_sample adev_headset_mic.out_device)
            adev_headset_mic).1.bind
            (fun q => (routing_h_sample.route_configs q.1 q.2).output_route),
       (route_lookups routing_h_sample
          (get_input_source_id routing_h_sample adev_headset_mic.input_source
            adev_headset_mic.wb_amr)
          (get_output_device_id routing_h_sample adev_headset_mic.out_device)
            adev_headset_mic).2.bind
            (fun q => (routing_h_sample.route_configs q.1 q.2).input_route)) :=
  route_lookups_in_table routing_h_sample (by decide) (by decide) adev_headset_mic
    (routing_h_sample.IN_SOURCE_VOICE_COMMUNICATION, routing_h_sample.OUT_DEVICE_HEADSET)
    (Or.inr (by decide))

/-! ## The divisor of the ramp step -/

/-- C27 (amended): in `start_input_stream` the divisor of the ramp-step
division `65535 / rampFrames` is `rampFrames = ((100 * requestedRate) mod
2^32) / 1000`, the product being an `unsigned int`. It is zero exactly when
`(100 * requestedRate) mod 2^32` is below 1000: for every requested rate below
10, and for the rates at which the product wraps to less than 1000. For every
requested rate from 10 on whose product with 100 stays below 2^32 the divisor
is positive. -/
theorem ramp_divisor (R : routing_h) (s : stream_in) (adev : audio_device)
    (hstart : (start_input_stream R s adev).2.2 = 0) :
    (start_input_stream R s adev).1.ramp_step =
      (USHRT_MAX / (start_input_stream R s adev).1.ramp_frames) % 2 ^ 16 ∧
    ((start_input_stream R s adev).1.ramp_frames = 0 ↔
      (CAPTURE_START_RAMP_MS * s.requested_rate) % 2 ^ 32 < 1000) ∧
    (s.requested_rate < 10 → (start_input_stream R s adev).1.ramp_frames = 0) ∧
    (10 ≤ s.requested_rate → CAPTURE_START_RAMP_MS * s.requested_rate < 2 ^ 32 →
      0 < (start_input_stream R s adev).1.ramp_frames) := by
  obtain ⟨-, e, e2, -⟩ := start_input_stream_ramp R s adev hstart
  have h32 : (2 : Nat) ^ 32 = 4294967296 := by norm_num
  refine ⟨e2, ?_, ?_, ?_⟩
  · rw [e]
    constructor
    · intro h
      by_contra hc
      have : 1 ≤ (CAPTURE_START_RAMP_MS * s.requested_rate) % 2 ^ 32 / 1000 :=
        (Nat.le_div_iff_mul_le (by decide)).2 (by omega)
      omega
    · intro h
      exact Nat.div_eq_of_lt h
  · intro h
    rw [e]
    apply Nat.div_eq_of_lt
    have : (CAPTURE_START_RAMP_MS * s.requested_rate) % 2 ^ 32 ≤
        CAPTURE_START_RAMP_MS * s.requested_rate := Nat.mod_le _ _
    simp only [CAPTURE_START_RAMP_MS] at this ⊢
    omega
  · intro h1 h2
    rw [e, Nat.mod_eq_of_lt h2]
    apply Nat.div_pos
    · simp only [CAPTURE_START_RAMP_MS]
      omega
    · decide

theorem ramp_divisor_witness :
    (start_input_stream routing_h_sample stream_in_48k adev_fresh).1.ramp_step =
      (USHRT_MAX / (start_input_stream routing_h_sample stream_in_48k adev_fresh).1.ramp_frames) %
        2 ^ 16 ∧
    ((start_input_stream routing_h_sample stream_in_48k adev_fresh).1.ramp_frames = 0 ↔
      (CAPTURE_START_RAMP_MS * stream_in_48k.requested_rate) % 2 ^ 32 < 1000) ∧
    (stream_in_48k.requested_rate < 10 →
      (start_input_stream routing_h_sample stream_in_48k adev_fresh).1.ramp_frames = 0) ∧
    (10 ≤ stream_in_48k.requested_rate →
      CAPTURE_START_RAMP_MS * stream_in_48k.requested_rate < 2 ^ 32 →
      0 < (start_input_stream routing_h_sample stream_in_48k adev_fresh).1.ramp_frames) :=
  ramp_divisor routing_h_sample stream_in_48k adev_fresh (by decide)

/-- C27, as stated, fails: the requested rate 42949673 is above 10, yet the
product `100 * 42949673` wraps to 4 in an `unsigned int`, so `rampFrames` is 0
and the ramp-step division has a zero divisor. -/
theorem ramp_divisor_wrap_counterexample :
    (start_input_stream routing_h_sample stream_in_zero_ramp adev_fresh).2.2 = 0 ∧
    10 ≤ stream_in_zero_ramp.requested_rate ∧
    stream_in_zero_ramp.requested_rate < 2 ^ 32 ∧
    (CAPTURE_START_RAMP_MS * stream_in_zero_ramp.requested_rate) % 2 ^ 32 = 4 ∧
    (start_input_stream routing_h_sample stream_in_zero_ramp adev_fresh).1.ramp_frames = 0 := by
  decide

/-! ## The call flag and the mode -/

/-- C29: in every state reachable from the freshly opened device through the
public operations (on the device, on its output streams and on input
streams), so in particular at the end of `adev_set_mode`,
`adev_set_wb_amr_callback` and `out_set_parameters`, the flag `in_call` is
true if and only if the device mode is IN_CALL; so the "not in a call" tests
on `in_call` (stream start) and on `mode` (input standby) agree. The three
operations named keep this equivalence from any state in which it holds. -/
theorem in_call_iff_mode_in_call (R : routing_h) (a : audio_device) (h : reachable_dev R a) :
    (a.in_call = true ↔ a.mode = AUDIO_MODE_IN_CALL) ∧
    (a.in_call = false ↔ a.mode ≠ AUDIO_MODE_IN_CALL) ∧
    (∀ mode, (adev_set_mode R mode a).in_call = true ↔
      (adev_set_mode R mode a).mode = AUDIO_MODE_IN_CALL) ∧
    (∀ enable, (adev_set_wb_amr_callback R enable a).in_call = true ↔
      (adev_set_wb_amr_callback R enable a).mode = AUDIO_MODE_IN_CALL) ∧
    (∀ t routing, (out_set_parameters R t routing a).in_call = true ↔
      (out_set_parameters R t routing a).mode = AUDIO_MODE_IN_CALL) := by
  have key : a.in_call = true ↔ a.mode = AUDIO_MODE_IN_CALL := by
    induction h with
    | init fw dm hw =>
      rw [(adev_open_in_call fw dm hw).1, adev_open_mode]
      exact iff_of_false (by simp) (by decide)
    | step op a _ ih => exact device_op_apply_call R op a ih
  refine ⟨key, ?_, ?_, ?_, ?_⟩
  · constructor
    · intro h1 h2
      rw [key.2 h2] at h1
      cases h1
    · intro h1
      cases hc : a.in_call with
      | false => rfl
      | true => exact absurd (key.1 hc) h1
  · intro mode
    exact hal_op_apply_call R (.set_mode mode) a key
  · intro enable
    exact hal_op_apply_call R (.wb_amr enable) a key
  · intro t routing
    exact hal_op_apply_call R (.set_parameters t routing) a key

theorem in_call_iff_mode_in_call_witness :
    (adev_call_mic.in_call = true ↔ adev_call_mic.mode = AUDIO_MODE_IN_CALL) ∧
    (adev_call_mic.in_call = false ↔ adev_call_mic.mode ≠ AUDIO_MODE_IN_CALL) ∧
    (∀ mode, (adev_set_mode routing_h_sample mode adev_call_mic).in_call = true ↔
      (adev_set_mode routing_h_sample mode adev_call_mic).mode = AUDIO_MODE_IN_CALL) ∧
    (∀ enable, (adev_set_wb_amr_callback routing_h_sample enable adev_call_mic).in_call = true ↔
      (adev_set_wb_amr_callback routing_h_sample enable adev_call_mic).mode =
        AUDIO_MODE_IN_CALL) ∧
    (∀ t routing, (out_set_parameters routing_h_sample t routing adev_call_mic).in_call = true ↔
      (out_set_parameters routing_h_sample t routing adev_call_mic).mode =
        AUDIO_MODE_IN_CALL) :=
  in_call_iff_mode_in_call routing_h_sample adev_call_mic
    (reachable_dev.step (.in_set_parameters stream_in_call (some 1) none) _
      (reachable_dev.step (.in_read stream_in_48k ⟨[], []⟩ [] 0) _
        (reachable_dev.step (.output (.set_mode AUDIO_MODE_IN_CALL)) _
          (reachable_dev.init false false hw_quiet))))

/-! ## The wideband notification -/

/-- C26 (amended): for every in-call device state whose cached route
identifier is current, a wideband notification (`adev_set_wb_amr_callback`)
whose flag equals the current one changes nothing. When the flag differs and
the input source of the device is the voice-call source, it performs Exit
IN_CALL followed by Enter IN_CALL: afterwards the wideband flag has the new
value, the device is in call, the voice and SCO handles that were open have
been stopped and closed, and, if the next two `pcm_open` calls give ready
handles, the voice PCM pair is open again with the configuration of the new
flag (16 kHz for wideband, 8 kHz for narrowband). When the flag differs and the
input source is another one, the route identifier does not change and only
the flag is written: the call is not torn down and the voice PCM pair stays
as it was. The rows VOICE_CALL and VOICE_CALL_WB of `routing.h` are assumed
different. -/
theorem wb_amr_notification (R : routing_h)
    (hR : R.IN_SOURCE_VOICE_CALL ≠ R.IN_SOURCE_VOICE_CALL_WB) (a : audio_device)
    (enable : Int) (hcall : a.in_call = true)
    (hcur : a.cur_route_id =
      (1 <<< (get_input_source_id R a.input_source a.wb_amr + R.OUT_DEVICE_CNT)) +
        (1 <<< get_output_device_id R a.out_device)) :
    (a.wb_amr = decide (enable ≠ 0) → adev_set_wb_amr_callback R enable a = a) ∧
    (a.wb_amr ≠ decide (enable ≠ 0) → a.input_source = AUDIO_SOURCE_VOICE_CALL →
      adev_set_wb_amr_callback R enable a =
        start_call R (stop_call R { a with wb_amr := decide (enable ≠ 0) }) ∧
      (adev_set_wb_amr_callback R enable a).wb_amr = decide (enable ≠ 0) ∧
      (adev_set_wb_amr_callback R enable a).in_call = true ∧
      (∃ rest, (adev_set_wb_amr_callback R enable a).hw.log =
        a.hw.log ++ [hw_call.ril_set_call_clock_sync false] ++ stop_voice_trace a ++ rest) ∧
      (voice_open_ready a.hw.pcm_open_results = true →
        (adev_set_wb_amr_callback R enable a).pcm_voice_rx =
          some ⟨PCM_CARD, PCM_DEVICE_VOICE, false,
            if enable ≠ 0 then pcm_config_voice_wide else pcm_config_voice, true, false⟩ ∧
        (adev_set_wb_amr_callback R enable a).pcm_voice_tx =
          some ⟨PCM_CARD, PCM_DEVICE_VOICE, true,
            if enable ≠ 0 then pcm_config_voice_wide else pcm_config_voice, true, false⟩)) ∧
    (a.wb_amr ≠ decide (enable ≠ 0) → a.input_source ≠ AUDIO_SOURCE_VOICE_CALL →
      adev_set_wb_amr_callback R enable a = { a with wb_amr := decide (enable ≠ 0) }) ∧
    pcm_config_voice_wide.rate = 16000 ∧ pcm_config_voice.rate = 8000 := by
  have hcur' : a.cur_route_id = route_id_of R a := hcur
  have hrc := route_changed_wb R a (decide (enable ≠ 0)) hcur'
  have hint : a.wb_amr ≠ decide (enable ≠ 0) →
      (if a.wb_amr then (1 : Int) else 0) ≠ enable := by
    intro hne he
    apply hne
    cases hw : a.wb_amr <;> rw [hw] at he <;> simp at he <;> subst he <;> simp
  refine ⟨?_, ?_, ?_, rfl, rfl⟩
  · intro hsame
    have hself : ({ a with wb_amr := decide (enable ≠ 0) } : audio_device) = a := by
      rw [← hsame]
    have hnc : ¬(route_changed R { a with wb_amr := decide (enable ≠ 0) } = true) := by
      rw [hrc, ← hsame]
      exact fun hh => hh rfl
    simp only [adev_set_wb_amr_callback]
    by_cases h1 : (if a.wb_amr = true then (1 : Int) else 0) ≠ enable
    · rw [if_pos h1, if_neg (fun hh => hnc hh.2)]
      exact hself
    · rw [if_neg h1]
  · intro hne hsrc
    have hch : route_changed R { a with wb_amr := decide (enable ≠ 0) } = true := by
      rw [hrc, hsrc, get_input_source_id_voice_call, get_input_source_id_voice_call]
      cases hw : a.wb_amr <;> cases he : decide (enable ≠ 0) <;>
        simp_all [Ne.symm hR]
    have e : adev_set_wb_amr_callback R enable a =
        start_call R (stop_call R { a with wb_amr := decide (enable ≠ 0) }) := by
      simp only [adev_set_wb_amr_callback]
      rw [if_pos (hint hne), if_pos ⟨hcall, hch⟩]
    obtain ⟨r1, r2, r3, r4⟩ := restart_call_spec R { a with wb_amr := decide (enable ≠ 0) } hcall
    refine ⟨e, ?_, ?_, ?_, ?_⟩
    · rw [e, r1]
    · rw [e, r2]
    · rw [e]
      exact r3
    · intro hready
      rw [e]
      have := r4 hready
      simpa using this
  · intro hne hsrc
    have hnc : ¬(route_changed R { a with wb_amr := decide (enable ≠ 0) } = true) := by
      rw [hrc]
      exact fun hh => hh (get_input_source_id_other R _ _ _ hsrc)
    simp only [adev_set_wb_amr_callback]
    rw [if_pos (hint hne), if_neg (fun hh => hnc hh.2)]

theorem wb_amr_notification_witness :
    (adev_in_call.wb_amr = decide ((1 : Int) ≠ 0) →
      adev_set_wb_amr_callback routing_h_sample 1 adev_in_call = adev_in_call) ∧
    (adev_in_call.wb_amr ≠ decide ((1 : Int) ≠ 0) →
      adev_in_call.input_source = AUDIO_SOURCE_VOICE_CALL →
      adev_set_wb_amr_callback routing_h_sample 1 adev_in_call =
        start_call routing_h_sample
          (stop_call routing_h_sample { adev_in_call with wb_amr := decide ((1 : Int) ≠ 0) }) ∧
      (adev_set_wb_amr_callback routing_h_sample 1 adev_in_call).wb_amr =
        decide ((1 : Int) ≠ 0) ∧
      (adev_set_wb_amr_callback routing_h_sample 1 adev_in_call).in_call = true ∧
      (∃ rest, (adev_set_wb_amr_callback routing_h_sample 1 adev_in_call).hw.log =
        adev_in_call.hw.log ++ [hw_call.ril_set_call_clock_sync false] ++
          stop_voice_trace adev_in_call ++ rest) ∧
      (voice_open_ready adev_in_call.hw.pcm_open_results = true →
        (adev_set_wb_amr_callback routing_h_sample 1 adev_in_call).pcm_voice_rx =
          some ⟨PCM_CARD, PCM_DEVICE_VOICE, false,
            if (1 : Int) ≠ 0 then pcm_config_voice_wide else pcm_config_voice, true, false⟩ ∧
        (adev_set_wb_amr_callback routing_h_sample 1 adev_in_call).pcm_voice_tx =
          some ⟨PCM_CARD, PCM_DEVICE_VOICE, true,
            if (1 : Int) ≠ 0 then pcm_config_voice_wide else pcm_config_voice, true, false⟩)) ∧
    (adev_in_call.wb_amr ≠ decide ((1 : Int) ≠ 0) →
      adev_in_call.input_source ≠ AUDIO_SOURCE_VOICE_CALL →
      adev_set_wb_amr_callback routing_h_sample 1 adev_in_call =
        { adev_in_call with wb_amr := decide ((1 : Int) ≠ 0) }) ∧
    pcm_config_voice_wide.rate = 16000 ∧ pcm_config_voice.rate = 8000 :=
  wb_amr_notification routing_h_sample (by decide) adev_in_call 1 (by decide) (by decide)

/-- C26, as stated, fails: during a call, `in_set_parameters` sets the input
source of a running capture stream to the microphone and the route is
selected, so that the device is in a call with the input source MIC and a
current cached route identifier. The wideband notification with flag 1 then
sets the flag, finds the route identifier unchanged and returns: no call is
made into the hardware, the call is not torn down, and the voice PCM pair
keeps the handles opened with the narrowband configuration. -/
theorem wb_amr_not_reopened_counterexample :
    reachable_dev routing_h_sample adev_call_mic ∧
    adev_call_mic.in_call = true ∧
    adev_call_mic.input_source = AUDIO_SOURCE_MIC ∧
    adev_call_mic.wb_amr = false ∧
    route_changed routing_h_sample adev_call_mic = false ∧
    adev_set_wb_amr_callback routing_h_sample 1 adev_call_mic =
      { adev_call_mic with wb_amr := true } ∧
    (adev_set_wb_amr_callback routing_h_sample 1 adev_call_mic).hw.log = adev_call_mic.hw.log ∧
    (adev_set_wb_amr_callback routing_h_sample 1 adev_call_mic).pcm_voice_rx =
      some ⟨PCM_CARD, PCM_DEVICE_VOICE, false, pcm_config_voice, true, false⟩ ∧
    (adev_set_wb_amr_callback routing_h_sample 1 adev_call_mic).pcm_voice_tx =
      some ⟨PCM_CARD, PCM_DEVICE_VOICE, true, pcm_config_voice, true, false⟩ := by
  refine ⟨?_, by decide, by decide, by decide, by decide, by decide, by decide, by decide,
    by decide⟩
  exact reachable_dev.step (.in_set_parameters stream_in_call (some 1) none) _
    (reachable_dev.step (.in_read stream_in_48k ⟨[], []⟩ [] 0) _
      (reachable_dev.step (.output (.set_mode AUDIO_MODE_IN_CALL)) _
        (reachable_dev.init false false hw_quiet)))

/-! ## Facts about the lock events -/

/-! ### Lock events of the operations -/

theorem force_locks_nil (o : outputs_t) (hd : o.deep_buf = none) (hl : o.low_latency = none) :
    force_non_hdmi_out_standby_locks o = [] := by
  simp [force_non_hdmi_out_standby_locks, outputs_t.get, hd, hl]

theorem do_out_standby_locks_nil (t : output_type) (adev : audio_device)
    (h : t = OUTPUT_HDMI → adev.outputs.deep_buf = none ∧ adev.outputs.low_latency = none) :
    do_out_standby_locks t adev = [] := by
  simp only [do_out_standby_locks]
  split
  · rfl
  · split_ifs with hc
    · exact force_locks_nil _ (h hc.2).1 (h hc.2).2
    · rfl

theorem start_output_stream_locks_nil (t : output_type) (adev : audio_device)
    (h : t = OUTPUT_HDMI → adev.outputs.deep_buf = none ∧ adev.outputs.low_latency = none) :
    start_output_stream_locks t adev = [] := by
  simp only [start_output_stream_locks]
  split_ifs with hc
  · exact force_locks_nil _ (h hc).1 (h hc).2
  · rfl

theorem lock_unlock_ordered (o : outputs_t) :
    lock_ordered (lock_all_outputs o ++ unlock_all_outputs o none) = true := by
  rcases o with ⟨_ | d, _ | l, _ | h⟩ <;> rfl

theorem write_relock_ordered (o : outputs_t) (t : output_type) (h : (o.get t).isSome = true) :
    lock_ordered ([lock_event.acquire (.out t), lock_event.release (.out t)] ++
      lock_all_outputs o ++ unlock_all_outputs o (some t) ++ [lock_event.release (.out t)]) =
        true := by
  rcases o with ⟨_ | d, _ | l, _ | hh⟩ <;> cases t <;>
    first | rfl | (simp [outputs_t.get] at h)

theorem write_failed_ordered (o : outputs_t) (t : output_type) :
    lock_ordered ([lock_event.acquire (.out t), lock_event.release (.out t)] ++
      lock_all_outputs o ++ unlock_all_outputs o none) = true := by
  rcases o with ⟨_ | d, _ | l, _ | hh⟩ <;> cases t <;> rfl

theorem out_standby_locks_ordered (t : output_type) (adev : audio_device)
    (h : t = OUTPUT_HDMI → adev.outputs.deep_buf = none ∧ adev.outputs.low_latency = none) :
    lock_ordered (out_standby_locks t adev) = true := by
  simp only [out_standby_locks, do_out_standby_locks_nil t adev h, List.append_nil]
  split
  · rfl
  · exact lock_unlock_ordered _

theorem out_write_locks_ordered (R : routing_h) (t : output_type) (raced : Bool)
    (adev : audio_device)
    (h : t = OUTPUT_HDMI → adev.outputs.deep_buf = none ∧ adev.outputs.low_latency = none) :
    lock_ordered (out_write_locks R t raced adev) = true := by
  cases hg : adev.outputs.get t with
  | none => simp [out_write_locks, hg]; rfl
  | some out =>
    have hopen : (adev.outputs.get t).isSome = true := by rw [hg]; rfl
    have e1 := write_relock_ordered adev.outputs t hopen
    have e2 := write_failed_ordered adev.outputs t
    simp only [out_write_locks, hg, start_output_stream_locks_nil t adev h, List.nil_append]
    split_ifs
    · simpa [List.append_assoc] using e1
    · simpa [List.append_assoc] using e2
    · simpa [List.append_assoc] using e1
    · cases t <;> rfl

theorem do_out_standby_closed (R : routing_h) (t : output_type) (adev : audio_device) :
    (adev.outputs.deep_buf = none → (do_out_standby R t adev).outputs.deep_buf = none) ∧
    (adev.outputs.low_latency = none → (do_out_standby R t adev).outputs.low_latency = none) := by
  rw [do_out_standby_outputs]
  split_ifs
  · exact ⟨fun h => by simp [standby_slot, h], fun h => by simp [standby_slot, h]⟩
  · exact ⟨id, id⟩
  · cases t <;> simp_all [outputs_t.set, outputs_t.get, standby_slot]

theorem out_set_parameters_locks_ordered (R : routing_h) (t : output_type)
    (routing : Option Nat) (adev : audio_device)
    (h : t = OUTPUT_HDMI → adev.outputs.deep_buf = none ∧ adev.outputs.low_latency = none) :
    lock_ordered (out_set_parameters_locks R t routing adev) = true := by
  have h1 : t = OUTPUT_HDMI → (do_out_standby R t adev).outputs.deep_buf = none ∧
      (do_out_standby R t adev).outputs.low_latency = none :=
    fun ht => ⟨(do_out_standby_closed R t adev).1 (h ht).1,
      (do_out_standby_closed R t adev).2 (h ht).2⟩
  have n0 := do_out_standby_locks_nil t adev h
  have n1 := do_out_standby_locks_nil t (do_out_standby R t adev) h1
  simp only [out_set_parameters_locks]
  split
  · simp only [n0, ite_self, List.nil_append]
    split_ifs
    all_goals (simp only [n0, n1, List.append_nil]; exact lock_unlock_ordered _)
  · rfl

/-! ### Threads that respect the lock order -/

theorem mutex_rank_le (m : mutex) : m.rank ≤ 4 := by
  rcases m with _ | t | _
  · decide
  · cases t <;> decide
  · decide

theorem lock_ordered_from_append (p q : List lock_event) :
    ∀ held, lock_ordered_from held p = true → lock_ordered_from [] q = true →
      lock_ordered_from held (p ++ q) = true := by
  induction p with
  | nil =>
    intro held hp hq
    simp only [lock_ordered_from, List.isEmpty_iff] at hp
    subst hp
    exact hq
  | cons e p ih =>
    intro held hp hq
    cases e with
    | acquire m =>
      simp only [List.cons_append, lock_ordered_from, Bool.and_eq_true] at hp ⊢
      exact ⟨hp.1, ih _ hp.2 hq⟩
    | release m =>
      simp only [List.cons_append, lock_ordered_from, Bool.and_eq_true] at hp ⊢
      exact ⟨hp.1, ih _ hp.2 hq⟩

theorem thread_locks_ordered (R : routing_h) (calls : List (out_call × audio_device))
    (h : ∀ c ∈ calls, lock_ordered (c.1.locks R c.2) = true) :
    lock_ordered_from [] (thread_locks R calls) = true := by
  induction calls with
  | nil => rfl
  | cons c cs ih =>
    simp only [thread_locks, List.flatMap_cons]
    exact lock_ordered_from_append _ _ [] (h c (List.mem_cons_self _ _))
      (ih (fun c' hc' => h c' (List.mem_cons_of_mem _ hc')))

/-- Some thread can step whenever a thread waits for a mutex: the thread that
holds the mutex is not finished, and if it waits too, it waits for a mutex
later in the order. -/
theorem lock_progress_acquire (cfg : List lock_thread)
    (hok : ∀ th ∈ cfg, lock_ordered_from th.held th.rest = true) :
    ∀ n (k : Nat) (th : lock_thread) (m : mutex) (r : List lock_event),
      cfg[k]? = some th → th.rest = .acquire m :: r → 4 - m.rank ≤ n →
      ∃ k' cfg', lock_step k' cfg = some cfg' := by
  intro n
  induction n with
  | zero =>
    intro k th m r hk hr hn
    by_cases hf : lock_free cfg m = true
    · exact ⟨k, cfg.set k ⟨m :: th.held, r⟩, by simp only [lock_step, hk, hr, hf, if_true]⟩
    · simp only [lock_free, List.all_eq_true, Bool.not_eq_true', not_forall,
        Bool.not_eq_false, exists_prop] at hf
      obtain ⟨th', hmem, hheld⟩ := hf
      obtain ⟨k', hk'⟩ := List.getElem?_of_mem hmem
      have hok' := hok th' hmem
      rcases hr' : th'.rest with _ | ⟨e, r'⟩
      · rw [hr'] at hok'
        simp only [lock_ordered_from, List.isEmpty_iff] at hok'
        rw [hok'] at hheld
        simp at hheld
      · cases e with
        | acquire m' =>
          rw [hr'] at hok'
          simp only [lock_ordered_from, Bool.and_eq_true, List.all_eq_true,
            decide_eq_true_eq] at hok'
          have hlt := hok'.1 m (by simpa using hheld)
          have := mutex_rank_le m'
          omega
        | release m' =>
          exact ⟨k', cfg.set k' ⟨th'.held.erase m', r'⟩, by simp only [lock_step, hk', hr']⟩
  | succ n ih =>
    intro k th m r hk hr hn
    by_cases hf : lock_free cfg m = true
    · exact ⟨k, cfg.set k ⟨m :: th.held, r⟩, by simp only [lock_step, hk, hr, hf, if_true]⟩
    · simp only [lock_free, List.all_eq_true, Bool.not_eq_true', not_forall,
        Bool.not_eq_false, exists_prop] at hf
      obtain ⟨th', hmem, hheld⟩ := hf
      obtain ⟨k', hk'⟩ := List.getElem?_of_mem hmem
      have hok' := hok th' hmem
      rcases hr' : th'.rest with _ | ⟨e, r'⟩
      · rw [hr'] at hok'
        simp only [lock_ordered_from, List.isEmpty_iff] at hok'
        rw [hok'] at hheld
        simp at hheld
      · cases e with
        | acquire m' =>
          rw [hr'] at hok'
          simp only [lock_ordered_from, Bool.and_eq_true, List.all_eq_true,
            decide_eq_true_eq] at hok'
          have hlt := hok'.1 m (by simpa using hheld)
          have := mutex_rank_le m'
          exact ih k' th' m' r' hk' hr' (by omega)
        | release m' =>
          exact ⟨k', cfg.set k' ⟨th'.held.erase m', r'⟩, by simp only [lock_step, hk', hr']⟩

/-- No deadlock: if every thread respects the order and not all are
finished, some thread can step. -/
theorem lock_progress (cfg : List lock_thread)
    (hok : ∀ th ∈ cfg, lock_ordered_from th.held th.rest = true)
    (hfin : lock_finished cfg = false) : ∃ k cfg', lock_step k cfg = some cfg' := by
  have : ∃ th ∈ cfg, th.rest.isEmpty = false := by
    by_contra hc
    simp only [not_exists, not_and, Bool.not_eq_false] at hc
    have : lock_finished cfg = true := by
      simp only [lock_finished, List.all_eq_true]
      exact hc
    rw [this] at hfin
    cases hfin
  obtain ⟨th, hmem, hne⟩ := this
  obtain ⟨k, hk⟩ := List.getElem?_of_mem hmem
  rcases hr : th.rest with _ | ⟨e, r⟩
  · rw [hr] at hne
    cases hne
  · cases e with
    | acquire m => exact lock_progress_acquire cfg hok 4 k th m r hk hr (by omega)
    | release m => exact ⟨k, cfg.set k ⟨th.held.erase m, r⟩, by simp only [lock_step, hk, hr]⟩

theorem lock_step_ok (k : Nat) (cfg cfg' : List lock_thread)
    (hs : lock_step k cfg = some cfg')
    (hok : ∀ th ∈ cfg, lock_ordered_from th.held th.rest = true) :
    ∀ th ∈ cfg', lock_ordered_from th.held th.rest = true := by
  rcases hk : cfg[k]? with _ | th
  · simp only [lock_step, hk] at hs
    cases hs
  · have hmem : th ∈ cfg := List.getElem?_mem hk
    have hth := hok th hmem
    rcases hr : th.rest with _ | ⟨e, r⟩
    · simp only [lock_step, hk, hr] at hs
      cases hs
    · rw [hr] at hth
      cases e with
      | acquire m =>
        simp only [lock_step, hk, hr] at hs
        split_ifs at hs
        simp only [Option.some.injEq] at hs
        subst hs
        intro th' hm'
        rcases List.mem_or_eq_of_mem_set hm' with h1 | h1
        · exact hok th' h1
        · subst h1
          simp only [lock_ordered_from, Bool.and_eq_true] at hth
          exact hth.2
      | release m =>
        simp only [lock_step, hk, hr, Option.some.injEq] at hs
        subst hs
        intro th' hm'
        rcases List.mem_or_eq_of_mem_set hm' with h1 | h1
        · exact hok th' h1
        · subst h1
          simp only [lock_ordered_from, Bool.and_eq_true] at hth
          exact hth.2

theorem sum_map_set (f : lock_thread → Nat) :
    ∀ (l : List lock_thread) (k : Nat) (x y : lock_thread), l[k]? = some x →
      ((l.set k y).map f).sum + f x = (l.map f).sum + f y := by
  intro l
  induction l with
  | nil => intro k x y h; simp at h
  | cons a l ih =>
    intro k x y h
    cases k with
    | zero =>
      simp only [List.getElem?_cons_zero, Option.some.injEq] at h
      subst h
      simp only [List.set_cons_zero, List.map_cons, List.sum_cons]
      omega
    | succ k =>
      simp only [List.getElem?_cons_succ] at h
      have := ih k x y h
      simp only [List.set_cons_succ, List.map_cons, List.sum_cons]
      omega

theorem lock_step_remaining (k : Nat) (cfg cfg' : List lock_thread)
    (hs : lock_step k cfg = some cfg') : lock_remaining cfg = lock_remaining cfg' + 1 := by
  rcases hk : cfg[k]? with _ | th
  · simp only [lock_step, hk] at hs
    cases hs
  · rcases hr : th.rest with _ | ⟨e, r⟩
    · simp only [lock_step, hk, hr] at hs
      cases hs
    · cases e with
      | acquire m =>
        simp only [lock_step, hk, hr] at hs
        split_ifs at hs
        simp only [Option.some.injEq] at hs
        subst hs
        have := sum_map_set (fun th => th.rest.length) cfg k th ⟨m :: th.held, r⟩ hk
        simp only [hr, List.length_cons] at this
        simp only [lock_remaining]
        omega
      | release m =>
        simp only [lock_step, hk, hr, Option.some.injEq] at hs
        subst hs
        have := sum_map_set (fun th => th.rest.length) cfg k th ⟨th.held.erase m, r⟩ hk
        simp only [hr, List.length_cons] at this
        simp only [lock_remaining]
        omega

/-- Along a run the threads keep respecting the order, and every step makes
one of the lock events that remain. -/
theorem lock_run_spec (sched : List Nat) :
    ∀ (cfg cfg' : List lock_thread), lock_run sched cfg = some cfg' →
      (∀ th ∈ cfg, lock_ordered_from th.held th.rest = true) →
      (∀ th ∈ cfg', lock_ordered_from th.held th.rest = true) ∧
      lock_remaining cfg = lock_remaining cfg' + sched.length := by
  induction sched with
  | nil =>
    intro cfg cfg' h hok
    simp only [lock_run, Option.some.injEq] at h
    subst h
    exact ⟨hok, rfl⟩
  | cons k ks ih =>
    intro cfg cfg' h hok
    simp only [lock_run] at h
    rcases hs : lock_step k cfg with _ | c1
    · rw [hs] at h
      cases h
    · rw [hs] at h
      obtain ⟨h1, h2⟩ := ih c1 cfg' h (lock_step_ok k cfg c1 hs hok)
      refine ⟨h1, ?_⟩
      rw [lock_step_remaining k cfg c1 hs, h2, List.length_cons]
      omega

theorem lock_start_ok (programs : List (List lock_event))
    (h : ∀ p ∈ programs, lock_ordered_from [] p = true) :
    ∀ th ∈ lock_start programs, lock_ordered_from th.held th.rest = true := by
  intro th hth
  simp only [lock_start, List.mem_map] at hth
  obtain ⟨p, hp, rfl⟩ := hth
  exact h p hp

/-! ## The lock order of the output-stream operations -/

/-- C21: the lock events of `out_standby`, `out_write` and
`out_set_parameters`. On a stream other than the HDMI stream, and on the HDMI
stream while no other output stream is open, every call acquires its mutexes
in the order outputs-list lock, output-stream locks in stream-kind order,
device lock, never one it holds, and releases them all. On the HDMI stream
with another output stream open the order is broken: `start_output_stream`
(from `out_write` on the HDMI stream in standby) and `do_out_standby` (from
`out_standby` on the active HDMI stream) run `force_non_hdmi_out_standby`,
which locks the other stream while the caller holds that very lock and the
device lock. The thread then waits for a mutex it holds itself. -/
theorem output_lock_order (R : routing_h) :
    (∀ (t : output_type) (raced : Bool) (routing : Option Nat) (adev : audio_device),
      (t = OUTPUT_HDMI → adev.outputs.deep_buf = none ∧ adev.outputs.low_latency = none) →
      lock_ordered (out_standby_locks t adev) = true ∧
      lock_ordered (out_write_locks R t raced adev) = true ∧
      lock_ordered (out_set_parameters_locks R t routing adev) = true) ∧
    reachable routing_h_sample adev_hdmi_low ∧
    out_write_locks routing_h_sample OUTPUT_HDMI false adev_hdmi_low =
      [.acquire (.out OUTPUT_HDMI), .release (.out OUTPUT_HDMI),
       .acquire .lock_outputs, .acquire (.out OUTPUT_LOW_LATENCY),
       .acquire (.out OUTPUT_HDMI), .acquire .dev,
       .acquire (.out OUTPUT_LOW_LATENCY), .release (.out OUTPUT_LOW_LATENCY),
       .release .dev, .release (.out OUTPUT_LOW_LATENCY), .release .lock_outputs,
       .release (.out OUTPUT_HDMI)] ∧
    first_violation [] (out_write_locks routing_h_sample OUTPUT_HDMI false adev_hdmi_low) =
      some (.acquire (.out OUTPUT_LOW_LATENCY),
        [.dev, .out OUTPUT_HDMI, .out OUTPUT_LOW_LATENCY, .lock_outputs]) ∧
    lock_run [0, 0, 0, 0, 0, 0]
        (lock_start [out_write_locks routing_h_sample OUTPUT_HDMI false adev_hdmi_low]) =
      some [⟨[.dev, .out OUTPUT_HDMI, .out OUTPUT_LOW_LATENCY, .lock_outputs],
        [.acquire (.out OUTPUT_LOW_LATENCY), .release (.out OUTPUT_LOW_LATENCY),
         .release .dev, .release (.out OUTPUT_LOW_LATENCY), .release .lock_outputs,
         .release (.out OUTPUT_HDMI)]⟩] ∧
    lock_step 0 [⟨[.dev, .out OUTPUT_HDMI, .out OUTPUT_LOW_LATENCY, .lock_outputs],
        [.acquire (.out OUTPUT_LOW_LATENCY), .release (.out OUTPUT_LOW_LATENCY),
         .release .dev, .release (.out OUTPUT_LOW_LATENCY), .release .lock_outputs,
         .release (.out OUTPUT_HDMI)]⟩] = none ∧
    reachable routing_h_sample adev_hdmi_then_low ∧
    out_standby_locks OUTPUT_HDMI adev_hdmi_then_low =
      [.acquire .lock_outputs, .acquire (.out OUTPUT_LOW_LATENCY),
       .acquire (.out OUTPUT_HDMI), .acquire .dev,
       .acquire (.out OUTPUT_LOW_LATENCY), .release (.out OUTPUT_LOW_LATENCY),
       .release .dev, .release (.out OUTPUT_HDMI), .release (.out OUTPUT_LOW_LATENCY),
       .release .lock_outputs] ∧
    first_violation [] (out_standby_locks OUTPUT_HDMI adev_hdmi_then_low) =
      some (.acquire (.out OUTPUT_LOW_LATENCY),
        [.dev, .out OUTPUT_HDMI, .out OUTPUT_LOW_LATENCY, .lock_outputs]) ∧
    first_violation []
        (out_set_parameters_locks routing_h_sample OUTPUT_HDMI
          (some AUDIO_DEVICE_OUT_DGTL_DOCK_HEADSET) adev_hdmi_then_low) =
      some (.acquire (.out OUTPUT_LOW_LATENCY),
        [.dev, .out OUTPUT_HDMI, .out OUTPUT_LOW_LATENCY, .lock_outputs]) := by
  refine ⟨?_, reachable_adev_hdmi_low, by decide, by decide, by decide, by decide, ?_,
    by decide, by decide, by decide⟩
  · intro t raced routing adev h
    exact ⟨out_standby_locks_ordered t adev h, out_write_locks_ordered R t raced adev h,
      out_set_parameters_locks_ordered R t routing adev h⟩
  · exact reachable.step
      (.open_output pcm_config_fast AUDIO_DEVICE_OUT_SPEAKER 0 ⟨0, 0⟩) _
      (reachable.step (.write OUTPUT_HDMI 960) _
        (reachable.step
          (.open_output pcm_config_fast AUDIO_DEVICE_OUT_AUX_DIGITAL AUDIO_OUTPUT_FLAG_DIRECT
            ⟨0, 0⟩) _
          (reachable.init false false hw_hdmi)))

/-! ## Deadlock freedom -/

/-- C22: any concurrent run of threads that make `out_standby`, `out_write`
and `out_set_parameters` calls on the output streams, each call with lock
events that respect the documented global order, has no circular wait and
terminates: at every moment of every run either all threads have finished or
some thread can make its next lock event, and a run has exactly as many steps
as lock events have been made, so no run is longer than the number of lock
events of its threads. The lock events of a call respect the order whenever
the call is on a stream other than the HDMI stream, or no other output
stream is open. -/
theorem out_calls_deadlock_free (R : routing_h)
    (threads : List (List (out_call × audio_device)))
    (hord : ∀ calls ∈ threads, ∀ c ∈ calls, lock_ordered (c.1.locks R c.2) = true) :
    (∀ (sched : List Nat) (cfg : List lock_thread),
      lock_run sched (lock_start (threads.map (thread_locks R))) = some cfg →
      (lock_finished cfg = true ∨ ∃ k cfg', lock_step k cfg = some cfg') ∧
      sched.length + lock_remaining cfg =
        lock_remaining (lock_start (threads.map (thread_locks R)))) ∧
    (∀ (c : out_call) (adev : audio_device),
      (c.stream = OUTPUT_HDMI →
        adev.outputs.deep_buf = none ∧ adev.outputs.low_latency = none) →
      lock_ordered (c.locks R adev) = true) := by
  have hstart : ∀ th ∈ lock_start (threads.map (thread_locks R)),
      lock_ordered_from th.held th.rest = true := by
    apply lock_start_ok
    intro p hp
    simp only [List.mem_map] at hp
    obtain ⟨calls, hc, rfl⟩ := hp
    exact thread_locks_ordered R calls (hord calls hc)
  refine ⟨?_, ?_⟩
  · intro sched cfg hrun
    obtain ⟨hok, hrem⟩ := lock_run_spec sched _ cfg hrun hstart
    refine ⟨?_, by omega⟩
    cases hfin : lock_finished cfg with
    | true => exact Or.inl rfl
    | false => exact Or.inr (lock_progress cfg hok hfin)
  · intro c adev h
    cases c with
    | standby t => exact out_standby_locks_ordered t adev h
    | write t raced => exact out_write_locks_ordered R t raced adev h
    | set_parameters t routing => exact out_set_parameters_locks_ordered R t routing adev h

theorem out_calls_deadlock_free_witness :
    (∀ (sched : List Nat) (cfg : List lock_thread),
      lock_run sched (lock_start
        ([[(out_call.write OUTPUT_LOW_LATENCY false, adev_hdmi_low),
           (out_call.standby OUTPUT_LOW_LATENCY, adev_hdmi_low)],
          [(out_call.set_parameters OUTPUT_LOW_LATENCY (some AUDIO_DEVICE_OUT_WIRED_HEADSET),
            adev_hdmi_low)],
          [(out_call.write OUTPUT_LOW_LATENCY true, adev_hdmi_gone)]].map
          (thread_locks routing_h_sample))) = some cfg →
      (lock_finished cfg = true ∨ ∃ k cfg', lock_step k cfg = some cfg') ∧
      sched.length + lock_remaining cfg =
        lock_remaining (lock_start
          ([[(out_call.write OUTPUT_LOW_LATENCY false, adev_hdmi_low),
             (out_call.standby OUTPUT_LOW_LATENCY, adev_hdmi_low)],
            [(out_call.set_parameters OUTPUT_LOW_LATENCY (some AUDIO_DEVICE_OUT_WIRED_HEADSET),
              adev_hdmi_low)],
            [(out_call.write OUTPUT_LOW_LATENCY true, adev_hdmi_gone)]].map
            (thread_locks routing_h_sample)))) ∧
    (∀ (c : out_call) (adev : audio_device),
      (c.stream = OUTPUT_HDMI →
        adev.outputs.deep_buf = none ∧ adev.outputs.low_latency = none) →
      lock_ordered (c.locks routing_h_sample adev) = true) :=
  out_calls_deadlock_free routing_h_sample
    [[(out_call.write OUTPUT_LOW_LATENCY false, adev_hdmi_low),
      (out_call.standby OUTPUT_LOW_LATENCY, adev_hdmi_low)],
     [(out_call.set_parameters OUTPUT_LOW_LATENCY (some AUDIO_DEVICE_OUT_WIRED_HEADSET),
       adev_hdmi_low)],
     [(out_call.write OUTPUT_LOW_LATENCY true, adev_hdmi_gone)]]
    (by decide)

/-! ## Facts about the calls made by a thread -/

theorem lock_all_outputs_free (a : audio_device) :
    Thread.lock_all_outputs [] a = .returns (all_locks a.outputs) := by
  cases hd : a.outputs.deep_buf <;> cases hl : a.outputs.low_latency <;>
    cases hh : a.outputs.hdmi <;>
    simp [Thread.lock_all_outputs, pthread_mutex_lock, outcome.bind, outputs_t.get, all_locks,
      hd, hl, hh]

theorem outcome_bind_returns {α β : Type} (a : α) (f : α → outcome β) :
    (outcome.returns a).bind f = f a := rfl

theorem outcome_bind_blocks {α β : Type} (m : mutex) (h : List mutex) (x : audio_device)
    (f : α → outcome β) : (outcome.blocks m h x : outcome α).bind f = .blocks m h x := rfl

theorem outcome_bind_eq_returns {α β : Type} (x : outcome α) (f : α → outcome β) (b : β)
    (h : x.bind f = .returns b) : ∃ a, x = .returns a ∧ f a = .returns b := by
  cases x with
  | returns a => exact ⟨a, rfl, h⟩
  | blocks m hd ad => simp [outcome.bind] at h
  | divides_by_zero => simp [outcome.bind] at h
  | unfinished => simp [outcome.bind] at h

/-- The mutexes `lock_all_outputs` has taken are all released by
`unlock_all_outputs`, but for the lock of the stream that is excepted. -/
theorem unlock_all_outputs_all (o : outputs_t) (a : audio_device)
    (h : ∀ u, (a.outputs.get u).isSome = (o.get u).isSome) :
    Thread.unlock_all_outputs (all_locks o) a none = [] ∧
    ∀ t, (o.get t).isSome = true →
      Thread.unlock_all_outputs (all_locks o) a (some t) = [mutex.out t] := by
  have h0 := h OUTPUT_DEEP_BUF
  have h1 := h OUTPUT_LOW_LATENCY
  have h2 := h OUTPUT_HDMI
  simp only [outputs_t.get] at h0 h1 h2
  refine ⟨?_, fun t ht => ?_⟩
  · cases hd : o.deep_buf <;> cases hl : o.low_latency <;> cases hh : o.hdmi <;>
      simp only [hd, hl, hh, Option.isSome_none, Option.isSome_some] at h0 h1 h2 <;>
      simp [Thread.unlock_all_outputs, pthread_mutex_unlock, all_locks, outputs_t.get, hd, hl, hh,
        h0, h1, h2]
  · cases t <;> simp only [outputs_t.get] at ht <;>
      cases hd : o.deep_buf <;> cases hl : o.low_latency <;> cases hh : o.hdmi <;>
      simp only [hd, hl, hh, Option.isSome_none, Option.isSome_some] at h0 h1 h2 ht <;>
      first
      | exact absurd ht (by decide)
      | simp [Thread.unlock_all_outputs, pthread_mutex_unlock, all_locks, outputs_t.get, hd, hl,
          hh, h0, h1, h2]

theorem all_locks_contains (o : outputs_t) (u : output_type) :
    (all_locks o).contains (mutex.out u) = (o.get u).isSome := by
  cases u <;> cases hd : o.deep_buf <;> cases hl : o.low_latency <;> cases hh : o.hdmi <;>
    simp [all_locks, outputs_t.get, hd, hl, hh]

/-- The body of `do_out_standby` for an active stream, in one piece. -/
theorem thread_do_out_standby_with_active (R : routing_h)
    (force : List mutex → audio_device → outcome (List mutex × audio_device))
    (held : List mutex) (t : output_type) (a : audio_device) (out : stream_out)
    (h : a.outputs.get t = some out) (hs : out.standby = false) :
    Thread.do_out_standby_with R force held t a =
      (if t = OUTPUT_HDMI then force held ((a.calls (standby_closes out)).set_out t out.to_standby)
       else .returns (held, (a.calls (standby_closes out)).set_out t out.to_standby)).bind
        fun r =>
          .returns (r.1,
            if output_devices t r.2 ≠ 0 then
              select_devices R { r.2 with out_device := output_devices t r.2 }
            else { r.2 with out_device := output_devices t r.2 }) := by
  simp only [Thread.do_out_standby_with, h, hs, if_true]
  rcases out with ⟨p0, p1, _, _, _, _, _, _, _, _, _⟩
  cases p0 <;> cases p1 <;>
    simp [standby_closes, stream_out.to_standby, audio_device.calls, audio_device.call,
      hw_world.call, audio_device.set_out]

theorem thread_do_out_standby_with_idle (R : routing_h)
    (force : List mutex → audio_device → outcome (List mutex × audio_device))
    (held : List mutex) (t : output_type) (a : audio_device) (out : stream_out)
    (h : a.outputs.get t = some out) (hs : out.standby = true) :
    Thread.do_out_standby_with R force held t a = .returns (held, a) := by
  simp [Thread.do_out_standby_with, h, hs]

theorem thread_do_out_standby_with_none (R : routing_h)
    (force : List mutex → audio_device → outcome (List mutex × audio_device))
    (held : List mutex) (t : output_type) (a : audio_device) (h : a.outputs.get t = none) :
    Thread.do_out_standby_with R force held t a = .returns (held, a) := by
  simp [Thread.do_out_standby_with, h]

/-- On a stream other than the HDMI stream `do_out_standby` takes no mutex:
it returns, with the device the state-passing function gives. -/
theorem thread_do_out_standby_with_other (R : routing_h)
    (force : List mutex → audio_device → outcome (List mutex × audio_device))
    (force' : audio_device → audio_device)
    (held : List mutex) (t : output_type) (a : audio_device) (ht : t ≠ OUTPUT_HDMI) :
    Thread.do_out_standby_with R force held t a =
      .returns (held, do_out_standby_with R force' t a) := by
  cases h : a.outputs.get t with
  | none =>
    rw [thread_do_out_standby_with_none R force held t a h, do_out_standby_with_none R force' t a h]
  | some out =>
    cases hs : out.standby with
    | true =>
      rw [thread_do_out_standby_with_idle R force held t a out h hs,
        do_out_standby_with_idle R force' t a out h hs]
    | false =>
      rw [thread_do_out_standby_with_active R force held t a out h hs,
        do_out_standby_with_active R force' t a out h hs]
      simp [ht, outcome.bind]

/-- With no other output stream open, `force_non_hdmi_out_standby` does
nothing. -/
theorem thread_force_none (R : routing_h) (held : List mutex) (a : audio_device)
    (hd : a.outputs.deep_buf = none) (hl : a.outputs.low_latency = none) :
    Thread.force_non_hdmi_out_standby R held a = .returns (held, a) ∧
    force_non_hdmi_out_standby R a = a := by
  constructor
  · simp [Thread.force_non_hdmi_out_standby, Thread.force_step, outcome.bind, outputs_t.get, hd, hl]
  · simp [force_non_hdmi_out_standby, force_step, outputs_t.get, hd, hl]

/-- The first open stream other than the HDMI stream, in the order of the
loop of `force_non_hdmi_out_standby`. -/
theorem thread_force_blocks (R : routing_h) (held : List mutex) (a : audio_device)
    (hopen : a.outputs.deep_buf ≠ none ∨ a.outputs.low_latency ≠ none)
    (hheld : ∀ u, (a.outputs.get u).isSome = true → held.contains (mutex.out u) = true) :
    Thread.force_non_hdmi_out_standby R held a =
      .blocks (if a.outputs.deep_buf ≠ none then mutex.out OUTPUT_DEEP_BUF
        else mutex.out OUTPUT_LOW_LATENCY) held a := by
  have h0 := hheld OUTPUT_DEEP_BUF
  have h1 := hheld OUTPUT_LOW_LATENCY
  simp only [outputs_t.get] at h0 h1
  cases hd : a.outputs.deep_buf with
  | some d =>
    rw [hd] at h0
    have h0' : mutex.out OUTPUT_DEEP_BUF ∈ held := by simpa using h0 rfl
    simp [Thread.force_non_hdmi_out_standby, Thread.force_step, outcome.bind, outputs_t.get, hd,
      pthread_mutex_lock, h0']
  | none =>
    cases hl : a.outputs.low_latency with
    | none => rw [hd, hl] at hopen; simp at hopen
    | some l =>
      rw [hl] at h1
      have h1' : mutex.out OUTPUT_LOW_LATENCY ∈ held := by simpa using h1 rfl
      simp [Thread.force_non_hdmi_out_standby, Thread.force_step, outcome.bind, outputs_t.get, hd,
        hl, pthread_mutex_lock, h1']

theorem standby_start_others (a : audio_device) :
    (standby_start OUTPUT_HDMI a).outputs.deep_buf = a.outputs.deep_buf ∧
    (standby_start OUTPUT_HDMI a).outputs.low_latency = a.outputs.low_latency ∧
    ((standby_start OUTPUT_HDMI a).outputs.hdmi.isSome = a.outputs.hdmi.isSome) := by
  unfold standby_start
  cases h : a.outputs.get OUTPUT_HDMI with
  | none => exact ⟨rfl, rfl, rfl⟩
  | some out =>
    have h' : a.outputs.hdmi = some out := h
    simp [audio_device.set_out, audio_device.calls, outputs_t.set, h']

/-- `do_out_standby` as a call: it waits for ever when it reaches
`force_non_hdmi_out_standby` with another stream open (whose lock the caller
holds), and else returns what the state-passing function gives. -/
theorem thread_do_out_standby_spec (R : routing_h) (held : List mutex) (t : output_type)
    (a : audio_device)
    (hheld : ∀ u, (a.outputs.get u).isSome = true → held.contains (mutex.out u) = true) :
    Thread.do_out_standby R held t a =
      if standby_relocks t a then
        .blocks (first_other_lock a.outputs) held (standby_start t a)
      else .returns (held, do_out_standby R t a) := by
  by_cases ht : t = OUTPUT_HDMI
  · subst ht
    cases h : a.outputs.get OUTPUT_HDMI with
    | none =>
      have h' : a.outputs.hdmi = none := h
      have e : standby_relocks OUTPUT_HDMI a = false := by
        simp [standby_relocks, active, h]
      rw [e]
      simp only [Thread.do_out_standby, do_out_standby, Bool.false_eq_true, if_false]
      rw [thread_do_out_standby_with_none R _ held _ a h, do_out_standby_with_none R _ _ a h]
    | some out =>
      cases hs : out.standby with
      | true =>
        have e : standby_relocks OUTPUT_HDMI a = false := by
          simp [standby_relocks, active, h, hs]
        rw [e]
        simp only [Thread.do_out_standby, do_out_standby, Bool.false_eq_true, if_false]
        rw [thread_do_out_standby_with_idle R _ held _ a out h hs,
          do_out_standby_with_idle R _ _ a out h hs]
      | false =>
        have hst : standby_start OUTPUT_HDMI a =
            (a.calls (standby_closes out)).set_out OUTPUT_HDMI out.to_standby := by
          simp [standby_start, h]
        obtain ⟨s1, s2, s3⟩ := standby_start_others a
        simp only [Thread.do_out_standby, do_out_standby]
        rw [thread_do_out_standby_with_active R _ held _ a out h hs,
          do_out_standby_with_active R _ _ a out h hs, ← hst]
        simp only [if_true]
        cases ho : others_open a.outputs with
        | true =>
          have e : standby_relocks OUTPUT_HDMI a = true := by
            simp [standby_relocks, active, h, hs, ho]
          rw [e, if_pos rfl]
          have hopen : (standby_start OUTPUT_HDMI a).outputs.deep_buf ≠ none ∨
              (standby_start OUTPUT_HDMI a).outputs.low_latency ≠ none := by
            rw [s1, s2]
            simp only [others_open, Bool.or_eq_true, Option.isSome_iff_ne_none] at ho
            exact ho
          have hh : ∀ u, ((standby_start OUTPUT_HDMI a).outputs.get u).isSome = true →
              held.contains (mutex.out u) = true := by
            intro u hu
            apply hheld
            cases u
            · simpa [outputs_t.get, s1] using hu
            · simpa [outputs_t.get, s2] using hu
            · simpa [outputs_t.get, s3] using hu
          rw [thread_force_blocks R held _ hopen hh, outcome_bind_blocks, s1]
          simp [first_other_lock, Option.isSome_iff_ne_none]
        | false =>
          have e : standby_relocks OUTPUT_HDMI a = false := by
            simp [standby_relocks, ho]
          rw [e]
          have hn : a.outputs.deep_buf = none ∧ a.outputs.low_latency = none := by
            cases hd : a.outputs.deep_buf <;> cases hl : a.outputs.low_latency <;>
              simp [others_open, hd, hl] at ho ⊢
          obtain ⟨f1, f2⟩ := thread_force_none R held (standby_start OUTPUT_HDMI a)
            (s1.trans hn.1) (s2.trans hn.2)
          rw [f1, f2]
          simp [outcome.bind]
  · have e : standby_relocks t a = false := by simp [standby_relocks, ht]
    rw [e]
    simp only [Thread.do_out_standby, do_out_standby, Bool.false_eq_true, if_false]
    exact thread_do_out_standby_with_other R _ _ held t a ht

theorem standby_slot_isSome (x : Option stream_out) : (standby_slot x).isSome = x.isSome := by
  cases x <;> rfl

theorem outputs_set_isSome (o : outputs_t) (t u : output_type) (v : Option stream_out)
    (h : v.isSome = (o.get t).isSome) : ((o.set t v).get u).isSome = (o.get u).isSome := by
  cases t <;> cases u <;> simp_all [outputs_t.get, outputs_t.set]

theorem do_out_standby_isSome (R : routing_h) (t : output_type) (a : audio_device)
    (u : output_type) :
    ((do_out_standby R t a).outputs.get u).isSome = (a.outputs.get u).isSome := by
  rw [do_out_standby_outputs]
  split_ifs
  · cases u <;> simp [outputs_t.get, standby_slot_isSome]
  · rfl
  · exact outputs_set_isSome _ _ _ _ (standby_slot_isSome _)

theorem modify_out_isSome (a : audio_device) (t u : output_type) (f : stream_out → stream_out) :
    ((a.modify_out t f).outputs.get u).isSome = (a.outputs.get u).isSome := by
  unfold audio_device.modify_out
  apply outputs_set_isSome
  cases a.outputs.get t <;> rfl

theorem start_output_stream_open_isSome (R : routing_h) (t : output_type) (a : audio_device)
    (out : stream_out) (h : a.outputs.get t = some out) (u : output_type) :
    ((start_output_stream_open R t a).1.outputs.get u).isSome = (a.outputs.get u).isSome := by
  obtain ⟨⟨p0, p1, e⟩, -⟩ := start_output_stream_open_spec R t a out h
  rw [e]
  exact outputs_set_isSome _ _ _ _ (by rw [h]; rfl)

theorem force_non_hdmi_out_standby_isSome (R : routing_h) (a : audio_device) (u : output_type) :
    ((force_non_hdmi_out_standby R a).outputs.get u).isSome = (a.outputs.get u).isSome := by
  rw [force_non_hdmi_out_standby_outputs]
  cases u <;> simp [outputs_t.get, standby_slot_isSome]

theorem start_output_stream_isSome (R : routing_h) (t : output_type) (a : audio_device)
    (u : output_type) :
    ((start_output_stream R t a).1.outputs.get u).isSome = (a.outputs.get u).isSome := by
  unfold start_output_stream
  cases h : a.outputs.get t with
  | none => rfl
  | some out =>
    simp only []
    split_ifs with h1 h2
    · have hf : (force_non_hdmi_out_standby R a).outputs.get t = some out := by
        subst h1
        rw [force_non_hdmi_out_standby_outputs]
        exact h
      rw [start_output_stream_open_isSome R t _ out hf, force_non_hdmi_out_standby_isSome]
    · exact modify_out_isSome _ _ _ _
    · exact start_output_stream_open_isSome R t a out h u

theorem all_locks_held (a : audio_device) (u : output_type)
    (h : (a.outputs.get u).isSome = true) :
    (all_locks a.outputs).contains (mutex.out u) = true := by
  rw [all_locks_contains]; exact h

/-- `out_standby` called by a thread that holds no mutex. -/
theorem thread_out_standby_spec (R : routing_h) (t : output_type) (a : audio_device) :
    Thread.out_standby R [] t a =
      if standby_relocks t a then
        .blocks (first_other_lock a.outputs) (all_locks a.outputs) (standby_start t a)
      else .returns ([], out_standby R t a, 0) := by
  simp only [Thread.out_standby, lock_all_outputs_free, outcome_bind_returns]
  rw [thread_do_out_standby_spec R _ t a (all_locks_held a)]
  cases standby_relocks t a with
  | true => rfl
  | false =>
    simp only [Bool.false_eq_true, if_false, outcome_bind_returns, out_standby]
    rw [(unlock_all_outputs_all a.outputs (do_out_standby R t a)
      (do_out_standby_isSome R t a)).1]

/-- `start_output_stream` called with the locks of all open streams held. -/
theorem thread_start_output_stream_spec (R : routing_h) (held : List mutex) (t : output_type)
    (a : audio_device)
    (hheld : ∀ u, (a.outputs.get u).isSome = true → held.contains (mutex.out u) = true) :
    Thread.start_output_stream R held t a =
      if start_relocks t a then .blocks (first_other_lock a.outputs) held a
      else .returns (held, start_output_stream R t a) := by
  unfold Thread.start_output_stream start_output_stream
  cases h : a.outputs.get t with
  | none =>
    have e : start_relocks t a = false := by
      cases t <;> simp_all [start_relocks, outputs_t.get]
    simp [e]
  | some out =>
    simp only []
    by_cases ht : t = OUTPUT_HDMI
    · subst ht
      have h' : a.outputs.hdmi = some out := h
      simp only [if_true]
      cases ho : others_open a.outputs with
      | true =>
        have e : start_relocks OUTPUT_HDMI a = true := by simp [start_relocks, h', ho]
        have hopen : a.outputs.deep_buf ≠ none ∨ a.outputs.low_latency ≠ none := by
          simp only [others_open, Bool.or_eq_true, Option.isSome_iff_ne_none] at ho
          exact ho
        rw [e, if_pos rfl, thread_force_blocks R held a hopen hheld, outcome_bind_blocks]
        simp [first_other_lock, Option.isSome_iff_ne_none]
      | false =>
        have e : start_relocks OUTPUT_HDMI a = false := by simp [start_relocks, ho]
        have hn : a.outputs.deep_buf = none ∧ a.outputs.low_latency = none := by
          cases hd : a.outputs.deep_buf <;> cases hl : a.outputs.low_latency <;>
            simp [others_open, hd, hl] at ho ⊢
        obtain ⟨f1, f2⟩ := thread_force_none R held a hn.1 hn.2
        rw [e, f1, f2]
        simp [outcome.bind]
    · have e : start_relocks t a = false := by simp [start_relocks, ht]
      rw [e]
      simp only [if_neg ht, Bool.false_eq_true, if_false]
      split_ifs <;> rfl

theorem write_relocks_iff (t : output_type) (a : audio_device) (out : stream_out)
    (h : a.outputs.get t = some out) :
    write_relocks t a = (out.standby && start_relocks t a) := by
  cases t <;> simp only [outputs_t.get] at h <;>
    simp [write_relocks, start_relocks, h]

/-- The part of `out_write` up to the label `final_exit`, called by a thread
that holds no mutex. -/
theorem thread_out_write_status_spec (R : routing_h) (t : output_type) (bytes : Nat)
    (a : audio_device) (out : stream_out) (h : a.outputs.get t = some out) :
    Thread.out_write_status R [] t bytes a =
      if write_relocks t a then .blocks (first_other_lock a.outputs) (all_locks a.outputs) a
      else .returns ([], out_write_status R t bytes a) := by
  rw [write_relocks_iff t a out h]
  simp only [Thread.out_write_status, h, pthread_mutex_lock, List.contains_nil, Bool.false_eq_true,
    if_false, outcome_bind_returns, out_write_status, out_write_start]
  cases hs : out.standby with
  | false =>
    simp only [Bool.false_eq_true, if_false, outcome_bind_returns, Bool.false_and,
      lt_self_iff_false, h]
    simp [pthread_mutex_unlock]
  | true =>
    simp only [if_true, Bool.true_and]
    have e1 : pthread_mutex_unlock (mutex.out t) [mutex.out t] = [] := by
      simp [pthread_mutex_unlock]
    rw [e1, lock_all_outputs_free, outcome_bind_returns,
      thread_start_output_stream_spec R _ t a (all_locks_held a)]
    cases hr : start_relocks t a with
    | true => rfl
    | false =>
      simp only [Bool.false_eq_true, if_false, outcome_bind_returns]
      have hsome : (a.outputs.get t).isSome = true := by rw [h]; rfl
      by_cases hneg : (start_output_stream R t a).2 < 0
      · simp only [if_pos hneg, outcome_bind_returns, if_true]
        rw [(unlock_all_outputs_all a.outputs (start_output_stream R t a).1
          (start_output_stream_isSome R t a)).1]
      · simp only [if_neg hneg, outcome_bind_returns, Bool.false_eq_true, if_false]
        rw [(unlock_all_outputs_all a.outputs _
          (fun u => (modify_out_isSome _ t u _).trans (start_output_stream_isSome R t a u))).2 t
          hsome, e1]

theorem others_open_false (o : outputs_t) (h : others_open o = false) :
    o.deep_buf = none ∧ o.low_latency = none := by
  cases hd : o.deep_buf <;> cases hl : o.low_latency <;> simp [others_open, hd, hl] at h ⊢

theorem outputs_set_hdmi_eq (o : outputs_t) (x : Option stream_out) :
    (⟨o.deep_buf, o.low_latency, x⟩ : outputs_t) = o.set OUTPUT_HDMI x := by
  rcases o with ⟨d, l, hd⟩
  rfl

theorem active_set_other (o : outputs_t) (t : output_type) (x : Option stream_out)
    (ht : t ≠ OUTPUT_HDMI) : active (o.set t x) OUTPUT_HDMI = active o OUTPUT_HDMI := by
  unfold active
  rw [outputs_get_set_other _ _ _ _ (Ne.symm ht)]

theorem others_active_devices_start (t : output_type) (a : audio_device) :
    output_devices t (standby_start t a) = others_active_devices t a.outputs := by
  rw [output_devices_eq]
  unfold standby_start others_active_devices
  cases h : a.outputs.get t with
  | none => rfl
  | some out =>
    simp only [audio_device.set_out, audio_device.calls]
    cases t <;> simp [outputs_t.set]

theorem thread_reachable_hdmi_open :
    Thread.reachable routing_h_sample 64
      ([], (adev_open_output_stream pcm_config_fast AUDIO_DEVICE_OUT_AUX_DIGITAL
        AUDIO_OUTPUT_FLAG_DIRECT ⟨0, 0⟩ (adev_open false false hw_hdmi)).adev) :=
  Thread.reachable.step
    (.open_output pcm_config_fast AUDIO_DEVICE_OUT_AUX_DIGITAL AUDIO_OUTPUT_FLAG_DIRECT ⟨0, 0⟩)
    ([], adev_open false false hw_hdmi) _ (Thread.reachable.init false false hw_hdmi)
    (by decide)

theorem thread_reachable_adev_hdmi_then_low :
    Thread.reachable routing_h_sample 64 ([], adev_hdmi_then_low) := by
  have s2 : Thread.reachable routing_h_sample 64
      ([], (out_write routing_h_sample OUTPUT_HDMI 960
        (adev_open_output_stream pcm_config_fast AUDIO_DEVICE_OUT_AUX_DIGITAL
          AUDIO_OUTPUT_FLAG_DIRECT ⟨0, 0⟩ (adev_open false false hw_hdmi)).adev).1) :=
    Thread.reachable.step (.write OUTPUT_HDMI 960) _ _ thread_reachable_hdmi_open (by decide)
  exact Thread.reachable.step
    (.open_output pcm_config_fast AUDIO_DEVICE_OUT_SPEAKER 0 ⟨0, 0⟩) _ _ s2 (by decide)

theorem thread_reachable_adev_hdmi_low :
    Thread.reachable routing_h_sample 64 ([], adev_hdmi_low) := by
  have s2 : Thread.reachable routing_h_sample 64
      ([], (adev_open_output_stream pcm_config_fast AUDIO_DEVICE_OUT_SPEAKER 0 ⟨0, 0⟩
        (adev_open_output_stream pcm_config_fast AUDIO_DEVICE_OUT_AUX_DIGITAL
          AUDIO_OUTPUT_FLAG_DIRECT ⟨0, 0⟩ (adev_open false false hw_hdmi)).adev).adev) :=
    Thread.reachable.step
      (.open_output pcm_config_fast AUDIO_DEVICE_OUT_SPEAKER 0 ⟨0, 0⟩) _ _
      thread_reachable_hdmi_open (by decide)
  exact Thread.reachable.step (.write OUTPUT_LOW_LATENCY 960) _ _ s2 (by decide)

/-! ### The capture calls -/

theorem capture_frame.refl_capture (s : stream_in) : capture_frame s s := by
  constructor <;> rfl

theorem capture_frame.trans_capture {a b c : stream_in} (h1 : capture_frame a b)
    (h2 : capture_frame b c) : capture_frame a c := by
  constructor
  · exact h2.pcm.trans h1.pcm
  · exact h2.standby.trans h1.standby
  · exact h2.requested_rate.trans h1.requested_rate
  · exact h2.resampler.trans h1.resampler
  · exact h2.ramp_vol.trans h1.ramp_vol
  · exact h2.ramp_step.trans h1.ramp_step
  · exact h2.ramp_frames.trans h1.ramp_frames
  · exact h2.channel_mask.trans h1.channel_mask
  · exact h2.config.trans h1.config

theorem thread_get_next_buffer_frame (ps : Nat) (s : stream_in) (cap : capture_hw) (n : Nat) :
    capture_frame s (Thread.get_next_buffer ps s cap n).stream ∧
    (Thread.get_next_buffer ps s cap n).cap.resample_results = cap.resample_results := by
  simp only [Thread.get_next_buffer, pcm_read, Thread.get_next_buffer_clip]
  split
  · exact ⟨by constructor <;> rfl, rfl⟩
  · split_ifs <;> first
      | exact ⟨by constructor <;> rfl, rfl⟩
      | (split <;> exact ⟨by constructor <;> rfl, rfl⟩)

theorem release_buffer_frame (s : stream_in) (buf : resampler_buffer) :
    capture_frame s (release_buffer s buf) := by
  constructor <;> rfl

theorem thread_resampler_pulls_frame (ps : Nat) (pulls : List Nat) :
    ∀ (s : stream_in) (cap : capture_hw),
      capture_frame s (Thread.resampler_pulls ps pulls s cap).1 ∧
      (Thread.resampler_pulls ps pulls s cap).2.resample_results = cap.resample_results := by
  induction pulls with
  | nil => intro s cap; exact ⟨capture_frame.refl_capture s, rfl⟩
  | cons n rest ih =>
    intro s cap
    obtain ⟨g1, g2⟩ := thread_get_next_buffer_frame ps s cap n
    simp only [Thread.resampler_pulls]
    split_ifs
    · exact ⟨g1, g2⟩
    · obtain ⟨i1, i2⟩ := ih (release_buffer (Thread.get_next_buffer ps s cap n).stream
        (Thread.get_next_buffer ps s cap n).buf) (Thread.get_next_buffer ps s cap n).cap
      exact ⟨(g1.trans_capture (release_buffer_frame _ _)).trans_capture i1, i2.trans g2⟩

theorem thread_read_frames_step_frame (ps : Nat) (s : stream_in) (cap : capture_hw)
    (buffer : List Int) (frames_wr frames_rd : Nat) :
    capture_frame s (Thread.read_frames_step ps s cap buffer frames_wr frames_rd).1 := by
  unfold Thread.read_frames_step
  by_cases hrs : s.resampler = true
  · simp only [if_pos hrs]
    exact (thread_resampler_pulls_frame ps _ _ _).1
  · simp only [if_neg hrs]
    obtain ⟨g1, -⟩ := thread_get_next_buffer_frame ps s cap frames_rd
    split <;> exact g1.trans_capture (release_buffer_frame _ _)

theorem thread_get_next_buffer_clip_progress (ps : Nat) (s : stream_in) (cap : capture_hw)
    (n : Nat) (hn : 0 < n) (hf : 0 < s.frames_in) :
    (Thread.get_next_buffer_clip ps s cap n).buf.raw ≠ none ∧
    0 < (Thread.get_next_buffer_clip ps s cap n).buf.frame_count ∧
    (Thread.get_next_buffer_clip ps s cap n).buf.frame_count ≤ n := by
  simp only [Thread.get_next_buffer_clip]
  refine ⟨by simp, ?_, ?_⟩
  all_goals split_ifs <;> omega

/-- What `get_next_buffer` returns when the period size is not 0: no buffer
and a status other than 0, or a buffer of at least one frame (when at least
one was asked for) and at most the number asked for. -/
theorem thread_get_next_buffer_progress (ps : Nat) (s : stream_in) (cap : capture_hw) (n : Nat)
    (hn : 0 < n) (hp : 0 < (s.config.deref_with ps).period_size) :
    ((Thread.get_next_buffer ps s cap n).buf.raw = none ∧
      (Thread.get_next_buffer ps s cap n).stream.read_status ≠ 0) ∨
    ((Thread.get_next_buffer ps s cap n).buf.raw ≠ none ∧
      0 < (Thread.get_next_buffer ps s cap n).buf.frame_count ∧
      (Thread.get_next_buffer ps s cap n).buf.frame_count ≤ n) := by
  cases hpcm : s.pcm with
  | none =>
    have e : Thread.get_next_buffer ps s cap n =
        ⟨{ s with read_status := -ENODEV }, cap, ⟨none, 0⟩, -ENODEV⟩ := by
      simp only [Thread.get_next_buffer, hpcm]
    rw [e]
    exact Or.inl ⟨rfl, by simp⟩
  | some p =>
    by_cases hf : s.frames_in = 0
    · by_cases hr : (pcm_read s.buffer
          ((s.config.deref_with ps).period_size * (s.config.deref_with ps).channels * 2)
          cap).1 = 0
      · right
        simp only [Thread.get_next_buffer, hpcm, if_pos hf, hr, ne_eq, not_true_eq_false,
          if_false]
        apply thread_get_next_buffer_clip_progress _ _ _ _ hn
        split_ifs <;> exact hp
      · left
        simp only [Thread.get_next_buffer, hpcm, if_pos hf, ne_eq, hr, not_false_eq_true,
          if_true]
        exact ⟨trivial, trivial⟩
    · right
      simp only [Thread.get_next_buffer, hpcm, if_neg hf]
      exact thread_get_next_buffer_clip_progress _ _ _ _ hn (Nat.pos_of_ne_zero hf)

/-- One turn of the loop of `read_frames` that does not end it makes
progress: it yields at most the frames asked for, and it yields at least one
frame or uses up one scripted answer of the resampler. -/
theorem thread_read_frames_step_progress (ps : Nat) (s : stream_in) (cap : capture_hw)
    (buffer : List Int) (frames_wr frames_rd : Nat) (hn : 0 < frames_rd)
    (hps : s.resampler = true ∨ 0 < (s.config.deref_with ps).period_size)
    (h0 : (Thread.read_frames_step ps s cap buffer frames_wr frames_rd).1.read_status = 0) :
    (Thread.read_frames_step ps s cap buffer frames_wr frames_rd).2.2.2 ≤ frames_rd ∧
    (Thread.read_frames_step ps s cap buffer frames_wr frames_rd).2.1.resample_results.length +
        (frames_rd - (Thread.read_frames_step ps s cap buffer frames_wr frames_rd).2.2.2) <
      cap.resample_results.length + frames_rd := by
  unfold Thread.read_frames_step at h0 ⊢
  by_cases hrs : s.resampler = true
  · simp only [if_pos hrs] at h0 ⊢
    cases hc : cap.resample_results with
    | nil =>
      simp only [hc, (thread_resampler_pulls_frame ps _ _ _).2, List.length_nil, Nat.lt_irrefl,
        if_false]
      omega
    | cons r rest =>
      simp only [hc, (thread_resampler_pulls_frame ps _ _ _).2, List.length_cons]
      split_ifs <;> omega
  · simp only [if_neg hrs] at h0 ⊢
    have hp : 0 < (s.config.deref_with ps).period_size := by
      rcases hps with hps | hps
      · exact absurd hps hrs
      · exact hps
    rcases thread_get_next_buffer_progress ps s cap frames_rd hn hp with ⟨h1, h2⟩ | ⟨h1, h2, h3⟩
    · rw [h1] at h0
      exact absurd h0 h2
    · have hcap := (thread_get_next_buffer_frame ps s cap frames_rd).2
      cases hraw : (Thread.get_next_buffer ps s cap frames_rd).buf.raw with
      | none => exact absurd hraw h1
      | some raw =>
        simp only [hcap]
        omega

/-- The loop of `read_frames` comes to its end within the turns it is given,
when the period size is not 0 or the stream has a resampler: it returns the
number of frames asked for, or the status of a failed read. -/
theorem thread_read_frames_loop_returns (ps : Nat) (fuel : Nat) :
    ∀ (s : stream_in) (cap : capture_hw) (buffer : List Int) (frames frames_wr : Nat),
      frames_wr ≤ frames → cap.resample_results.length + (frames - frames_wr) ≤ fuel →
      (s.resampler = true ∨ 0 < (s.config.deref_with ps).period_size) →
      ∃ r, Thread.read_frames_loop ps fuel s cap buffer frames frames_wr = .returns r ∧
        capture_frame s r.stream ∧
        (r.ret = frames ∨ (r.ret = r.stream.read_status ∧ r.stream.read_status ≠ 0)) := by
  induction fuel with
  | zero =>
    intro s cap buffer frames frames_wr hle hfuel _
    have : frames_wr = frames := by omega
    exact ⟨⟨s, cap, buffer, frames_wr⟩, by simp [Thread.read_frames_loop, this],
      capture_frame.refl_capture s, Or.inl (by simp [this])⟩
  | succ fuel ih =>
    intro s cap buffer frames frames_wr hle hfuel hps
    by_cases hlt : frames_wr < frames
    · simp only [Thread.read_frames_loop, if_pos hlt]
      have hfr := thread_read_frames_step_frame ps s cap buffer frames_wr (frames - frames_wr)
      have hprog := thread_read_frames_step_progress ps s cap buffer frames_wr
        (frames - frames_wr) (by omega) hps
      generalize Thread.read_frames_step ps s cap buffer frames_wr (frames - frames_wr) = st
        at hfr hprog ⊢
      by_cases hst : st.1.read_status ≠ 0
      · simp only [if_pos hst]
        exact ⟨_, rfl, hfr, Or.inr ⟨rfl, hst⟩⟩
      · simp only [if_neg hst]
        have h0 : st.1.read_status = 0 := by
          by_contra hne; exact hst hne
        obtain ⟨p1, p2⟩ := hprog h0
        have hps' : st.1.resampler = true ∨ 0 < (st.1.config.deref_with ps).period_size := by
          rw [hfr.resampler, hfr.config]; exact hps
        obtain ⟨r, e, f, v⟩ := ih st.1 st.2.1 st.2.2.1 frames (frames_wr + st.2.2.2)
          (by omega) (by omega) hps'
        exact ⟨r, e, hfr.trans_capture f, v⟩
    · simp only [Thread.read_frames_loop, if_neg hlt]
      have : frames_wr = frames := by omega
      exact ⟨_, rfl, capture_frame.refl_capture s, Or.inl (by simp [this])⟩

/-- Whenever the loop of `read_frames` comes to its end, the stream differs
at most in the read-ahead buffer and the read status. -/
theorem thread_read_frames_loop_frame (ps : Nat) (fuel : Nat) :
    ∀ (s : stream_in) (cap : capture_hw) (buffer : List Int) (frames frames_wr : Nat)
      (r : read_frames_result),
      Thread.read_frames_loop ps fuel s cap buffer frames frames_wr = .returns r →
      capture_frame s r.stream := by
  induction fuel with
  | zero =>
    intro s cap buffer frames frames_wr r h
    simp only [Thread.read_frames_loop] at h
    split_ifs at h
    simp only [outcome.returns.injEq] at h
    subst h
    exact capture_frame.refl_capture s
  | succ fuel ih =>
    intro s cap buffer frames frames_wr r h
    simp only [Thread.read_frames_loop] at h
    have hfr := thread_read_frames_step_frame ps s cap buffer frames_wr (frames - frames_wr)
    split_ifs at h
    · simp only [outcome.returns.injEq] at h
      subst h
      exact hfr
    · exact hfr.trans_capture (ih _ _ _ _ _ r h)
    · simp only [outcome.returns.injEq] at h
      subst h
      exact capture_frame.refl_capture s

/-- What `start_input_stream` returns, when it returns: the error of a failed
open, or 0 with the ramp set up over a number of frames that is not 0. -/
theorem thread_start_input_stream_returns (R : routing_h) (ps : Nat) (s s1 : stream_in)
    (adev a1 : audio_device) (ret : Int)
    (h : Thread.start_input_stream R ps s adev = .returns (s1, a1, ret)) :
    (ret = -ENOMEM ∨
      (ret = 0 ∧ s1.ramp_vol = 0 ∧
        s1.ramp_frames = (CAPTURE_START_RAMP_MS * s.requested_rate) % 2 ^ 32 / 1000 ∧
        0 < s1.ramp_frames ∧ s1.ramp_step = (USHRT_MAX / s1.ramp_frames) % 2 ^ 16)) ∧
    s1.channel_mask = s.channel_mask ∧ s1.requested_rate = s.requested_rate ∧
    s1.resampler = s.resampler ∧ s1.config = s.config ∧ s1.standby = s.standby ∧
    a1.mic_mute = adev.mic_mute := by
  simp only [Thread.start_input_stream] at h
  split_ifs at h
  all_goals
    simp only [outcome.returns.injEq, Prod.mk.injEq] at h
    obtain ⟨h1, h2, h3⟩ := h
    subst h1 h2 h3
    first
    | exact ⟨Or.inl rfl, rfl, rfl, rfl, rfl, rfl, rfl⟩
    | exact ⟨Or.inr ⟨rfl, rfl, rfl, Nat.pos_of_ne_zero (by assumption), rfl⟩, rfl, rfl, rfl, rfl,
        rfl, by simp⟩

/-- `start_input_stream` returns when the ramp has at least one frame; it
divides by zero when the open does not fail and the ramp has no frame. -/
theorem thread_start_input_stream_spec (R : routing_h) (ps : Nat) (s : stream_in)
    (adev : audio_device) :
    (1000 ≤ (CAPTURE_START_RAMP_MS * s.requested_rate) % 2 ^ 32 →
      ∃ r, Thread.start_input_stream R ps s adev = .returns r) ∧
    (pcm_open_failed (pcm_open PCM_CARD PCM_DEVICE true (s.config.deref_with ps) adev.hw).1 =
        false →
      (CAPTURE_START_RAMP_MS * s.requested_rate) % 2 ^ 32 < 1000 →
      Thread.start_input_stream R ps s adev = .divides_by_zero) := by
  constructor
  · intro h
    have hne : (CAPTURE_START_RAMP_MS * s.requested_rate) % 2 ^ 32 / 1000 ≠ 0 := by
      have := Nat.div_pos h (by decide : 0 < 1000)
      omega
    simp only [Thread.start_input_stream]
    split_ifs <;> exact ⟨_, rfl⟩
  · intro hp h
    have he : (CAPTURE_START_RAMP_MS * s.requested_rate) % 2 ^ 32 / 1000 = 0 :=
      Nat.div_eq_of_lt h
    simp only [Thread.start_input_stream, hp, Bool.false_eq_true, if_false, he, if_true]

/-- The label `exit` of `in_read` when the requested rate is not 0. -/
theorem thread_in_read_exit_returns (size_bits : Nat) (s : stream_in) (adev : audio_device)
    (cap : capture_hw) (buffer captured : List Int) (bytes : Nat) (ret : Int)
    (hr : s.requested_rate ≠ 0) :
    ∃ r, Thread.in_read_exit size_bits s adev cap buffer captured bytes ret = .returns r ∧
      r.ret = ssize_t_cast size_bits bytes ∧ r.stream = s ∧ r.cap = cap ∧ r.buffer = buffer ∧
      r.captured = captured ∧ r.status = ret ∧ r.adev.mic_mute = adev.mic_mute := by
  simp only [Thread.in_read_exit, hr, if_false]
  split_ifs <;> exact ⟨_, rfl, rfl, rfl, rfl, rfl, rfl, rfl, rfl⟩

theorem thread_in_read_exit_inv (size_bits : Nat) (s : stream_in) (adev : audio_device)
    (cap : capture_hw) (buffer captured : List Int) (bytes : Nat) (ret : Int)
    (r : in_read_return)
    (h : Thread.in_read_exit size_bits s adev cap buffer captured bytes ret = .returns r) :
    r.ret = ssize_t_cast size_bits bytes ∧ r.stream = s ∧ r.cap = cap ∧ r.buffer = buffer ∧
      r.captured = captured ∧ r.status = ret ∧ r.adev.mic_mute = adev.mic_mute := by
  simp only [Thread.in_read_exit] at h
  split_ifs at h <;> simp only [outcome.returns.injEq] at h <;> subst h <;>
    exact ⟨rfl, rfl, rfl, rfl, rfl, rfl, rfl⟩

/-- `in_read` returns the byte count, as an `ssize_t`, when the frame size
and the requested rate are not 0, the ramp of a stream to be started has at
least one frame, and the stream has a resampler or a period size that is not
0; the loop of `read_frames` then ends within one turn per frame asked for and
per scripted answer of the resampler. -/
theorem thread_in_read_returns (R : routing_h) (size_bits ps fuel : Nat) (s : stream_in)
    (adev : audio_device) (cap : capture_hw) (buffer : List Int) (bytes : Nat)
    (hfs : audio_stream_in_frame_size s ≠ 0) (hrate : s.requested_rate ≠ 0)
    (hramp : s.standby = true → 1000 ≤ (CAPTURE_START_RAMP_MS * s.requested_rate) % 2 ^ 32)
    (hps : s.resampler = true ∨ 0 < (s.config.deref_with ps).period_size)
    (hfuel : cap.resample_results.length + bytes / audio_stream_in_frame_size s ≤ fuel) :
    ∃ r, Thread.in_read R size_bits ps fuel s adev cap buffer bytes = .returns r ∧
      r.ret = ssize_t_cast size_bits bytes := by
  have key : ∀ (s0 : stream_in) (a0 : audio_device),
      s0.requested_rate = s.requested_rate → s0.resampler = s.resampler →
      s0.config = s.config →
      ∃ r, (Thread.read_frames ps fuel s0 cap buffer
          (bytes / audio_stream_in_frame_size s)).bind (fun rf =>
        Thread.in_read_exit size_bits
          (in_read_ramp rf.stream rf.buffer (bytes / audio_stream_in_frame_size s)).1 a0 rf.cap
          (if (if int_cast rf.ret > 0 then 0 else int_cast rf.ret) = 0 ∧ a0.mic_mute then
            memset_zero
              (in_read_ramp rf.stream rf.buffer (bytes / audio_stream_in_frame_size s)).2 bytes
           else (in_read_ramp rf.stream rf.buffer (bytes / audio_stream_in_frame_size s)).2)
          rf.buffer bytes (if int_cast rf.ret > 0 then 0 else int_cast rf.ret)) = .returns r ∧
        r.ret = ssize_t_cast size_bits bytes := by
    intro s0 a0 e1 e2 e3
    obtain ⟨rf, hrf, hfr, -⟩ := thread_read_frames_loop_returns ps fuel s0 cap buffer
      (bytes / audio_stream_in_frame_size s) 0 (Nat.zero_le _)
      (by rw [Nat.sub_zero]; exact hfuel) (by rw [e2, e3]; exact hps)
    have hrf' : Thread.read_frames ps fuel s0 cap buffer
        (bytes / audio_stream_in_frame_size s) = .returns rf := hrf
    rw [hrf', outcome_bind_returns]
    have hr2 : (in_read_ramp rf.stream rf.buffer
        (bytes / audio_stream_in_frame_size s)).1.requested_rate ≠ 0 := by
      have : (in_read_ramp rf.stream rf.buffer
          (bytes / audio_stream_in_frame_size s)).1.requested_rate = rf.stream.requested_rate := by
        simp only [in_read_ramp, in_apply_ramp]
        split_ifs <;> rfl
      rw [this, hfr.requested_rate, e1]
      exact hrate
    obtain ⟨r, hr, hv, -⟩ := thread_in_read_exit_returns size_bits _ a0 rf.cap _ rf.buffer bytes
      _ hr2
    exact ⟨r, hr, hv⟩
  simp only [Thread.in_read, hfs, if_false]
  cases hsb : s.standby with
  | false =>
    simp only [Bool.false_eq_true, if_false, outcome_bind_returns, lt_self_iff_false]
    exact key s adev rfl rfl rfl
  | true =>
    simp only [if_true]
    obtain ⟨⟨s1, a1, ret⟩, hst⟩ := (thread_start_input_stream_spec R ps s adev).1 (hramp hsb)
    obtain ⟨hret, -, e1, e2, e3, -, -⟩ := thread_start_input_stream_returns R ps s s1 adev a1 ret
      hst
    rw [hst, outcome_bind_returns]
    rcases hret with hret | ⟨hret, -⟩
    · subst hret
      have hneg : (-ENOMEM : Int) < 0 := by decide
      simp only [if_pos hneg, outcome_bind_returns]
      obtain ⟨r, hr, hv, -⟩ := thread_in_read_exit_returns size_bits s1 a1 cap buffer buffer
        bytes (-ENOMEM) (by rw [e1]; exact hrate)
      exact ⟨r, hr, hv⟩
    · subst hret
      simp only [lt_self_iff_false, if_false, outcome_bind_returns]
      exact key { s1 with standby := false } a1 e1 e2 e3

/-- The result of `in_read` on a stream that is not in standby: the ramp
step is applied to the buffer as `read_frames` left it, whatever its status,
and the buffer is then zeroed if the status is 0 and the microphone muted. -/
theorem thread_in_read_running (R : routing_h) (size_bits ps fuel : Nat) (s : stream_in)
    (adev : audio_device) (cap : capture_hw) (buffer : List Int) (bytes : Nat)
    (r : in_read_return) (hsb : s.standby = false)
    (h : Thread.in_read R size_bits ps fuel s adev cap buffer bytes = .returns r) :
    ∃ s', capture_frame s s' ∧
      r.stream = (in_read_ramp s' r.captured (bytes / audio_stream_in_frame_size s)).1 ∧
      r.buffer =
        (if r.status = 0 ∧ adev.mic_mute then
          memset_zero (in_read_ramp s' r.captured (bytes / audio_stream_in_frame_size s)).2 bytes
         else (in_read_ramp s' r.captured (bytes / audio_stream_in_frame_size s)).2) ∧
      r.adev.mic_mute = adev.mic_mute ∧ r.ret = ssize_t_cast size_bits bytes := by
  simp only [Thread.in_read] at h
  by_cases hfs : audio_stream_in_frame_size s = 0
  · simp [hfs] at h
  simp only [hfs, hsb, Bool.false_eq_true, if_false, outcome_bind_returns, lt_self_iff_false]
    at h
  obtain ⟨rf, hrf, hex⟩ := outcome_bind_eq_returns _ _ _ h
  have hfr := thread_read_frames_loop_frame ps fuel s cap buffer _ 0 rf hrf
  obtain ⟨v1, v2, v3, v4, v5, v6, v7⟩ := thread_in_read_exit_inv _ _ _ _ _ _ _ _ r hex
  refine ⟨rf.stream, hfr, ?_, ?_, v7, v1⟩
  · rw [v2, v5]
  · rw [v4, v5, v6]

/-- With the period size 0, a stream without resampler whose PCM is open and
a capture device that answers every `pcm_read` with 0, one turn of the loop of
`read_frames` yields no frame and leaves everything as it was. -/
theorem thread_read_frames_step_period_zero (s : stream_in) (cap : capture_hw)
    (buffer : List Int) (frames_wr frames_rd : Nat) (hc : s.config = .normal)
    (hr : s.resampler = false) (hp : s.pcm ≠ none) (hf : s.frames_in = 0)
    (hcap : cap.pcm_read_results = []) (hn : 0 < frames_rd) :
    (Thread.read_frames_step 0 s cap buffer frames_wr frames_rd).1.read_status = 0 ∧
    (Thread.read_frames_step 0 s cap buffer frames_wr frames_rd).2.2.2 = 0 ∧
    (Thread.read_frames_step 0 s cap buffer frames_wr frames_rd).1.config = .normal ∧
    (Thread.read_frames_step 0 s cap buffer frames_wr frames_rd).1.resampler = false ∧
    (Thread.read_frames_step 0 s cap buffer frames_wr frames_rd).1.pcm ≠ none ∧
    (Thread.read_frames_step 0 s cap buffer frames_wr frames_rd).1.frames_in = 0 ∧
    (Thread.read_frames_step 0 s cap buffer frames_wr frames_rd).2.1.pcm_read_results = [] := by
  obtain ⟨p, hp'⟩ := Option.ne_none_iff_exists'.mp hp
  have hgt : frames_rd > 0 := hn
  simp only [Thread.read_frames_step, hr, Bool.false_eq_true, if_false, Thread.get_next_buffer,
    hp', hf, if_true, pcm_read, hcap, ne_eq, not_true_eq_false, hc, capture_config.deref_with,
    Thread.get_next_buffer_clip, release_buffer]
  split_ifs <;> simp [hgt, hc, hr, hcap]

/-- With the period size 0 the loop of `read_frames` does not come to its
end, however many turns it is given. -/
theorem thread_read_frames_loop_period_zero (fuel : Nat) :
    ∀ (s : stream_in) (cap : capture_hw) (buffer : List Int) (frames frames_wr : Nat),
      s.config = .normal → s.resampler = false → s.pcm ≠ none → s.frames_in = 0 →
      cap.pcm_read_results = [] → frames_wr < frames →
      Thread.read_frames_loop 0 fuel s cap buffer frames frames_wr = .unfinished := by
  induction fuel with
  | zero =>
    intro s cap buffer frames frames_wr _ _ _ _ _ hlt
    simp [Thread.read_frames_loop, hlt]
  | succ fuel ih =>
    intro s cap buffer frames frames_wr hc hr hp hf hcap hlt
    obtain ⟨q1, q2, q3, q4, q5, q6, q7⟩ := thread_read_frames_step_period_zero s cap buffer
      frames_wr (frames - frames_wr) hc hr hp hf hcap (by omega)
    simp only [Thread.read_frames_loop, if_pos hlt, q1, ne_eq, not_true_eq_false, if_false, q2,
      Nat.add_zero]
    exact ih _ _ _ frames frames_wr q3 q4 q5 q6 q7 hlt

/-- The stream a write was made on is still in its slot afterwards, with the
channel mask and the configuration it had. -/
theorem out_write_status_stream (R : routing_h) (t : output_type) (bytes : Nat)
    (a : audio_device) (out : stream_out) (h : a.outputs.get t = some out) :
    ∃ o', (out_write_status R t bytes a).1.outputs.get t = some o' ∧
      o'.channel_mask = out.channel_mask ∧ o'.config = out.config := by
  have key : ∃ o, (out_write_start R t a).1.outputs.get t = some o ∧
      o.channel_mask = out.channel_mask ∧ o.config = out.config := by
    rcases out_write_start_effect R t a out h with ⟨-, e⟩ | ⟨-, -, -, e⟩ |
        ⟨-, -, p0, p1, ok, e, -, -⟩
    · rw [e]; exact ⟨out, h, rfl, rfl⟩
    · rw [e]
      exact ⟨_, outputs_get_set_same _ _ _, rfl, rfl⟩
    · rw [e]
      exact ⟨_, outputs_get_set_same _ _ _, rfl, rfl⟩
  obtain ⟨o, ho, c1, c2⟩ := key
  obtain ⟨⟨w, e⟩, -, -⟩ := out_write_tail R t bytes a o ho
  rw [← out_write_outputs, e]
  exact ⟨_, outputs_get_set_same _ _ _, c1, c2⟩

theorem requested_before_zero (fs : Nat) (reads : List (List Int × Nat)) :
    requested_before fs reads 0 = 0 := by
  simp [requested_before]

theorem requested_before_succ (fs : Nat) (b : List Int) (n : Nat)
    (rest : List (List Int × Nat)) (j : Nat) :
    requested_before fs ((b, n) :: rest) (j + 1) = n / fs + requested_before fs rest j := by
  simp [requested_before]

/-- The ramp step of `in_read` changes the ramp fields of the stream only. -/
theorem in_read_ramp_fields (s : stream_in) (b : List Int) (n : Nat) :
    (in_read_ramp s b n).1.standby = s.standby ∧
    (in_read_ramp s b n).1.requested_rate = s.requested_rate ∧
    (in_read_ramp s b n).1.resampler = s.resampler ∧
    (in_read_ramp s b n).1.config = s.config ∧
    (in_read_ramp s b n).1.channel_mask = s.channel_mask := by
  simp only [in_read_ramp, in_apply_ramp]
  split_ifs <;> exact ⟨rfl, rfl, rfl, rfl, rfl⟩

theorem thread_read_frames_step_cap (ps : Nat) (s : stream_in) (cap : capture_hw)
    (buffer : List Int) (frames_wr frames_rd : Nat) :
    (Thread.read_frames_step ps s cap buffer frames_wr frames_rd).2.1.resample_results.length ≤
      cap.resample_results.length := by
  unfold Thread.read_frames_step
  by_cases hrs : s.resampler = true
  · simp only [if_pos hrs]
    rw [(thread_resampler_pulls_frame ps _ _ _).2]
    cases hc : cap.resample_results with
    | nil => simp [hc]
    | cons r rest => simp
  · simp only [if_neg hrs]
    obtain ⟨-, g2⟩ := thread_get_next_buffer_frame ps s cap frames_rd
    split <;> simp only [g2] <;> exact Nat.le_refl _

theorem thread_read_frames_loop_cap (ps : Nat) (fuel : Nat) :
    ∀ (s : stream_in) (cap : capture_hw) (buffer : List Int) (frames frames_wr : Nat)
      (r : read_frames_result),
      Thread.read_frames_loop ps fuel s cap buffer frames frames_wr = .returns r →
      r.cap.resample_results.length ≤ cap.resample_results.length := by
  induction fuel with
  | zero =>
    intro s cap buffer frames frames_wr r h
    simp only [Thread.read_frames_loop] at h
    split_ifs at h
    simp only [outcome.returns.injEq] at h
    subst h
    exact Nat.le_refl _
  | succ fuel ih =>
    intro s cap buffer frames frames_wr r h
    simp only [Thread.read_frames_loop] at h
    have hc := thread_read_frames_step_cap ps s cap buffer frames_wr (frames - frames_wr)
    split_ifs at h
    · simp only [outcome.returns.injEq] at h
      subst h
      exact hc
    · exact Nat.le_trans (ih _ _ _ _ _ r h) hc
    · simp only [outcome.returns.injEq] at h
      subst h
      exact Nat.le_refl _

/-- The stream and the script of the resampler after an `in_read` on a
stream that is not in standby. -/
theorem thread_in_read_running_fields (R : routing_h) (size_bits ps fuel : Nat) (s : stream_in)
    (adev : audio_device) (cap : capture_hw) (buffer : List Int) (bytes : Nat)
    (r : in_read_return) (hsb : s.standby = false)
    (h : Thread.in_read R size_bits ps fuel s adev cap buffer bytes = .returns r) :
    r.stream.standby = false ∧ r.stream.requested_rate = s.requested_rate ∧
    r.stream.resampler = s.resampler ∧ r.stream.config = s.config ∧
    r.stream.channel_mask = s.channel_mask ∧
    r.cap.resample_results.length ≤ cap.resample_results.length := by
  obtain ⟨s', hf, e, -, -, -⟩ := thread_in_read_running R size_bits ps fuel s adev cap buffer
    bytes r hsb h
  obtain ⟨f1, f2, f3, f4, f5⟩ := in_read_ramp_fields s' r.captured
    (bytes / audio_stream_in_frame_size s)
  refine ⟨?_, ?_, ?_, ?_, ?_, ?_⟩
  · rw [e, f1, hf.standby, hsb]
  · rw [e, f2, hf.requested_rate]
  · rw [e, f3, hf.resampler]
  · rw [e, f4, hf.config]
  · rw [e, f5, hf.channel_mask]
  · simp only [Thread.in_read] at h
    by_cases hfs : audio_stream_in_frame_size s = 0
    · simp [hfs] at h
    simp only [hfs, hsb, Bool.false_eq_true, if_false, outcome_bind_returns, lt_self_iff_false]
      at h
    obtain ⟨rf, hrf, hex⟩ := outcome_bind_eq_returns _ _ _ h
    obtain ⟨-, -, v3, -⟩ := thread_in_read_exit_inv _ _ _ _ _ _ _ _ r hex
    rw [v3]
    exact thread_read_frames_loop_cap ps fuel s cap buffer _ 0 rf hrf

/-- A run of `in_read` calls on a started stream returns, one result per
call, when the frame size and the requested rate are not 0, the stream has a
resampler or a period size that is not 0, and the loop of `read_frames` is
given one turn per frame of the longest read and per scripted answer of the
resampler. -/
theorem thread_in_read_seq_returns (R : routing_h) (size_bits ps fuel : Nat)
    (reads : List (List Int × Nat)) :
    ∀ (s : stream_in) (adev : audio_device) (cap : capture_hw),
      s.standby = false → audio_stream_in_frame_size s ≠ 0 → s.requested_rate ≠ 0 →
      (s.resampler = true ∨ 0 < (s.config.deref_with ps).period_size) →
      (∀ rd ∈ reads,
        cap.resample_results.length + rd.2 / audio_stream_in_frame_size s ≤ fuel) →
      ∃ rs, Thread.in_read_seq R size_bits ps fuel s adev cap reads = .returns rs ∧
        rs.length = reads.length := by
  induction reads with
  | nil =>
    intro s adev cap _ _ _ _ _
    exact ⟨[], rfl, rfl⟩
  | cons hd rest ih =>
    obtain ⟨b, n⟩ := hd
    intro s adev cap hsb hfs hrate hps hfuel
    obtain ⟨r, hr, -⟩ := thread_in_read_returns R size_bits ps fuel s adev cap b n hfs hrate
      (fun h => by rw [hsb] at h; exact absurd h (by decide)) hps
      (hfuel (b, n) (List.mem_cons_self _ _))
    obtain ⟨g1, g2, g3, g4, g5, g6⟩ := thread_in_read_running_fields R size_bits ps fuel s adev
      cap b n r hsb hr
    have hfs' : audio_stream_in_frame_size r.stream = audio_stream_in_frame_size s := by
      simp only [audio_stream_in_frame_size, g5]
    obtain ⟨rs, hrs, hlen⟩ := ih r.stream r.adev r.cap g1 (by rw [hfs']; exact hfs)
      (by rw [g2]; exact hrate) (by rw [g3, g4]; exact hps)
      (fun rd hrd => by
        rw [hfs']
        exact Nat.le_trans (Nat.add_le_add_right g6 _) (hfuel rd (List.mem_cons_of_mem _ hrd)))
    refine ⟨r :: rs, ?_, by simp [hlen]⟩
    simp only [Thread.in_read_seq, hr, outcome_bind_returns, hrs]

/-- A run of `in_read` calls on a started stream that has ramped `c` of its
`rf` frames: the results, call by call. Frame `i` of call `j` is frame
`c + requested_before fs reads j + i` of the ramp, whatever the statuses of
the calls before. -/
theorem thread_in_read_seq_ramp (R : routing_h) (size_bits ps fuel : Nat) (st rf fs : Nat)
    (mask : Nat) (mute : Bool) (hst : rf * st < 2 ^ 16) (reads : List (List Int × Nat)) :
    ∀ (c : Nat) (s : stream_in) (adev : audio_device) (cap : capture_hw)
      (rs : List in_read_return),
      s.standby = false → s.channel_mask = mask → audio_stream_in_frame_size s = fs →
      adev.mic_mute = mute → c ≤ rf → s.ramp_vol = c * st → s.ramp_step = st →
      s.ramp_frames = rf - c →
      Thread.in_read_seq R size_bits ps fuel s adev cap reads = .returns rs →
      rs.length = reads.length ∧
      ∀ (j : Nat) (r : in_read_return), rs.get? j = some r →
        r.ret = ssize_t_cast size_bits (reads.getD j ([], 0)).2 ∧
        (r.status = 0 ∧ mute = true → ∀ idx, 2 * idx + 1 < (reads.getD j ([], 0)).2 →
          r.buffer.getD idx 0 = 0) ∧
        (¬ (r.status = 0 ∧ mute = true) → ∀ i, i < (reads.getD j ([], 0)).2 / fs →
          (mask = AUDIO_CHANNEL_IN_MONO →
            r.buffer.getD i 0 =
              if c + requested_before fs reads j + i < rf then
                ramp_scale (r.captured.getD i 0) ((c + requested_before fs reads j + i) * st)
              else r.captured.getD i 0) ∧
          (mask ≠ AUDIO_CHANNEL_IN_MONO → ∀ e, e < 2 →
            r.buffer.getD (2 * i + e) 0 =
              if c + requested_before fs reads j + i < rf then
                ramp_scale (r.captured.getD (2 * i + e) 0)
                  ((c + requested_before fs reads j + i) * st)
              else r.captured.getD (2 * i + e) 0)) := by
  induction reads with
  | nil =>
    intro c s adev cap rs _ _ _ _ _ _ _ _ h
    simp only [Thread.in_read_seq, outcome.returns.injEq] at h
    subst h
    exact ⟨rfl, fun j r hj => by simp at hj⟩
  | cons hd rest ih =>
    obtain ⟨b, n⟩ := hd
    intro c s adev cap rs hsb hmask hfs hmute hc hv hs hr h
    simp only [Thread.in_read_seq] at h
    obtain ⟨r0, hr0, h1⟩ := outcome_bind_eq_returns _ _ _ h
    obtain ⟨rs1, hrs1, h2⟩ := outcome_bind_eq_returns _ _ _ h1
    simp only [outcome.returns.injEq] at h2
    subst h2
    obtain ⟨s', hf, e1, e2, e3, e4⟩ := thread_in_read_running R size_bits ps fuel s adev cap b
      n r0 hsb hr0
    rw [hfs] at e1 e2
    obtain ⟨g1, -, -, -, g5, -⟩ := thread_in_read_running_fields R size_bits ps fuel s adev cap
      b n r0 hsb hr0
    obtain ⟨r1, r2, r3, r4, r5, r6⟩ := in_read_ramp_spec st rf c (n / fs) s' r0.captured hst hc
      (by rw [hf.ramp_vol, hv]) (by rw [hf.ramp_step, hs]) (by rw [hf.ramp_frames, hr])
    have hmask' : s'.channel_mask = mask := by rw [hf.channel_mask, hmask]
    have hc1 : min (c + n / fs) rf ≤ rf := Nat.min_le_right _ _
    have hfs1 : audio_stream_in_frame_size r0.stream = fs := by
      rw [← hfs]
      simp only [audio_stream_in_frame_size, g5]
    obtain ⟨ihlen, ihj⟩ := ih (min (c + n / fs) rf) r0.stream r0.adev r0.cap rs1 g1
      (by rw [g5, hmask]) hfs1 (by rw [e3, hmute]) hc1 (by rw [e1]; exact r1)
      (by rw [e1]; exact r2) (by rw [e1]; exact r3) hrs1
    refine ⟨by simp [ihlen], fun j r hj => ?_⟩
    cases j with
    | zero =>
      simp only [List.get?_cons_zero, Option.some.injEq] at hj
      subst hj
      simp only [List.getD_cons_zero, requested_before_zero, Nat.add_zero]
      refine ⟨e4, fun hm idx hidx => ?_, fun hm i hi => ?_⟩
      · have hm' : r0.status = 0 ∧ adev.mic_mute = true := by rw [hmute]; exact hm
        rw [e2, if_pos hm']
        simp only [memset_zero]
        by_cases hl : idx < (in_read_ramp s' r0.captured (n / fs)).2.length
        · rw [List.getD_eq_getElem _ _ (by simpa using hl)]
          simp [hidx]
        · rw [List.getD_eq_default _ _ (by simpa using hl)]
      · have hm' : ¬ (r0.status = 0 ∧ adev.mic_mute = true) := by rw [hmute]; exact hm
        rw [e2, if_neg hm']
        refine ⟨fun hmono => r5 (hmask'.trans hmono) i hi, fun hmono e he => ?_⟩
        have := r6 (fun h => hmono (hmask'.symm.trans h)) (2 * i + e) (by omega)
        rw [show (2 * i + e) / 2 = i by omega] at this
        exact this
    | succ j =>
      simp only [List.get?_cons_succ] at hj
      obtain ⟨k1, k2, k3⟩ := ihj j r hj
      simp only [List.getD_cons_succ, requested_before_succ]
      refine ⟨k1, k2, fun hm i hi => ?_⟩
      have key := k3 hm i hi
      by_cases hle : c + n / fs ≤ rf
      · have hmin : min (c + n / fs) rf = c + n / fs := Nat.min_eq_left hle
        rw [hmin] at key
        have e : c + (n / fs + requested_before fs rest j) + i =
            c + n / fs + requested_before fs rest j + i := by omega
        rw [e]
        exact key
      · have hmin : min (c + n / fs) rf = rf := by omega
        rw [hmin] at key
        have n1 : ¬ (rf + requested_before fs rest j + i < rf) := by omega
        have n2 : ¬ (c + (n / fs + requested_before fs rest j) + i < rf) := by omega
        simp only [if_neg n2]
        refine ⟨fun hmono => ?_, fun hmono e he => ?_⟩
        · have := key.1 hmono
          rw [if_neg n1] at this
          exact this
        · have := key.2 hmono e he
          rw [if_neg n1] at this
          exact this

/-- `start_input_stream` when the open does not fail and the ramp has a
frame: it returns 0 with the ramp set to its start. -/
theorem thread_start_input_stream_ok (R : routing_h) (ps : Nat) (s : stream_in)
    (adev : audio_device)
    (hopen : pcm_open_failed
      (pcm_open PCM_CARD PCM_DEVICE true (s.config.deref_with ps) adev.hw).1 = false)
    (hrf : 0 < (CAPTURE_START_RAMP_MS * s.requested_rate) % 2 ^ 32 / 1000) :
    ∃ s1 a1, Thread.start_input_stream R ps s adev = .returns (s1, a1, 0) ∧
      s1.ramp_vol = 0 ∧
      s1.ramp_frames = (CAPTURE_START_RAMP_MS * s.requested_rate) % 2 ^ 32 / 1000 ∧
      s1.ramp_step =
        (USHRT_MAX / ((CAPTURE_START_RAMP_MS * s.requested_rate) % 2 ^ 32 / 1000)) % 2 ^ 16 ∧
      s1.channel_mask = s.channel_mask ∧ a1.mic_mute = adev.mic_mute := by
  have hne : (CAPTURE_START_RAMP_MS * s.requested_rate) % 2 ^ 32 / 1000 ≠ 0 := by omega
  simp only [Thread.start_input_stream, hopen, Bool.false_eq_true, if_false, if_neg hne]
  refine ⟨_, _, rfl, rfl, rfl, rfl, rfl, ?_⟩
  split_ifs
  · simp
  · rfl

/-- The first `in_read` on a stream in standby whose start returns 0 is the
`in_read` on the started stream. -/
theorem thread_in_read_started (R : routing_h) (size_bits ps fuel : Nat) (s s1 : stream_in)
    (adev a1 : audio_device) (cap : capture_hw) (buffer : List Int) (bytes : Nat)
    (hsb : s.standby = true) (hm : s1.channel_mask = s.channel_mask)
    (hstart : Thread.start_input_stream R ps s adev = .returns (s1, a1, 0)) :
    Thread.in_read R size_bits ps fuel s adev cap buffer bytes =
      Thread.in_read R size_bits ps fuel { s1 with standby := false } a1 cap buffer bytes := by
  have hfs : audio_stream_in_frame_size { s1 with standby := false } =
      audio_stream_in_frame_size s := by
    simp only [audio_stream_in_frame_size, hm]
  simp only [Thread.in_read, hfs, hsb, if_true, hstart, outcome_bind_returns,
    lt_self_iff_false, if_false, Bool.false_eq_true]

theorem thread_in_read_seq_started (R : routing_h) (size_bits ps fuel : Nat) (s s1 : stream_in)
    (adev a1 : audio_device) (cap : capture_hw) (reads : List (List Int × Nat))
    (hsb : s.standby = true) (hm : s1.channel_mask = s.channel_mask)
    (hstart : Thread.start_input_stream R ps s adev = .returns (s1, a1, 0))
    (hne : reads ≠ []) :
    Thread.in_read_seq R size_bits ps fuel s adev cap reads =
      Thread.in_read_seq R size_bits ps fuel { s1 with standby := false } a1 cap reads := by
  cases reads with
  | nil => exact absurd rfl hne
  | cons hd rest =>
    obtain ⟨b, n⟩ := hd
    simp only [Thread.in_read_seq,
      thread_in_read_started R size_bits ps fuel s s1 adev a1 cap b n hsb hm hstart]

/-! ## HDMI exclusivity: the start of the HDMI stream -/

/-- C6: starting the HDMI output stream while a low-latency output is open
(active or not) does not put that output into standby: the start never
returns. `out_write` on the HDMI stream in standby takes the locks of all open
streams and the device lock (`lock_all_outputs`) and calls
`start_output_stream`, whose `force_non_hdmi_out_standby` asks for the lock of
the first open stream other than the HDMI stream, a plain mutex that the
calling thread holds. The thread waits for it for ever, in the device state
in which the call was made: the low-latency stream is as it was, no PCM handle
has been closed and no call into the hardware has been made. With no other
output stream open the start goes on, and the `disabled` flag of the HDMI
stream is false afterwards. -/
theorem start_hdmi_blocks_on_open_stream (R : routing_h) (size_bits : Nat) (a : audio_device)
    (hdmi low : stream_out) (hh : a.outputs.get OUTPUT_HDMI = some hdmi)
    (hl : a.outputs.get OUTPUT_LOW_LATENCY = some low) :
    Thread.lock_all_outputs [] a = .returns (all_locks a.outputs) ∧
    (all_locks a.outputs).contains (first_other_lock a.outputs) = true ∧
    (all_locks a.outputs).contains mutex.dev = true ∧
    (first_other_lock a.outputs = mutex.out OUTPUT_DEEP_BUF ∨
      first_other_lock a.outputs = mutex.out OUTPUT_LOW_LATENCY) ∧
    Thread.start_output_stream R (all_locks a.outputs) OUTPUT_HDMI a =
      .blocks (first_other_lock a.outputs) (all_locks a.outputs) a ∧
    (hdmi.standby = true → ∀ bytes,
      Thread.out_write R size_bits [] OUTPUT_HDMI bytes a =
        .blocks (first_other_lock a.outputs) (all_locks a.outputs) a) ∧
    (∀ (b : audio_device) (held : List mutex) (h : stream_out),
      b.outputs.get OUTPUT_HDMI = some h → others_open b.outputs = false →
      Thread.start_output_stream R held OUTPUT_HDMI b =
        .returns (held, start_output_stream_open R OUTPUT_HDMI b) ∧
      ∃ h', (start_output_stream_open R OUTPUT_HDMI b).1.outputs.get OUTPUT_HDMI = some h' ∧
        h'.disabled = false) ∧
    Thread.reachable routing_h_sample 64 ([], adev_hdmi_low) := by
  have hh' : a.outputs.hdmi = some hdmi := hh
  have hl' : a.outputs.low_latency = some low := hl
  have ho : others_open a.outputs = true := by simp [others_open, hl']
  have hsr : start_relocks OUTPUT_HDMI a = true := by simp [start_relocks, hh', ho]
  refine ⟨lock_all_outputs_free a, ?_, ?_, ?_, ?_, ?_, ?_, thread_reachable_adev_hdmi_low⟩
  · cases hd : a.outputs.deep_buf <;> cases hx : a.outputs.hdmi <;>
      simp [all_locks, first_other_lock, hd, hl', hx]
  · simp [all_locks]
  · cases hd : a.outputs.deep_buf <;> simp [first_other_lock, hd]
  · rw [thread_start_output_stream_spec R _ _ a (all_locks_held a), hsr]
    rfl
  · intro hs bytes
    have hw : write_relocks OUTPUT_HDMI a = true := by simp [write_relocks, hh', hs, ho]
    simp only [Thread.out_write, thread_out_write_status_spec R _ bytes a hdmi hh, hw, if_true,
      outcome_bind_blocks]
  · intro b held h hb hob
    obtain ⟨hd, hl2⟩ := others_open_false _ hob
    refine ⟨?_, ?_⟩
    · simp only [Thread.start_output_stream, hb, if_true,
        (thread_force_none R held b hd hl2).1, outcome_bind_returns]
    · obtain ⟨⟨p0, p1, e⟩, -⟩ := start_output_stream_open_spec R OUTPUT_HDMI b h hb
      exact ⟨_, by rw [e, outputs_get_set_same], rfl⟩

theorem start_hdmi_blocks_on_open_stream_witness :
    Thread.lock_all_outputs [] adev_hdmi_low = .returns (all_locks adev_hdmi_low.outputs) ∧
    (all_locks adev_hdmi_low.outputs).contains (first_other_lock adev_hdmi_low.outputs) = true ∧
    (all_locks adev_hdmi_low.outputs).contains mutex.dev = true ∧
    (first_other_lock adev_hdmi_low.outputs = mutex.out OUTPUT_DEEP_BUF ∨
      first_other_lock adev_hdmi_low.outputs = mutex.out OUTPUT_LOW_LATENCY) ∧
    Thread.start_output_stream routing_h_sample (all_locks adev_hdmi_low.outputs) OUTPUT_HDMI
        adev_hdmi_low =
      .blocks (first_other_lock adev_hdmi_low.outputs) (all_locks adev_hdmi_low.outputs)
        adev_hdmi_low ∧
    (stream_hdmi_idle.standby = true → ∀ bytes,
      Thread.out_write routing_h_sample 64 [] OUTPUT_HDMI bytes adev_hdmi_low =
        .blocks (first_other_lock adev_hdmi_low.outputs) (all_locks adev_hdmi_low.outputs)
          adev_hdmi_low) ∧
    (∀ (b : audio_device) (held : List mutex) (h : stream_out),
      b.outputs.get OUTPUT_HDMI = some h → others_open b.outputs = false →
      Thread.start_output_stream routing_h_sample held OUTPUT_HDMI b =
        .returns (held, start_output_stream_open routing_h_sample OUTPUT_HDMI b) ∧
      ∃ h', (start_output_stream_open routing_h_sample OUTPUT_HDMI b).1.outputs.get
          OUTPUT_HDMI = some h' ∧ h'.disabled = false) ∧
    Thread.reachable routing_h_sample 64 ([], adev_hdmi_low) :=
  start_hdmi_blocks_on_open_stream routing_h_sample 64 adev_hdmi_low stream_hdmi_idle
    stream_low_active (by decide) (by decide)

/-! ## The `disabled` flag -/

/-- C13: `out_standby` as a call. On a stream in standby it changes nothing.
On a stream that is not in standby, other than the HDMI stream with another
output stream open, it closes the PCM handles of the stream and marks it
standby, sets the aggregated output mask to the OR of the device masks of all
other outputs that are not in standby, runs the Route Selector if and only if
that mask is not zero, and returns 0 with no mutex held. On the HDMI stream
that is not in standby while another output stream is open it does not
return: having closed the PCM handles of the HDMI stream and marked it
standby, `do_out_standby` calls `force_non_hdmi_out_standby`, which asks for
the lock of an open stream that `lock_all_outputs` has taken for the same
thread; the aggregated mask is never recomputed. -/
theorem out_standby_call (R : routing_h) (t : output_type) (a : audio_device)
    (out : stream_out) (h : a.outputs.get t = some out) :
    (out.standby = true → Thread.out_standby R [] t a = .returns ([], a, 0)) ∧
    (out.standby = false → (t ≠ OUTPUT_HDMI ∨ others_open a.outputs = false) →
      Thread.out_standby R [] t a =
        .returns ([],
          (if others_active_devices t a.outputs ≠ 0 then
            select_devices R
              { (a.calls (standby_closes out)).set_out t out.to_standby with
                out_device := others_active_devices t a.outputs }
           else
            { (a.calls (standby_closes out)).set_out t out.to_standby with
              out_device := others_active_devices t a.outputs }), 0)) ∧
    (out.standby = false → t = OUTPUT_HDMI → others_open a.outputs = true →
      Thread.out_standby R [] t a =
        .blocks (first_other_lock a.outputs) (all_locks a.outputs)
          ((a.calls (standby_closes out)).set_out t out.to_standby) ∧
      (all_locks a.outputs).contains (first_other_lock a.outputs) = true ∧
      ((a.calls (standby_closes out)).set_out t out.to_standby).out_device = a.out_device) ∧
    Thread.reachable routing_h_sample 64 ([], adev_hdmi_then_low) ∧
    Thread.out_standby routing_h_sample [] OUTPUT_HDMI adev_hdmi_then_low =
      .blocks (mutex.out OUTPUT_LOW_LATENCY)
        [mutex.dev, mutex.out OUTPUT_HDMI, mutex.out OUTPUT_LOW_LATENCY, mutex.lock_outputs]
        (standby_start OUTPUT_HDMI adev_hdmi_then_low) ∧
    (standby_start OUTPUT_HDMI adev_hdmi_then_low).out_device = AUDIO_DEVICE_OUT_AUX_DIGITAL ∧
    others_active_devices OUTPUT_HDMI adev_hdmi_then_low.outputs = 0 := by
  have hst : standby_start t a = (a.calls (standby_closes out)).set_out t out.to_standby := by
    simp [standby_start, h]
  refine ⟨fun hs => ?_, fun hs hc => ?_, fun hs ht ho => ?_,
    thread_reachable_adev_hdmi_then_low, by decide, by decide, by decide⟩
  · have e : standby_relocks t a = false := by
      cases t <;> simp only [outputs_t.get] at h <;>
        simp [standby_relocks, active, outputs_t.get, h, hs]
    rw [thread_out_standby_spec, e]
    simp only [Bool.false_eq_true, if_false, out_standby, do_out_standby]
    rw [do_out_standby_with_idle R _ t a out h hs]
  · have e : standby_relocks t a = false := by
      rcases hc with hc | hc
      · simp [standby_relocks, hc]
      · simp [standby_relocks, hc]
    rw [thread_out_standby_spec, e]
    simp only [Bool.false_eq_true, if_false, out_standby, do_out_standby]
    rw [do_out_standby_with_active R _ t a out h hs, ← hst]
    have hf : (if t = OUTPUT_HDMI then force_non_hdmi_out_standby R (standby_start t a)
        else standby_start t a) = standby_start t a := by
      by_cases ht : t = OUTPUT_HDMI
      · subst ht
        rw [if_pos rfl]
        have ho : others_open a.outputs = false := by
          rcases hc with hc | hc
          · exact absurd rfl hc
          · exact hc
        obtain ⟨hd, hl⟩ := others_open_false _ ho
        obtain ⟨s1, s2, -⟩ := standby_start_others a
        exact (thread_force_none R [] _ (s1.trans hd) (s2.trans hl)).2
      · rw [if_neg ht]
    simp only [hf, others_active_devices_start]
  · subst ht
    have hx : a.outputs.hdmi = some out := h
    have e : standby_relocks OUTPUT_HDMI a = true := by
      simp [standby_relocks, active, outputs_t.get, hx, hs, ho]
    rw [thread_out_standby_spec, e, hst]
    refine ⟨rfl, ?_, rfl⟩
    cases hd : a.outputs.deep_buf <;> cases hl : a.outputs.low_latency <;>
      simp [all_locks, first_other_lock, hd, hl, hx, others_open] at ho ⊢

theorem out_standby_call_witness :
    (stream_low_active.standby = true →
        Thread.out_standby routing_h_sample [] OUTPUT_LOW_LATENCY adev_hdmi_low =
          .returns ([], adev_hdmi_low, 0)) ∧
      (stream_low_active.standby = false →
        (OUTPUT_LOW_LATENCY ≠ OUTPUT_HDMI ∨ others_open adev_hdmi_low.outputs = false) →
        Thread.out_standby routing_h_sample [] OUTPUT_LOW_LATENCY adev_hdmi_low =
          .returns ([],
            (if others_active_devices OUTPUT_LOW_LATENCY adev_hdmi_low.outputs ≠ 0 then
              select_devices routing_h_sample
                { (adev_hdmi_low.calls (standby_closes stream_low_active)).set_out
                    OUTPUT_LOW_LATENCY stream_low_active.to_standby with
                  out_device := others_active_devices OUTPUT_LOW_LATENCY adev_hdmi_low.outputs }
             else
              { (adev_hdmi_low.calls (standby_closes stream_low_active)).set_out
                  OUTPUT_LOW_LATENCY stream_low_active.to_standby with
                out_device := others_active_devices OUTPUT_LOW_LATENCY adev_hdmi_low.outputs }),
            0)) ∧
      (stream_low_active.standby = false → OUTPUT_LOW_LATENCY = OUTPUT_HDMI →
        others_open adev_hdmi_low.outputs = true →
        Thread.out_standby routing_h_sample [] OUTPUT_LOW_LATENCY adev_hdmi_low =
          .blocks (first_other_lock adev_hdmi_low.outputs) (all_locks adev_hdmi_low.outputs)
            ((adev_hdmi_low.calls (standby_closes stream_low_active)).set_out
              OUTPUT_LOW_LATENCY stream_low_active.to_standby) ∧
        (all_locks adev_hdmi_low.outputs).contains (first_other_lock adev_hdmi_low.outputs) =
          true ∧
        ((adev_hdmi_low.calls (standby_closes stream_low_active)).set_out
          OUTPUT_LOW_LATENCY stream_low_active.to_standby).out_device =
            adev_hdmi_low.out_device) ∧
    Thread.reachable routing_h_sample 64 ([], adev_hdmi_then_low) ∧
    Thread.out_standby routing_h_sample [] OUTPUT_HDMI adev_hdmi_then_low =
      .blocks (mutex.out OUTPUT_LOW_LATENCY)
        [mutex.dev, mutex.out OUTPUT_HDMI, mutex.out OUTPUT_LOW_LATENCY, mutex.lock_outputs]
        (standby_start OUTPUT_HDMI adev_hdmi_then_low) ∧
    (standby_start OUTPUT_HDMI adev_hdmi_then_low).out_device = AUDIO_DEVICE_OUT_AUX_DIGITAL ∧
    others_active_devices OUTPUT_HDMI adev_hdmi_then_low.outputs = 0 :=
  out_standby_call routing_h_sample OUTPUT_LOW_LATENCY adev_hdmi_low stream_low_active
    (by decide)

/-! ## The value `out_write` and `in_read` return -/

/-- C15: what `out_write` and `in_read` return. `out_write` on an open
stream (frame size and rate not 0) returns the byte count converted to
`ssize_t`, with no mutex held, unless the stream is the HDMI stream in standby
while another output stream is open: then the call does not return (it starts
the stream holding the locks of all open streams, and
`force_non_hdmi_out_standby` asks for one of them again). `in_read` returns
the byte count converted to `ssize_t` when the frame size and the requested
rate are not 0, the ramp of a stream to be started has a frame, and the stream
has a resampler or the period size is not 0. The conversion keeps a byte count
below half the range of `size_t` and makes any other negative. `in_read`
divides by zero when the stream it starts has a requested rate below 10 Hz
(`USHRT_MAX / in->ramp_frames` with no ramp frame) or no channel; with a
period size of 0 and no resampler the loop of `read_frames` has no end. -/
theorem out_write_in_read_return (R : routing_h) (size_bits : Nat) (t : output_type)
    (bytes : Nat) (a : audio_device) (out : stream_out) (h : a.outputs.get t = some out)
    (hfs : audio_stream_out_frame_size out ≠ 0) (hrate : out.config.rate ≠ 0) :
    (write_relocks t a = false →
      ∃ a', Thread.out_write R size_bits [] t bytes a =
        .returns ([], a', ssize_t_cast size_bits bytes)) ∧
    (write_relocks t a = true →
      Thread.out_write R size_bits [] t bytes a =
        .blocks (first_other_lock a.outputs) (all_locks a.outputs) a) ∧
    (∀ (ps fuel : Nat) (s : stream_in) (adev : audio_device) (cap : capture_hw)
        (buffer : List Int),
      audio_stream_in_frame_size s ≠ 0 → s.requested_rate ≠ 0 →
      (s.standby = true → 1000 ≤ (CAPTURE_START_RAMP_MS * s.requested_rate) % 2 ^ 32) →
      (s.resampler = true ∨ 0 < (s.config.deref_with ps).period_size) →
      cap.resample_results.length + bytes / audio_stream_in_frame_size s ≤ fuel →
      ∃ r, Thread.in_read R size_bits ps fuel s adev cap buffer bytes = .returns r ∧
        r.ret = ssize_t_cast size_bits bytes) ∧
    (bytes < 2 ^ (size_bits - 1) → ssize_t_cast size_bits bytes = (bytes : Int)) ∧
    (2 ^ (size_bits - 1) ≤ bytes → bytes < 2 ^ size_bits →
      ssize_t_cast size_bits bytes = (bytes : Int) - 2 ^ size_bits ∧
      ssize_t_cast size_bits bytes < 0) ∧
    (∀ (ps fuel : Nat) (s : stream_in) (adev : audio_device) (cap : capture_hw)
        (buffer : List Int),
      audio_stream_in_frame_size s ≠ 0 → s.standby = true →
      pcm_open_failed (pcm_open PCM_CARD PCM_DEVICE true (s.config.deref_with ps) adev.hw).1 =
        false →
      (CAPTURE_START_RAMP_MS * s.requested_rate) % 2 ^ 32 < 1000 →
      Thread.in_read R size_bits ps fuel s adev cap buffer bytes = .divides_by_zero) ∧
    (∀ (ps fuel : Nat) (s : stream_in) (adev : audio_device) (cap : capture_hw)
        (buffer : List Int),
      audio_stream_in_frame_size s = 0 →
      Thread.in_read R size_bits ps fuel s adev cap buffer bytes = .divides_by_zero) ∧
    (∀ (fuel : Nat) (s : stream_in) (adev : audio_device) (cap : capture_hw)
        (buffer : List Int),
      s.standby = false → s.config = .normal → s.resampler = false → s.pcm ≠ none →
      s.frames_in = 0 → cap.pcm_read_results = [] →
      audio_stream_in_frame_size s ≠ 0 → audio_stream_in_frame_size s ≤ bytes →
      Thread.in_read R size_bits 0 fuel s adev cap buffer bytes = .unfinished) ∧
    Thread.reachable routing_h_sample 64 ([], adev_hdmi_low) ∧
    Thread.out_write routing_h_sample 64 [] OUTPUT_HDMI 3840 adev_hdmi_low =
      .blocks (mutex.out OUTPUT_LOW_LATENCY)
        [mutex.dev, mutex.out OUTPUT_HDMI, mutex.out OUTPUT_LOW_LATENCY, mutex.lock_outputs]
        adev_hdmi_low ∧
    ssize_t_cast 64 (2 ^ 64 - 4) = -4 ∧
    (adev_open_input_stream 0x80000004 ⟨8, AUDIO_CHANNEL_IN_STEREO⟩ 0 0).1 =
      some stream_in_8hz ∧
    (∀ fuel, Thread.in_read routing_h_sample 64 320 fuel stream_in_8hz adev_fresh ⟨[], []⟩
      (List.replicate 8 0) 16 = .divides_by_zero) := by
  have hdz : ∀ (R : routing_h) (size_bits bytes ps fuel : Nat) (s : stream_in)
      (adev : audio_device) (cap : capture_hw) (buffer : List Int),
      audio_stream_in_frame_size s ≠ 0 → s.standby = true →
      pcm_open_failed (pcm_open PCM_CARD PCM_DEVICE true (s.config.deref_with ps) adev.hw).1 =
        false →
      (CAPTURE_START_RAMP_MS * s.requested_rate) % 2 ^ 32 < 1000 →
      Thread.in_read R size_bits ps fuel s adev cap buffer bytes = .divides_by_zero := by
    intro R size_bits bytes ps fuel s adev cap buffer hf hsb hp hr
    simp only [Thread.in_read, if_neg hf, hsb, if_true,
      (thread_start_input_stream_spec R ps s adev).2 hp hr]
    rfl
  refine ⟨fun hw => ?_, fun hw => ?_, ?_, fun hb => ?_, fun h1 h2 => ?_,
    hdz R size_bits bytes, ?_, ?_, thread_reachable_adev_hdmi_low, by decide, by decide, rfl, ?_⟩
  · obtain ⟨o', ho', c1, c2⟩ := out_write_status_stream R t bytes a out h
    have hfs' : audio_stream_out_frame_size o' ≠ 0 := by
      simpa [audio_stream_out_frame_size, c1] using hfs
    have hrate' : o'.config.rate ≠ 0 := by rw [c2]; exact hrate
    simp only [Thread.out_write, thread_out_write_status_spec R t bytes a out h, hw,
      Bool.false_eq_true, if_false, outcome_bind_returns, ho']
    split_ifs with c3 c4
    · rcases c4 with c4 | c4
      · exact absurd c4 hfs'
      · exact absurd c4 hrate'
    · exact ⟨_, rfl⟩
    · exact ⟨_, rfl⟩
  · simp only [Thread.out_write, thread_out_write_status_spec R t bytes a out h, hw, if_true,
      outcome_bind_blocks]
  · intro ps fuel s adev cap buffer q1 q2 q3 q4 q5
    exact thread_in_read_returns R size_bits ps fuel s adev cap buffer bytes q1 q2 q3 q4 q5
  · have hlt : bytes < 2 ^ size_bits :=
      Nat.lt_of_lt_of_le hb (Nat.pow_le_pow_right (by decide) (Nat.sub_le _ _))
    simp only [ssize_t_cast, Nat.mod_eq_of_lt hlt, if_pos hb]
  · have hn : ¬ (bytes < 2 ^ (size_bits - 1)) := Nat.not_lt.mpr h1
    have e : ssize_t_cast size_bits bytes = (bytes : Int) - 2 ^ size_bits := by
      simp only [ssize_t_cast, Nat.mod_eq_of_lt h2, if_neg hn]
    refine ⟨e, ?_⟩
    rw [e]
    have : (bytes : Int) < 2 ^ size_bits := by exact_mod_cast h2
    omega
  · intro ps fuel s adev cap buffer hf
    simp only [Thread.in_read, if_pos hf]
  · intro fuel s adev cap buffer hsb hc hr hp hfi hcap hf hle
    have hpos : 0 < bytes / audio_stream_in_frame_size s :=
      Nat.div_pos hle (Nat.pos_of_ne_zero hf)
    simp only [Thread.in_read, if_neg hf, hsb, Bool.false_eq_true, if_false,
      outcome_bind_returns, lt_self_iff_false, Thread.read_frames,
      thread_read_frames_loop_period_zero fuel s cap buffer _ 0 hc hr hp hfi hcap hpos]
    rfl
  · intro fuel
    exact hdz routing_h_sample 64 16 320 fuel stream_in_8hz adev_fresh ⟨[], []⟩
      (List.replicate 8 0) (by decide) rfl (by decide) (by decide)

theorem out_write_in_read_return_witness :
    write_relocks OUTPUT_LOW_LATENCY adev_hdmi_low = false ∧
    ∃ a', Thread.out_write routing_h_sample 64 [] OUTPUT_LOW_LATENCY 960 adev_hdmi_low =
      .returns ([], a', ssize_t_cast 64 960) :=
  ⟨by decide,
    (out_write_in_read_return routing_h_sample 64 OUTPUT_LOW_LATENCY 960 adev_hdmi_low
      stream_low_active (by decide) (by decide) (by decide)).1 (by decide)⟩

/-! ## The capture start ramp -/

/-- C16 (amended): a stream in standby whose open does not fail is started by
its first `in_read`; for the requested rate `r` the ramp then has
`rampFrames = (100 * r mod 2^32) / 1000` frames (the product is an `unsigned
int`; this is `100 * r / 1000` when `100 * r` is below 2^32), and the start
returns when `rampFrames > 0`. Over any sequence of `in_read` calls that
follows, number the frames of the callers' buffers in the order of the calls,
each call counting the frames it asked for (its byte count divided by the frame
size) whether or not its `read_frames` delivered them. Each call returns its
byte count. Unless the call ended with status 0 while the microphone is muted
(its buffer is then zeroed), frame `k` of what `read_frames` left in the
buffers is scaled by `gain_k / 65536` for `k < rampFrames`, where `gain_0 = 0`
and `gain_k = k * (65535 / rampFrames)` stays below 2^16, so the gains are
monotonically non-decreasing; every frame with index at least `rampFrames` is
left unattenuated. A mono frame is one sample, any other frame two. The run
returns when the frame size is not 0, the stream has a resampler or the period
size is not 0, and the loop of `read_frames` is given its turns. -/
theorem capture_ramp_reads (R : routing_h) (size_bits ps : Nat) (s : stream_in)
    (adev : audio_device) (hsb : s.standby = true)
    (hopen : pcm_open_failed
      (pcm_open PCM_CARD PCM_DEVICE true (s.config.deref_with ps) adev.hw).1 = false)
    (hrf : 0 < (CAPTURE_START_RAMP_MS * s.requested_rate) % 2 ^ 32 / 1000) :
    (∃ s1 a1, Thread.start_input_stream R ps s adev = .returns (s1, a1, 0) ∧
      s1.ramp_vol = 0 ∧
      s1.ramp_frames = (CAPTURE_START_RAMP_MS * s.requested_rate) % 2 ^ 32 / 1000) ∧
    (CAPTURE_START_RAMP_MS * s.requested_rate < 2 ^ 32 →
      (CAPTURE_START_RAMP_MS * s.requested_rate) % 2 ^ 32 / 1000 =
        CAPTURE_START_RAMP_MS * s.requested_rate / 1000) ∧
    ramp_gain ((CAPTURE_START_RAMP_MS * s.requested_rate) % 2 ^ 32 / 1000) 0 = 0 ∧
    (∀ k, k ≤ (CAPTURE_START_RAMP_MS * s.requested_rate) % 2 ^ 32 / 1000 →
      ramp_gain ((CAPTURE_START_RAMP_MS * s.requested_rate) % 2 ^ 32 / 1000) k < 2 ^ 16) ∧
    (∀ k k', k ≤ k' →
      ramp_gain ((CAPTURE_START_RAMP_MS * s.requested_rate) % 2 ^ 32 / 1000) k ≤
        ramp_gain ((CAPTURE_START_RAMP_MS * s.requested_rate) % 2 ^ 32 / 1000) k') ∧
    (∀ (fuel : Nat) (cap : capture_hw) (reads : List (List Int × Nat)),
      audio_stream_in_frame_size s ≠ 0 →
      (s.resampler = true ∨ 0 < (s.config.deref_with ps).period_size) →
      (∀ rd ∈ reads,
        cap.resample_results.length + rd.2 / audio_stream_in_frame_size s ≤ fuel) →
      ∃ rs, Thread.in_read_seq R size_bits ps fuel s adev cap reads = .returns rs ∧
        rs.length = reads.length) ∧
    (∀ (fuel : Nat) (cap : capture_hw) (reads : List (List Int × Nat))
        (rs : List in_read_return),
      Thread.in_read_seq R size_bits ps fuel s adev cap reads = .returns rs →
      rs.length = reads.length ∧
      ∀ (j : Nat) (r : in_read_return), rs.get? j = some r →
        r.ret = ssize_t_cast size_bits (reads.getD j ([], 0)).2 ∧
        (r.status = 0 ∧ adev.mic_mute = true →
          ∀ idx, 2 * idx + 1 < (reads.getD j ([], 0)).2 → r.buffer.getD idx 0 = 0) ∧
        (¬ (r.status = 0 ∧ adev.mic_mute = true) →
          ∀ i, i < (reads.getD j ([], 0)).2 / audio_stream_in_frame_size s →
          (s.channel_mask = AUDIO_CHANNEL_IN_MONO →
            r.buffer.getD i 0 =
              if requested_before (audio_stream_in_frame_size s) reads j + i <
                  (CAPTURE_START_RAMP_MS * s.requested_rate) % 2 ^ 32 / 1000 then
                ramp_scale (r.captured.getD i 0)
                  (ramp_gain ((CAPTURE_START_RAMP_MS * s.requested_rate) % 2 ^ 32 / 1000)
                    (requested_before (audio_stream_in_frame_size s) reads j + i))
              else r.captured.getD i 0) ∧
          (s.channel_mask ≠ AUDIO_CHANNEL_IN_MONO → ∀ e, e < 2 →
            r.buffer.getD (2 * i + e) 0 =
              if requested_before (audio_stream_in_frame_size s) reads j + i <
                  (CAPTURE_START_RAMP_MS * s.requested_rate) % 2 ^ 32 / 1000 then
                ramp_scale (r.captured.getD (2 * i + e) 0)
                  (ramp_gain ((CAPTURE_START_RAMP_MS * s.requested_rate) % 2 ^ 32 / 1000)
                    (requested_before (audio_stream_in_frame_size s) reads j + i))
              else r.captured.getD (2 * i + e) 0))) := by
  obtain ⟨s1, a1, hstart, hvol, hfr, hstep, hmask, hmute⟩ :=
    thread_start_input_stream_ok R ps s adev hopen hrf
  generalize hF : (CAPTURE_START_RAMP_MS * s.requested_rate) % 2 ^ 32 / 1000 = F at *
  have hle : F * (USHRT_MAX / F) < 2 ^ 16 :=
    Nat.lt_of_le_of_lt (Nat.mul_div_le _ _) (by decide)
  have hstep' : s1.ramp_step = USHRT_MAX / F := by
    rw [hstep]
    exact Nat.mod_eq_of_lt (Nat.lt_of_le_of_lt (Nat.div_le_self _ _) (by decide))
  have hrate : s.requested_rate ≠ 0 := by
    intro h0
    rw [h0] at hF
    simp at hF
    omega
  refine ⟨⟨s1, a1, hstart, hvol, hfr⟩, fun hno => ?_, ?_, ?_, ?_, ?_, ?_⟩
  · rw [← hF, Nat.mod_eq_of_lt hno]
  · simp [ramp_gain]
  · intro k hk
    exact Nat.lt_of_le_of_lt (Nat.mul_le_mul_right _ hk) hle
  · intro k k' hkk
    exact Nat.mul_le_mul_right _ hkk
  · intro fuel cap reads hfs hps hfuel
    by_cases hne : reads = []
    · subst hne
      exact ⟨[], rfl, rfl⟩
    · obtain ⟨-, -, q2, q3, q4, -⟩ :=
        thread_start_input_stream_returns R ps s s1 adev a1 0 hstart
      rw [thread_in_read_seq_started R size_bits ps fuel s s1 adev a1 cap reads hsb hmask
        hstart hne]
      have hfs1 : audio_stream_in_frame_size { s1 with standby := false } =
          audio_stream_in_frame_size s := by
        simp only [audio_stream_in_frame_size, hmask]
      exact thread_in_read_seq_returns R size_bits ps fuel reads { s1 with standby := false } a1
        cap rfl (by rw [hfs1]; exact hfs) (by show s1.requested_rate ≠ 0; rw [q2]; exact hrate)
        (by show s1.resampler = true ∨ 0 < (s1.config.deref_with ps).period_size
            rw [q3, q4]; exact hps)
        (by rw [hfs1]; exact hfuel)
  · intro fuel cap reads rs hrun
    by_cases hne : reads = []
    · subst hne
      simp only [Thread.in_read_seq, outcome.returns.injEq] at hrun
      subst hrun
      exact ⟨rfl, fun j r hj => by simp at hj⟩
    · rw [thread_in_read_seq_started R size_bits ps fuel s s1 adev a1 cap reads hsb hmask
        hstart hne] at hrun
      have hfs1 : audio_stream_in_frame_size { s1 with standby := false } =
          audio_stream_in_frame_size s := by
        simp only [audio_stream_in_frame_size, hmask]
      have key := thread_in_read_seq_ramp R size_bits ps fuel (USHRT_MAX / F) F
        (audio_stream_in_frame_size s) s.channel_mask adev.mic_mute hle reads 0
        { s1 with standby := false } a1 cap rs rfl hmask hfs1 hmute (Nat.zero_le _)
        (by show s1.ramp_vol = 0 * (USHRT_MAX / F); rw [hvol, Nat.zero_mul]) hstep'
        (by show s1.ramp_frames = F - 0; rw [hfr]; rfl) hrun
      simp only [Nat.zero_add] at key
      exact key

theorem capture_ramp_reads_witness :
    stream_in_44k.standby = true ∧
    0 < (CAPTURE_START_RAMP_MS * stream_in_44k.requested_rate) % 2 ^ 32 / 1000 ∧
    ∃ rs, Thread.in_read_seq routing_h_sample 64 320 8 stream_in_44k adev_fresh capture_four
        [(List.replicate 8 0, 16)] = .returns rs ∧
      rs.length = 1 ∧
      ∀ r, rs.get? 0 = some r →
        r.buffer.getD (2 * 3 + 1) 0 =
          if requested_before (audio_stream_in_frame_size stream_in_44k)
              [(List.replicate 8 0, 16)] 0 + 3 <
              (CAPTURE_START_RAMP_MS * stream_in_44k.requested_rate) % 2 ^ 32 / 1000 then
            ramp_scale (r.captured.getD (2 * 3 + 1) 0)
              (ramp_gain ((CAPTURE_START_RAMP_MS * stream_in_44k.requested_rate) % 2 ^ 32 / 1000)
                (requested_before (audio_stream_in_frame_size stream_in_44k)
                  [(List.replicate 8 0, 16)] 0 + 3))
          else r.captured.getD (2 * 3 + 1) 0 := by
  have T := capture_ramp_reads routing_h_sample 64 320 stream_in_44k adev_fresh (by decide)
    (by decide) (by decide)
  obtain ⟨rs, hrs, hlen⟩ := T.2.2.2.2.2.1 8 capture_four [(List.replicate 8 0, 16)]
    (by decide) (Or.inl rfl) (by decide)
  refine ⟨by decide, by decide, rs, hrs, hlen, fun r hr => ?_⟩
  exact ((((T.2.2.2.2.2.2 8 capture_four _ rs hrs).2 0 r hr).2.2
    (fun h => absurd h.2 (by decide))) 3 (by decide)).2 (by decide) 1 (by decide)

/-- C16, as stated, fails in two ways. For the requested rate 42949773 the
product `100 * r` does not fit an `unsigned int`, and the ramp the stream
starts has 10 frames instead of `100 * r / 1000 = 4294977`: frame 10 of the
first read comes out unattenuated, although the gain of the statement for
`k = 10` is `10 * (65535 / 4294977) = 0`. And at 44100 Hz, when the first
`in_read` of four frames fails (`pcm_read` returns `-EIO`), the ramp step of
that call still uses up four frames of the ramp: the first frame the hardware
then delivers, the first of the second read, is scaled by `gain_4`, not by
`gain_0 = 0`. -/
theorem capture_ramp_frames_counterexample :
    (adev_open_input_stream 0x80000004 ⟨42949773, AUDIO_CHANNEL_IN_STEREO⟩ 0 0).1 =
      some stream_in_wrap ∧
    CAPTURE_START_RAMP_MS * stream_in_wrap.requested_rate / 1000 = 4294977 ∧
    (((Thread.in_read_seq routing_h_sample 64 320 12 stream_in_wrap adev_fresh capture_eleven
        [(List.replicate 22 0, 44)]).returned.bind (fun rs => rs.get? 0)).map
      (fun r => (r.ret, r.status, r.stream.ramp_frames, r.captured.getD 20 0,
        r.buffer.getD 20 0))) = some (44, 0, 0, 1000, 1000) ∧
    ramp_scale 1000 (ramp_gain 4294977 10) = 0 ∧
    (adev_open_input_stream 0x80000004 ⟨44100, AUDIO_CHANNEL_IN_STEREO⟩ 0 0).1 =
      some stream_in_44k ∧
    CAPTURE_START_RAMP_MS * stream_in_44k.requested_rate / 1000 = 4410 ∧
    ((Thread.in_read_seq routing_h_sample 64 320 8 stream_in_44k adev_fresh
        capture_fail_then_four [(List.replicate 8 0, 16), (List.replicate 8 0, 16)]).returned.map
      (fun rs => rs.map (fun r => (r.ret, r.status, r.stream.ramp_frames, r.captured.getD 0 0,
        r.buffer.getD 0 0)))) = some [(16, -5, 4406, 0, 0), (16, 0, 4402, 30000, 25)] ∧
    ramp_scale 30000 (ramp_gain 4410 0) = 0 ∧
    ramp_scale 30000 (ramp_gain 4410 4) = 25 := by
  refine ⟨rfl, by decide, by decide, by decide, rfl, by decide, by decide, by decide, by decide⟩

end AudioHw
